import Mathlib

/-! qmk-go: the VIA client, its value codecs, keycodes and colours

A shallow embedding of `client.go` (package `qmk`): `sendMessage`, the frame
builders of the macro commands, the chunked macro-buffer transfer
(`getMacroBuffer`, `setMacroBuffer`) and the macro addressing on top of it
(`GetDynamicKeymapMacro`, `SetDynamicKeymapMacro`); of the byte codecs of
`backlight` and `rgblight`; of the keycode tables of `keycode/keycode.go`; and
of the colour conversions and parser of `rgblight/color.go`.

Conventions of the embedding.

* A byte is a `Nat`; conversions `byte(x)`, `uint8(x)`, `uint16(x)` are written
  `x % 256`, `x % 65536`.
* A `[]byte` whose capacity plays no part is a `List Nat`; `setMacroBuffer`
  consults `cap(buffer)`, so its argument is a `Slice` (backing array + length).
* The HID handle `c.device` is a `Device σ`: two transition functions over an
  arbitrary device state `σ`.
* The client state `Client σ` carries the device state, the package-level
  `dynamicKeymapMacroCache` and the trace of device calls made so far.
* An operation returning `(T, error)` is a function
  `Client σ → Except Error T × Client σ`.
-/

namespace Qmk

/-! ## Constants (`via.go`) -/

def ViaProtocolVersion : Nat := 0x0009
def HidMessageSize : Nat := 32
def HidUsagePage : Nat := 0xFF60
def HidUsage : Nat := 0x61
def GetProtocolVersionId : Nat := 0x01
def GetKeyboardValueId : Nat := 0x02
def SetKeyboardValueId : Nat := 0x03
def LightingSetValueId : Nat := 0x07
def LightingGetValueId : Nat := 0x08
def DynamicKeymapMacroGetCountId : Nat := 0x0C
def DynamicKeymapMacroGetBufferSizeId : Nat := 0x0D
def DynamicKeymapMacroGetBufferId : Nat := 0x0E
def DynamicKeymapMacroSetBufferId : Nat := 0x0F
def DynamicKeymapMacroResetId : Nat := 0x10
def DynamicKeymapGetBufferId : Nat := 0x12
def DynamicKeymapSetBufferId : Nat := 0x13
def UnhandledId : Nat := 0xFF
def LayoutOptionsId : Nat := 0x02
def RgblightBrightnessId : Nat := 0x80
def RgblightEffectId : Nat := 0x81
def RgblightColorId : Nat := 0x83
def MaxDynamicKeymapBufferSize : Nat := 28

/-! ## Errors -/

/-- The error values of `client.go` and `keyboard.go`. `InvalidMacroNumber count`
is `fmt.Errorf("empty or invalid macro number (0-%d)", count)`, `DataTooLong` is
`fmt.Errorf("data slice was too long (<=%d)", HidMessageSize-2)`, `Hid code` is
an error value of the `hid` library (what `Open` returns), told apart by a code.
`RuntimePanic` is not an error value: it marks a Go run-time panic
(slice bounds out of range). -/
inductive Error where
  | HIDUnsupported
  | NoKeyboardsFound
  | Hid (code : Nat)
  | NoMatchingDevice
  | VersionMismatch
  | BadMessageSize
  | ReadWrite
  | UnknownCommand
  | BadBufferSize
  | MacroNotInBytes
  | MacroCopy
  | InvalidMacroNumber (count : Nat)
  | DataTooLong
  | RuntimePanic
  deriving DecidableEq, Repr

/-! ## The device handle -/

/-- What `c.device.Write(message)` gives back: the device state afterwards,
the count `wrote` and whether `err != nil`. -/
structure WriteResult (σ : Type) where
  state : σ
  n : Int
  err : Bool

/-- What `c.device.Read(message)` gives back: the device state afterwards, the
bytes the call copied into `message` (from its start), the count `read` and
whether `err != nil`. -/
structure ReadResult (σ : Type) where
  state : σ
  data : List Nat
  n : Int
  err : Bool

/-- The two primitives of `*hid.Device` that `sendMessage` uses. -/
structure Device (σ : Type) where
  Write : σ → List Nat → WriteResult σ
  Read : σ → ReadResult σ

/-- One call on the device handle, as recorded in the trace. -/
inductive Event where
  | write (frame : List Nat)
  | read
  deriving DecidableEq, Repr

/-- The state a client operation runs in: the device behind `c.device`, the
package variable `dynamicKeymapMacroCache` (`none` is `nil`) and the device
calls made so far, oldest first. -/
structure Client (σ : Type) where
  device : σ
  cache : Option (List Nat)
  log : List Event
  deriving DecidableEq, Repr

/-- Go's `copy(dst, src)` result in `dst`: the first `min(len)` bytes are
replaced, the length of `dst` is kept. -/
def copyInto (dst src : List Nat) : List Nat :=
  src.take dst.length ++ dst.drop src.length

/-- The array literal `[HidMessageSize]byte{b0, b1, ...}`: the given bytes,
zero-filled to 32. -/
def hidFrame (init : List Nat) : List Nat :=
  init ++ List.replicate (HidMessageSize - init.length) 0

/-! ## `sendMessage` -/

/-- What `sendMessage` leaves behind: the returned error (`none` is `nil`), the
contents of the caller's `message` buffer and the client state. -/
structure Sent (σ : Type) where
  err : Option Error
  message : List Nat
  client : Client σ
  deriving DecidableEq, Repr

/-- The `for i := 0; i < retries; i++` loop of `sendMessage`, by the number of
iterations still to run. -/
def sendLoop {σ : Type} (d : Device σ) : Nat → Client σ → List Nat → Sent σ
  | 0, c, message => ⟨some Error.ReadWrite, message, c⟩
  | n + 1, c, message =>
    let w := d.Write c.device message
    let c1 : Client σ := { c with device := w.state, log := c.log ++ [Event.write message] }
    if w.err = true ∨ w.n ≠ (HidMessageSize : Int) then
      sendLoop d n c1 message
    else
      let r := d.Read c1.device
      let message1 := copyInto message r.data
      let c2 : Client σ := { c1 with device := r.state, log := c1.log ++ [Event.read] }
      if r.err = true ∨ r.n ≠ (HidMessageSize : Int) then
        sendLoop d n c2 message1
      else if message1.getD 0 0 = UnhandledId then
        ⟨some Error.UnknownCommand, message1, c2⟩
      else
        ⟨none, message1, c2⟩

/-- `func (c *client) sendMessage(message []byte, retries int) error`. -/
def sendMessage {σ : Type} (d : Device σ) (c : Client σ) (message : List Nat)
    (retries : Int) : Sent σ :=
  if message.length ≠ HidMessageSize then
    ⟨some Error.BadMessageSize, message, c⟩
  else
    sendLoop d retries.toNat c message

/-! ## Frame builders -/

/-- `SetRawKeyboardValue(id uint8, data []byte) error`. -/
def SetRawKeyboardValue {σ : Type} (d : Device σ) (c : Client σ) (id : Nat)
    (data : List Nat) : Except Error Unit × Client σ :=
  if data.length > HidMessageSize - 2 then
    (.error Error.DataTooLong, c)
  else
    let buffer := [SetKeyboardValueId, id % 256] ++ data
    let s := sendMessage d c buffer 20
    match s.err with
    | some e => (.error e, s.client)
    | none => (.ok (), s.client)

/-- `GetDynamicKeymapMacroCount() (uint8, error)`. -/
def GetDynamicKeymapMacroCount {σ : Type} (d : Device σ) (c : Client σ) :
    Except Error Nat × Client σ :=
  let s := sendMessage d c (hidFrame [DynamicKeymapMacroGetCountId]) 20
  match s.err with
  | some e => (.error e, s.client)
  | none => (.ok (s.message.getD 1 0), s.client)

/-- `GetDynamicKeymapMacroBufferSize() (uint16, error)`. -/
def GetDynamicKeymapMacroBufferSize {σ : Type} (d : Device σ) (c : Client σ) :
    Except Error Nat × Client σ :=
  let s := sendMessage d c (hidFrame [DynamicKeymapMacroGetBufferSizeId]) 20
  match s.err with
  | some e => (.error e, s.client)
  | none => (.ok ((s.message.getD 1 0 * 256 % 65536) ||| s.message.getD 2 0), s.client)

/-- `GetDynamicKeymapMacroBuffer(offset uint16, size uint8) ([]byte, error)`;
the result is `buffer[4:]`. -/
def GetDynamicKeymapMacroBuffer {σ : Type} (d : Device σ) (c : Client σ)
    (offset size : Nat) : Except Error (List Nat) × Client σ :=
  let s := sendMessage d c
    (hidFrame [DynamicKeymapMacroGetBufferId, (offset >>> 8) &&& 0xFF, offset &&& 0xFF,
      size % 256]) 20
  match s.err with
  | some e => (.error e, s.client)
  | none => (.ok (s.message.drop 4), s.client)

/-- The loop `for i := 0; i < int(size); i++ { buffer[i+4] = byte(value[i]) }`
of the two buffer setters, from index `i`, `n` iterations to go. The guard
before the loop makes `size <= len(value)`, so `value[i]` is in range. -/
def fillPayload (value : List Nat) : Nat → Nat → List Nat → List Nat
  | 0, _, buffer => buffer
  | n + 1, i, buffer => fillPayload value n (i + 1) (buffer.set (i + 4) (value.getD i 0))

/-- `SetDynamicKeymapMacroBuffer(offset uint16, size uint8, value []byte) error`. -/
def SetDynamicKeymapMacroBuffer {σ : Type} (d : Device σ) (c : Client σ)
    (offset size : Nat) (value : List Nat) : Except Error Unit × Client σ :=
  if size ≤ 0 ∨ size > MaxDynamicKeymapBufferSize then
    (.error Error.BadBufferSize, c)
  else
    let size := if value.length % 256 < size then value.length % 256 else size
    let buffer := hidFrame [DynamicKeymapMacroSetBufferId, (offset >>> 8) &&& 0xFF,
      offset &&& 0xFF, size % 256]
    let buffer := fillPayload value size 0 buffer
    let s := sendMessage d c buffer 20
    match s.err with
    | some e => (.error e, s.client)
    | none => (.ok (), s.client)

/-- `ResetDynamicKeymapMacro() error`. -/
def ResetDynamicKeymapMacro {σ : Type} (d : Device σ) (c : Client σ) :
    Except Error Unit × Client σ :=
  let s := sendMessage d c (hidFrame [DynamicKeymapMacroResetId]) 20
  match s.err with
  | some e => (.error e, s.client)
  | none => (.ok (), s.client)

/-! ## Go slices and the two `bytes` functions used by the macro store -/

/-- A `[]byte` with its capacity: `arr` is the backing array from the slice's
first element up to its capacity, `len` the slice's length (`len ≤ arr.length`). -/
structure Slice where
  arr : List Nat
  len : Nat
  deriving DecidableEq, Repr

/-- `cap(s)`. -/
def Slice.cap (s : Slice) : Nat := s.arr.length

/-- The elements `s[0], ..., s[len(s)-1]`. -/
def Slice.elems (s : Slice) : List Nat := s.arr.take s.len

/-- A slice that fills its backing array (`cap = len`), as `make([]byte, n)` yields. -/
def Slice.ofList (l : List Nat) : Slice := ⟨l, l.length⟩

/-- `append(s, xs...)`. When the capacity suffices the backing array is
written in place; otherwise a fresh, zeroed array of capacity
`grow (cap s) newLen` is allocated, where `grow` is the run-time's growth
policy (the language only promises `newLen ≤ grow _ newLen`). -/
def Slice.append (grow : Nat → Nat → Nat) (s : Slice) (xs : List Nat) : Slice :=
  let newLen := s.len + xs.length
  if newLen ≤ s.cap then
    ⟨s.arr.take s.len ++ xs ++ s.arr.drop newLen, newLen⟩
  else
    ⟨s.arr.take s.len ++ xs ++ List.replicate (grow s.cap newLen - newLen) 0, newLen⟩

/-- The slice expression `s[lo:hi]`, as the bytes it denotes; `none` is the
run-time panic when `lo ≤ hi ≤ cap(s)` fails. -/
def Slice.slice (s : Slice) (lo hi : Nat) : Option (List Nat) :=
  if lo ≤ hi ∧ hi ≤ s.cap then some ((s.arr.take hi).drop lo) else none

/-- `bytes.IndexByte(s, 0)`: position of the first zero byte. -/
def indexZero : List Nat → Option Nat
  | [] => none
  | b :: rest => if b = 0 then some 0 else (indexZero rest).map (· + 1)

/-- The loop of `bytes.genSplit(s, sep, 1, n)` for `sep = "\x00"`: `n` more
separators may be consumed; each piece keeps its separator, the remainder is
the last piece. -/
def genSplit : Nat → List Nat → List (List Nat)
  | 0, s => [s]
  | n + 1, s =>
    match indexZero s with
    | none => [s]
    | some m => s.take (m + 1) :: genSplit n (s.drop (m + 1))

/-- `bytes.SplitAfterN(s, []byte("\x00"), -1)`: a negative `n` becomes
`Count(s, sep) + 1` pieces, so the loop runs `Count(s, sep)` times. -/
def SplitAfterN (s : List Nat) : List (List Nat) :=
  genSplit (s.count 0) s

/-- `bytes.Join(s, nil)`: no piece gives an empty slice, one piece gives
`append([]byte(nil), s[0]...)`, more give a fresh array of exactly the summed
length. -/
def Join (grow : Nat → Nat → Nat) (s : List (List Nat)) : Slice :=
  match s with
  | [] => ⟨[], 0⟩
  | [x] => Slice.append grow ⟨[], 0⟩ x
  | _ => Slice.ofList s.flatten

/-! ## The macro store -/

/-- The read loop of `getMacroBuffer`: `n` iterations to go, loop variable `i`,
`buffer` collected so far. -/
def readChunks {σ : Type} (d : Device σ) : Nat → Nat → Client σ → List Nat →
    Except Error (List Nat) × Client σ
  | 0, _, c, buffer => (.ok buffer, c)
  | n + 1, i, c, buffer =>
    match GetDynamicKeymapMacroBuffer d c ((i * MaxDynamicKeymapBufferSize) % 65536)
        MaxDynamicKeymapBufferSize with
    | (.error e, c1) => (.error e, c1)
    | (.ok chunk, c1) => readChunks d n (i + 1) c1 (buffer ++ chunk)

/-- The count `int(math.Ceil(float64(size) / float64(MaxDynamicKeymapBufferSize)))`
for a 16-bit `size`: the quotient is exact in float64 at multiples of 28 and
lies at least 1/28 from an integer elsewhere, so the ceiling is the integer one. -/
def chunkCount (size : Nat) : Nat :=
  (size + (MaxDynamicKeymapBufferSize - 1)) / MaxDynamicKeymapBufferSize

/-- `getMacroBuffer() ([]byte, error)`. Every chunk is `buffer[4:]` of a
32-byte array, so `reads * 28 ≥ size` bytes were collected and the final
`buffer[:size]` is in range; the panic branch stands for the out-of-range
slice and is never taken after successful reads. -/
def getMacroBuffer {σ : Type} (d : Device σ) (c : Client σ) :
    Except Error (List Nat) × Client σ :=
  match c.cache with
  | some cached => (.ok cached, c)
  | none =>
    match GetDynamicKeymapMacroBufferSize d c with
    | (.error e, c1) => (.error e, c1)
    | (.ok size, c1) =>
      let reads := chunkCount size
      match readChunks d reads 0 c1 [] with
      | (.error e, c2) => (.error e, c2)
      | (.ok buffer, c2) =>
        if size ≤ buffer.length then
          (.ok (buffer.take size), { c2 with cache := some (buffer.take size) })
        else
          (.error Error.RuntimePanic, c2)

/-- The write loop of `setMacroBuffer`: `n` iterations to go, loop variable `i`. -/
def writeChunks {σ : Type} (d : Device σ) (buffer : Slice) : Nat → Nat → Client σ →
    Except Error Unit × Client σ
  | 0, _, c => (.ok (), c)
  | n + 1, i, c =>
    let start := i * MaxDynamicKeymapBufferSize
    let stop := start + MaxDynamicKeymapBufferSize
    match buffer.slice start stop with
    | none => (.error Error.RuntimePanic, c)
    | some value =>
      match SetDynamicKeymapMacroBuffer d c (start % 65536) MaxDynamicKeymapBufferSize value with
      | (.error e, c1) => (.error e, c1)
      | (.ok _, c1) => writeChunks d buffer n (i + 1) c1

/-- `setMacroBuffer(buffer []byte) error`. -/
def setMacroBuffer {σ : Type} (grow : Nat → Nat → Nat) (d : Device σ) (c : Client σ)
    (buffer : Slice) : Except Error Unit × Client σ :=
  match GetDynamicKeymapMacroBufferSize d c with
  | (.error e, c1) => (.error e, c1)
  | (.ok size, c1) =>
    let writes := chunkCount size
    let bytes := writes * MaxDynamicKeymapBufferSize
    let buffer :=
      if buffer.cap < bytes then
        Slice.append grow buffer (List.replicate (bytes - buffer.cap) 0)
      else buffer
    let c2 : Client σ := { c1 with cache := none }
    writeChunks d buffer writes 0 c2

/-- `GetDynamicKeymapMacro(number uint8) ([]byte, error)`. The final
`macro[:len(macro)-1]` panics on an empty `macro`. -/
def GetDynamicKeymapMacro {σ : Type} (d : Device σ) (c : Client σ) (number : Nat) :
    Except Error (List Nat) × Client σ :=
  match GetDynamicKeymapMacroCount d c with
  | (.error e, c1) => (.error e, c1)
  | (.ok count, c1) =>
    if number > count then
      (.error (Error.InvalidMacroNumber count), c1)
    else
      match getMacroBuffer d c1 with
      | (.error e, c2) => (.error e, c2)
      | (.ok buffer, c2) =>
        let macros := SplitAfterN buffer
        if number ≥ macros.length then
          (.error Error.MacroNotInBytes, c2)
        else
          let mac := macros.getD number []
          if mac.length = 0 then
            (.error Error.RuntimePanic, c2)
          else
            (.ok (mac.take (mac.length - 1)), c2)

/-- `SetDynamicKeymapMacro(number uint8, macro []byte) error`. -/
def SetDynamicKeymapMacro {σ : Type} (grow : Nat → Nat → Nat) (d : Device σ)
    (c : Client σ) (number : Nat) (mac : List Nat) : Except Error Unit × Client σ :=
  match GetDynamicKeymapMacroCount d c with
  | (.error e, c1) => (.error e, c1)
  | (.ok count, c1) =>
    if number > count then
      (.error (Error.InvalidMacroNumber count), c1)
    else
      match getMacroBuffer d c1 with
      | (.error e, c2) => (.error e, c2)
      | (.ok buffer, c2) =>
        let macros := SplitAfterN buffer
        if number ≥ macros.length then
          (.error Error.MacroNotInBytes, c2)
        else
          let macros := macros.set number (mac ++ [0])
          let buffer := Join grow macros
          setMacroBuffer grow d c2 buffer

/-! ## A faithful device

The firmware side of the macro commands, as the round-trip properties describe
it: the device stores a macro buffer of `S` bytes and a macro count; the
set-buffer command writes the bytes that fall inside `[0, S)` and ignores the
rest; the get-buffer command returns the stored bytes and zeros past `S`; every
write is answered by a 32-byte reply that the next read delivers. Frame layout
is the one `client.go` builds and decodes. -/

/-- State of the faithful device: the stored macro buffer (`S` is its length),
the macro count it reports and the reply to the last frame written. -/
structure Firmware where
  macros : List Nat
  count : Nat
  reply : List Nat
  deriving DecidableEq, Repr

/-- Store `vals` at offset `off`, dropping what falls outside the buffer. -/
def storeAt (macros : List Nat) : Nat → List Nat → List Nat
  | _, [] => macros
  | off, v :: vs => storeAt (macros.set off v) (off + 1) vs

/-- The `n` bytes stored at offset `off`, zeros past the end of the buffer. -/
def loadAt (macros : List Nat) (off n : Nat) : List Nat :=
  (List.range n).map (fun j => macros.getD (off + j) 0)

/-- The device's reaction to one frame: the new macro buffer and the reply. -/
def Firmware.handle (fw : Firmware) (frame : List Nat) : Firmware :=
  let cmd := frame.getD 0 0
  let off := frame.getD 1 0 * 256 + frame.getD 2 0
  let size := min (frame.getD 3 0) MaxDynamicKeymapBufferSize
  if cmd = DynamicKeymapMacroGetCountId then
    { fw with reply := frame.set 1 (fw.count % 256) }
  else if cmd = DynamicKeymapMacroGetBufferSizeId then
    let hi := fw.macros.length / 256 % 256
    let lo := fw.macros.length % 256
    { fw with reply := (frame.set 1 hi).set 2 lo }
  else if cmd = DynamicKeymapMacroGetBufferId then
    { fw with reply := frame.take 4 ++ loadAt fw.macros off size ++ frame.drop (4 + size) }
  else if cmd = DynamicKeymapMacroSetBufferId then
    { fw with macros := storeAt fw.macros off ((frame.drop 4).take size), reply := frame }
  else
    { fw with reply := frame.set 0 UnhandledId }

/-- The faithful device as a `Device`: every write and every read transfers
32 bytes without error. -/
def faithful : Device Firmware where
  Write := fun fw frame => ⟨fw.handle frame, 32, false⟩
  Read := fun fw => ⟨fw, fw.reply, 32, false⟩

/-! ## Value codecs (`backlight/brightness.go`, `rgblight/color.go`, `rgblight/effect.go`)

A `float64` is modelled by a rational number: the products formed here are
small integers, hence exact, a quotient that is a tie `n + 1/2` is a binary
fraction and is computed exactly, and every other quotient lies at least
`1/720` away from a tie, far beyond the rounding error of one division. -/

/-- Go's `math.Round`: the nearest integer, halves rounded away from zero. -/
def mathRound (x : ℚ) : ℤ :=
  if 0 ≤ x then ⌊x + 1 / 2⌋ else ⌈x - 1 / 2⌉

/-- Conversion of an integer value to `uint8`. From `int` it wraps; from an
integral `float64` inside `0..255` it is exact (outside that range Go leaves
the result to the implementation; it is put modulo 256 here as well). -/
def toUint8 (i : ℤ) : Nat := (i % 256).toNat

/-- Conversion of an integer value to `uint16`, as `toUint8`. -/
def toUint16 (i : ℤ) : Nat := (i % 65536).toNat

namespace backlight

/-- `func BrightnessFromByte(value byte) Brightness`. -/
def BrightnessFromByte (value : Nat) : Nat :=
  toUint8 (mathRound (((value : ℚ) * 100) / 255))

/-- `func (b Brightness) ToByte() byte`. -/
def Brightness.ToByte (b : Nat) : Nat :=
  toUint8 (mathRound (((b : ℚ) * 255) / 100))

end backlight

namespace rgblight

/-- `func HueFromByte(value byte) Hue`; `Hue` is a `uint16`. -/
def HueFromByte (value : Nat) : Nat :=
  toUint16 (mathRound (((value : ℚ) * 360) / 255))

/-- `func (h Hue) ToByte() byte`. -/
def Hue.ToByte (h : Nat) : Nat :=
  toUint8 (mathRound (((h : ℚ) * 255) / 360))

/-- `func SaturationFromByte(value byte) Saturation`. -/
def SaturationFromByte (value : Nat) : Nat :=
  toUint8 (mathRound (((value : ℚ) * 100) / 255))

/-- `func (s Saturation) ToByte() byte`. -/
def Saturation.ToByte (s : Nat) : Nat :=
  toUint8 (mathRound (((s : ℚ) * 255) / 100))

/-- `func BrightnessFromByte(value byte) Brightness`. -/
def BrightnessFromByte (value : Nat) : Nat :=
  toUint8 (mathRound (((value : ℚ) * 100) / 255))

/-- `func (b Brightness) ToByte() byte`. -/
def Brightness.ToByte (b : Nat) : Nat :=
  toUint8 (mathRound (((b : ℚ) * 255) / 100))

/-- `func SpeedFromByte(value byte) Speed`. -/
def SpeedFromByte (value : Nat) : Nat :=
  toUint8 (mathRound (((value : ℚ) * 100) / 255))

/-- `func (h Speed) ToByte() byte`. -/
def Speed.ToByte (h : Nat) : Nat :=
  toUint8 (mathRound (((h : ℚ) * 255) / 100))

end rgblight

namespace keycode

/-- `func KeycodeFromBytes(msb byte, lsb byte) Keycode`. -/
def KeycodeFromBytes (msb lsb : Nat) : Nat :=
  (((msb % 256) <<< 8) % 65536) ||| (lsb % 256)

/-- `func (k Keycode) ToBytes() []byte`. -/
def Keycode.ToBytes (k : Nat) : List Nat :=
  [((k >>> 8) &&& 0xFF) % 256, (k &&& 0xFF) % 256]

end keycode

/-! ## Keycodes (`keycode/keycode.go`)

A Go `string` is a `String`. The constants are listed block by block as in the
source, the blocks of aliases after the blocks they refer to; a constant
defined from `iota` is written `iota + base` with the value of `iota` filled
in. A `switch` over constants is the list of its cases in source order, looked
up from the top. -/

namespace keycode

/-- The error value of `keycode.go`. -/
inductive KeycodeError where
  | ErrorUnknownKeycode
  deriving DecidableEq, Repr

def KC_UNKNOWN : Nat := 0x00

def KC_TRANSPARENT : Nat := 0x01
def KC_TRNS : Nat := KC_TRANSPARENT

-- Media and Function keys
def KC_SYSTEM_POWER : Nat := 0 + 0xA5
def KC_SYSTEM_SLEEP : Nat := 1 + 0xA5
def KC_SYSTEM_WAKE : Nat := 2 + 0xA5
def KC_AUDIO_MUTE : Nat := 3 + 0xA5
def KC_AUDIO_VOL_UP : Nat := 4 + 0xA5
def KC_AUDIO_VOL_DOWN : Nat := 5 + 0xA5
def KC_MEDIA_NEXT_TRACK : Nat := 6 + 0xA5
def KC_MEDIA_PREV_TRACK : Nat := 7 + 0xA5
def KC_MEDIA_STOP : Nat := 8 + 0xA5
def KC_MEDIA_PLAY_PAUSE : Nat := 9 + 0xA5
def KC_MEDIA_SELECT : Nat := 10 + 0xA5
def KC_MEDIA_EJECT : Nat := 11 + 0xA5
def KC_MAIL : Nat := 12 + 0xA5
def KC_CALCULATOR : Nat := 13 + 0xA5
def KC_MY_COMPUTER : Nat := 14 + 0xA5
def KC_WWW_SEARCH : Nat := 15 + 0xA5
def KC_WWW_HOME : Nat := 16 + 0xA5
def KC_WWW_BACK : Nat := 17 + 0xA5
def KC_WWW_FORWARD : Nat := 18 + 0xA5
def KC_WWW_STOP : Nat := 19 + 0xA5
def KC_WWW_REFRESH : Nat := 20 + 0xA5
def KC_WWW_FAVORITES : Nat := 21 + 0xA5
def KC_MEDIA_FAST_FORWARD : Nat := 22 + 0xA5
def KC_MEDIA_REWIND : Nat := 23 + 0xA5
def KC_BRIGHTNESS_UP : Nat := 24 + 0xA5
def KC_BRIGHTNESS_DOWN : Nat := 25 + 0xA5

-- Keyboard/Keypad Page (0x07)
def KC_NO : Nat := 0
def KC_ROLL_OVER : Nat := 1
def KC_POST_FAIL : Nat := 2
def KC_UNDEFINED : Nat := 3
def KC_A : Nat := 4
def KC_B : Nat := 5
def KC_C : Nat := 6
def KC_D : Nat := 7
def KC_E : Nat := 8
def KC_F : Nat := 9
def KC_G : Nat := 10
def KC_H : Nat := 11
def KC_I : Nat := 12
def KC_J : Nat := 13
def KC_K : Nat := 14
def KC_L : Nat := 15
def KC_M : Nat := 16
def KC_N : Nat := 17
def KC_O : Nat := 18
def KC_P : Nat := 19
def KC_Q : Nat := 20
def KC_R : Nat := 21
def KC_S : Nat := 22
def KC_T : Nat := 23
def KC_U : Nat := 24
def KC_V : Nat := 25
def KC_W : Nat := 26
def KC_X : Nat := 27
def KC_Y : Nat := 28
def KC_Z : Nat := 29
def KC_1 : Nat := 30
def KC_2 : Nat := 31
def KC_3 : Nat := 32
def KC_4 : Nat := 33
def KC_5 : Nat := 34
def KC_6 : Nat := 35
def KC_7 : Nat := 36
def KC_8 : Nat := 37
def KC_9 : Nat := 38
def KC_0 : Nat := 39
def KC_ENTER : Nat := 40
def KC_ESCAPE : Nat := 41
def KC_BACKSPACE : Nat := 42
def KC_TAB : Nat := 43
def KC_SPACE : Nat := 44
def KC_MINUS : Nat := 45
def KC_EQUAL : Nat := 46
def KC_LEFT_BRACKET : Nat := 47
def KC_RIGHT_BRACKET : Nat := 48
def KC_BACKSLASH : Nat := 49
def KC_NONUS_HASH : Nat := 50
def KC_SEMICOLON : Nat := 51
def KC_QUOTE : Nat := 52
def KC_GRAVE : Nat := 53
def KC_COMMA : Nat := 54
def KC_DOT : Nat := 55
def KC_SLASH : Nat := 56
def KC_CAPS_LOCK : Nat := 57
def KC_F1 : Nat := 58
def KC_F2 : Nat := 59
def KC_F3 : Nat := 60
def KC_F4 : Nat := 61
def KC_F5 : Nat := 62
def KC_F6 : Nat := 63
def KC_F7 : Nat := 64
def KC_F8 : Nat := 65
def KC_F9 : Nat := 66
def KC_F10 : Nat := 67
def KC_F11 : Nat := 68
def KC_F12 : Nat := 69
def KC_PRINT_SCREEN : Nat := 70
def KC_SCROLL_LOCK : Nat := 71
def KC_PAUSE : Nat := 72
def KC_INSERT : Nat := 73
def KC_HOME : Nat := 74
def KC_PAGE_UP : Nat := 75
def KC_DELETE : Nat := 76
def KC_END : Nat := 77
def KC_PAGE_DOWN : Nat := 78
def KC_RIGHT : Nat := 79
def KC_LEFT : Nat := 80
def KC_DOWN : Nat := 81
def KC_UP : Nat := 82
def KC_NUM_LOCK : Nat := 83
def KC_KP_SLASH : Nat := 84
def KC_KP_ASTERISK : Nat := 85
def KC_KP_MINUS : Nat := 86
def KC_KP_PLUS : Nat := 87
def KC_KP_ENTER : Nat := 88
def KC_KP_1 : Nat := 89
def KC_KP_2 : Nat := 90
def KC_KP_3 : Nat := 91
def KC_KP_4 : Nat := 92
def KC_KP_5 : Nat := 93
def KC_KP_6 : Nat := 94
def KC_KP_7 : Nat := 95
def KC_KP_8 : Nat := 96
def KC_KP_9 : Nat := 97
def KC_KP_0 : Nat := 98
def KC_KP_DOT : Nat := 99
def KC_NONUS_BACKSLASH : Nat := 100
def KC_APPLICATION : Nat := 101
def KC_KB_POWER : Nat := 102
def KC_KP_EQUAL : Nat := 103
def KC_F13 : Nat := 104
def KC_F14 : Nat := 105
def KC_F15 : Nat := 106
def KC_F16 : Nat := 107
def KC_F17 : Nat := 108
def KC_F18 : Nat := 109
def KC_F19 : Nat := 110
def KC_F20 : Nat := 111
def KC_F21 : Nat := 112
def KC_F22 : Nat := 113
def KC_F23 : Nat := 114
def KC_F24 : Nat := 115
def KC_EXECUTE : Nat := 116
def KC_HELP : Nat := 117
def KC_MENU : Nat := 118
def KC_SELECT : Nat := 119
def KC_STOP : Nat := 120
def KC_AGAIN : Nat := 121
def KC_UNDO : Nat := 122
def KC_CUT : Nat := 123
def KC_COPY : Nat := 124
def KC_PASTE : Nat := 125
def KC_FIND : Nat := 126
def KC_KB_MUTE : Nat := 127
def KC_KB_VOLUME_UP : Nat := 128
def KC_KB_VOLUME_DOWN : Nat := 129
def KC_LOCKING_CAPS_LOCK : Nat := 130
def KC_LOCKING_NUM_LOCK : Nat := 131
def KC_LOCKING_SCROLL_LOCK : Nat := 132
def KC_KP_COMMA : Nat := 133
def KC_KP_EQUAL_AS400 : Nat := 134
def KC_INTERNATIONAL_1 : Nat := 135
def KC_INTERNATIONAL_2 : Nat := 136
def KC_INTERNATIONAL_3 : Nat := 137
def KC_INTERNATIONAL_4 : Nat := 138
def KC_INTERNATIONAL_5 : Nat := 139
def KC_INTERNATIONAL_6 : Nat := 140
def KC_INTERNATIONAL_7 : Nat := 141
def KC_INTERNATIONAL_8 : Nat := 142
def KC_INTERNATIONAL_9 : Nat := 143
def KC_LANGUAGE_1 : Nat := 144
def KC_LANGUAGE_2 : Nat := 145
def KC_LANGUAGE_3 : Nat := 146
def KC_LANGUAGE_4 : Nat := 147
def KC_LANGUAGE_5 : Nat := 148
def KC_LANGUAGE_6 : Nat := 149
def KC_LANGUAGE_7 : Nat := 150
def KC_LANGUAGE_8 : Nat := 151
def KC_LANGUAGE_9 : Nat := 152
def KC_ALTERNATE_ERASE : Nat := 153
def KC_SYSTEM_REQUEST : Nat := 154
def KC_CANCEL : Nat := 155
def KC_CLEAR : Nat := 156
def KC_PRIOR : Nat := 157
def KC_RETURN : Nat := 158
def KC_SEPARATOR : Nat := 159
def KC_OUT : Nat := 160
def KC_OPER : Nat := 161
def KC_CLEAR_AGAIN : Nat := 162
def KC_CRSEL : Nat := 163
def KC_EXSEL : Nat := 164

-- Modifiers
def KC_LEFT_CTRL : Nat := 0 + 0xE0
def KC_LEFT_SHIFT : Nat := 1 + 0xE0
def KC_LEFT_ALT : Nat := 2 + 0xE0
def KC_LEFT_GUI : Nat := 3 + 0xE0
def KC_RIGHT_CTRL : Nat := 4 + 0xE0
def KC_RIGHT_SHIFT : Nat := 5 + 0xE0
def KC_RIGHT_ALT : Nat := 6 + 0xE0
def KC_RIGHT_GUI : Nat := 7 + 0xE0

-- Fn keys
def KC_FN0 : Nat := 0 + 0xC0
def KC_FN1 : Nat := 1 + 0xC0
def KC_FN2 : Nat := 2 + 0xC0
def KC_FN3 : Nat := 3 + 0xC0
def KC_FN4 : Nat := 4 + 0xC0
def KC_FN5 : Nat := 5 + 0xC0
def KC_FN6 : Nat := 6 + 0xC0
def KC_FN7 : Nat := 7 + 0xC0
def KC_FN8 : Nat := 8 + 0xC0
def KC_FN9 : Nat := 9 + 0xC0
def KC_FN10 : Nat := 10 + 0xC0
def KC_FN11 : Nat := 11 + 0xC0
def KC_FN12 : Nat := 12 + 0xC0
def KC_FN13 : Nat := 13 + 0xC0
def KC_FN14 : Nat := 14 + 0xC0
def KC_FN15 : Nat := 15 + 0xC0
def KC_FN16 : Nat := 16 + 0xC0
def KC_FN17 : Nat := 17 + 0xC0
def KC_FN18 : Nat := 18 + 0xC0
def KC_FN19 : Nat := 19 + 0xC0
def KC_FN20 : Nat := 20 + 0xC0
def KC_FN21 : Nat := 21 + 0xC0
def KC_FN22 : Nat := 22 + 0xC0
def KC_FN23 : Nat := 23 + 0xC0
def KC_FN24 : Nat := 24 + 0xC0
def KC_FN25 : Nat := 25 + 0xC0
def KC_FN26 : Nat := 26 + 0xC0
def KC_FN27 : Nat := 27 + 0xC0
def KC_FN28 : Nat := 28 + 0xC0
def KC_FN29 : Nat := 29 + 0xC0
def KC_FN30 : Nat := 30 + 0xC0
def KC_FN31 : Nat := 31 + 0xC0

-- Mouse Buttons
def KC_MS_UP : Nat := 0 + 0xF0
def KC_MS_DOWN : Nat := 1 + 0xF0
def KC_MS_LEFT : Nat := 2 + 0xF0
def KC_MS_RIGHT : Nat := 3 + 0xF0
def KC_MS_BTN1 : Nat := 4 + 0xF0
def KC_MS_BTN2 : Nat := 5 + 0xF0
def KC_MS_BTN3 : Nat := 6 + 0xF0
def KC_MS_BTN4 : Nat := 7 + 0xF0
def KC_MS_BTN5 : Nat := 8 + 0xF0
def KC_MS_BTN6 : Nat := KC_MS_BTN5
def KC_MS_BTN7 : Nat := KC_MS_BTN5
def KC_MS_BTN8 : Nat := KC_MS_BTN5

-- Mouse Wheel
def KC_MS_WH_UP : Nat := 0 + 0xF9
def KC_MS_WH_DOWN : Nat := 1 + 0xF9
def KC_MS_WH_LEFT : Nat := 2 + 0xF9
def KC_MS_WH_RIGHT : Nat := 3 + 0xF9
def KC_MS_ACCEL0 : Nat := 4 + 0xF9
def KC_MS_ACCEL1 : Nat := 5 + 0xF9
def KC_MS_ACCEL2 : Nat := 6 + 0xF9

-- Legacy / Deprecated
def KC_BSPACE : Nat := KC_BACKSPACE
def KC_LBRACKET : Nat := KC_LEFT_BRACKET
def KC_RBRACKET : Nat := KC_RIGHT_BRACKET
def KC_BSLASH : Nat := KC_BACKSLASH
def KC_SCOLON : Nat := KC_SEMICOLON
def KC_CAPSLOCK : Nat := KC_CAPS_LOCK
def KC_PSCREEN : Nat := KC_PRINT_SCREEN
def KC_SCROLLLOCK : Nat := KC_SCROLL_LOCK
def KC_PGDOWN : Nat := KC_PAGE_DOWN
def KC_NUMLOCK : Nat := KC_NUM_LOCK
def KC_NONUS_BSLASH : Nat := KC_NONUS_BACKSLASH
def KC_POWER : Nat := KC_KB_POWER
def KC__MUTE : Nat := KC_KB_MUTE
def KC__VOLUP : Nat := KC_KB_VOLUME_UP
def KC__VOLDOWN : Nat := KC_KB_VOLUME_DOWN
def KC_LOCKING_CAPS : Nat := KC_LOCKING_CAPS_LOCK
def KC_LOCKING_NUM : Nat := KC_LOCKING_NUM_LOCK
def KC_LOCKING_SCROLL : Nat := KC_LOCKING_SCROLL_LOCK
def KC_LANG1 : Nat := KC_LANGUAGE_1
def KC_LANG2 : Nat := KC_LANGUAGE_2
def KC_LANG3 : Nat := KC_LANGUAGE_3
def KC_LANG4 : Nat := KC_LANGUAGE_4
def KC_LANG5 : Nat := KC_LANGUAGE_5
def KC_LANG6 : Nat := KC_LANGUAGE_6
def KC_LANG7 : Nat := KC_LANGUAGE_7
def KC_LANG8 : Nat := KC_LANGUAGE_8
def KC_LANG9 : Nat := KC_LANGUAGE_9
def KC_ALT_ERASE : Nat := KC_ALTERNATE_ERASE
def KC_SYSREQ : Nat := KC_SYSTEM_REQUEST
def KC_LCTRL : Nat := KC_LEFT_CTRL
def KC_LSHIFT : Nat := KC_LEFT_SHIFT
def KC_RCTRL : Nat := KC_RIGHT_CTRL
def KC_RSHIFT : Nat := KC_RIGHT_SHIFT
def KC_ZKHK : Nat := KC_GRAVE
def KC_RO : Nat := KC_INTERNATIONAL_1
def KC_KANA : Nat := KC_INTERNATIONAL_2
def KC_JYEN : Nat := KC_INTERNATIONAL_3
def KC_HENK : Nat := KC_INTERNATIONAL_4
def KC_MHEN : Nat := KC_INTERNATIONAL_5
def KC_HAEN : Nat := KC_LANGUAGE_1
def KC_HANJ : Nat := KC_LANGUAGE_2
def KC_CLCK : Nat := KC_CAPS_LOCK
def KC_SLCK : Nat := KC_SCROLL_LOCK
def KC_NLCK : Nat := KC_NUM_LOCK

-- VIA keycodes
def FN_MO13 : Nat := 0 + 0x5F10
def FN_MO23 : Nat := 1 + 0x5F10
def MACRO00 : Nat := 2 + 0x5F10
def MACRO01 : Nat := 3 + 0x5F10
def MACRO02 : Nat := 4 + 0x5F10
def MACRO03 : Nat := 5 + 0x5F10
def MACRO04 : Nat := 6 + 0x5F10
def MACRO05 : Nat := 7 + 0x5F10
def MACRO06 : Nat := 8 + 0x5F10
def MACRO07 : Nat := 9 + 0x5F10
def MACRO08 : Nat := 10 + 0x5F10
def MACRO09 : Nat := 11 + 0x5F10
def MACRO10 : Nat := 12 + 0x5F10
def MACRO11 : Nat := 13 + 0x5F10
def MACRO12 : Nat := 14 + 0x5F10
def MACRO13 : Nat := 15 + 0x5F10
def MACRO14 : Nat := 16 + 0x5F10
def MACRO15 : Nat := 17 + 0x5F10

-- User keycodes
def USER00 : Nat := 0 + 0x5F80
def USER01 : Nat := 1 + 0x5F80
def USER02 : Nat := 2 + 0x5F80
def USER03 : Nat := 3 + 0x5F80
def USER04 : Nat := 4 + 0x5F80
def USER05 : Nat := 5 + 0x5F80
def USER06 : Nat := 6 + 0x5F80
def USER07 : Nat := 7 + 0x5F80
def USER08 : Nat := 8 + 0x5F80
def USER09 : Nat := 9 + 0x5F80
def USER10 : Nat := 10 + 0x5F80
def USER11 : Nat := 11 + 0x5F80
def USER12 : Nat := 12 + 0x5F80
def USER13 : Nat := 13 + 0x5F80
def USER14 : Nat := 14 + 0x5F80
def USER15 : Nat := 15 + 0x5F80

-- Punctuation
def KC_ENT : Nat := KC_ENTER
def KC_ESC : Nat := KC_ESCAPE
def KC_BSPC : Nat := KC_BACKSPACE
def KC_SPC : Nat := KC_SPACE
def KC_MINS : Nat := KC_MINUS
def KC_EQL : Nat := KC_EQUAL
def KC_LBRC : Nat := KC_LEFT_BRACKET
def KC_RBRC : Nat := KC_RIGHT_BRACKET
def KC_BSLS : Nat := KC_BACKSLASH
def KC_NUHS : Nat := KC_NONUS_HASH
def KC_SCLN : Nat := KC_SEMICOLON
def KC_QUOT : Nat := KC_QUOTE
def KC_GRV : Nat := KC_GRAVE
def KC_COMM : Nat := KC_COMMA
def KC_SLSH : Nat := KC_SLASH
def KC_NUBS : Nat := KC_NONUS_BACKSLASH

-- Lock Keys
def KC_CAPS : Nat := KC_CAPS_LOCK
def KC_SCRL : Nat := KC_SCROLL_LOCK
def KC_NUM : Nat := KC_NUM_LOCK
def KC_LCAP : Nat := KC_LOCKING_CAPS_LOCK
def KC_LNUM : Nat := KC_LOCKING_NUM_LOCK
def KC_LSCR : Nat := KC_LOCKING_SCROLL_LOCK

-- Commands
def KC_PSCR : Nat := KC_PRINT_SCREEN
def KC_PAUS : Nat := KC_PAUSE
def KC_BRK : Nat := KC_PAUSE
def KC_INS : Nat := KC_INSERT
def KC_PGUP : Nat := KC_PAGE_UP
def KC_DEL : Nat := KC_DELETE
def KC_PGDN : Nat := KC_PAGE_DOWN
def KC_RGHT : Nat := KC_RIGHT
def KC_APP : Nat := KC_APPLICATION
def KC_EXEC : Nat := KC_EXECUTE
def KC_SLCT : Nat := KC_SELECT
def KC_AGIN : Nat := KC_AGAIN
def KC_PSTE : Nat := KC_PASTE
def KC_ERAS : Nat := KC_ALTERNATE_ERASE
def KC_SYRQ : Nat := KC_SYSTEM_REQUEST
def KC_CNCL : Nat := KC_CANCEL
def KC_CLR : Nat := KC_CLEAR
def KC_PRIR : Nat := KC_PRIOR
def KC_RETN : Nat := KC_RETURN
def KC_SEPR : Nat := KC_SEPARATOR
def KC_CLAG : Nat := KC_CLEAR_AGAIN
def KC_CRSL : Nat := KC_CRSEL
def KC_EXSL : Nat := KC_EXSEL

-- Keypad
def KC_PSLS : Nat := KC_KP_SLASH
def KC_PAST : Nat := KC_KP_ASTERISK
def KC_PMNS : Nat := KC_KP_MINUS
def KC_PPLS : Nat := KC_KP_PLUS
def KC_PENT : Nat := KC_KP_ENTER
def KC_P1 : Nat := KC_KP_1
def KC_P2 : Nat := KC_KP_2
def KC_P3 : Nat := KC_KP_3
def KC_P4 : Nat := KC_KP_4
def KC_P5 : Nat := KC_KP_5
def KC_P6 : Nat := KC_KP_6
def KC_P7 : Nat := KC_KP_7
def KC_P8 : Nat := KC_KP_8
def KC_P9 : Nat := KC_KP_9
def KC_P0 : Nat := KC_KP_0
def KC_PDOT : Nat := KC_KP_DOT
def KC_PEQL : Nat := KC_KP_EQUAL
def KC_PCMM : Nat := KC_KP_COMMA

-- Language Specific
def KC_INT1 : Nat := KC_INTERNATIONAL_1
def KC_INT2 : Nat := KC_INTERNATIONAL_2
def KC_INT3 : Nat := KC_INTERNATIONAL_3
def KC_INT4 : Nat := KC_INTERNATIONAL_4
def KC_INT5 : Nat := KC_INTERNATIONAL_5
def KC_INT6 : Nat := KC_INTERNATIONAL_6
def KC_INT7 : Nat := KC_INTERNATIONAL_7
def KC_INT8 : Nat := KC_INTERNATIONAL_8
def KC_INT9 : Nat := KC_INTERNATIONAL_9
def KC_LNG1 : Nat := KC_LANGUAGE_1
def KC_LNG2 : Nat := KC_LANGUAGE_2
def KC_LNG3 : Nat := KC_LANGUAGE_3
def KC_LNG4 : Nat := KC_LANGUAGE_4
def KC_LNG5 : Nat := KC_LANGUAGE_5
def KC_LNG6 : Nat := KC_LANGUAGE_6
def KC_LNG7 : Nat := KC_LANGUAGE_7
def KC_LNG8 : Nat := KC_LANGUAGE_8
def KC_LNG9 : Nat := KC_LANGUAGE_9

-- Modifiers
def KC_LCTL : Nat := KC_LEFT_CTRL
def KC_LSFT : Nat := KC_LEFT_SHIFT
def KC_LALT : Nat := KC_LEFT_ALT
def KC_LOPT : Nat := KC_LEFT_ALT
def KC_LGUI : Nat := KC_LEFT_GUI
def KC_LCMD : Nat := KC_LEFT_GUI
def KC_LWIN : Nat := KC_LEFT_GUI
def KC_RCTL : Nat := KC_RIGHT_CTRL
def KC_RSFT : Nat := KC_RIGHT_SHIFT
def KC_RALT : Nat := KC_RIGHT_ALT
def KC_ALGR : Nat := KC_RIGHT_ALT
def KC_ROPT : Nat := KC_RIGHT_ALT
def KC_RGUI : Nat := KC_RIGHT_GUI
def KC_RCMD : Nat := KC_RIGHT_GUI
def KC_RWIN : Nat := KC_RIGHT_GUI

-- Generic Desktop Page (0x01)
def KC_PWR : Nat := KC_SYSTEM_POWER
def KC_SLEP : Nat := KC_SYSTEM_SLEEP
def KC_WAKE : Nat := KC_SYSTEM_WAKE

-- Consumer Page (0x0C)
def KC_MUTE : Nat := KC_AUDIO_MUTE
def KC_VOLU : Nat := KC_AUDIO_VOL_UP
def KC_VOLD : Nat := KC_AUDIO_VOL_DOWN
def KC_MNXT : Nat := KC_MEDIA_NEXT_TRACK
def KC_MPRV : Nat := KC_MEDIA_PREV_TRACK
def KC_MSTP : Nat := KC_MEDIA_STOP
def KC_MPLY : Nat := KC_MEDIA_PLAY_PAUSE
def KC_MSEL : Nat := KC_MEDIA_SELECT
def KC_EJCT : Nat := KC_MEDIA_EJECT
def KC_CALC : Nat := KC_CALCULATOR
def KC_MYCM : Nat := KC_MY_COMPUTER
def KC_WSCH : Nat := KC_WWW_SEARCH
def KC_WHOM : Nat := KC_WWW_HOME
def KC_WBAK : Nat := KC_WWW_BACK
def KC_WFWD : Nat := KC_WWW_FORWARD
def KC_WSTP : Nat := KC_WWW_STOP
def KC_WREF : Nat := KC_WWW_REFRESH
def KC_WFAV : Nat := KC_WWW_FAVORITES
def KC_MFFD : Nat := KC_MEDIA_FAST_FORWARD
def KC_MRWD : Nat := KC_MEDIA_REWIND
def KC_BRIU : Nat := KC_BRIGHTNESS_UP
def KC_BRID : Nat := KC_BRIGHTNESS_DOWN

-- System Specific
def KC_BRMU : Nat := KC_PAUSE
def KC_BRMD : Nat := KC_SCROLL_LOCK

-- Mouse Keys
def KC_MS_U : Nat := KC_MS_UP
def KC_MS_D : Nat := KC_MS_DOWN
def KC_MS_L : Nat := KC_MS_LEFT
def KC_MS_R : Nat := KC_MS_RIGHT
def KC_BTN1 : Nat := KC_MS_BTN1
def KC_BTN2 : Nat := KC_MS_BTN2
def KC_BTN3 : Nat := KC_MS_BTN3
def KC_BTN4 : Nat := KC_MS_BTN4
def KC_BTN5 : Nat := KC_MS_BTN5
def KC_BTN6 : Nat := KC_MS_BTN6
def KC_BTN7 : Nat := KC_MS_BTN7
def KC_BTN8 : Nat := KC_MS_BTN8
def KC_WH_U : Nat := KC_MS_WH_UP
def KC_WH_D : Nat := KC_MS_WH_DOWN
def KC_WH_L : Nat := KC_MS_WH_LEFT
def KC_WH_R : Nat := KC_MS_WH_RIGHT
def KC_ACL0 : Nat := KC_MS_ACCEL0
def KC_ACL1 : Nat := KC_MS_ACCEL1
def KC_ACL2 : Nat := KC_MS_ACCEL2

/-- Every constant declared in `keycode.go`, by name, in source order. -/
def declared : List (String × Nat) := [
  ("KC_UNKNOWN", KC_UNKNOWN),
  ("KC_TRANSPARENT", KC_TRANSPARENT),
  ("KC_TRNS", KC_TRNS),
  ("KC_ENT", KC_ENT),
  ("KC_ESC", KC_ESC),
  ("KC_BSPC", KC_BSPC),
  ("KC_SPC", KC_SPC),
  ("KC_MINS", KC_MINS),
  ("KC_EQL", KC_EQL),
  ("KC_LBRC", KC_LBRC),
  ("KC_RBRC", KC_RBRC),
  ("KC_BSLS", KC_BSLS),
  ("KC_NUHS", KC_NUHS),
  ("KC_SCLN", KC_SCLN),
  ("KC_QUOT", KC_QUOT),
  ("KC_GRV", KC_GRV),
  ("KC_COMM", KC_COMM),
  ("KC_SLSH", KC_SLSH),
  ("KC_NUBS", KC_NUBS),
  ("KC_CAPS", KC_CAPS),
  ("KC_SCRL", KC_SCRL),
  ("KC_NUM", KC_NUM),
  ("KC_LCAP", KC_LCAP),
  ("KC_LNUM", KC_LNUM),
  ("KC_LSCR", KC_LSCR),
  ("KC_PSCR", KC_PSCR),
  ("KC_PAUS", KC_PAUS),
  ("KC_BRK", KC_BRK),
  ("KC_INS", KC_INS),
  ("KC_PGUP", KC_PGUP),
  ("KC_DEL", KC_DEL),
  ("KC_PGDN", KC_PGDN),
  ("KC_RGHT", KC_RGHT),
  ("KC_APP", KC_APP),
  ("KC_EXEC", KC_EXEC),
  ("KC_SLCT", KC_SLCT),
  ("KC_AGIN", KC_AGIN),
  ("KC_PSTE", KC_PSTE),
  ("KC_ERAS", KC_ERAS),
  ("KC_SYRQ", KC_SYRQ),
  ("KC_CNCL", KC_CNCL),
  ("KC_CLR", KC_CLR),
  ("KC_PRIR", KC_PRIR),
  ("KC_RETN", KC_RETN),
  ("KC_SEPR", KC_SEPR),
  ("KC_CLAG", KC_CLAG),
  ("KC_CRSL", KC_CRSL),
  ("KC_EXSL", KC_EXSL),
  ("KC_PSLS", KC_PSLS),
  ("KC_PAST", KC_PAST),
  ("KC_PMNS", KC_PMNS),
  ("KC_PPLS", KC_PPLS),
  ("KC_PENT", KC_PENT),
  ("KC_P1", KC_P1),
  ("KC_P2", KC_P2),
  ("KC_P3", KC_P3),
  ("KC_P4", KC_P4),
  ("KC_P5", KC_P5),
  ("KC_P6", KC_P6),
  ("KC_P7", KC_P7),
  ("KC_P8", KC_P8),
  ("KC_P9", KC_P9),
  ("KC_P0", KC_P0),
  ("KC_PDOT", KC_PDOT),
  ("KC_PEQL", KC_PEQL),
  ("KC_PCMM", KC_PCMM),
  ("KC_INT1", KC_INT1),
  ("KC_INT2", KC_INT2),
  ("KC_INT3", KC_INT3),
  ("KC_INT4", KC_INT4),
  ("KC_INT5", KC_INT5),
  ("KC_INT6", KC_INT6),
  ("KC_INT7", KC_INT7),
  ("KC_INT8", KC_INT8),
  ("KC_INT9", KC_INT9),
  ("KC_LNG1", KC_LNG1),
  ("KC_LNG2", KC_LNG2),
  ("KC_LNG3", KC_LNG3),
  ("KC_LNG4", KC_LNG4),
  ("KC_LNG5", KC_LNG5),
  ("KC_LNG6", KC_LNG6),
  ("KC_LNG7", KC_LNG7),
  ("KC_LNG8", KC_LNG8),
  ("KC_LNG9", KC_LNG9),
  ("KC_LCTL", KC_LCTL),
  ("KC_LSFT", KC_LSFT),
  ("KC_LALT", KC_LALT),
  ("KC_LOPT", KC_LOPT),
  ("KC_LGUI", KC_LGUI),
  ("KC_LCMD", KC_LCMD),
  ("KC_LWIN", KC_LWIN),
  ("KC_RCTL", KC_RCTL),
  ("KC_RSFT", KC_RSFT),
  ("KC_RALT", KC_RALT),
  ("KC_ALGR", KC_ALGR),
  ("KC_ROPT", KC_ROPT),
  ("KC_RGUI", KC_RGUI),
  ("KC_RCMD", KC_RCMD),
  ("KC_RWIN", KC_RWIN),
  ("KC_PWR", KC_PWR),
  ("KC_SLEP", KC_SLEP),
  ("KC_WAKE", KC_WAKE),
  ("KC_MUTE", KC_MUTE),
  ("KC_VOLU", KC_VOLU),
  ("KC_VOLD", KC_VOLD),
  ("KC_MNXT", KC_MNXT),
  ("KC_MPRV", KC_MPRV),
  ("KC_MSTP", KC_MSTP),
  ("KC_MPLY", KC_MPLY),
  ("KC_MSEL", KC_MSEL),
  ("KC_EJCT", KC_EJCT),
  ("KC_CALC", KC_CALC),
  ("KC_MYCM", KC_MYCM),
  ("KC_WSCH", KC_WSCH),
  ("KC_WHOM", KC_WHOM),
  ("KC_WBAK", KC_WBAK),
  ("KC_WFWD", KC_WFWD),
  ("KC_WSTP", KC_WSTP),
  ("KC_WREF", KC_WREF),
  ("KC_WFAV", KC_WFAV),
  ("KC_MFFD", KC_MFFD),
  ("KC_MRWD", KC_MRWD),
  ("KC_BRIU", KC_BRIU),
  ("KC_BRID", KC_BRID),
  ("KC_BRMU", KC_BRMU),
  ("KC_BRMD", KC_BRMD),
  ("KC_MS_U", KC_MS_U),
  ("KC_MS_D", KC_MS_D),
  ("KC_MS_L", KC_MS_L),
  ("KC_MS_R", KC_MS_R),
  ("KC_BTN1", KC_BTN1),
  ("KC_BTN2", KC_BTN2),
  ("KC_BTN3", KC_BTN3),
  ("KC_BTN4", KC_BTN4),
  ("KC_BTN5", KC_BTN5),
  ("KC_BTN6", KC_BTN6),
  ("KC_BTN7", KC_BTN7),
  ("KC_BTN8", KC_BTN8),
  ("KC_WH_U", KC_WH_U),
  ("KC_WH_D", KC_WH_D),
  ("KC_WH_L", KC_WH_L),
  ("KC_WH_R", KC_WH_R),
  ("KC_ACL0", KC_ACL0),
  ("KC_ACL1", KC_ACL1),
  ("KC_ACL2", KC_ACL2),
  ("KC_SYSTEM_POWER", KC_SYSTEM_POWER),
  ("KC_SYSTEM_SLEEP", KC_SYSTEM_SLEEP),
  ("KC_SYSTEM_WAKE", KC_SYSTEM_WAKE),
  ("KC_AUDIO_MUTE", KC_AUDIO_MUTE),
  ("KC_AUDIO_VOL_UP", KC_AUDIO_VOL_UP),
  ("KC_AUDIO_VOL_DOWN", KC_AUDIO_VOL_DOWN),
  ("KC_MEDIA_NEXT_TRACK", KC_MEDIA_NEXT_TRACK),
  ("KC_MEDIA_PREV_TRACK", KC_MEDIA_PREV_TRACK),
  ("KC_MEDIA_STOP", KC_MEDIA_STOP),
  ("KC_MEDIA_PLAY_PAUSE", KC_MEDIA_PLAY_PAUSE),
  ("KC_MEDIA_SELECT", KC_MEDIA_SELECT),
  ("KC_MEDIA_EJECT", KC_MEDIA_EJECT),
  ("KC_MAIL", KC_MAIL),
  ("KC_CALCULATOR", KC_CALCULATOR),
  ("KC_MY_COMPUTER", KC_MY_COMPUTER),
  ("KC_WWW_SEARCH", KC_WWW_SEARCH),
  ("KC_WWW_HOME", KC_WWW_HOME),
  ("KC_WWW_BACK", KC_WWW_BACK),
  ("KC_WWW_FORWARD", KC_WWW_FORWARD),
  ("KC_WWW_STOP", KC_WWW_STOP),
  ("KC_WWW_REFRESH", KC_WWW_REFRESH),
  ("KC_WWW_FAVORITES", KC_WWW_FAVORITES),
  ("KC_MEDIA_FAST_FORWARD", KC_MEDIA_FAST_FORWARD),
  ("KC_MEDIA_REWIND", KC_MEDIA_REWIND),
  ("KC_BRIGHTNESS_UP", KC_BRIGHTNESS_UP),
  ("KC_BRIGHTNESS_DOWN", KC_BRIGHTNESS_DOWN),
  ("KC_NO", KC_NO),
  ("KC_ROLL_OVER", KC_ROLL_OVER),
  ("KC_POST_FAIL", KC_POST_FAIL),
  ("KC_UNDEFINED", KC_UNDEFINED),
  ("KC_A", KC_A),
  ("KC_B", KC_B),
  ("KC_C", KC_C),
  ("KC_D", KC_D),
  ("KC_E", KC_E),
  ("KC_F", KC_F),
  ("KC_G", KC_G),
  ("KC_H", KC_H),
  ("KC_I", KC_I),
  ("KC_J", KC_J),
  ("KC_K", KC_K),
  ("KC_L", KC_L),
  ("KC_M", KC_M),
  ("KC_N", KC_N),
  ("KC_O", KC_O),
  ("KC_P", KC_P),
  ("KC_Q", KC_Q),
  ("KC_R", KC_R),
  ("KC_S", KC_S),
  ("KC_T", KC_T),
  ("KC_U", KC_U),
  ("KC_V", KC_V),
  ("KC_W", KC_W),
  ("KC_X", KC_X),
  ("KC_Y", KC_Y),
  ("KC_Z", KC_Z),
  ("KC_1", KC_1),
  ("KC_2", KC_2),
  ("KC_3", KC_3),
  ("KC_4", KC_4),
  ("KC_5", KC_5),
  ("KC_6", KC_6),
  ("KC_7", KC_7),
  ("KC_8", KC_8),
  ("KC_9", KC_9),
  ("KC_0", KC_0),
  ("KC_ENTER", KC_ENTER),
  ("KC_ESCAPE", KC_ESCAPE),
  ("KC_BACKSPACE", KC_BACKSPACE),
  ("KC_TAB", KC_TAB),
  ("KC_SPACE", KC_SPACE),
  ("KC_MINUS", KC_MINUS),
  ("KC_EQUAL", KC_EQUAL),
  ("KC_LEFT_BRACKET", KC_LEFT_BRACKET),
  ("KC_RIGHT_BRACKET", KC_RIGHT_BRACKET),
  ("KC_BACKSLASH", KC_BACKSLASH),
  ("KC_NONUS_HASH", KC_NONUS_HASH),
  ("KC_SEMICOLON", KC_SEMICOLON),
  ("KC_QUOTE", KC_QUOTE),
  ("KC_GRAVE", KC_GRAVE),
  ("KC_COMMA", KC_COMMA),
  ("KC_DOT", KC_DOT),
  ("KC_SLASH", KC_SLASH),
  ("KC_CAPS_LOCK", KC_CAPS_LOCK),
  ("KC_F1", KC_F1),
  ("KC_F2", KC_F2),
  ("KC_F3", KC_F3),
  ("KC_F4", KC_F4),
  ("KC_F5", KC_F5),
  ("KC_F6", KC_F6),
  ("KC_F7", KC_F7),
  ("KC_F8", KC_F8),
  ("KC_F9", KC_F9),
  ("KC_F10", KC_F10),
  ("KC_F11", KC_F11),
  ("KC_F12", KC_F12),
  ("KC_PRINT_SCREEN", KC_PRINT_SCREEN),
  ("KC_SCROLL_LOCK", KC_SCROLL_LOCK),
  ("KC_PAUSE", KC_PAUSE),
  ("KC_INSERT", KC_INSERT),
  ("KC_HOME", KC_HOME),
  ("KC_PAGE_UP", KC_PAGE_UP),
  ("KC_DELETE", KC_DELETE),
  ("KC_END", KC_END),
  ("KC_PAGE_DOWN", KC_PAGE_DOWN),
  ("KC_RIGHT", KC_RIGHT),
  ("KC_LEFT", KC_LEFT),
  ("KC_DOWN", KC_DOWN),
  ("KC_UP", KC_UP),
  ("KC_NUM_LOCK", KC_NUM_LOCK),
  ("KC_KP_SLASH", KC_KP_SLASH),
  ("KC_KP_ASTERISK", KC_KP_ASTERISK),
  ("KC_KP_MINUS", KC_KP_MINUS),
  ("KC_KP_PLUS", KC_KP_PLUS),
  ("KC_KP_ENTER", KC_KP_ENTER),
  ("KC_KP_1", KC_KP_1),
  ("KC_KP_2", KC_KP_2),
  ("KC_KP_3", KC_KP_3),
  ("KC_KP_4", KC_KP_4),
  ("KC_KP_5", KC_KP_5),
  ("KC_KP_6", KC_KP_6),
  ("KC_KP_7", KC_KP_7),
  ("KC_KP_8", KC_KP_8),
  ("KC_KP_9", KC_KP_9),
  ("KC_KP_0", KC_KP_0),
  ("KC_KP_DOT", KC_KP_DOT),
  ("KC_NONUS_BACKSLASH", KC_NONUS_BACKSLASH),
  ("KC_APPLICATION", KC_APPLICATION),
  ("KC_KB_POWER", KC_KB_POWER),
  ("KC_KP_EQUAL", KC_KP_EQUAL),
  ("KC_F13", KC_F13),
  ("KC_F14", KC_F14),
  ("KC_F15", KC_F15),
  ("KC_F16", KC_F16),
  ("KC_F17", KC_F17),
  ("KC_F18", KC_F18),
  ("KC_F19", KC_F19),
  ("KC_F20", KC_F20),
  ("KC_F21", KC_F21),
  ("KC_F22", KC_F22),
  ("KC_F23", KC_F23),
  ("KC_F24", KC_F24),
  ("KC_EXECUTE", KC_EXECUTE),
  ("KC_HELP", KC_HELP),
  ("KC_MENU", KC_MENU),
  ("KC_SELECT", KC_SELECT),
  ("KC_STOP", KC_STOP),
  ("KC_AGAIN", KC_AGAIN),
  ("KC_UNDO", KC_UNDO),
  ("KC_CUT", KC_CUT),
  ("KC_COPY", KC_COPY),
  ("KC_PASTE", KC_PASTE),
  ("KC_FIND", KC_FIND),
  ("KC_KB_MUTE", KC_KB_MUTE),
  ("KC_KB_VOLUME_UP", KC_KB_VOLUME_UP),
  ("KC_KB_VOLUME_DOWN", KC_KB_VOLUME_DOWN),
  ("KC_LOCKING_CAPS_LOCK", KC_LOCKING_CAPS_LOCK),
  ("KC_LOCKING_NUM_LOCK", KC_LOCKING_NUM_LOCK),
  ("KC_LOCKING_SCROLL_LOCK", KC_LOCKING_SCROLL_LOCK),
  ("KC_KP_COMMA", KC_KP_COMMA),
  ("KC_KP_EQUAL_AS400", KC_KP_EQUAL_AS400),
  ("KC_INTERNATIONAL_1", KC_INTERNATIONAL_1),
  ("KC_INTERNATIONAL_2", KC_INTERNATIONAL_2),
  ("KC_INTERNATIONAL_3", KC_INTERNATIONAL_3),
  ("KC_INTERNATIONAL_4", KC_INTERNATIONAL_4),
  ("KC_INTERNATIONAL_5", KC_INTERNATIONAL_5),
  ("KC_INTERNATIONAL_6", KC_INTERNATIONAL_6),
  ("KC_INTERNATIONAL_7", KC_INTERNATIONAL_7),
  ("KC_INTERNATIONAL_8", KC_INTERNATIONAL_8),
  ("KC_INTERNATIONAL_9", KC_INTERNATIONAL_9),
  ("KC_LANGUAGE_1", KC_LANGUAGE_1),
  ("KC_LANGUAGE_2", KC_LANGUAGE_2),
  ("KC_LANGUAGE_3", KC_LANGUAGE_3),
  ("KC_LANGUAGE_4", KC_LANGUAGE_4),
  ("KC_LANGUAGE_5", KC_LANGUAGE_5),
  ("KC_LANGUAGE_6", KC_LANGUAGE_6),
  ("KC_LANGUAGE_7", KC_LANGUAGE_7),
  ("KC_LANGUAGE_8", KC_LANGUAGE_8),
  ("KC_LANGUAGE_9", KC_LANGUAGE_9),
  ("KC_ALTERNATE_ERASE", KC_ALTERNATE_ERASE),
  ("KC_SYSTEM_REQUEST", KC_SYSTEM_REQUEST),
  ("KC_CANCEL", KC_CANCEL),
  ("KC_CLEAR", KC_CLEAR),
  ("KC_PRIOR", KC_PRIOR),
  ("KC_RETURN", KC_RETURN),
  ("KC_SEPARATOR", KC_SEPARATOR),
  ("KC_OUT", KC_OUT),
  ("KC_OPER", KC_OPER),
  ("KC_CLEAR_AGAIN", KC_CLEAR_AGAIN),
  ("KC_CRSEL", KC_CRSEL),
  ("KC_EXSEL", KC_EXSEL),
  ("KC_LEFT_CTRL", KC_LEFT_CTRL),
  ("KC_LEFT_SHIFT", KC_LEFT_SHIFT),
  ("KC_LEFT_ALT", KC_LEFT_ALT),
  ("KC_LEFT_GUI", KC_LEFT_GUI),
  ("KC_RIGHT_CTRL", KC_RIGHT_CTRL),
  ("KC_RIGHT_SHIFT", KC_RIGHT_SHIFT),
  ("KC_RIGHT_ALT", KC_RIGHT_ALT),
  ("KC_RIGHT_GUI", KC_RIGHT_GUI),
  ("KC_FN0", KC_FN0),
  ("KC_FN1", KC_FN1),
  ("KC_FN2", KC_FN2),
  ("KC_FN3", KC_FN3),
  ("KC_FN4", KC_FN4),
  ("KC_FN5", KC_FN5),
  ("KC_FN6", KC_FN6),
  ("KC_FN7", KC_FN7),
  ("KC_FN8", KC_FN8),
  ("KC_FN9", KC_FN9),
  ("KC_FN10", KC_FN10),
  ("KC_FN11", KC_FN11),
  ("KC_FN12", KC_FN12),
  ("KC_FN13", KC_FN13),
  ("KC_FN14", KC_FN14),
  ("KC_FN15", KC_FN15),
  ("KC_FN16", KC_FN16),
  ("KC_FN17", KC_FN17),
  ("KC_FN18", KC_FN18),
  ("KC_FN19", KC_FN19),
  ("KC_FN20", KC_FN20),
  ("KC_FN21", KC_FN21),
  ("KC_FN22", KC_FN22),
  ("KC_FN23", KC_FN23),
  ("KC_FN24", KC_FN24),
  ("KC_FN25", KC_FN25),
  ("KC_FN26", KC_FN26),
  ("KC_FN27", KC_FN27),
  ("KC_FN28", KC_FN28),
  ("KC_FN29", KC_FN29),
  ("KC_FN30", KC_FN30),
  ("KC_FN31", KC_FN31),
  ("KC_MS_UP", KC_MS_UP),
  ("KC_MS_DOWN", KC_MS_DOWN),
  ("KC_MS_LEFT", KC_MS_LEFT),
  ("KC_MS_RIGHT", KC_MS_RIGHT),
  ("KC_MS_BTN1", KC_MS_BTN1),
  ("KC_MS_BTN2", KC_MS_BTN2),
  ("KC_MS_BTN3", KC_MS_BTN3),
  ("KC_MS_BTN4", KC_MS_BTN4),
  ("KC_MS_BTN5", KC_MS_BTN5),
  ("KC_MS_BTN6", KC_MS_BTN6),
  ("KC_MS_BTN7", KC_MS_BTN7),
  ("KC_MS_BTN8", KC_MS_BTN8),
  ("KC_MS_WH_UP", KC_MS_WH_UP),
  ("KC_MS_WH_DOWN", KC_MS_WH_DOWN),
  ("KC_MS_WH_LEFT", KC_MS_WH_LEFT),
  ("KC_MS_WH_RIGHT", KC_MS_WH_RIGHT),
  ("KC_MS_ACCEL0", KC_MS_ACCEL0),
  ("KC_MS_ACCEL1", KC_MS_ACCEL1),
  ("KC_MS_ACCEL2", KC_MS_ACCEL2),
  ("KC_BSPACE", KC_BSPACE),
  ("KC_LBRACKET", KC_LBRACKET),
  ("KC_RBRACKET", KC_RBRACKET),
  ("KC_BSLASH", KC_BSLASH),
  ("KC_SCOLON", KC_SCOLON),
  ("KC_CAPSLOCK", KC_CAPSLOCK),
  ("KC_PSCREEN", KC_PSCREEN),
  ("KC_SCROLLLOCK", KC_SCROLLLOCK),
  ("KC_PGDOWN", KC_PGDOWN),
  ("KC_NUMLOCK", KC_NUMLOCK),
  ("KC_NONUS_BSLASH", KC_NONUS_BSLASH),
  ("KC_POWER", KC_POWER),
  ("KC__MUTE", KC__MUTE),
  ("KC__VOLUP", KC__VOLUP),
  ("KC__VOLDOWN", KC__VOLDOWN),
  ("KC_LOCKING_CAPS", KC_LOCKING_CAPS),
  ("KC_LOCKING_NUM", KC_LOCKING_NUM),
  ("KC_LOCKING_SCROLL", KC_LOCKING_SCROLL),
  ("KC_LANG1", KC_LANG1),
  ("KC_LANG2", KC_LANG2),
  ("KC_LANG3", KC_LANG3),
  ("KC_LANG4", KC_LANG4),
  ("KC_LANG5", KC_LANG5),
  ("KC_LANG6", KC_LANG6),
  ("KC_LANG7", KC_LANG7),
  ("KC_LANG8", KC_LANG8),
  ("KC_LANG9", KC_LANG9),
  ("KC_ALT_ERASE", KC_ALT_ERASE),
  ("KC_SYSREQ", KC_SYSREQ),
  ("KC_LCTRL", KC_LCTRL),
  ("KC_LSHIFT", KC_LSHIFT),
  ("KC_RCTRL", KC_RCTRL),
  ("KC_RSHIFT", KC_RSHIFT),
  ("KC_ZKHK", KC_ZKHK),
  ("KC_RO", KC_RO),
  ("KC_KANA", KC_KANA),
  ("KC_JYEN", KC_JYEN),
  ("KC_HENK", KC_HENK),
  ("KC_MHEN", KC_MHEN),
  ("KC_HAEN", KC_HAEN),
  ("KC_HANJ", KC_HANJ),
  ("KC_CLCK", KC_CLCK),
  ("KC_SLCK", KC_SLCK),
  ("KC_NLCK", KC_NLCK),
  ("FN_MO13", FN_MO13),
  ("FN_MO23", FN_MO23),
  ("MACRO00", MACRO00),
  ("MACRO01", MACRO01),
  ("MACRO02", MACRO02),
  ("MACRO03", MACRO03),
  ("MACRO04", MACRO04),
  ("MACRO05", MACRO05),
  ("MACRO06", MACRO06),
  ("MACRO07", MACRO07),
  ("MACRO08", MACRO08),
  ("MACRO09", MACRO09),
  ("MACRO10", MACRO10),
  ("MACRO11", MACRO11),
  ("MACRO12", MACRO12),
  ("MACRO13", MACRO13),
  ("MACRO14", MACRO14),
  ("MACRO15", MACRO15),
  ("USER00", USER00),
  ("USER01", USER01),
  ("USER02", USER02),
  ("USER03", USER03),
  ("USER04", USER04),
  ("USER05", USER05),
  ("USER06", USER06),
  ("USER07", USER07),
  ("USER08", USER08),
  ("USER09", USER09),
  ("USER10", USER10),
  ("USER11", USER11),
  ("USER12", USER12),
  ("USER13", USER13),
  ("USER14", USER14),
  ("USER15", USER15)]

/-- The cases of the `switch k` in `Keycode.Name`, in source order. -/
def nameCases : List (Nat × String) := [
  (KC_TRANSPARENT, "KC_TRANSPARENT"),
  (KC_SYSTEM_POWER, "KC_SYSTEM_POWER"),
  (KC_SYSTEM_SLEEP, "KC_SYSTEM_SLEEP"),
  (KC_SYSTEM_WAKE, "KC_SYSTEM_WAKE"),
  (KC_AUDIO_MUTE, "KC_AUDIO_MUTE"),
  (KC_AUDIO_VOL_UP, "KC_AUDIO_VOL_UP"),
  (KC_AUDIO_VOL_DOWN, "KC_AUDIO_VOL_DOWN"),
  (KC_MEDIA_NEXT_TRACK, "KC_MEDIA_NEXT_TRACK"),
  (KC_MEDIA_PREV_TRACK, "KC_MEDIA_PREV_TRACK"),
  (KC_MEDIA_STOP, "KC_MEDIA_STOP"),
  (KC_MEDIA_PLAY_PAUSE, "KC_MEDIA_PLAY_PAUSE"),
  (KC_MEDIA_SELECT, "KC_MEDIA_SELECT"),
  (KC_MEDIA_EJECT, "KC_MEDIA_EJECT"),
  (KC_MAIL, "KC_MAIL"),
  (KC_CALCULATOR, "KC_CALCULATOR"),
  (KC_MY_COMPUTER, "KC_MY_COMPUTER"),
  (KC_WWW_SEARCH, "KC_WWW_SEARCH"),
  (KC_WWW_HOME, "KC_WWW_HOME"),
  (KC_WWW_BACK, "KC_WWW_BACK"),
  (KC_WWW_FORWARD, "KC_WWW_FORWARD"),
  (KC_WWW_STOP, "KC_WWW_STOP"),
  (KC_WWW_REFRESH, "KC_WWW_REFRESH"),
  (KC_WWW_FAVORITES, "KC_WWW_FAVORITES"),
  (KC_MEDIA_FAST_FORWARD, "KC_MEDIA_FAST_FORWARD"),
  (KC_MEDIA_REWIND, "KC_MEDIA_REWIND"),
  (KC_BRIGHTNESS_UP, "KC_BRIGHTNESS_UP"),
  (KC_BRIGHTNESS_DOWN, "KC_BRIGHTNESS_DOWN"),
  (KC_NO, "KC_NO"),
  (KC_POST_FAIL, "KC_POST_FAIL"),
  (KC_UNDEFINED, "KC_UNDEFINED"),
  (KC_A, "KC_A"),
  (KC_B, "KC_B"),
  (KC_C, "KC_C"),
  (KC_D, "KC_D"),
  (KC_E, "KC_E"),
  (KC_F, "KC_F"),
  (KC_G, "KC_G"),
  (KC_H, "KC_H"),
  (KC_I, "KC_I"),
  (KC_J, "KC_J"),
  (KC_K, "KC_K"),
  (KC_L, "KC_L"),
  (KC_M, "KC_M"),
  (KC_N, "KC_N"),
  (KC_O, "KC_O"),
  (KC_P, "KC_P"),
  (KC_Q, "KC_Q"),
  (KC_R, "KC_R"),
  (KC_S, "KC_S"),
  (KC_T, "KC_T"),
  (KC_U, "KC_U"),
  (KC_V, "KC_V"),
  (KC_W, "KC_W"),
  (KC_X, "KC_X"),
  (KC_Y, "KC_Y"),
  (KC_Z, "KC_Z"),
  (KC_1, "KC_1"),
  (KC_2, "KC_2"),
  (KC_3, "KC_3"),
  (KC_4, "KC_4"),
  (KC_5, "KC_5"),
  (KC_6, "KC_6"),
  (KC_7, "KC_7"),
  (KC_8, "KC_8"),
  (KC_9, "KC_9"),
  (KC_0, "KC_0"),
  (KC_ENTER, "KC_ENTER"),
  (KC_ESCAPE, "KC_ESCAPE"),
  (KC_BACKSPACE, "KC_BACKSPACE"),
  (KC_TAB, "KC_TAB"),
  (KC_SPACE, "KC_SPACE"),
  (KC_MINUS, "KC_MINUS"),
  (KC_EQUAL, "KC_EQUAL"),
  (KC_LEFT_BRACKET, "KC_LEFT_BRACKET"),
  (KC_RIGHT_BRACKET, "KC_RIGHT_BRACKET"),
  (KC_BACKSLASH, "KC_BACKSLASH"),
  (KC_NONUS_HASH, "KC_NONUS_HASH"),
  (KC_SEMICOLON, "KC_SEMICOLON"),
  (KC_QUOTE, "KC_QUOTE"),
  (KC_GRAVE, "KC_GRAVE"),
  (KC_COMMA, "KC_COMMA"),
  (KC_DOT, "KC_DOT"),
  (KC_SLASH, "KC_SLASH"),
  (KC_CAPS_LOCK, "KC_CAPS_LOCK"),
  (KC_F1, "KC_F1"),
  (KC_F2, "KC_F2"),
  (KC_F3, "KC_F3"),
  (KC_F4, "KC_F4"),
  (KC_F5, "KC_F5"),
  (KC_F6, "KC_F6"),
  (KC_F7, "KC_F7"),
  (KC_F8, "KC_F8"),
  (KC_F9, "KC_F9"),
  (KC_F10, "KC_F10"),
  (KC_F11, "KC_F11"),
  (KC_F12, "KC_F12"),
  (KC_PRINT_SCREEN, "KC_PRINT_SCREEN"),
  (KC_SCROLL_LOCK, "KC_SCROLL_LOCK"),
  (KC_PAUSE, "KC_PAUSE"),
  (KC_INSERT, "KC_INSERT"),
  (KC_HOME, "KC_HOME"),
  (KC_PAGE_UP, "KC_PAGE_UP"),
  (KC_DELETE, "KC_DELETE"),
  (KC_END, "KC_END"),
  (KC_PAGE_DOWN, "KC_PAGE_DOWN"),
  (KC_RIGHT, "KC_RIGHT"),
  (KC_LEFT, "KC_LEFT"),
  (KC_DOWN, "KC_DOWN"),
  (KC_UP, "KC_UP"),
  (KC_NUM_LOCK, "KC_NUM_LOCK"),
  (KC_KP_SLASH, "KC_KP_SLASH"),
  (KC_KP_ASTERISK, "KC_KP_ASTERISK"),
  (KC_KP_MINUS, "KC_KP_MINUS"),
  (KC_KP_PLUS, "KC_KP_PLUS"),
  (KC_KP_ENTER, "KC_KP_ENTER"),
  (KC_KP_1, "KC_KP_1"),
  (KC_KP_2, "KC_KP_2"),
  (KC_KP_3, "KC_KP_3"),
  (KC_KP_4, "KC_KP_4"),
  (KC_KP_5, "KC_KP_5"),
  (KC_KP_6, "KC_KP_6"),
  (KC_KP_7, "KC_KP_7"),
  (KC_KP_8, "KC_KP_8"),
  (KC_KP_9, "KC_KP_9"),
  (KC_KP_0, "KC_KP_0"),
  (KC_KP_DOT, "KC_KP_DOT"),
  (KC_NONUS_BACKSLASH, "KC_NONUS_BACKSLASH"),
  (KC_APPLICATION, "KC_APPLICATION"),
  (KC_KB_POWER, "KC_KB_POWER"),
  (KC_KP_EQUAL, "KC_KP_EQUAL"),
  (KC_F13, "KC_F13"),
  (KC_F14, "KC_F14"),
  (KC_F15, "KC_F15"),
  (KC_F16, "KC_F16"),
  (KC_F17, "KC_F17"),
  (KC_F18, "KC_F18"),
  (KC_F19, "KC_F19"),
  (KC_F20, "KC_F20"),
  (KC_F21, "KC_F21"),
  (KC_F22, "KC_F22"),
  (KC_F23, "KC_F23"),
  (KC_F24, "KC_F24"),
  (KC_EXECUTE, "KC_EXECUTE"),
  (KC_HELP, "KC_HELP"),
  (KC_MENU, "KC_MENU"),
  (KC_SELECT, "KC_SELECT"),
  (KC_STOP, "KC_STOP"),
  (KC_AGAIN, "KC_AGAIN"),
  (KC_UNDO, "KC_UNDO"),
  (KC_CUT, "KC_CUT"),
  (KC_COPY, "KC_COPY"),
  (KC_PASTE, "KC_PASTE"),
  (KC_FIND, "KC_FIND"),
  (KC_KB_MUTE, "KC_KB_MUTE"),
  (KC_KB_VOLUME_UP, "KC_KB_VOLUME_UP"),
  (KC_KB_VOLUME_DOWN, "KC_KB_VOLUME_DOWN"),
  (KC_LOCKING_CAPS_LOCK, "KC_LOCKING_CAPS_LOCK"),
  (KC_LOCKING_NUM_LOCK, "KC_LOCKING_NUM_LOCK"),
  (KC_LOCKING_SCROLL_LOCK, "KC_LOCKING_SCROLL_LOCK"),
  (KC_KP_COMMA, "KC_KP_COMMA"),
  (KC_KP_EQUAL_AS400, "KC_KP_EQUAL_AS400"),
  (KC_INTERNATIONAL_1, "KC_INTERNATIONAL_1"),
  (KC_INTERNATIONAL_2, "KC_INTERNATIONAL_2"),
  (KC_INTERNATIONAL_3, "KC_INTERNATIONAL_3"),
  (KC_INTERNATIONAL_4, "KC_INTERNATIONAL_4"),
  (KC_INTERNATIONAL_5, "KC_INTERNATIONAL_5"),
  (KC_INTERNATIONAL_6, "KC_INTERNATIONAL_6"),
  (KC_INTERNATIONAL_7, "KC_INTERNATIONAL_7"),
  (KC_INTERNATIONAL_8, "KC_INTERNATIONAL_8"),
  (KC_INTERNATIONAL_9, "KC_INTERNATIONAL_9"),
  (KC_LANGUAGE_1, "KC_LANGUAGE_1"),
  (KC_LANGUAGE_2, "KC_LANGUAGE_2"),
  (KC_LANGUAGE_3, "KC_LANGUAGE_3"),
  (KC_LANGUAGE_4, "KC_LANGUAGE_4"),
  (KC_LANGUAGE_5, "KC_LANGUAGE_5"),
  (KC_LANGUAGE_6, "KC_LANGUAGE_6"),
  (KC_LANGUAGE_7, "KC_LANGUAGE_7"),
  (KC_LANGUAGE_8, "KC_LANGUAGE_8"),
  (KC_LANGUAGE_9, "KC_LANGUAGE_9"),
  (KC_ALTERNATE_ERASE, "KC_ALTERNATE_ERASE"),
  (KC_SYSTEM_REQUEST, "KC_SYSTEM_REQUEST"),
  (KC_CANCEL, "KC_CANCEL"),
  (KC_CLEAR, "KC_CLEAR"),
  (KC_PRIOR, "KC_PRIOR"),
  (KC_RETURN, "KC_RETURN"),
  (KC_SEPARATOR, "KC_SEPARATOR"),
  (KC_OUT, "KC_OUT"),
  (KC_OPER, "KC_OPER"),
  (KC_CLEAR_AGAIN, "KC_CLEAR_AGAIN"),
  (KC_CRSEL, "KC_CRSEL"),
  (KC_EXSEL, "KC_EXSEL"),
  (KC_LEFT_CTRL, "KC_LEFT_CTRL"),
  (KC_LEFT_SHIFT, "KC_LEFT_SHIFT"),
  (KC_LEFT_ALT, "KC_LEFT_ALT"),
  (KC_LEFT_GUI, "KC_LEFT_GUI"),
  (KC_RIGHT_CTRL, "KC_RIGHT_CTRL"),
  (KC_RIGHT_SHIFT, "KC_RIGHT_SHIFT"),
  (KC_RIGHT_ALT, "KC_RIGHT_ALT"),
  (KC_RIGHT_GUI, "KC_RIGHT_GUI"),
  (KC_FN0, "KC_FN0"),
  (KC_FN1, "KC_FN1"),
  (KC_FN2, "KC_FN2"),
  (KC_FN3, "KC_FN3"),
  (KC_FN4, "KC_FN4"),
  (KC_FN5, "KC_FN5"),
  (KC_FN6, "KC_FN6"),
  (KC_FN7, "KC_FN7"),
  (KC_FN8, "KC_FN8"),
  (KC_FN9, "KC_FN9"),
  (KC_FN10, "KC_FN10"),
  (KC_FN11, "KC_FN11"),
  (KC_FN12, "KC_FN12"),
  (KC_FN13, "KC_FN13"),
  (KC_FN14, "KC_FN14"),
  (KC_FN15, "KC_FN15"),
  (KC_FN16, "KC_FN16"),
  (KC_FN17, "KC_FN17"),
  (KC_FN18, "KC_FN18"),
  (KC_FN19, "KC_FN19"),
  (KC_FN20, "KC_FN20"),
  (KC_FN21, "KC_FN21"),
  (KC_FN22, "KC_FN22"),
  (KC_FN23, "KC_FN23"),
  (KC_FN24, "KC_FN24"),
  (KC_FN25, "KC_FN25"),
  (KC_FN26, "KC_FN26"),
  (KC_FN27, "KC_FN27"),
  (KC_FN28, "KC_FN28"),
  (KC_FN29, "KC_FN29"),
  (KC_FN30, "KC_FN30"),
  (KC_FN31, "KC_FN31"),
  (KC_MS_UP, "KC_MS_UP"),
  (KC_MS_DOWN, "KC_MS_DOWN"),
  (KC_MS_LEFT, "KC_MS_LEFT"),
  (KC_MS_RIGHT, "KC_MS_RIGHT"),
  (KC_MS_BTN1, "KC_MS_BTN1"),
  (KC_MS_BTN2, "KC_MS_BTN2"),
  (KC_MS_BTN3, "KC_MS_BTN3"),
  (KC_MS_BTN4, "KC_MS_BTN4"),
  (KC_MS_BTN5, "KC_MS_BTN5"),
  (KC_MS_WH_UP, "KC_MS_WH_UP"),
  (KC_MS_WH_DOWN, "KC_MS_WH_DOWN"),
  (KC_MS_WH_LEFT, "KC_MS_WH_LEFT"),
  (KC_MS_WH_RIGHT, "KC_MS_WH_RIGHT"),
  (KC_MS_ACCEL0, "KC_MS_ACCEL0"),
  (KC_MS_ACCEL1, "KC_MS_ACCEL1"),
  (KC_MS_ACCEL2, "KC_MS_ACCEL2"),
  (FN_MO13, "FN_MO13"),
  (FN_MO23, "FN_MO23"),
  (MACRO00, "MACRO00"),
  (MACRO01, "MACRO01"),
  (MACRO02, "MACRO02"),
  (MACRO03, "MACRO03"),
  (MACRO04, "MACRO04"),
  (MACRO05, "MACRO05"),
  (MACRO06, "MACRO06"),
  (MACRO07, "MACRO07"),
  (MACRO08, "MACRO08"),
  (MACRO09, "MACRO09"),
  (MACRO10, "MACRO10"),
  (MACRO11, "MACRO11"),
  (MACRO12, "MACRO12"),
  (MACRO13, "MACRO13"),
  (MACRO14, "MACRO14"),
  (MACRO15, "MACRO15"),
  (USER00, "USER00"),
  (USER01, "USER01"),
  (USER02, "USER02"),
  (USER03, "USER03"),
  (USER04, "USER04"),
  (USER05, "USER05"),
  (USER06, "USER06"),
  (USER07, "USER07"),
  (USER08, "USER08"),
  (USER09, "USER09"),
  (USER10, "USER10"),
  (USER11, "USER11"),
  (USER12, "USER12"),
  (USER13, "USER13"),
  (USER14, "USER14"),
  (USER15, "USER15")]

/-- The cases of the `switch strings.ToUpper(value)` in `KeycodeFromString`,
in source order. -/
def fromCases : List (String × Nat) := [
  ("TRANSPARENT", KC_TRANSPARENT),
  ("TRNS", KC_TRANSPARENT),
  ("ENT", KC_ENTER),
  ("ESC", KC_ESCAPE),
  ("BSPC", KC_BACKSPACE),
  ("SPC", KC_SPACE),
  ("MINS", KC_MINUS),
  ("EQL", KC_EQUAL),
  ("LBRC", KC_LEFT_BRACKET),
  ("RBRC", KC_RIGHT_BRACKET),
  ("BSLS", KC_BACKSLASH),
  ("NUHS", KC_NONUS_HASH),
  ("SCLN", KC_SEMICOLON),
  ("QUOT", KC_QUOTE),
  ("GRV", KC_GRAVE),
  ("COMM", KC_COMMA),
  ("SLSH", KC_SLASH),
  ("NUBS", KC_NONUS_BACKSLASH),
  ("CAPS", KC_CAPS_LOCK),
  ("SCRL", KC_SCROLL_LOCK),
  ("NUM", KC_NUM_LOCK),
  ("LCAP", KC_LOCKING_CAPS_LOCK),
  ("LNUM", KC_LOCKING_NUM_LOCK),
  ("LSCR", KC_LOCKING_SCROLL_LOCK),
  ("PSCR", KC_PRINT_SCREEN),
  ("PAUS", KC_PAUSE),
  ("BRK", KC_PAUSE),
  ("INS", KC_INSERT),
  ("PGUP", KC_PAGE_UP),
  ("DEL", KC_DELETE),
  ("PGDN", KC_PAGE_DOWN),
  ("RGHT", KC_RIGHT),
  ("APP", KC_APPLICATION),
  ("EXEC", KC_EXECUTE),
  ("SLCT", KC_SELECT),
  ("AGIN", KC_AGAIN),
  ("PSTE", KC_PASTE),
  ("ERAS", KC_ALTERNATE_ERASE),
  ("SYRQ", KC_SYSTEM_REQUEST),
  ("CNCL", KC_CANCEL),
  ("CLR", KC_CLEAR),
  ("PRIR", KC_PRIOR),
  ("RETN", KC_RETURN),
  ("SEPR", KC_SEPARATOR),
  ("CLAG", KC_CLEAR_AGAIN),
  ("CRSL", KC_CRSEL),
  ("EXSL", KC_EXSEL),
  ("PSLS", KC_KP_SLASH),
  ("PAST", KC_KP_ASTERISK),
  ("PMNS", KC_KP_MINUS),
  ("PPLS", KC_KP_PLUS),
  ("PENT", KC_KP_ENTER),
  ("P1", KC_KP_1),
  ("P2", KC_KP_2),
  ("P3", KC_KP_3),
  ("P4", KC_KP_4),
  ("P5", KC_KP_5),
  ("P6", KC_KP_6),
  ("P7", KC_KP_7),
  ("P8", KC_KP_8),
  ("P9", KC_KP_9),
  ("P0", KC_KP_0),
  ("PDOT", KC_KP_DOT),
  ("PEQL", KC_KP_EQUAL),
  ("PCMM", KC_KP_COMMA),
  ("INT1", KC_INTERNATIONAL_1),
  ("INT2", KC_INTERNATIONAL_2),
  ("INT3", KC_INTERNATIONAL_3),
  ("INT4", KC_INTERNATIONAL_4),
  ("INT5", KC_INTERNATIONAL_5),
  ("INT6", KC_INTERNATIONAL_6),
  ("INT7", KC_INTERNATIONAL_7),
  ("INT8", KC_INTERNATIONAL_8),
  ("INT9", KC_INTERNATIONAL_9),
  ("LNG1", KC_LANGUAGE_1),
  ("LNG2", KC_LANGUAGE_2),
  ("LNG3", KC_LANGUAGE_3),
  ("LNG4", KC_LANGUAGE_4),
  ("LNG5", KC_LANGUAGE_5),
  ("LNG6", KC_LANGUAGE_6),
  ("LNG7", KC_LANGUAGE_7),
  ("LNG8", KC_LANGUAGE_8),
  ("LNG9", KC_LANGUAGE_9),
  ("LCTL", KC_LEFT_CTRL),
  ("LSFT", KC_LEFT_SHIFT),
  ("LALT", KC_LEFT_ALT),
  ("LOPT", KC_LEFT_ALT),
  ("LGUI", KC_LEFT_GUI),
  ("LCMD", KC_LEFT_GUI),
  ("LWIN", KC_LEFT_GUI),
  ("RCTL", KC_RIGHT_CTRL),
  ("RSFT", KC_RIGHT_SHIFT),
  ("RALT", KC_RIGHT_ALT),
  ("ALGR", KC_RIGHT_ALT),
  ("ROPT", KC_RIGHT_ALT),
  ("RGUI", KC_RIGHT_GUI),
  ("RCMD", KC_RIGHT_GUI),
  ("RWIN", KC_RIGHT_GUI),
  ("PWR", KC_SYSTEM_POWER),
  ("SLEP", KC_SYSTEM_SLEEP),
  ("WAKE", KC_SYSTEM_WAKE),
  ("MUTE", KC_AUDIO_MUTE),
  ("VOLU", KC_AUDIO_VOL_UP),
  ("VOLD", KC_AUDIO_VOL_DOWN),
  ("MNXT", KC_MEDIA_NEXT_TRACK),
  ("MPRV", KC_MEDIA_PREV_TRACK),
  ("MSTP", KC_MEDIA_STOP),
  ("MPLY", KC_MEDIA_PLAY_PAUSE),
  ("MSEL", KC_MEDIA_SELECT),
  ("EJCT", KC_MEDIA_EJECT),
  ("CALC", KC_CALCULATOR),
  ("MYCM", KC_MY_COMPUTER),
  ("WSCH", KC_WWW_SEARCH),
  ("WHOM", KC_WWW_HOME),
  ("WBAK", KC_WWW_BACK),
  ("WFWD", KC_WWW_FORWARD),
  ("WSTP", KC_WWW_STOP),
  ("WREF", KC_WWW_REFRESH),
  ("WFAV", KC_WWW_FAVORITES),
  ("MFFD", KC_MEDIA_FAST_FORWARD),
  ("MRWD", KC_MEDIA_REWIND),
  ("BRIU", KC_BRIGHTNESS_UP),
  ("BRID", KC_BRIGHTNESS_DOWN),
  ("BRMU", KC_PAUSE),
  ("BRMD", KC_SCROLL_LOCK),
  ("MS_U", KC_MS_UP),
  ("MS_D", KC_MS_DOWN),
  ("MS_L", KC_MS_LEFT),
  ("MS_R", KC_MS_RIGHT),
  ("BTN1", KC_MS_BTN1),
  ("BTN2", KC_MS_BTN2),
  ("BTN3", KC_MS_BTN3),
  ("BTN4", KC_MS_BTN4),
  ("BTN5", KC_MS_BTN5),
  ("BTN6", KC_MS_BTN6),
  ("BTN7", KC_MS_BTN7),
  ("BTN8", KC_MS_BTN8),
  ("WH_U", KC_MS_WH_UP),
  ("WH_D", KC_MS_WH_DOWN),
  ("WH_L", KC_MS_WH_LEFT),
  ("WH_R", KC_MS_WH_RIGHT),
  ("ACL0", KC_MS_ACCEL0),
  ("ACL1", KC_MS_ACCEL1),
  ("ACL2", KC_MS_ACCEL2),
  ("SYSTEM_POWER", KC_SYSTEM_POWER),
  ("SYSTEM_SLEEP", KC_SYSTEM_SLEEP),
  ("SYSTEM_WAKE", KC_SYSTEM_WAKE),
  ("AUDIO_MUTE", KC_AUDIO_MUTE),
  ("AUDIO_VOL_UP", KC_AUDIO_VOL_UP),
  ("AUDIO_VOL_DOWN", KC_AUDIO_VOL_DOWN),
  ("MEDIA_NEXT_TRACK", KC_MEDIA_NEXT_TRACK),
  ("MEDIA_PREV_TRACK", KC_MEDIA_PREV_TRACK),
  ("MEDIA_STOP", KC_MEDIA_STOP),
  ("MEDIA_PLAY_PAUSE", KC_MEDIA_PLAY_PAUSE),
  ("MEDIA_SELECT", KC_MEDIA_SELECT),
  ("MEDIA_EJECT", KC_MEDIA_EJECT),
  ("MAIL", KC_MAIL),
  ("CALCULATOR", KC_CALCULATOR),
  ("MY_COMPUTER", KC_MY_COMPUTER),
  ("WWW_SEARCH", KC_WWW_SEARCH),
  ("WWW_HOME", KC_WWW_HOME),
  ("WWW_BACK", KC_WWW_BACK),
  ("WWW_FORWARD", KC_WWW_FORWARD),
  ("WWW_STOP", KC_WWW_STOP),
  ("WWW_REFRESH", KC_WWW_REFRESH),
  ("WWW_FAVORITES", KC_WWW_FAVORITES),
  ("MEDIA_FAST_FORWARD", KC_MEDIA_FAST_FORWARD),
  ("MEDIA_REWIND", KC_MEDIA_REWIND),
  ("BRIGHTNESS_UP", KC_BRIGHTNESS_UP),
  ("BRIGHTNESS_DOWN", KC_BRIGHTNESS_DOWN),
  ("NO", KC_NO),
  ("ROLL_OVER", KC_ROLL_OVER),
  ("POST_FAIL", KC_POST_FAIL),
  ("UNDEFINED", KC_UNDEFINED),
  ("A", KC_A),
  ("B", KC_B),
  ("C", KC_C),
  ("D", KC_D),
  ("E", KC_E),
  ("F", KC_F),
  ("G", KC_G),
  ("H", KC_H),
  ("I", KC_I),
  ("J", KC_J),
  ("K", KC_K),
  ("L", KC_L),
  ("M", KC_M),
  ("N", KC_N),
  ("O", KC_O),
  ("P", KC_P),
  ("Q", KC_Q),
  ("R", KC_R),
  ("S", KC_S),
  ("T", KC_T),
  ("U", KC_U),
  ("V", KC_V),
  ("W", KC_W),
  ("X", KC_X),
  ("Y", KC_Y),
  ("Z", KC_Z),
  ("1", KC_1),
  ("2", KC_2),
  ("3", KC_3),
  ("4", KC_4),
  ("5", KC_5),
  ("6", KC_6),
  ("7", KC_7),
  ("8", KC_8),
  ("9", KC_9),
  ("0", KC_0),
  ("ENTER", KC_ENTER),
  ("ESCAPE", KC_ESCAPE),
  ("BACKSPACE", KC_BACKSPACE),
  ("TAB", KC_TAB),
  ("SPACE", KC_SPACE),
  ("MINUS", KC_MINUS),
  ("EQUAL", KC_EQUAL),
  ("LEFT_BRACKET", KC_LEFT_BRACKET),
  ("RIGHT_BRACKET", KC_RIGHT_BRACKET),
  ("BACKSLASH", KC_BACKSLASH),
  ("NONUS_HASH", KC_NONUS_HASH),
  ("SEMICOLON", KC_SEMICOLON),
  ("QUOTE", KC_QUOTE),
  ("GRAVE", KC_GRAVE),
  ("COMMA", KC_COMMA),
  ("DOT", KC_DOT),
  ("SLASH", KC_SLASH),
  ("CAPS_LOCK", KC_CAPS_LOCK),
  ("F1", KC_F1),
  ("F2", KC_F2),
  ("F3", KC_F3),
  ("F4", KC_F4),
  ("F5", KC_F5),
  ("F6", KC_F6),
  ("F7", KC_F7),
  ("F8", KC_F8),
  ("F9", KC_F9),
  ("F10", KC_F10),
  ("F11", KC_F11),
  ("F12", KC_F12),
  ("PRINT_SCREEN", KC_PRINT_SCREEN),
  ("SCROLL_LOCK", KC_SCROLL_LOCK),
  ("PAUSE", KC_PAUSE),
  ("INSERT", KC_INSERT),
  ("HOME", KC_HOME),
  ("PAGE_UP", KC_PAGE_UP),
  ("DELETE", KC_DELETE),
  ("END", KC_END),
  ("PAGE_DOWN", KC_PAGE_DOWN),
  ("RIGHT", KC_RIGHT),
  ("LEFT", KC_LEFT),
  ("DOWN", KC_DOWN),
  ("UP", KC_UP),
  ("NUM_LOCK", KC_NUM_LOCK),
  ("KP_SLASH", KC_KP_SLASH),
  ("KP_ASTERISK", KC_KP_ASTERISK),
  ("KP_MINUS", KC_KP_MINUS),
  ("KP_PLUS", KC_KP_PLUS),
  ("KP_ENTER", KC_KP_ENTER),
  ("KP_1", KC_KP_1),
  ("KP_2", KC_KP_2),
  ("KP_3", KC_KP_3),
  ("KP_4", KC_KP_4),
  ("KP_5", KC_KP_5),
  ("KP_6", KC_KP_6),
  ("KP_7", KC_KP_7),
  ("KP_8", KC_KP_8),
  ("KP_9", KC_KP_9),
  ("KP_0", KC_KP_0),
  ("KP_DOT", KC_KP_DOT),
  ("NONUS_BACKSLASH", KC_NONUS_BACKSLASH),
  ("APPLICATION", KC_APPLICATION),
  ("KB_POWER", KC_KB_POWER),
  ("KP_EQUAL", KC_KP_EQUAL),
  ("F13", KC_F13),
  ("F14", KC_F14),
  ("F15", KC_F15),
  ("F16", KC_F16),
  ("F17", KC_F17),
  ("F18", KC_F18),
  ("F19", KC_F19),
  ("F20", KC_F20),
  ("F21", KC_F21),
  ("F22", KC_F22),
  ("F23", KC_F23),
  ("F24", KC_F24),
  ("EXECUTE", KC_EXECUTE),
  ("HELP", KC_HELP),
  ("MENU", KC_MENU),
  ("SELECT", KC_SELECT),
  ("STOP", KC_STOP),
  ("AGAIN", KC_AGAIN),
  ("UNDO", KC_UNDO),
  ("CUT", KC_CUT),
  ("COPY", KC_COPY),
  ("PASTE", KC_PASTE),
  ("FIND", KC_FIND),
  ("KB_MUTE", KC_KB_MUTE),
  ("KB_VOLUME_UP", KC_KB_VOLUME_UP),
  ("KB_VOLUME_DOWN", KC_KB_VOLUME_DOWN),
  ("LOCKING_CAPS_LOCK", KC_LOCKING_CAPS_LOCK),
  ("LOCKING_NUM_LOCK", KC_LOCKING_NUM_LOCK),
  ("LOCKING_SCROLL_LOCK", KC_LOCKING_SCROLL_LOCK),
  ("KP_COMMA", KC_KP_COMMA),
  ("KP_EQUAL_AS400", KC_KP_EQUAL_AS400),
  ("INTERNATIONAL_1", KC_INTERNATIONAL_1),
  ("INTERNATIONAL_2", KC_INTERNATIONAL_2),
  ("INTERNATIONAL_3", KC_INTERNATIONAL_3),
  ("INTERNATIONAL_4", KC_INTERNATIONAL_4),
  ("INTERNATIONAL_5", KC_INTERNATIONAL_5),
  ("INTERNATIONAL_6", KC_INTERNATIONAL_6),
  ("INTERNATIONAL_7", KC_INTERNATIONAL_7),
  ("INTERNATIONAL_8", KC_INTERNATIONAL_8),
  ("INTERNATIONAL_9", KC_INTERNATIONAL_9),
  ("LANGUAGE_1", KC_LANGUAGE_1),
  ("LANGUAGE_2", KC_LANGUAGE_2),
  ("LANGUAGE_3", KC_LANGUAGE_3),
  ("LANGUAGE_4", KC_LANGUAGE_4),
  ("LANGUAGE_5", KC_LANGUAGE_5),
  ("LANGUAGE_6", KC_LANGUAGE_6),
  ("LANGUAGE_7", KC_LANGUAGE_7),
  ("LANGUAGE_8", KC_LANGUAGE_8),
  ("LANGUAGE_9", KC_LANGUAGE_9),
  ("ALTERNATE_ERASE", KC_ALTERNATE_ERASE),
  ("SYSTEM_REQUEST", KC_SYSTEM_REQUEST),
  ("CANCEL", KC_CANCEL),
  ("CLEAR", KC_CLEAR),
  ("PRIOR", KC_PRIOR),
  ("RETURN", KC_RETURN),
  ("SEPARATOR", KC_SEPARATOR),
  ("OUT", KC_OUT),
  ("OPER", KC_OPER),
  ("CLEAR_AGAIN", KC_CLEAR_AGAIN),
  ("CRSEL", KC_CRSEL),
  ("EXSEL", KC_EXSEL),
  ("LEFT_CTRL", KC_LEFT_CTRL),
  ("LEFT_SHIFT", KC_LEFT_SHIFT),
  ("LEFT_ALT", KC_LEFT_ALT),
  ("LEFT_GUI", KC_LEFT_GUI),
  ("RIGHT_CTRL", KC_RIGHT_CTRL),
  ("RIGHT_SHIFT", KC_RIGHT_SHIFT),
  ("RIGHT_ALT", KC_RIGHT_ALT),
  ("RIGHT_GUI", KC_RIGHT_GUI),
  ("FN0", KC_FN0),
  ("FN1", KC_FN1),
  ("FN2", KC_FN2),
  ("FN3", KC_FN3),
  ("FN4", KC_FN4),
  ("FN5", KC_FN5),
  ("FN6", KC_FN6),
  ("FN7", KC_FN7),
  ("FN8", KC_FN8),
  ("FN9", KC_FN9),
  ("FN10", KC_FN10),
  ("FN11", KC_FN11),
  ("FN12", KC_FN12),
  ("FN13", KC_FN13),
  ("FN14", KC_FN14),
  ("FN15", KC_FN15),
  ("FN16", KC_FN16),
  ("FN17", KC_FN17),
  ("FN18", KC_FN18),
  ("FN19", KC_FN19),
  ("FN20", KC_FN20),
  ("FN21", KC_FN21),
  ("FN22", KC_FN22),
  ("FN23", KC_FN23),
  ("FN24", KC_FN24),
  ("FN25", KC_FN25),
  ("FN26", KC_FN26),
  ("FN27", KC_FN27),
  ("FN28", KC_FN28),
  ("FN29", KC_FN29),
  ("FN30", KC_FN30),
  ("FN31", KC_FN31),
  ("MS_UP", KC_MS_UP),
  ("MS_DOWN", KC_MS_DOWN),
  ("MS_LEFT", KC_MS_LEFT),
  ("MS_RIGHT", KC_MS_RIGHT),
  ("MS_BTN1", KC_MS_BTN1),
  ("MS_BTN2", KC_MS_BTN2),
  ("MS_BTN3", KC_MS_BTN3),
  ("MS_BTN4", KC_MS_BTN4),
  ("MS_BTN5", KC_MS_BTN5),
  ("MS_BTN6", KC_MS_BTN6),
  ("MS_BTN7", KC_MS_BTN7),
  ("MS_BTN8", KC_MS_BTN8),
  ("MS_WH_UP", KC_MS_WH_UP),
  ("MS_WH_DOWN", KC_MS_WH_DOWN),
  ("MS_WH_LEFT", KC_MS_WH_LEFT),
  ("MS_WH_RIGHT", KC_MS_WH_RIGHT),
  ("MS_ACCEL0", KC_MS_ACCEL0),
  ("MS_ACCEL1", KC_MS_ACCEL1),
  ("MS_ACCEL2", KC_MS_ACCEL2),
  ("BSPACE", KC_BACKSPACE),
  ("LBRACKET", KC_LEFT_BRACKET),
  ("RBRACKET", KC_RIGHT_BRACKET),
  ("BSLASH", KC_BACKSLASH),
  ("SCOLON", KC_SEMICOLON),
  ("CAPSLOCK", KC_CAPS_LOCK),
  ("PSCREEN", KC_PRINT_SCREEN),
  ("SCROLLLOCK", KC_SCROLL_LOCK),
  ("PGDOWN", KC_PAGE_DOWN),
  ("NUMLOCK", KC_NUM_LOCK),
  ("NONUS_BSLASH", KC_NONUS_BACKSLASH),
  ("POWER", KC_KB_POWER),
  ("_MUTE", KC_KB_MUTE),
  ("_VOLUP", KC_KB_VOLUME_UP),
  ("_VOLDOWN", KC_KB_VOLUME_DOWN),
  ("LOCKING_CAPS", KC_LOCKING_CAPS_LOCK),
  ("LOCKING_NUM", KC_LOCKING_NUM_LOCK),
  ("LOCKING_SCROLL", KC_LOCKING_SCROLL_LOCK),
  ("LANG1", KC_LANGUAGE_1),
  ("LANG2", KC_LANGUAGE_2),
  ("LANG3", KC_LANGUAGE_3),
  ("LANG4", KC_LANGUAGE_4),
  ("LANG5", KC_LANGUAGE_5),
  ("LANG6", KC_LANGUAGE_6),
  ("LANG7", KC_LANGUAGE_7),
  ("LANG8", KC_LANGUAGE_8),
  ("LANG9", KC_LANGUAGE_9),
  ("ALT_ERASE", KC_ALTERNATE_ERASE),
  ("SYSREQ", KC_SYSTEM_REQUEST),
  ("LSHIFT", KC_LEFT_SHIFT),
  ("RCTRL", KC_RIGHT_CTRL),
  ("RSHIFT", KC_RIGHT_SHIFT),
  ("RO", KC_INTERNATIONAL_1),
  ("KANA", KC_INTERNATIONAL_2),
  ("JYEN", KC_INTERNATIONAL_3),
  ("HENK", KC_INTERNATIONAL_4),
  ("MHEN", KC_INTERNATIONAL_5),
  ("HAEN", KC_LANGUAGE_1),
  ("HANJ", KC_LANGUAGE_2),
  ("SLCK", KC_SCROLL_LOCK),
  ("NLCK", KC_NUM_LOCK),
  ("FN_MO13", FN_MO13),
  ("FN_MO23", FN_MO23),
  ("MACRO00", MACRO00),
  ("MACRO01", MACRO01),
  ("MACRO02", MACRO02),
  ("MACRO03", MACRO03),
  ("MACRO04", MACRO04),
  ("MACRO05", MACRO05),
  ("MACRO06", MACRO06),
  ("MACRO07", MACRO07),
  ("MACRO08", MACRO08),
  ("MACRO09", MACRO09),
  ("MACRO10", MACRO10),
  ("MACRO11", MACRO11),
  ("MACRO12", MACRO12),
  ("MACRO13", MACRO13),
  ("MACRO14", MACRO14),
  ("MACRO15", MACRO15),
  ("USER00", USER00),
  ("USER01", USER01),
  ("USER02", USER02),
  ("USER03", USER03),
  ("USER04", USER04),
  ("USER05", USER05),
  ("USER06", USER06),
  ("USER07", USER07),
  ("USER08", USER08),
  ("USER09", USER09),
  ("USER10", USER10),
  ("USER11", USER11),
  ("USER12", USER12),
  ("USER13", USER13),
  ("USER14", USER14),
  ("USER15", USER15)]

/-- The scan of `strings.Replace(s, old, "", -1)` for a non-empty `old`: every
non-overlapping occurrence of `old`, found from the left, is removed. `skip`
is the number of characters of a matched occurrence still to drop. -/
def removeAux (old : List Char) : Nat → List Char → List Char
  | _, [] => []
  | skip + 1, _ :: rest => removeAux old skip rest
  | 0, c :: rest =>
    if old.isPrefixOf (c :: rest) then removeAux old (old.length - 1) rest
    else c :: removeAux old 0 rest

/-- `strings.Replace(s, old, "", -1)`. -/
def stringsRemove (s old : String) : String :=
  String.mk (removeAux old.data 0 s.data)

/-- `strings.ToUpper` on a string of ASCII characters; letters outside ASCII,
which Go maps by their Unicode case, are left as they are. -/
def asciiUpper (s : String) : String :=
  String.mk (s.data.map Char.toUpper)

/-- `func (k Keycode) Name() string`. -/
def Keycode.Name (k : Nat) : String :=
  match nameCases.lookup k with
  | some s => s
  | none => "UNKNOWN"

/-- `func KeycodeFromString(value string) (Keycode, error)`, with
`strings.ToUpper` passed in as `ToUpper`. -/
def KeycodeFromString (ToUpper : String → String) (value : String) :
    Nat × Option KeycodeError :=
  let value := stringsRemove value "\x7b"
  let value := stringsRemove value "\x7d"
  let value := stringsRemove value "KC_"
  match fromCases.lookup (ToUpper value) with
  | some k => (k, none)
  | none => (KC_NO, some KeycodeError.ErrorUnknownKeycode)

end keycode

/-! ## Colours (`rgblight/color.go`)

`strings` and `fmt` functions are modelled as far as `color.go` uses them:
`strings.Replace(s, old, "", -1)` is `keycode.stringsRemove`, `fmt.Sscanf` is
`Sscanf` over a parsed format, `fmt.Sprintf` is spelled out for the three
formats used. -/

/-- The ways `fmt.Sscanf` fails on the formats used here: input ends where a
literal or a number is due (`io.ErrUnexpectedEOF`), a literal of the format does
not match, a newline stands where white space is skipped, no digit starts a
number, the digits exceed 64 bits (`strconv.ErrRange`), the number exceeds the
operand's type. -/
inductive ScanError where
  | unexpectedEOF
  | inputDoesNotMatchFormat
  | unexpectedNewline
  | expectedInteger
  | valueOutOfRange
  | unsignedIntegerOverflow
  deriving DecidableEq, Repr

/-- One element of a scan format: a verb `%d` or `%x` (number base, optional
width, bit size of the unsigned operand) or a literal character. -/
inductive ScanItem where
  | verb (base : Nat) (width : Option Nat) (bits : Nat)
  | lit (c : Char)

/-- What `Sscanf` returns: the number of operands filled, the error (`none` is
`nil`) and the operands filled so far. -/
structure ScanResult where
  n : Nat
  err : Option ScanError
  vals : List Nat
  deriving DecidableEq, Repr

/-- White space as `fmt` sees it (`isSpace` in `fmt/scan.go`). -/
def fmtIsSpace (c : Char) : Bool :=
  let r := c.toNat
  (0x0009 ≤ r && r ≤ 0x000d) || r = 0x0020 || r = 0x0085 || r = 0x00a0 || r = 0x1680 ||
  (0x2000 ≤ r && r ≤ 0x200a) || (0x2028 ≤ r && r ≤ 0x2029) || r = 0x202f || r = 0x205f ||
  r = 0x3000

/-- `(*ss).SkipSpace` for `Sscanf`: white space is skipped, a newline is an
error. -/
def skipSpace : List Char → Except ScanError (List Char)
  | [] => .ok []
  | c :: rest =>
    if c = Char.ofNat 10 then .error ScanError.unexpectedNewline
    else if fmtIsSpace c then skipSpace rest
    else .ok (c :: rest)

/-- The value of a digit in the given base: `0-9`, and `a-f`, `A-F` in base 16. -/
def digitValue (base : Nat) (c : Char) : Option Nat :=
  let r := c.toNat
  if 48 ≤ r ∧ r ≤ 57 then some (r - 48)
  else if base = 16 ∧ 97 ≤ r ∧ r ≤ 102 then some (r - 87)
  else if base = 16 ∧ 65 ≤ r ∧ r ≤ 70 then some (r - 55)
  else none

/-- The loop `for s.accept(digits) {}` of `scanNumber`: the digits read (as
values), at most `limit` of them when a width is given, and the input left. -/
def takeDigits (base : Nat) : Option Nat → List Char → List Nat × List Char
  | _, [] => ([], [])
  | some 0, input => ([], input)
  | limit, c :: rest =>
    match digitValue base c with
    | none => ([], c :: rest)
    | some d =>
      let r := takeDigits base (limit.map (· - 1)) rest
      (d :: r.1, r.2)

/-- `(*ss).scanUint` for the verbs `d` and `x` after the white space is
skipped: a non-empty run of digits, `strconv.ParseUint(tok, base, 64)`, and the
overflow check against the operand's bit size. -/
def scanUint (base : Nat) (width : Option Nat) (bits : Nat) (input : List Char) :
    Except ScanError (Nat × List Char) :=
  match input with
  | [] => .error ScanError.unexpectedEOF
  | _ :: _ =>
    if width = some 0 then .error ScanError.unexpectedEOF
    else
      let r := takeDigits base width input
      if r.1 = [] then .error ScanError.expectedInteger
      else
        let i := r.1.foldl (fun acc d => acc * base + d) 0
        if i ≥ 2 ^ 64 then .error ScanError.valueOutOfRange
        else if i ≥ 2 ^ bits then .error ScanError.unsignedIntegerOverflow
        else .ok (i, r.2)

/-- `(*ss).doScanf`: the format is worked off item by item; the first failure
ends the scan with the operands filled so far. Input left over is ignored. -/
def doScanf : List ScanItem → List Char → List Nat → ScanResult
  | [], _, vals => ⟨vals.length, none, vals⟩
  | ScanItem.lit c :: items, input, vals =>
    match input with
    | [] => ⟨vals.length, some ScanError.unexpectedEOF, vals⟩
    | x :: rest =>
      if x = c then doScanf items rest vals
      else ⟨vals.length, some ScanError.inputDoesNotMatchFormat, vals⟩
  | ScanItem.verb base width bits :: items, input, vals =>
    match skipSpace input with
    | .error e => ⟨vals.length, some e, vals⟩
    | .ok input1 =>
      match scanUint base width bits input1 with
      | .error e => ⟨vals.length, some e, vals⟩
      | .ok (v, input2) => doScanf items input2 (vals ++ [v])

/-- `fmt.Sscanf(str, format, ...)` with the format given as items. -/
def Sscanf (str : String) (format : List ScanItem) : ScanResult :=
  doScanf format str.data []

/-- `fmt.Sprintf("%d", n)` for an unsigned `n`. -/
def sprintDecimal (n : Nat) : String := String.mk (Nat.toDigits 10 n)

/-- `fmt.Sprintf("%02x", n)` for an unsigned `n`. -/
def sprintHex02 (n : Nat) : String :=
  String.mk (if (Nat.toDigits 16 n).length < 2 then '0' :: Nat.toDigits 16 n
    else Nat.toDigits 16 n)

/-- `strings.HasPrefix(s, prefix)`. -/
def stringsHasPrefix (s pre : String) : Bool := pre.data.isPrefixOf s.data

/-- `strings.ToLower` on a string of ASCII characters; letters outside ASCII,
which Go maps by their Unicode case, are left as they are. -/
def asciiLower (s : String) : String := String.mk (s.data.map Char.toLower)

/-- `math.Mod(x, y)` for `y ≠ 0`: `x - y * trunc(x / y)`, the sign of `x`. -/
def mathMod (x y : ℚ) : ℚ :=
  x - y * (if 0 ≤ x / y then ⌊x / y⌋ else ⌈x / y⌉)

/-- A `float64` quotient whose divisor may be zero; `none` is the NaN (or
infinity) that a zero divisor gives. -/
def floatDiv (x y : ℚ) : Option ℚ := if y = 0 then none else some (x / y)

/-- The value of `uint8(f)` and `uint16(f)` for a NaN `f`. Go leaves it to the
implementation; the gc compiler gives 0 on amd64 and arm64, and the
repository's `TestRGBToHSV` (white is `hsv(0,0,100)`) holds there. -/
def nanBits : Nat := 0

/-- `uint8(math.Round(f))`. -/
def roundToUint8 (f : Option ℚ) : Nat :=
  match f with
  | none => nanBits
  | some q => toUint8 (mathRound q)

/-- `uint16(math.Round(f))`. -/
def roundToUint16 (f : Option ℚ) : Nat :=
  match f with
  | none => nanBits
  | some q => toUint16 (mathRound q)

namespace rgblight

/-- The errors `ColorFromString` returns: `ErrorUnknownColorFormat` or the
error of `fmt.Sscanf`. -/
inductive ColorError where
  | ErrorUnknownColorFormat
  | scan (e : ScanError)
  deriving DecidableEq, Repr

/-- `type hsvColor struct`. -/
structure hsvColor where
  Hue : Nat
  Saturation : Nat
  Brightness : Nat
  deriving DecidableEq, Repr

/-- `type rgbColor struct`. -/
structure rgbColor where
  Red : Nat
  Green : Nat
  Blue : Nat
  deriving DecidableEq, Repr

/-- `type Color hsvColor`. -/
abbrev Color := hsvColor

/-- `func (c hsvColor) toString() string`. -/
def hsvColor.toString (c : hsvColor) : String :=
  "hsv(" ++ sprintDecimal c.Hue ++ "," ++ sprintDecimal c.Saturation ++ "," ++
    sprintDecimal c.Brightness ++ ")"

/-- `func (c hsvColor) toRGB() rgbColor`. The code computes in float64, this
definition in exact rationals: the two give the same bytes at each of the 19
named colours, the only inputs the properties below evaluate it at, and differ
at some other inputs, where the rational value lies on a rounding boundary and
the float64 value just below it (`hsv(0,90,100)` is `(255,26,26)` here and
`(255,25,25)` in the code). -/
def hsvColor.toRGB (c : hsvColor) : rgbColor :=
  let h : ℚ := c.Hue
  let s : ℚ := (c.Saturation : ℚ) / 100
  let v : ℚ := (c.Brightness : ℚ) / 100
  let d := s * v
  let x := d * (1 - |mathMod (h / 60) 2 - 1|)
  let m := v - d
  let rgb : ℚ × ℚ × ℚ :=
    if 0 ≤ h ∧ h < 60 then (d, x, 0)
    else if 60 ≤ h ∧ h < 120 then (x, d, 0)
    else if 120 ≤ h ∧ h < 180 then (0, d, x)
    else if 180 ≤ h ∧ h < 240 then (0, x, d)
    else if 240 ≤ h ∧ h < 300 then (x, 0, d)
    else (d, 0, x)
  let rv := toUint8 (mathRound ((rgb.1 + m) * 255))
  let gv := toUint8 (mathRound ((rgb.2.1 + m) * 255))
  let bv := toUint8 (mathRound ((rgb.2.2 + m) * 255))
  ⟨rv, gv, bv⟩

/-- `func (c hsvColor) toColor() Color`. -/
def hsvColor.toColor (c : hsvColor) : Color := c

/-- `func (c rgbColor) toString() string`. -/
def rgbColor.toString (c : rgbColor) : String :=
  "rgb(" ++ sprintDecimal c.Red ++ "," ++ sprintDecimal c.Green ++ "," ++
    sprintDecimal c.Blue ++ ")"

/-- `func (c rgbColor) toHexString() string`. -/
def rgbColor.toHexString (c : rgbColor) : String :=
  "#" ++ sprintHex02 c.Red ++ sprintHex02 c.Green ++ sprintHex02 c.Blue

/-- `func (c rgbColor) toHSV() hsvColor`. -/
def rgbColor.toHSV (c : rgbColor) : hsvColor :=
  let r : ℚ := c.Red
  let g : ℚ := c.Green
  let b : ℚ := c.Blue
  let cmax := max r (max g b)
  let cmin := min r (min g b)
  let diff := cmax - cmin
  let s := roundToUint8 (floatDiv (diff * 100) cmax)
  let l := toUint8 (mathRound ((cmax * 100) / 255))
  if cmax = 0 then
    ⟨0, 0, l⟩
  else if cmax = r then
    ⟨roundToUint16 ((floatDiv (g - b) diff).map (fun q => 60 * q + 360)) % 360, s, l⟩
  else if cmax = g then
    ⟨roundToUint16 ((floatDiv (b - r) diff).map (fun q => 60 * q + 120)) % 360, s, l⟩
  else if cmax = b then
    ⟨roundToUint16 ((floatDiv (r - g) diff).map (fun q => 60 * q + 240)) % 360, s, l⟩
  else
    ⟨0, s, l⟩

/-- `func (c rgbColor) toColor() Color`. -/
def rgbColor.toColor (c : rgbColor) : Color := c.toHSV.toColor

def ColorBlack : Color := ⟨0, 0, 0⟩
def ColorWhite : Color := ⟨0, 0, 100⟩
def ColorRed : Color := ⟨0, 100, 100⟩
def ColorCoral : Color := ⟨16, 69, 100⟩
def ColorGold : Color := ⟨42, 100, 85⟩
def ColorOrange : Color := ⟨40, 100, 100⟩
def ColorGoldenrod : Color := ⟨43, 85, 85⟩
def ColorYellow : Color := ⟨61, 100, 100⟩
def ColorChartreuse : Color := ⟨90, 100, 100⟩
def ColorGreen : Color := ⟨120, 100, 100⟩
def ColorSpringGreen : Color := ⟨150, 100, 100⟩
def ColorTurquoise : Color := ⟨174, 35, 44⟩
def ColorTeal : Color := ⟨181, 100, 50⟩
def ColorCyan : Color := ⟨181, 100, 100⟩
def ColorAzure : Color := ⟨186, 40, 100⟩
def ColorBlue : Color := ⟨240, 100, 100⟩
def ColorPurple : Color := ⟨270, 100, 100⟩
def ColorMagenta : Color := ⟨301, 100, 100⟩
def ColorPink : Color := ⟨330, 50, 100⟩

def ColorOff : Color := ColorBlack

/-- `func (c Color) toHSV() hsvColor`. -/
def Color.toHSV (c : Color) : hsvColor := c

/-- `func (c Color) toRGB() rgbColor`. -/
def Color.toRGB (c : Color) : rgbColor := hsvColor.toRGB c

/-- `func (c Color) ToStringHSV() string`. -/
def Color.ToStringHSV (c : Color) : String := (Color.toHSV c).toString

/-- `func (c Color) ToStringRGB() string`. -/
def Color.ToStringRGB (c : Color) : String := (Color.toRGB c).toString

/-- `func (c Color) ToStringHEX() string`. -/
def Color.ToStringHEX (c : Color) : String := (Color.toRGB c).toHexString

/-- `func AllColors() []Color`. -/
def AllColors : List Color :=
  [ColorBlack, ColorWhite, ColorRed, ColorCoral, ColorOrange, ColorGold, ColorGoldenrod,
   ColorYellow, ColorChartreuse, ColorGreen, ColorSpringGreen, ColorTurquoise, ColorTeal,
   ColorCyan, ColorAzure, ColorBlue, ColorPurple, ColorMagenta, ColorPink]

/-- The cases of the `switch c` in `Color.Name`, in source order. -/
def colorNameCases : List (Color × String) := [
  (ColorBlack, "Black"),
  (ColorWhite, "White"),
  (ColorRed, "Red"),
  (ColorCoral, "Coral"),
  (ColorOrange, "Orange"),
  (ColorGold, "Gold"),
  (ColorGoldenrod, "Goldenrod"),
  (ColorYellow, "Yellow"),
  (ColorChartreuse, "Chartreuse"),
  (ColorGreen, "Green"),
  (ColorSpringGreen, "SpringGreen"),
  (ColorTurquoise, "Turquoise"),
  (ColorTeal, "Teal"),
  (ColorCyan, "Cyan"),
  (ColorAzure, "Azure"),
  (ColorBlue, "Blue"),
  (ColorPurple, "Purple"),
  (ColorMagenta, "Magenta"),
  (ColorPink, "Pink")]

/-- `func (c Color) Name() string`. -/
def Color.Name (c : Color) : String :=
  match colorNameCases.lookup c with
  | some s => s
  | none => "Unknown"

/-- The cases of the `switch s` in `ColorFromString`, in source order. -/
def colorFromCases : List (String × Color) := [
  ("black", ColorBlack),
  ("white", ColorWhite),
  ("red", ColorRed),
  ("coral", ColorCoral),
  ("orange", ColorOrange),
  ("gold", ColorGold),
  ("goldenrod", ColorGoldenrod),
  ("yellow", ColorYellow),
  ("chartreuse", ColorChartreuse),
  ("green", ColorGreen),
  ("springgreen", ColorSpringGreen),
  ("turquoise", ColorTurquoise),
  ("teal", ColorTeal),
  ("cyan", ColorCyan),
  ("azure", ColorAzure),
  ("blue", ColorBlue),
  ("purple", ColorPurple),
  ("magenta", ColorMagenta),
  ("pink", ColorPink)]

/-- The format `"%d,%d,%d"` with operands of the given bit sizes. -/
def formatDecimal3 (b1 b2 b3 : Nat) : List ScanItem :=
  [ScanItem.verb 10 none b1, ScanItem.lit ',', ScanItem.verb 10 none b2, ScanItem.lit ',',
   ScanItem.verb 10 none b3]

/-- The format `"%2x%2x%2x"` with three `uint8` operands. -/
def formatHex3 : List ScanItem :=
  [ScanItem.verb 16 (some 2) 8, ScanItem.verb 16 (some 2) 8, ScanItem.verb 16 (some 2) 8]

/-- `func parseHSV(value string) (Color, error)`. -/
def parseHSV (value : String) : Color × Option ColorError :=
  let str := keycode.stringsRemove value "hsv("
  let str := keycode.stringsRemove str ")"
  let r := Sscanf str (formatDecimal3 16 8 8)
  if r.err ≠ none ∨ r.n ≠ 3 then
    (ColorOff, r.err.map ColorError.scan)
  else
    let h := r.vals.getD 0 0
    let s := r.vals.getD 1 0
    let v := r.vals.getD 2 0
    if h > 360 ∨ s > 100 ∨ v > 100 then
      (ColorOff, some ColorError.ErrorUnknownColorFormat)
    else
      (hsvColor.toColor ⟨h, s, v⟩, none)

/-- `func parseRGB(value string) (Color, error)`. -/
def parseRGB (value : String) : Color × Option ColorError :=
  let s := keycode.stringsRemove value "rgb("
  let s := keycode.stringsRemove s ")"
  let r := Sscanf s (formatDecimal3 8 8 8)
  if r.err ≠ none ∨ r.n ≠ 3 then
    (ColorOff, r.err.map ColorError.scan)
  else
    (rgbColor.toColor ⟨r.vals.getD 0 0, r.vals.getD 1 0, r.vals.getD 2 0⟩, none)

/-- `func parseHex(value string) (Color, error)`; `len(s)` counts bytes. -/
def parseHex (value : String) : Color × Option ColorError :=
  let s := keycode.stringsRemove value "#"
  if s.utf8ByteSize ≠ 6 then
    (ColorOff, some ColorError.ErrorUnknownColorFormat)
  else
    let r := Sscanf s formatHex3
    if r.err ≠ none ∨ r.n ≠ 3 then
      (ColorOff, r.err.map ColorError.scan)
    else
      (rgbColor.toColor ⟨r.vals.getD 0 0, r.vals.getD 1 0, r.vals.getD 2 0⟩, none)

/-- `func ColorFromString(value string) (Color, error)`, with
`strings.ToLower` passed in as `ToLower`. -/
def ColorFromString (ToLower : String → String) (value : String) :
    Color × Option ColorError :=
  let s := ToLower value
  let s := keycode.stringsRemove s " "
  let s := keycode.stringsRemove s "color"
  if stringsHasPrefix s "hsv" then parseHSV s
  else if stringsHasPrefix s "rgb" then parseRGB s
  else if stringsHasPrefix s "#" then parseHex s
  else
    match colorFromCases.lookup s with
    | some c => (c, none)
    | none => (ColorOff, some ColorError.ErrorUnknownColorFormat)

end rgblight

/-! ## Effects (`backlight/effect.go`, `rgblight/effect.go`)

`Effect` is a `uint8` in both packages; the constants are numbered by `iota`. -/

namespace backlight

def EffectBreathingOff : Nat := 0
def EffectBreathingOn : Nat := 1
def EffectUnknown : Nat := 2

/-- `func EffectFromByte(value byte) Effect`. -/
def EffectFromByte (value : Nat) : Nat := value % 256

/-- `func (e Effect) ToByte() byte`. -/
def Effect.ToByte (e : Nat) : Nat := e % 256

/-- The cases of the `switch e` in `Effect.Name`, in source order. -/
def effectNameCases : List (Nat × String) := [
  (EffectBreathingOff, "Breathing Off"),
  (EffectBreathingOn, "Breathing On")]

/-- `func (e Effect) Name() string`. -/
def Effect.Name (e : Nat) : String :=
  match effectNameCases.lookup e with
  | some s => s
  | none => "Unknown"

/-- The cases of the `switch s` in `EffectFromString`, in source order. -/
def effectFromCases : List (String × Nat) := [
  ("off", EffectBreathingOff),
  ("breathingoff", EffectBreathingOff),
  ("on", EffectBreathingOn),
  ("breathing", EffectBreathingOn),
  ("breathingon", EffectBreathingOn)]

/-- `func EffectFromString(value string) Effect`, with `strings.ToLower` passed
in as `ToLower`. -/
def EffectFromString (ToLower : String → String) (value : String) : Nat :=
  let s := ToLower value
  let s := keycode.stringsRemove s " "
  let s := keycode.stringsRemove s "effect"
  match effectFromCases.lookup s with
  | some e => e
  | none => EffectUnknown

end backlight

namespace rgblight

def EffectAllOff : Nat := 0
def EffectSolidColor : Nat := 1
def EffectBreathing1 : Nat := 2
def EffectBreathing2 : Nat := 3
def EffectBreathing3 : Nat := 4
def EffectBreathing4 : Nat := 5
def EffectRainbowMood1 : Nat := 6
def EffectRainbowMood2 : Nat := 7
def EffectRainbowMood3 : Nat := 8
def EffectRainbowSwirl1 : Nat := 9
def EffectRainbowSwirl2 : Nat := 10
def EffectRainbowSwirl3 : Nat := 11
def EffectRainbowSwirl4 : Nat := 12
def EffectRainbowSwirl5 : Nat := 13
def EffectRainbowSwirl6 : Nat := 14
def EffectSnake1 : Nat := 15
def EffectSnake2 : Nat := 16
def EffectSnake3 : Nat := 17
def EffectSnake4 : Nat := 18
def EffectSnake5 : Nat := 19
def EffectSnake6 : Nat := 20
def EffectKnight1 : Nat := 21
def EffectKnight2 : Nat := 22
def EffectKnight3 : Nat := 23
def EffectChristmas : Nat := 24
def EffectGradient1 : Nat := 25
def EffectGradient2 : Nat := 26
def EffectGradient3 : Nat := 27
def EffectGradient4 : Nat := 28
def EffectGradient5 : Nat := 29
def EffectGradient6 : Nat := 30
def EffectGradient7 : Nat := 31
def EffectGradient8 : Nat := 32
def EffectGradient9 : Nat := 33
def EffectGradient10 : Nat := 34
def EffectRGBTest : Nat := 35
def EffectAlternating : Nat := 36
def EffectUnknown : Nat := 37

/-- `func EffectFromByte(value byte) Effect`. -/
def EffectFromByte (value : Nat) : Nat := value % 256

/-- `func (e Effect) ToByte() byte`. -/
def Effect.ToByte (e : Nat) : Nat := e % 256

/-- The cases of the `switch e` in `Effect.Name`, in source order. -/
def effectNameCases : List (Nat × String) := [
  (EffectAllOff, "All Off"),
  (EffectSolidColor, "Solid Color"),
  (EffectBreathing1, "Breathing 1"),
  (EffectBreathing2, "Breathing 2"),
  (EffectBreathing3, "Breathing 3"),
  (EffectBreathing4, "Breathing 4"),
  (EffectRainbowMood1, "Rainbow Mood 1"),
  (EffectRainbowMood2, "Rainbow Mood 2"),
  (EffectRainbowMood3, "Rainbow Mood 3"),
  (EffectRainbowSwirl1, "Rainbow Swirl 1"),
  (EffectRainbowSwirl2, "Rainbow Swirl 2"),
  (EffectRainbowSwirl3, "Rainbow Swirl 3"),
  (EffectRainbowSwirl4, "Rainbow Swirl 4"),
  (EffectRainbowSwirl5, "Rainbow Swirl 5"),
  (EffectRainbowSwirl6, "Rainbow Swirl 6"),
  (EffectSnake1, "Snake 1"),
  (EffectSnake2, "Snake 2"),
  (EffectSnake3, "Snake 3"),
  (EffectSnake4, "Snake 4"),
  (EffectSnake5, "Snake 5"),
  (EffectSnake6, "Snake 6"),
  (EffectKnight1, "Knight 1"),
  (EffectKnight2, "Knight 2"),
  (EffectKnight3, "Knight 3"),
  (EffectChristmas, "Christmas"),
  (EffectGradient1, "Gradient 1"),
  (EffectGradient2, "Gradient 2"),
  (EffectGradient3, "Gradient 3"),
  (EffectGradient4, "Gradient 4"),
  (EffectGradient5, "Gradient 5"),
  (EffectGradient6, "Gradient 6"),
  (EffectGradient7, "Gradient 7"),
  (EffectGradient8, "Gradient 8"),
  (EffectGradient9, "Gradient 9"),
  (EffectGradient10, "Gradient 10"),
  (EffectRGBTest, "RGB Test"),
  (EffectAlternating, "Alternating")]

/-- `func (e Effect) Name() string`. -/
def Effect.Name (e : Nat) : String :=
  match effectNameCases.lookup e with
  | some s => s
  | none => "Unknown"

/-- The cases of the `switch s` in `EffectFromString`, in source order. -/
def effectFromCases : List (String × Nat) := [
  ("off", EffectAllOff),
  ("alloff", EffectAllOff),
  ("solid", EffectSolidColor),
  ("static", EffectSolidColor),
  ("color", EffectSolidColor),
  ("solidcolor", EffectSolidColor),
  ("staticcolor", EffectSolidColor),
  ("breathing", EffectBreathing1),
  ("breathing1", EffectBreathing1),
  ("breathing2", EffectBreathing2),
  ("breathing3", EffectBreathing3),
  ("breathing4", EffectBreathing4),
  ("mood", EffectRainbowMood1),
  ("mood1", EffectRainbowMood1),
  ("rainbowmood", EffectRainbowMood1),
  ("rainbowmood1", EffectRainbowMood1),
  ("mood2", EffectRainbowMood2),
  ("rainbowmood2", EffectRainbowMood2),
  ("mood3", EffectRainbowMood3),
  ("rainbowmood3", EffectRainbowMood3),
  ("swirl", EffectRainbowSwirl1),
  ("swirl1", EffectRainbowSwirl1),
  ("rainbowswirl", EffectRainbowSwirl1),
  ("rainbowswirl1", EffectRainbowSwirl1),
  ("swirl2", EffectRainbowSwirl2),
  ("rainbowswirl2", EffectRainbowSwirl2),
  ("swirl3", EffectRainbowSwirl3),
  ("rainbowswirl3", EffectRainbowSwirl3),
  ("swirl4", EffectRainbowSwirl4),
  ("rainbowswirl4", EffectRainbowSwirl4),
  ("swirl5", EffectRainbowSwirl5),
  ("rainbowswirl5", EffectRainbowSwirl5),
  ("swirl6", EffectRainbowSwirl6),
  ("rainbowswirl6", EffectRainbowSwirl6),
  ("snake", EffectSnake1),
  ("snake1", EffectSnake1),
  ("snake2", EffectSnake2),
  ("snake3", EffectSnake3),
  ("snake4", EffectSnake4),
  ("snake5", EffectSnake5),
  ("snake6", EffectSnake6),
  ("knight", EffectKnight1),
  ("knight1", EffectKnight1),
  ("knight2", EffectKnight2),
  ("knight3", EffectKnight3),
  ("christmas", EffectChristmas),
  ("gradient", EffectGradient1),
  ("gradient1", EffectGradient1),
  ("gradient2", EffectGradient2),
  ("gradient3", EffectGradient3),
  ("gradient4", EffectGradient4),
  ("gradient5", EffectGradient5),
  ("gradient6", EffectGradient6),
  ("gradient7", EffectGradient7),
  ("gradient8", EffectGradient8),
  ("gradient9", EffectGradient9),
  ("gradient10", EffectGradient10),
  ("test", EffectRGBTest),
  ("rgbtest", EffectRGBTest),
  ("alternating", EffectAlternating)]

/-- `func EffectFromString(value string) Effect`, with `strings.ToLower` passed
in as `ToLower`. -/
def EffectFromString (ToLower : String → String) (value : String) : Nat :=
  let s := ToLower value
  let s := keycode.stringsRemove s " "
  let s := keycode.stringsRemove s "effect"
  match effectFromCases.lookup s with
  | some e => e
  | none => EffectUnknown

end rgblight
/-! ## Keyboard values, lighting and keymap buffers (`client.go`) -/

/-- `GetProtocolVersion() (uint16, error)`. -/
def GetProtocolVersion {σ : Type} (d : Device σ) (c : Client σ) :
    Except Error Nat × Client σ :=
  let s := sendMessage d c (hidFrame [GetProtocolVersionId]) 20
  match s.err with
  | some e => (.error e, s.client)
  | none => (.ok ((s.message.getD 1 0 * 256 % 65536) ||| s.message.getD 2 0), s.client)

/-- `GetLayoutOptions() (uint32, error)`. -/
def GetLayoutOptions {σ : Type} (d : Device σ) (c : Client σ) :
    Except Error Nat × Client σ :=
  let s := sendMessage d c (hidFrame [GetKeyboardValueId, LayoutOptionsId]) 20
  match s.err with
  | some e => (.error e, s.client)
  | none =>
    (.ok ((s.message.getD 2 0 <<< 24 % 2 ^ 32) ||| (s.message.getD 3 0 <<< 16 % 2 ^ 32) |||
      (s.message.getD 4 0 <<< 8 % 2 ^ 32) ||| s.message.getD 5 0), s.client)

/-- `SetLayoutOptions(options uint32) error`. -/
def SetLayoutOptions {σ : Type} (d : Device σ) (c : Client σ) (options : Nat) :
    Except Error Unit × Client σ :=
  let buffer := hidFrame [GetKeyboardValueId, LayoutOptionsId,
    ((options >>> 24) &&& 0xFF) % 256, ((options >>> 16) &&& 0xFF) % 256,
    ((options >>> 8) &&& 0xFF) % 256, (options &&& 0xFF) % 256]
  let s := sendMessage d c buffer 20
  match s.err with
  | some e => (.error e, s.client)
  | none => (.ok (), s.client)

/-- `GetRgblightBrightness() (rgblight.Brightness, error)`. -/
def GetRgblightBrightness {σ : Type} (d : Device σ) (c : Client σ) :
    Except Error Nat × Client σ :=
  let s := sendMessage d c (hidFrame [LightingGetValueId, RgblightBrightnessId]) 20
  match s.err with
  | some e => (.error e, s.client)
  | none => (.ok (rgblight.BrightnessFromByte (s.message.getD 2 0)), s.client)

/-- `GetRgblightColor() (rgblight.Color, error)`; on an error the colour
returned with it is `ColorOff`. -/
def GetRgblightColor {σ : Type} (d : Device σ) (c : Client σ) :
    Except Error rgblight.Color × Client σ :=
  let s := sendMessage d c (hidFrame [LightingGetValueId, RgblightColorId]) 20
  match s.err with
  | some e => (.error e, s.client)
  | none =>
    let hue := rgblight.HueFromByte (s.message.getD 2 0)
    let sat := rgblight.SaturationFromByte (s.message.getD 3 0)
    match GetRgblightBrightness d s.client with
    | (.error e, c1) => (.error e, c1)
    | (.ok val, c1) => (.ok ⟨hue, sat, val⟩, c1)

/-- `SetRgblightBrightness(brightness rgblight.Brightness) error`. -/
def SetRgblightBrightness {σ : Type} (d : Device σ) (c : Client σ) (brightness : Nat) :
    Except Error Unit × Client σ :=
  let buffer := hidFrame [LightingSetValueId, RgblightBrightnessId,
    rgblight.Brightness.ToByte brightness]
  let s := sendMessage d c buffer 20
  match s.err with
  | some e => (.error e, s.client)
  | none => (.ok (), s.client)

/-- `SetRgblightEffect(effect rgblight.Effect) error`. Both calls of
`sendMessage` get `buffer[:]`, a slice of the same array: the second call sends
what the first one left in it. -/
def SetRgblightEffect {σ : Type} (d : Device σ) (c : Client σ) (effect : Nat) :
    Except Error Unit × Client σ :=
  let buffer := hidFrame [LightingSetValueId, RgblightEffectId, rgblight.Effect.ToByte effect]
  let s := sendMessage d c buffer 20
  match s.err with
  | some e => (.error e, s.client)
  | none =>
    let s2 := sendMessage d s.client s.message 20
    match s2.err with
    | some e => (.error e, s2.client)
    | none => (.ok (), s2.client)

/-- `SetRgblightColor(color rgblight.Color, setBrightness bool) error`. -/
def SetRgblightColor {σ : Type} (d : Device σ) (c : Client σ) (color : rgblight.Color)
    (setBrightness : Bool) : Except Error Unit × Client σ :=
  let buffer := hidFrame [LightingSetValueId, RgblightColorId,
    rgblight.Hue.ToByte color.Hue, rgblight.Saturation.ToByte color.Saturation]
  let s := sendMessage d c buffer 20
  match s.err with
  | some e => (.error e, s.client)
  | none =>
    if setBrightness then SetRgblightBrightness d s.client color.Brightness
    else (.ok (), s.client)

/-- `GetDynamicKeymapBuffer(offset uint16, size uint8) ([]byte, error)`; the
result is `buffer[4:]`. -/
def GetDynamicKeymapBuffer {σ : Type} (d : Device σ) (c : Client σ)
    (offset size : Nat) : Except Error (List Nat) × Client σ :=
  let s := sendMessage d c
    (hidFrame [DynamicKeymapGetBufferId, (offset >>> 8) &&& 0xFF, offset &&& 0xFF,
      size % 256]) 20
  match s.err with
  | some e => (.error e, s.client)
  | none => (.ok (s.message.drop 4), s.client)

/-- `SetDynamicKeymapBuffer(offset uint16, size uint8, value []byte) error`. -/
def SetDynamicKeymapBuffer {σ : Type} (d : Device σ) (c : Client σ)
    (offset size : Nat) (value : List Nat) : Except Error Unit × Client σ :=
  if size ≤ 0 ∨ size > MaxDynamicKeymapBufferSize then
    (.error Error.BadBufferSize, c)
  else
    let size := if value.length % 256 < size then value.length % 256 else size
    let buffer := hidFrame [DynamicKeymapSetBufferId, (offset >>> 8) &&& 0xFF,
      offset &&& 0xFF, size % 256]
    let buffer := fillPayload value size 0 buffer
    let s := sendMessage d c buffer 20
    match s.err with
    | some e => (.error e, s.client)
    | none => (.ok (), s.client)

/-! ## Discovery and connection (`keyboard.go`, `NewClient`)

The `hid` library and the operating system behind it are a `Host`: a world
state `ω`, the enumeration of the attached devices and `Open`, which may fail
and may change the world. `sort.Sort` is passed in as `sort`. -/

/-- The fields of `hid.DeviceInfo` that the package reads. -/
structure DeviceInfo where
  VendorID : Nat
  ProductID : Nat
  Serial : String
  UsagePage : Nat
  Usage : Nat
  Product : String
  deriving DecidableEq, Repr

/-- `type Keyboard = hid.DeviceInfo`. -/
abbrev Keyboard := DeviceInfo

/-- The `hid` library: `hid.Enumerate(vendorID, productID)` and
`(DeviceInfo).Open()`, which returns a device handle (its state) or an error. -/
structure Host (ω σ : Type) where
  Enumerate : ω → Nat → Nat → List DeviceInfo
  Open : ω → DeviceInfo → Except Error σ × ω

/-- `func ListKeyboards() ([]Keyboard, error)`. -/
def ListKeyboards {ω σ : Type} (h : Host ω σ) (sort : List Keyboard → List Keyboard)
    (w : ω) : Except Error (List Keyboard) :=
  let devices := h.Enumerate w 0 0
  let keyboards := devices.filter
    (fun dev => dev.UsagePage = HidUsagePage ∧ dev.Usage = HidUsage)
  if keyboards.length = 0 then .error Error.NoKeyboardsFound
  else .ok (sort keyboards)

/-- The value `&client{device}`: the opened handle, which carries the
`DeviceInfo` it was opened from, as a client state. -/
structure Connection (σ : Type) where
  info : DeviceInfo
  client : Client σ

/-- What `NewClient` returns, `(Client, error)`, with the world it leaves and
the `Open` calls it made, oldest first. -/
structure Connect (ω σ : Type) where
  client : Option (Connection σ)
  err : Option Error
  world : ω
  opens : List DeviceInfo

/-- The loop `for i := 0; i < 20; i++` of `NewClient`, by the number of
iterations still to run; `err` is the variable that `di.Open()` assigns.
`cache` is the package variable `dynamicKeymapMacroCache` at the call. -/
def openLoop {ω σ : Type} (h : Host ω σ) (d : Device σ) (cache : Option (List Nat))
    (di : DeviceInfo) : Nat → ω → Option Error → List DeviceInfo → Connect ω σ
  | 0, w, err, opens => ⟨none, err, w, opens⟩
  | n + 1, w, _, opens =>
    match h.Open w di with
    | (.error e, w1) => openLoop h d cache di n w1 (some e) (opens ++ [di])
    | (.ok device, w1) =>
      match GetProtocolVersion d ⟨device, cache, []⟩ with
      | (.error e, _) => ⟨none, some e, w1, opens ++ [di]⟩
      | (.ok version, c) =>
        if version ≠ ViaProtocolVersion then
          ⟨none, some Error.VersionMismatch, w1, opens ++ [di]⟩
        else
          ⟨some ⟨di, c⟩, none, w1, opens ++ [di]⟩

set_option linter.unusedVariables false in
/-- `func NewClient(vid uint16, pid uint16, serial string) (Client, error)`.
`serials[0]` exists after the length check; the panic branch stands for the
index out of range and is never taken. -/
def NewClient {ω σ : Type} (h : Host ω σ) (sort : List Keyboard → List Keyboard)
    (d : Device σ) (cache : Option (List Nat)) (w : ω) (vid pid : Nat) (serial : String) :
    Connect ω σ :=
  match ListKeyboards h sort w with
  | .error e => ⟨none, some e, w, []⟩
  | .ok keyboards =>
    let serials := keyboards.filter (fun k => serial = "" ∨ k.Serial = serial)
    if serials.length = 0 then
      ⟨none, some Error.NoMatchingDevice, w, []⟩
    else
      match serials with
      | [] => ⟨none, some Error.RuntimePanic, w, []⟩
      | di :: _ => openLoop h d cache di 20 w none []

/-! ## Notions used to state the properties -/

/-- One attempt of the transport, taken on its own: a write of the frame and,
when the write transferred 32 bytes without error, a read into the same
buffer. `completed` says that both the write and the read transferred 32 bytes
without error. -/
structure Attempt (σ : Type) where
  completed : Bool
  message : List Nat
  client : Client σ

/-- A single attempt from client state `c` with buffer contents `message`. -/
def attempt {σ : Type} (d : Device σ) (c : Client σ) (message : List Nat) : Attempt σ :=
  let w := d.Write c.device message
  if w.err = true ∨ w.n ≠ 32 then
    ⟨false, message, { c with device := w.state, log := c.log ++ [Event.write message] }⟩
  else
    let r := d.Read w.state
    ⟨decide (r.err = false ∧ r.n = 32), copyInto message r.data,
      { c with device := r.state, log := c.log ++ [Event.write message] ++ [Event.read] }⟩

/-- The attempt number `k` (counted from 0) of an unbounded sequence of
attempts, each starting from the state and buffer the previous one left. -/
def nthAttempt {σ : Type} (d : Device σ) : Nat → Client σ → List Nat → Attempt σ
  | 0, c, message => attempt d c message
  | k + 1, c, message =>
    nthAttempt d k (attempt d c message).client (attempt d c message).message

/-- The number of `Write` calls recorded in a trace. -/
def writeCalls : List Event → Nat
  | [] => 0
  | Event.write _ :: rest => writeCalls rest + 1
  | Event.read :: rest => writeCalls rest

/-- The error `sendMessage` returns after a completed attempt, from the reply
byte 0. -/
def verdict (reply : List Nat) : Option Error :=
  if reply.getD 0 0 = 0xFF then some Error.UnknownCommand else none

/-- A device on which every write fails with an error. -/
def deadDevice : Device Unit where
  Write := fun _ _ => ⟨(), -1, true⟩
  Read := fun _ => ⟨(), [], -1, true⟩

/-- A fresh client state over the faithful device holding `macros` and
reporting `count` macros: empty cache, empty trace. -/
def freshClient (macros : List Nat) (count : Nat) : Client Firmware :=
  ⟨⟨macros, count, []⟩, none, []⟩

/-- A growth policy that allocates exactly the requested length. The Go run-time
rounds an allocation up to a size class, so this policy is used only at inputs
whose result is the same under every policy. -/
def exactGrow : Nat → Nat → Nat := fun _ newLen => newLen

/-- The client state after one clean exchange of `frame` with the faithful
device: the frame was handled, one write and one read were traced. -/
def exchanged (c : Client Firmware) (frame : List Nat) : Client Firmware :=
  ⟨c.device.handle frame, c.cache, c.log ++ [Event.write frame] ++ [Event.read]⟩

/-- The stored macro buffer, the reported count and the cache are the same in
`c` and `c'`. -/
def SameStore (c c' : Client Firmware) : Prop :=
  c'.device.macros = c.device.macros ∧ c'.device.count = c.device.count ∧ c'.cache = c.cache

/-- A growth policy that rounds the requested length up to the next multiple
of 16, the allocation sizes of the Go run-time between 33 and 256 bytes. -/
def sizeClassGrow : Nat → Nat → Nat := fun _ newLen => (newLen + 15) / 16 * 16

/-- A device on which every write and every read transfers 32 bytes without
error: no attempt of the transport has to be repeated. -/
def Reliable {σ : Type} (d : Device σ) : Prop :=
  (∀ s m, (d.Write s m).err = false ∧ (d.Write s m).n = 32) ∧
  (∀ s, (d.Read s).err = false ∧ (d.Read s).n = 32)

/-- A device that accepts every frame and answers every read with `reply`. -/
def answering (reply : List Nat) : Device Unit where
  Write := fun _ _ => ⟨(), 32, false⟩
  Read := fun _ => ⟨(), reply, 32, false⟩

/-- A device that answers every frame with the frame itself, as the firmware
does for a command that only sets a value. Its state is the last frame written. -/
def echo : Device (List Nat) where
  Write := fun _ frame => ⟨frame, 32, false⟩
  Read := fun last => ⟨last, last, 32, false⟩

/-- The first frame of a colour change as the interface describes it: the
set-lighting command 0x07, the colour identifier 0x83, the hue and saturation
bytes, zeros up to 32 bytes. -/
def hueSaturationFrame (color : rgblight.Color) : List Nat :=
  [0x07, 0x83, rgblight.Hue.ToByte color.Hue, rgblight.Saturation.ToByte color.Saturation] ++
    List.replicate 28 0

/-- The second frame of a colour change: the set-lighting command 0x07, the
brightness identifier 0x80, the brightness byte, zeros up to 32 bytes. -/
def brightnessFrame (color : rgblight.Color) : List Nat :=
  [0x07, 0x80, rgblight.Brightness.ToByte color.Brightness] ++ List.replicate 29 0

/-- The world after `k` consecutive `Open` calls on `di`. -/
def opensWorld {ω σ : Type} (h : Host ω σ) (di : DeviceInfo) : Nat → ω → ω
  | 0, w => w
  | k + 1, w => opensWorld h di k (h.Open w di).2

/-- The `Open` call number `k` (counted from 0) of a run of consecutive `Open`
calls on `di`, each made in the world the previous one left. -/
def nthOpen {ω σ : Type} (h : Host ω σ) (di : DeviceInfo) (k : Nat) (w : ω) :
    Except Error σ × ω :=
  h.Open (opensWorld h di k w) di

/-- A host for closed evaluations. The world counts the `Open` calls made so
far. `Enumerate` follows the `hid` library: an id of 0 matches every device.
`Open` succeeds on a device whose serial number is in `openable` once
`failures` calls have been made, and fails with `Hid n` at call number `n`
otherwise. The handle state is `()`. -/
def testHost (devices : List DeviceInfo) (openable : List String) (failures : Nat) :
    Host Nat Unit where
  Enumerate := fun _ vid pid => devices.filter
    (fun di => (vid = 0 ∨ di.VendorID = vid) ∧ (pid = 0 ∨ di.ProductID = pid))
  Open := fun w di =>
    if di.Serial ∈ openable ∧ failures ≤ w then (.ok (), w + 1)
    else (.error (Error.Hid w), w + 1)

/-- A sort by product name for closed evaluations (insertion sort). `NewClient`
takes the sort as a parameter; on keyboards with pairwise different product
names every sort by product name gives the same list. Names are compared
character by character. -/
def sortByProduct (l : List Keyboard) : List Keyboard :=
  l.insertionSort (fun a b => a.Product.data ≤ b.Product.data)

/-- The frame of the buffer-get exchange at `offset` with size 28, as the
protocol describes it: command 0x0E, the offset high and low bytes, the size,
zeros up to 32 bytes. -/
def bufferGetFrame (offset : Nat) : List Nat :=
  [0x0E, offset / 256, offset % 256, 28] ++ List.replicate 28 0

/-- The buffer-get frames for a buffer of `S` bytes: `ceil(S / 28)` frames, the
one numbered `i` at offset `28 * i`. -/
def chunkFrames (S : Nat) : List (List Nat) :=
  (List.range ((S + 27) / 28)).map (fun i => bufferGetFrame (28 * i))

/-- The replies a device gives to a sequence of frames when each frame is
written once and answered by one read, and the device state afterwards. A reply
is the frame overwritten by the bytes read. -/
def exchangeReplies {σ : Type} (d : Device σ) : List (List Nat) → σ → List (List Nat) × σ
  | [], s => ([], s)
  | frame :: frames, s =>
    let r := d.Read (d.Write s frame).state
    let rest := exchangeReplies d frames r.state
    (copyInto frame r.data :: rest.1, rest.2)

/-- A device that accepts the first `k` frames written and answers every read
with `reply`; every later write fails. Its state counts the writes. -/
def dropsAfter (k : Nat) (reply : List Nat) : Device Nat where
  Write := fun s _ => if s < k then ⟨s + 1, 32, false⟩ else ⟨s + 1, -1, true⟩
  Read := fun s => ⟨s, reply, 32, false⟩

/-- A device whose first read comes back short, with the two bytes
`[0xAA, 0xBB]`, and which answers every later read with the frame last
written. Its state is that frame and the number of reads made. -/
def shortFirstRead : Device (List Nat × Nat) where
  Write := fun s frame => ⟨(frame, s.2), 32, false⟩
  Read := fun s =>
    if s.2 = 0 then ⟨(s.1, 1), [0xAA, 0xBB], 2, false⟩
    else ⟨(s.1, s.2 + 1), s.1, 32, false⟩

/-- State of a device that stores the lighting bytes: hue, saturation,
brightness and the reply to the last frame written. -/
structure Lamp where
  hue : Nat
  sat : Nat
  val : Nat
  reply : List Nat
  deriving DecidableEq, Repr

/-- The reaction of the storing device to one frame: the set-lighting command
0x07 stores the bytes of the colour (0x83) or brightness (0x80) value and is
answered by the frame itself; the get-lighting command 0x08 is answered with the
stored bytes in place; anything else is unhandled. -/
def Lamp.handle (l : Lamp) (frame : List Nat) : Lamp :=
  let cmd := frame.getD 0 0
  let id := frame.getD 1 0
  if cmd = 0x07 ∧ id = 0x83 then
    ⟨frame.getD 2 0, frame.getD 3 0, l.val, frame⟩
  else if cmd = 0x07 ∧ id = 0x80 then
    ⟨l.hue, l.sat, frame.getD 2 0, frame⟩
  else if cmd = 0x08 ∧ id = 0x83 then
    { l with reply := (frame.set 2 l.hue).set 3 l.sat }
  else if cmd = 0x08 ∧ id = 0x80 then
    { l with reply := frame.set 2 l.val }
  else
    { l with reply := frame.set 0 0xFF }

/-- The storing device as a `Device`: every write and every read transfers
32 bytes without error. -/
def lamp : Device Lamp where
  Write := fun l frame => ⟨l.handle frame, 32, false⟩
  Read := fun l => ⟨l, l.reply, 32, false⟩

/-- An injective numbering of strings: the characters, most significant last,
as digits `c + 1` in base `2 ^ 21`. It lets case labels be compared as numbers. -/
def strCode (s : String) : Nat :=
  s.data.foldr (fun c acc => acc * 2097152 + (c.toNat + 1)) 0

namespace keycode

/-- The case labels of `KeycodeFromString` under `strCode`: the list
`fromCases` with every label replaced by its number, in the same order. -/
def fromCodes : List (Nat × Nat) := [
  (139867949358708340650793593602576230844885636060863493690573717589, KC_TRANSPARENT),
  (774763598541649608789, KC_TRANSPARENT),
  (373834119118918, KC_ENTER),
  (299067338915910, KC_ESCAPE),
  (627189654748068315203, KC_BACKSPACE),
  (299067332624468, KC_SPACE),
  (774763598541630734414, KC_MINUS),
  (338649753321542, KC_EQUAL),
  (627189663544125685837, KC_LEFT_BRACKET),
  (627189663544125685843, KC_RIGHT_BRACKET),
  (774763589745558683715, KC_BACKSLASH),
  (774763572153376833615, KC_NONUS_HASH),
  (728646729561251250260, KC_SEMICOLON),
  (783986974976557187154, KC_QUOTE),
  (382630220529736, KC_GRAVE),
  (719423361922468151364, KC_COMMA),
  (673306528126467047508, KC_SLASH),
  (774763545765097766991, KC_NONUS_BACKSLASH),
  (774763607337706979396, KC_CAPS_LOCK),
  (710200011875820765268, KC_SCROLL_LOCK),
  (343047808221263, KC_NUM_LOCK),
  (747093425256449179725, KC_LOCKING_CAPS_LOCK),
  (719423397106838143053, KC_LOCKING_NUM_LOCK),
  (765540178126285307981, KC_LOCKING_SCROLL_LOCK),
  (765540178126285307985, KC_PRINT_SCREEN),
  (774763629327939534929, KC_PAUSE),
  (334251708907587, KC_PAUSE),
  (369436072607818, KC_INSERT),
  (747093513217387790417, KC_PAGE_UP),
  (338649728155717, KC_DELETE),
  (728646694376887550033, KC_PAGE_DOWN),
  (783986944190202249299, KC_RIGHT),
  (356241937268802, KC_APPLICATION),
  (627189606369567178822, KC_EXECUTE),
  (783986922199980179540, KC_SELECT),
  (728646716367120105538, KC_AGAIN),
  (645636416413963911249, KC_PASTE),
  (774763541367044964422, KC_ALTERNATE_ERASE),
  (756316872060140781652, KC_SYSTEM_REQUEST),
  (710199945905146167364, KC_CANCEL),
  (365038021902404, KC_CLEAR),
  (765540204514562277457, KC_PRIOR),
  (728646764745627533395, KC_RETURN),
  (765540235300860592212, KC_SEPARATOR),
  (664083076924775071812, KC_CLEAR_AGAIN),
  (710200016273898733636, KC_CRSEL),
  (710200016273911316550, KC_EXSEL),
  (774763589745558683729, KC_KP_SLASH),
  (783986992568701288529, KC_KP_ASTERISK),
  (774763598541639123025, KC_KP_MINUS),
  (774763589745552392273, KC_KP_PLUS),
  (783986970578477121617, KC_KP_ENTER),
  (104857681, KC_KP_1),
  (106954833, KC_KP_2),
  (109051985, KC_KP_3),
  (111149137, KC_KP_4),
  (113246289, KC_KP_5),
  (115343441, KC_KP_6),
  (117440593, KC_KP_7),
  (119537745, KC_KP_8),
  (121634897, KC_KP_9),
  (102760529, KC_KP_0),
  (783986974976521535569, KC_KP_DOT),
  (710200007477778448465, KC_KP_EQUAL),
  (719423361922442985553, KC_KP_COMMA),
  (461168975676857909322, KC_INTERNATIONAL_1),
  (470392347713712685130, KC_INTERNATIONAL_2),
  (479615719750567460938, KC_INTERNATIONAL_3),
  (488839091787422236746, KC_INTERNATIONAL_4),
  (498062463824277012554, KC_INTERNATIONAL_5),
  (507285835861131788362, KC_INTERNATIONAL_6),
  (516509207897986564170, KC_INTERNATIONAL_7),
  (525732579934841339978, KC_INTERNATIONAL_8),
  (534955951971696115786, KC_INTERNATIONAL_9),
  (461168918502253264973, KC_LANGUAGE_1),
  (470392290539108040781, KC_LANGUAGE_2),
  (479615662575962816589, KC_LANGUAGE_3),
  (488839034612817592397, KC_LANGUAGE_4),
  (498062406649672368205, KC_LANGUAGE_5),
  (507285778686527144013, KC_LANGUAGE_6),
  (516509150723381919821, KC_LANGUAGE_7),
  (525732522760236695629, KC_LANGUAGE_8),
  (534955894797091471437, KC_LANGUAGE_9),
  (710200020671913787469, KC_LEFT_CTRL),
  (783986935394134392909, KC_LEFT_SHIFT),
  (783986961782375710797, KC_LEFT_ALT),
  (783986979374591115341, KC_LEFT_ALT),
  (682529908959404359757, KC_LEFT_GUI),
  (636413013590750003277, KC_LEFT_GUI),
  (728646716367153659981, KC_LEFT_GUI),
  (710200020671913787475, KC_RIGHT_CTRL),
  (783986935394134392915, KC_RIGHT_SHIFT),
  (783986961782375710803, KC_RIGHT_ALT),
  (765540195718456672322, KC_RIGHT_ALT),
  (783986979374591115347, KC_RIGHT_ALT),
  (682529908959404359763, KC_RIGHT_GUI),
  (636413013590750003283, KC_RIGHT_GUI),
  (728646716367153659987, KC_RIGHT_GUI),
  (365038044971089, KC_SYSTEM_POWER),
  (747093442848654098516, KC_SYSTEM_SLEEP),
  (645636376831507562584, KC_SYSTEM_WAKE),
  (645636416413968105550, KC_AUDIO_MUTE),
  (793210333819259846743, KC_AUDIO_VOL_UP),
  (636413009192728658007, KC_AUDIO_VOL_DOWN),
  (783987014558961107022, KC_MEDIA_NEXT_TRACK),
  (802433732244395786318, KC_MEDIA_PREV_TRACK),
  (747093508819366445134, KC_MEDIA_STOP),
  (830103821966681047118, KC_MEDIA_PLAY_PAUSE),
  (710199954701249675342, KC_MEDIA_SELECT),
  (783986922199975985222, KC_MEDIA_EJECT),
  (627189637155844522052, KC_CALCULATOR),
  (719423317942024011854, KC_MY_COMPUTER),
  (673306457757737549912, KC_WWW_SEARCH),
  (719423370718546493528, KC_WWW_HOME),
  (700976565072173203544, KC_WWW_BACK),
  (636413057571221405784, KC_WWW_FORWARD),
  (747093508819366445144, KC_WWW_STOP),
  (654859722480118923352, KC_WWW_REFRESH),
  (802433657477584126040, KC_WWW_FAVORITES),
  (636412982804430717006, KC_MEDIA_FAST_FORWARD),
  (636413057571246571598, KC_MEDIA_REWIND),
  (793210320625126604867, KC_BRIGHTNESS_UP),
  (636412995998595416131, KC_BRIGHTNESS_DOWN),
  (793210338217312649283, KC_PAUSE),
  (636413013590781460547, KC_SCROLL_LOCK),
  (793210417382151946318, KC_MS_UP),
  (636413092755620757582, KC_MS_DOWN),
  (710200069050458964046, KC_MS_LEFT),
  (765540301271587618894, KC_MS_RIGHT),
  (461168949288591425603, KC_MS_BTN1),
  (470392321325446201411, KC_MS_BTN2),
  (479615693362300977219, KC_MS_BTN3),
  (488839065399155753027, KC_MS_BTN4),
  (498062437436010528835, KC_MS_BTN5),
  (507285809472865304643, KC_MS_BTN6),
  (516509181509720080451, KC_MS_BTN7),
  (525732553546574856259, KC_MS_BTN8),
  (793210417382128877656, KC_MS_WH_UP),
  (636413092755597688920, KC_MS_WH_DOWN),
  (710200069050435895384, KC_MS_WH_LEFT),
  (765540301271564550232, KC_MS_WH_RIGHT),
  (451945568455607976002, KC_MS_ACCEL0),
  (461168940492462751810, KC_MS_ACCEL1),
  (470392312529317527618, KC_MS_ACCEL2),
  (286422588577196457811986140604169476167537076331624162750507426485633108, KC_SYSTEM_POWER),
  (279520842230391770544524331987921571512438275555348679080059778134704212, KC_SYSTEM_SLEEP),
  (115185378644975602671679174941265554131972474032103957357247070292, KC_SYSTEM_WAKE),
  (54924671986924427923342756683152908985773862727196545646658, KC_AUDIO_MUTE),
  (279520868558485088264461012466286346758096434493448574371362203045462082, KC_AUDIO_VOL_UP),
  (1198991593777334036164591737589968363894754335692964934091006042317764955311309848642, KC_AUDIO_VOL_DOWN),
  (5072971374663887990327868860171378525554357760445544911998900767955473238834122504784946093097038, KC_MEDIA_NEXT_TRACK),
  (5072971374663887990327868860171378525555927028770649937490018709536819318052579528772918718758990, KC_MEDIA_PREV_TRACK),
  (63555685002358839784610067144742869041137623351061374828622, KC_MEDIA_STOP),
  (4672474314688014975391705018925199621119083533737987467253287003619218822610446760981543841169486, KC_MEDIA_PLAY_PAUSE),
  (293324331632963783476981756904852774220839095535186990485553773633601614, KC_MEDIA_SELECT),
  (139867940727693454492680295975942789446164430281996728072973320270, KC_MEDIA_EJECT),
  (710199972293397971022, KC_MAIL),
  (65124960436205509974037743078669384477021486853038018658372, KC_CALCULATOR),
  (136576933182332088423290365750227820090434178703505435853395591246, KC_MY_COMPUTER),
  (57278578777238772326786064804015957644488384652664490688600, KC_WWW_SEARCH),
  (12488423946686549104508650278509748365427736664, KC_WWW_HOME),
  (13558858865509533805371246971705476214486466648, KC_WWW_BACK),
  (113539879580118415092869873009106337570305603521316557100066799704, KC_WWW_FORWARD),
  (14450889694298630225741832679146522101099266136, KC_WWW_STOP),
  (120121898594042452761609441234608926728026772073385207887363571800, KC_WWW_REFRESH),
  (607908710057172031588915756131977727862910091989537195086448905474174145790040, KC_WWW_FAVORITES),
  (20256191395104567113968625018244659174120435421764806111445641532717348182543117588810518663405536101391138894, KC_MEDIA_FAST_FORWARD),
  (238110378959192542265753455662403234173867228655439658331053556794130510, KC_MEDIA_REWIND),
  (586197748539164119829483406730735334068843157755347480821941198192767781568579, KC_BRIGHTNESS_UP),
  (2514467618873323628610645891670282826744126882596565205162786046474967301772375642584645699, KC_BRIGHTNESS_DOWN),
  (167772239, KC_NO),
  (31053999278431737527866572390633179078330799102099539, KC_ROLL_OVER),
  (28809133477113530515694234716925114087573868764987473, KC_POST_FAIL),
  (25815977410237100904047334674436881532090594076131414, KC_UNDEFINED),
  (66, KC_A),
  (67, KC_B),
  (68, KC_C),
  (69, KC_D),
  (70, KC_E),
  (71, KC_F),
  (72, KC_G),
  (73, KC_H),
  (74, KC_I),
  (75, KC_J),
  (76, KC_K),
  (77, KC_L),
  (78, KC_M),
  (79, KC_N),
  (80, KC_O),
  (81, KC_P),
  (82, KC_Q),
  (83, KC_R),
  (84, KC_S),
  (85, KC_T),
  (86, KC_U),
  (87, KC_V),
  (88, KC_W),
  (89, KC_X),
  (90, KC_Y),
  (91, KC_Z),
  (50, KC_1),
  (51, KC_2),
  (52, KC_3),
  (53, KC_4),
  (54, KC_5),
  (55, KC_6),
  (56, KC_7),
  (57, KC_8),
  (58, KC_9),
  (49, KC_0),
  (1605454134084643957963227206, KC_ENTER),
  (2839538911279704822765525353365574, KC_ESCAPE),
  (26190121472580782957208968662942250861280528376528963, KC_BACKSPACE),
  (294669254656085, KC_TAB),
  (1353997545157973453035274324, KC_SPACE),
  (1624797094772404226145386574, KC_MINUS),
  (1489397218508155807825133638, KC_EQUAL),
  (293324334923977605942328080739329684429318171455406329861144418424193101, KC_LEFT_BRACKET),
  (615145715634489484257165219178646726360313461904048295480977186140003206430803, KC_RIGHT_BRACKET),
  (27312557584546301810146901454211081755974979324739651, KC_BACKSLASH),
  (57278584763546445933412912798358725293554086834511051489359, KC_NONUS_HASH),
  (29557423385863658116158547557031713784087882428842068, KC_SEMICOLON),
  (1353997701955359652228104274, KC_QUOTE),
  (1353997720402042153280208968, KC_GRAVE),
  (1276626384936410330957873220, KC_COMMA),
  (373834121216069, KC_DOT),
  (1412026132073428243089195092, KC_SLASH),
  (28434987987522240827691792805901201180248744927428676, KC_CAPS_LOCK),
  (104857671, KC_F1),
  (106954823, KC_F2),
  (109051975, KC_F3),
  (111149127, KC_F4),
  (113246279, KC_F5),
  (115343431, KC_F6),
  (117440583, KC_F7),
  (119537735, KC_F8),
  (121634887, KC_F9),
  (215504383901767, KC_F10),
  (219902430412871, KC_F11),
  (224300476923975, KC_F12),
  (272619095883601206759334439786088406684057668590141775722773099594121297, KC_PRINT_SCREEN),
  (125058399711806341557833954579408340559503977416238509113709953108, KC_SCROLL_LOCK),
  (1353997692732014003610452049, KC_PAUSE),
  (3448011238074918056710592635338826, KC_INSERT),
  (645636385627629944905, KC_HOME),
  (6890721418725312623925213149072197681233, KC_PAGE_UP),
  (2839538988650994171629522342903877, KC_DELETE),
  (303465374941254, KC_END),
  (29557424813111606033447406849483674309051087671263313, KC_PAGE_DOWN),
  (1644139787982371027503022163, KC_RIGHT),
  (783986935394105032781, KC_LEFT),
  (728646777939788038213, KC_DOWN),
  (169869398, KC_UP),
  (13558858865510101713033577349615643425006157903, KC_NUM_LOCK),
  (13023642341874266533921671607118256675468869708, KC_KP_SLASH),
  (125058412266007567465750975541799235558316517364779849857439367244, KC_KP_ASTERISK),
  (14986108089486672173437712995547904410898137164, KC_KP_MINUS),
  (7145933193915648958175038455335463419980, KC_KP_PLUS),
  (14807700766769202893563531207695569197931167820, KC_KP_ENTER),
  (461169024055373725772, KC_KP_1),
  (470392396092228501580, KC_KP_2),
  (479615768129083277388, KC_KP_3),
  (488839140165938053196, KC_KP_4),
  (498062512202792829004, KC_KP_5),
  (507285884239647604812, KC_KP_6),
  (516509256276502380620, KC_KP_7),
  (525732628313357156428, KC_KP_8),
  (534956000350211932236, KC_KP_9),
  (451945652018518949964, KC_KP_0),
  (3448011180046469491889131956994124, KC_KP_DOT),
  (2323495435383461357918469956118824701486248105684380179829283789969468921486695779683795023, KC_NONUS_BACKSLASH),
  (129994922799420317899232312754470008916637672753014905128003567682, KC_APPLICATION),
  (14807700766769324588040496032289039353607356492, KC_KB_POWER),
  (13737264656957406626708589009916190508764364876, KC_KP_EQUAL),
  (228698523435079, KC_F13),
  (233096569946183, KC_F14),
  (237494616457287, KC_F15),
  (241892662968391, KC_F16),
  (246290709479495, KC_F17),
  (250688755990599, KC_F18),
  (255086802501703, KC_F19),
  (215504385998919, KC_F20),
  (219902432510023, KC_F21),
  (224300479021127, KC_F22),
  (228698525532231, KC_F23),
  (233096572043335, KC_F24),
  (5954944869127719213948007037202625200198, KC_EXECUTE),
  (747093473634964996169, KC_HELP),
  (793210342615331897422, KC_MENU),
  (3448010947932721349168804361404500, KC_SELECT),
  (747093486829135986772, KC_STOP),
  (1528082918522712275302744130, KC_AGAIN),
  (737870066413757005910, KC_UNDO),
  (373834133798980, KC_CUT),
  (830103839558864994372, KC_COPY),
  (1353997701955377244372205649, KC_PASTE),
  (636413017988809097287, KC_FIND),
  (5954944869127719214040240871920336109644, KC_KB_MUTE),
  (279520868558485088261842001175377360480822999209094993421958360669880396, KC_KB_VOLUME_UP),
  (1198991593777334036164591737589965744883463426706687660655721688736815551468934266956, KC_KB_VOLUME_DOWN),
  (10638792064319567628220831479961436930088583834670647486497200846388902356941791529584444255400733179981, KC_LOCKING_CAPS_LOCK),
  (5072971374664100469694534053784092056683431146605583194963073610252372413878220384800077791625293, KC_LOCKING_NUM_LOCK),
  (46789902320841596371014408061298224339104644927177808884057095453430094905089842440112497930098406466345796890525773, KC_LOCKING_SCROLL_LOCK),
  (11774800100333488034476492120645761628221997132, KC_KP_COMMA),
  (743678289918618095658617380433493483945224531795620517658154494124797507862517514316, KC_KP_EQUAL_AS400),
  (1591435813513543673851238727295744145731658817600640441116670786036518683786873989821890634, KC_INTERNATIONAL_1),
  (1623264500643770018949183191177140679498088011251670695032860480557680891595676125856006218, KC_INTERNATIONAL_2),
  (1655093187773996364047127655058537213264517204902700948949050175078843099404478261890121802, KC_INTERNATIONAL_3),
  (1686921874904222709145072118939933747030946398553731202865239869600005307213280397924237386, KC_INTERNATIONAL_4),
  (1718750562034449054243016582821330280797375592204761456781429564121167515022082533958352970, KC_INTERNATIONAL_5),
  (1750579249164675399340961046702726814563804785855791710697619258642329722830884669992468554, KC_INTERNATIONAL_6),
  (1782407936294901744438905510584123348330233979506821964613808953163491930639686806026584138, KC_INTERNATIONAL_7),
  (1814236623425128089536849974465519882096663173157852218529998647684654138448488942060699722, KC_INTERNATIONAL_8),
  (1846065310555354434634794438346916415863092366808882472446188342205816346257291078094815306, KC_INTERNATIONAL_9),
  (39231921764043482241680064099622247445197007433194490822733, KC_LANGUAGE_1),
  (40016559480966817337159537777523205747209801863752495136845, KC_LANGUAGE_2),
  (40801197197890152432639011455424164049222596294310499450957, KC_LANGUAGE_3),
  (41585834914813487528118485133325122351235390724868503765069, KC_LANGUAGE_4),
  (42370472631736822623597958811226080653248185155426508079181, KC_LANGUAGE_5),
  (43155110348660157719077432489127038955260979585984512393293, KC_LANGUAGE_6),
  (43939748065583492814556906167027997257273774016542516707405, KC_LANGUAGE_7),
  (44724385782506827910036379844928955559286568447100521021517, KC_LANGUAGE_8),
  (45509023499430163005515853522829913861299362877658525335629, KC_LANGUAGE_9),
  (2228009373992782322645341780477958681807466961078488135508212654697528525767058471144915010, KC_ALTERNATE_ERASE),
  (1290054169152358268331132272250167233471873068891988929523322181725901868519382843476, KC_SYSTEM_REQUEST),
  (3123492432959902403318504306507844, KC_CANCEL),
  (1605454097191089839842263108, KC_CLEAR),
  (1605454226318315948007751761, KC_PRIOR),
  (3204622322831245585580213323956307, KC_RETURN),
  (31054001062491183268565055523899990494107799084073044, KC_SEPARATOR),
  (373834133798992, KC_OUT),
  (765540186922372038736, KC_OPER),
  (129994918091591023201549208687805411372742632738379743696814866500, KC_CLEAR_AGAIN),
  (1489397255401635159153311812, KC_CRSEL),
  (1489397255401635159165894726, KC_EXSEL),
  (28809135082768801151020280907576370725040339961249869, KC_LEFT_CTRL),
  (66694232502750445289614390624410561549995232508246247866445, KC_LEFT_SHIFT),
  (15164513285439064244234302958773045729228226637, KC_LEFT_ALT),
  (13202048473603938368805946363417944005195857997, KC_LEFT_GUI),
  (60417135257098756871464484145885601018778245783284881555539, KC_RIGHT_CTRL),
  (139867943081608101840005398526763857975695601863580388075407147091, KC_RIGHT_SHIFT),
  (31802289365585104457924456918596828843895303744520275, KC_RIGHT_ALT),
  (27686702360515446558018128027934686553137373786406995, KC_RIGHT_GUI),
  (215504444719175, KC_FN0),
  (219902491230279, KC_FN1),
  (224300537741383, KC_FN2),
  (228698584252487, KC_FN3),
  (233096630763591, KC_FN4),
  (237494677274695, KC_FN5),
  (241892723785799, KC_FN6),
  (246290770296903, KC_FN7),
  (250688816808007, KC_FN8),
  (255086863319111, KC_FN9),
  (451945449708375244871, KC_FN10),
  (461168821745230020679, KC_FN11),
  (470392193782084796487, KC_FN12),
  (479615565818939572295, KC_FN13),
  (488838937855794348103, KC_FN14),
  (498062309892649123911, KC_FN15),
  (507285681929503899719, KC_FN16),
  (516509053966358675527, KC_FN17),
  (525732426003213451335, KC_FN18),
  (534955798040068227143, KC_FN19),
  (451945454106421755975, KC_FN20),
  (461168826143276531783, KC_FN21),
  (470392198180131307591, KC_FN22),
  (479615570216986083399, KC_FN23),
  (488838942253840859207, KC_FN24),
  (498062314290695635015, KC_FN25),
  (507285686327550410823, KC_FN26),
  (516509058364405186631, KC_FN27),
  (525732430401259962439, KC_FN28),
  (534955802438114738247, KC_FN29),
  (451945458504468267079, KC_FN30),
  (461168830541323042887, KC_FN31),
  (1566768655430976792571150414, KC_MS_UP),
  (6720580316394172321781162929592893177934, KC_MS_DOWN),
  (7231003177173460064762079062160886988878, KC_MS_LEFT),
  (15164512945156940711785541408492542072461459534, KC_MS_RIGHT),
  (4253532791134092309988751820922317439054, KC_MS_BTN1),
  (4338603382864326925854595472780259491918, KC_MS_BTN2),
  (4423673974594561541720439124638201544782, KC_MS_BTN3),
  (4508744566324796157586282776496143597646, KC_MS_BTN4),
  (4593815158055030773452126428354085650510, KC_MS_BTN5),
  (4678885749785265389317970080212027703374, KC_MS_BTN6),
  (4763956341515500005183813732069969756238, KC_MS_BTN7),
  (4849026933245734621049657383927911809102, KC_MS_BTN8),
  (14450890204722626819948037192918644243057082446, KC_MS_WH_UP),
  (61986412561666630816256296169208444573162022198696663318606, KC_MS_WH_DOWN),
  (66694232502749731666108320498168356473440024585369320161358, KC_MS_WH_LEFT),
  (139867944650882787398015681939934746745643411413585397692474851406, KC_MS_WH_RIGHT),
  (18333090275943843444990403172114646866934774758375502, KC_MS_ACCEL0),
  (18707234695100554592050546489290015319966693489377358, KC_MS_ACCEL1),
  (19081379114257265739110689806465383772998612220379214, KC_MS_ACCEL2),
  (2839538659823134342979831619125315, KC_BACKSPACE),
  (15164512689945327780242465988844591874702311501, KC_LEFT_BRACKET),
  (15164512689945327780242465988844591874702311507, KC_RIGHT_BRACKET),
  (2961233426930054186850991665578051, KC_BACKSLASH),
  (3204622264802723233707691008327764, KC_SEMICOLON),
  (13558858865510101713033577238935192176846438468, KC_CAPS_LOCK),
  (6720579586227233162319016412194558443601, KC_PRINT_SCREEN),
  (59632491928008242396275497895749615519096519676313722683476, KC_SCROLL_LOCK),
  (3204622419545255814447957431812177, KC_PAGE_DOWN),
  (6465367729907084328190601913259020779599, KC_NUM_LOCK),
  (251913879880290179340802205367997640564399295804431944038190738564972623, KC_NONUS_BACKSLASH),
  (1605454134084657152104857681, KC_KB_POWER),
  (1353997701955386040490393696, KC_KB_MUTE),
  (3285752019274208598407880825110624, KC_KB_VOLUME_UP),
  (14094078451686671272968009224877508821482733664, KC_KB_VOLUME_DOWN),
  (289873479851124608204707938514075296968496460989139060339536135899316301, KC_LOCKING_CAPS_LOCK),
  (128349422949927284121146166092384717964864744536993932794581221453, KC_LOCKING_NUM_LOCK),
  (1168637312729245668799627833423442117256105565927582497496259522562516389780548223053, KC_LOCKING_SCROLL_LOCK),
  (967141319774837439121588301, KC_LANGUAGE_1),
  (986484132888671505916887117, KC_LANGUAGE_2),
  (1005826946002505572712185933, KC_LANGUAGE_3),
  (1025169759116339639507484749, KC_LANGUAGE_4),
  (1044512572230173706302783565, KC_LANGUAGE_5),
  (1063855385344007773098082381, KC_LANGUAGE_6),
  (1083198198457841839893381197, KC_LANGUAGE_7),
  (1102541011571675906688680013, KC_LANGUAGE_8),
  (1121883824685509973483978829, KC_LANGUAGE_9),
  (26190124327076168369209860147129597315805158922256450, KC_ALTERNATE_ERASE),
  (3326316528996557458160519923892308, KC_SYSTEM_REQUEST),
  (3448011005961197584141560009719885, KC_LEFT_SHIFT),
  (1489397375305476036280451155, KC_RIGHT_CTRL),
  (3448011005961197584141560009719891, KC_RIGHT_SHIFT),
  (167772243, KC_INTERNATIONAL_1),
  (608742901878227992652, KC_INTERNATIONAL_2),
  (728646698774971809867, KC_INTERNATIONAL_3),
  (700976622246784139337, KC_INTERNATIONAL_4),
  (728646698774936158286, KC_INTERNATIONAL_5),
  (728646698774921478217, KC_LANGUAGE_1),
  (691753250209920974921, KC_LANGUAGE_2),
  (700976573868287197268, KC_SCROLL_LOCK),
  (700976573868287197263, KC_NUM_LOCK),
  (4423672798214707815959442457769042509895, FN_MO13),
  (4423672838779527023262783305663545081927, FN_MO23),
  (4168460982459184761104687391339658084430, MACRO00),
  (4253531574189419376970531043197600137294, MACRO01),
  (4338602165919653992836374695055542190158, MACRO02),
  (4423672757649888608702218346913484243022, MACRO03),
  (4508743349380123224568061998771426295886, MACRO04),
  (4593813941110357840433905650629368348750, MACRO05),
  (4678884532840592456299749302487310401614, MACRO06),
  (4763955124570827072165592954345252454478, MACRO07),
  (4849025716301061688031436606203194507342, MACRO08),
  (4934096308031296303897280258061136560206, MACRO09),
  (4168461023024003968408028239234160656462, MACRO10),
  (4253531614754238584273871891092102709326, MACRO11),
  (4338602206484473200139715542950044762190, MACRO12),
  (4423672798214707816005559194807986815054, MACRO13),
  (4508743389944942431871402846665928867918, MACRO14),
  (4593813981675177047737246498523870920782, MACRO15),
  (1987677088956471819603025974001750, USER00),
  (2028241908163775160450920476573782, USER01),
  (2068806727371078501298814979145814, USER02),
  (2109371546578381842146709481717846, USER03),
  (2149936365785685182994603984289878, USER04),
  (2190501184992988523842498486861910, USER05),
  (2231066004200291864690392989433942, USER06),
  (2271630823407595205538287492005974, USER07),
  (2312195642614898546386181994578006, USER08),
  (2352760461822201887234076497150038, USER09),
  (1987677108299284933437092769300566, USER10),
  (2028241927506588274284987271872598, USER11),
  (2068806746713891615132881774444630, USER12),
  (2109371565921194955980776277016662, USER13),
  (2149936385128498296828670779588694, USER14),
  (2190501204335801637676565282160726, USER15)]

end keycode

/-! ## The transport: lemmas -/

theorem sendLoop_succ {σ : Type} (d : Device σ) (n : Nat) (c : Client σ)
    (message : List Nat) :
    sendLoop d (n + 1) c message =
      if (attempt d c message).completed = true then
        ⟨verdict (attempt d c message).message, (attempt d c message).message,
          (attempt d c message).client⟩
      else
        sendLoop d n (attempt d c message).client (attempt d c message).message := by
  simp only [sendLoop, attempt, verdict, HidMessageSize, UnhandledId]
  by_cases hw : (d.Write c.device message).err = true ∨ (d.Write c.device message).n ≠ 32
  · simp [hw]
  · by_cases hr : (d.Read (d.Write c.device message).state).err = true ∨
        (d.Read (d.Write c.device message).state).n ≠ 32
    · have : ¬ ((d.Read (d.Write c.device message).state).err = false ∧
          (d.Read (d.Write c.device message).state).n = 32) := by
        rintro ⟨h1, h2⟩
        rcases hr with h | h
        · rw [h1] at h; exact Bool.noConfusion h
        · exact h h2
      simp [hw, hr, this]
    · have : (d.Read (d.Write c.device message).state).err = false ∧
          (d.Read (d.Write c.device message).state).n = 32 := by
        constructor
        · cases h : (d.Read (d.Write c.device message).state).err
          · rfl
          · exact absurd (Or.inl h) hr
        · by_contra h
          exact hr (Or.inr h)
      simp [hw, hr, this]
      split <;> rfl

theorem sendLoop_first_completed {σ : Type} (d : Device σ) :
    ∀ (k n : Nat) (c : Client σ) (message : List Nat), k < n →
      (∀ j, j < k → (nthAttempt d j c message).completed = false) →
      (nthAttempt d k c message).completed = true →
      sendLoop d n c message =
        ⟨verdict (nthAttempt d k c message).message, (nthAttempt d k c message).message,
          (nthAttempt d k c message).client⟩ := by
  intro k
  induction k with
  | zero =>
    intro n c message hk _ hc
    obtain ⟨n, rfl⟩ : ∃ m, n = m + 1 := ⟨n - 1, by omega⟩
    rw [sendLoop_succ]
    simp only [nthAttempt] at hc ⊢
    simp [hc]
  | succ k ih =>
    intro n c message hk hfail hc
    obtain ⟨n, rfl⟩ : ∃ m, n = m + 1 := ⟨n - 1, by omega⟩
    rw [sendLoop_succ]
    have h0 : (attempt d c message).completed = false := by
      have := hfail 0 (by omega)
      simpa [nthAttempt] using this
    simp only [h0, Bool.false_eq_true, if_false]
    simp only [nthAttempt] at hc ⊢
    apply ih n _ _ (by omega) _ hc
    intro j hj
    have := hfail (j + 1) (by omega)
    simpa [nthAttempt] using this

theorem sendLoop_none_completed {σ : Type} (d : Device σ) :
    ∀ (n : Nat) (c : Client σ) (message : List Nat),
      (∀ j, j < n → (nthAttempt d j c message).completed = false) →
      (sendLoop d n c message).err = some Error.ReadWrite := by
  intro n
  induction n with
  | zero => intro c message _; rfl
  | succ n ih =>
    intro c message hfail
    rw [sendLoop_succ]
    have h0 : (attempt d c message).completed = false := by
      have := hfail 0 (by omega)
      simpa [nthAttempt] using this
    simp only [h0, Bool.false_eq_true, if_false]
    apply ih
    intro j hj
    have := hfail (j + 1) (by omega)
    simpa [nthAttempt] using this

theorem verdict_ne_readWrite (reply : List Nat) : verdict reply ≠ some Error.ReadWrite := by
  unfold verdict
  split <;> simp

theorem sendLoop_writes_fail {σ : Type} (d : Device σ)
    (hw : ∀ s m, (d.Write s m).err = true ∨ (d.Write s m).n ≠ 32) :
    ∀ (n : Nat) (c : Client σ) (message : List Nat),
      (sendLoop d n c message).err = some Error.ReadWrite ∧
      (sendLoop d n c message).message = message ∧
      (sendLoop d n c message).client.log = c.log ++ List.replicate n (Event.write message) ∧
      (sendLoop d n c message).client.cache = c.cache := by
  intro n
  induction n with
  | zero => intro c message; simp [sendLoop]
  | succ n ih =>
    intro c message
    rw [sendLoop_succ]
    have ha : attempt d c message = ⟨false, message,
        { c with device := (d.Write c.device message).state,
                 log := c.log ++ [Event.write message] }⟩ := by
      simp only [attempt]
      rw [if_pos (hw c.device message)]
    rw [ha]
    simp only [Bool.false_eq_true, if_false]
    obtain ⟨h1, h2, h3, h4⟩ :=
      ih ⟨(d.Write c.device message).state, c.cache, c.log ++ [Event.write message]⟩ message
    refine ⟨h1, h2, ?_, h4⟩
    rw [h3, List.replicate_succ]
    simp

theorem writeCalls_append (a b : List Event) :
    writeCalls (a ++ b) = writeCalls a + writeCalls b := by
  induction a with
  | nil => simp [writeCalls]
  | cons e a ih =>
    cases e with
    | write f =>
      show writeCalls (a ++ b) + 1 = writeCalls a + 1 + writeCalls b
      rw [ih]
      omega
    | read =>
      show writeCalls (a ++ b) = writeCalls a + writeCalls b
      exact ih

theorem writeCalls_attempt {σ : Type} (d : Device σ) (c : Client σ) (message : List Nat) :
    writeCalls (attempt d c message).client.log = writeCalls c.log + 1 := by
  unfold attempt
  simp only []
  split
  · simp [writeCalls_append, writeCalls]
  · simp [writeCalls_append, writeCalls]

theorem writeCalls_nthAttempt {σ : Type} (d : Device σ) :
    ∀ (k : Nat) (c : Client σ) (message : List Nat),
      writeCalls (nthAttempt d k c message).client.log = writeCalls c.log + (k + 1) := by
  intro k
  induction k with
  | zero => intro c message; exact writeCalls_attempt d c message
  | succ k ih =>
    intro c message
    simp only [nthAttempt]
    rw [ih, writeCalls_attempt]
    omega

/-! ## The transport: properties -/

/-- C3: for a 32-byte message and attempt budget `N`, `sendMessage` returns
`ErrorReadWrite` if and only if none of the first `N` attempts completes both a
32-byte write and a 32-byte read; with `N ≤ 0` it does so without touching the
device; otherwise it ends with the first completed attempt `k`: the client
state is the one that attempt left (no later device call, `k + 1` writes in
all), the buffer holds its reply, and the result is `nil` when reply byte 0 is
not `0xFF`. -/
theorem sendMessage_readWrite_iff {σ : Type} (d : Device σ) (c : Client σ)
    (message : List Nat) (N : Int) (hlen : message.length = 32) :
    ((sendMessage d c message N).err = some Error.ReadWrite ↔
        ∀ k : Nat, (k : Int) < N → (nthAttempt d k c message).completed = false) ∧
    (N ≤ 0 → sendMessage d c message N = ⟨some Error.ReadWrite, message, c⟩) ∧
    (∀ k : Nat, (k : Int) < N →
        (∀ j, j < k → (nthAttempt d j c message).completed = false) →
        (nthAttempt d k c message).completed = true →
        (sendMessage d c message N).message = (nthAttempt d k c message).message ∧
        (sendMessage d c message N).client = (nthAttempt d k c message).client ∧
        writeCalls (sendMessage d c message N).client.log = writeCalls c.log + (k + 1) ∧
        ((nthAttempt d k c message).message.getD 0 0 ≠ 0xFF →
          (sendMessage d c message N).err = none)) := by
  have hs : sendMessage d c message N = sendLoop d N.toNat c message := by
    simp [sendMessage, HidMessageSize, hlen]
  refine ⟨⟨?_, ?_⟩, ?_, ?_⟩
  · intro herr
    by_contra hne
    push_neg at hne
    have hex : ∃ k : Nat, (k : Int) < N ∧ (nthAttempt d k c message).completed = true := by
      obtain ⟨k, hk, hc⟩ := hne
      exact ⟨k, hk, by simpa using hc⟩
    obtain ⟨hk, hc⟩ := Nat.find_spec hex
    have hfirst := sendLoop_first_completed d (Nat.find hex) N.toNat c message (by omega)
      (fun j hj => by
        have := Nat.find_min hex hj
        simp only [not_and, Bool.not_eq_true] at this
        exact this (by omega)) hc
    rw [hs, hfirst] at herr
    exact verdict_ne_readWrite _ herr
  · intro hall
    rw [hs]
    exact sendLoop_none_completed d N.toNat c message (fun j hj => hall j (by omega))
  · intro hN
    rw [hs]
    have : N.toNat = 0 := by omega
    rw [this]
    rfl
  · intro k hk hfail hc
    have hfirst := sendLoop_first_completed d k N.toNat c message (by omega) hfail hc
    rw [hs, hfirst]
    refine ⟨rfl, rfl, writeCalls_nthAttempt d k c message, ?_⟩
    intro hne
    show verdict _ = none
    unfold verdict
    rw [if_neg hne]

/-- Witness of C3 on the faithful device: the count query completes at the
first of 20 attempts and returns `nil`. -/
theorem sendMessage_readWrite_iff_witness :
    (hidFrame [DynamicKeymapMacroGetCountId]).length = 32 ∧
    (sendMessage faithful (freshClient [] 3) (hidFrame [DynamicKeymapMacroGetCountId]) 20).err
      = none :=
  ⟨by decide,
    ((sendMessage_readWrite_iff faithful (freshClient [] 3)
      (hidFrame [DynamicKeymapMacroGetCountId]) 20 (by decide)).2.2 0 (by decide)
      (fun j hj => absurd hj (Nat.not_lt_zero j)) (by decide)).2.2.2 (by decide)⟩

/-- C4: for every `N ≥ 1` and every 32-byte message, if every device write
fails (an error or a count other than 32), `sendMessage` makes exactly `N`
write calls, each with the caller's message, and no read, and returns
`ErrorReadWrite`. -/
theorem sendMessage_all_writes_fail {σ : Type} (d : Device σ) (c : Client σ)
    (message : List Nat) (N : Int) (hlen : message.length = 32) (hN : 1 ≤ N)
    (hw : ∀ s m, (d.Write s m).err = true ∨ (d.Write s m).n ≠ 32) :
    (sendMessage d c message N).err = some Error.ReadWrite ∧
    (sendMessage d c message N).client.log =
      c.log ++ List.replicate N.toNat (Event.write message) ∧
    (List.replicate N.toNat (Event.write message)).length = N ∧
    (sendMessage d c message N).message = message := by
  have hs : sendMessage d c message N = sendLoop d N.toNat c message := by
    simp [sendMessage, HidMessageSize, hlen]
  obtain ⟨h1, h2, h3, _⟩ := sendLoop_writes_fail d hw N.toNat c message
  rw [hs]
  refine ⟨h1, h3, ?_, h2⟩
  rw [List.length_replicate]
  omega

/-- Witness of C4: three attempts on a device whose writes always fail. -/
theorem sendMessage_all_writes_fail_witness :
    (sendMessage deadDevice ⟨(), none, []⟩ (hidFrame [1]) 3).err = some Error.ReadWrite ∧
    (sendMessage deadDevice ⟨(), none, []⟩ (hidFrame [1]) 3).client.log =
      [] ++ List.replicate (3 : Int).toNat (Event.write (hidFrame [1])) ∧
    (List.replicate (3 : Int).toNat (Event.write (hidFrame [1]))).length = (3 : Int) ∧
    (sendMessage deadDevice ⟨(), none, []⟩ (hidFrame [1]) 3).message = hidFrame [1] :=
  sendMessage_all_writes_fail deadDevice ⟨(), none, []⟩ (hidFrame [1]) 3 (by decide)
    (by decide) (fun _ _ => Or.inl rfl)

/-- C5: when the first attempt whose write and read both transfer 32 bytes is
attempt `k` of a budget `N > k` and its reply byte 0 is `0xFF`, `sendMessage`
returns `ErrorUnknownCommand` with the client state that attempt left, so no
further write or read happens whatever budget remains; when `k = 0` the device
calls made are exactly one write and one read. -/
theorem sendMessage_unknownCommand {σ : Type} (d : Device σ) (c : Client σ)
    (message : List Nat) (N : Int) (k : Nat) (hlen : message.length = 32)
    (hk : (k : Int) < N)
    (hfail : ∀ j, j < k → (nthAttempt d j c message).completed = false)
    (hc : (nthAttempt d k c message).completed = true)
    (hff : (nthAttempt d k c message).message.getD 0 0 = 0xFF) :
    sendMessage d c message N =
      ⟨some Error.UnknownCommand, (nthAttempt d k c message).message,
        (nthAttempt d k c message).client⟩ ∧
    (k = 0 → (sendMessage d c message N).client.log =
      c.log ++ [Event.write message, Event.read]) := by
  have hs : sendMessage d c message N = sendLoop d N.toNat c message := by
    simp [sendMessage, HidMessageSize, hlen]
  have hfirst := sendLoop_first_completed d k N.toNat c message (by omega) hfail hc
  rw [hs, hfirst]
  refine ⟨by unfold verdict; rw [if_pos hff], ?_⟩
  rintro rfl
  simp only [nthAttempt, attempt] at hc ⊢
  by_cases hw : (d.Write c.device message).err = true ∨ (d.Write c.device message).n ≠ 32
  · rw [if_pos hw] at hc
    exact absurd hc (by simp)
  · rw [if_neg hw]
    simp

/-- Witness of C5: the faithful device answers a command it does not handle
with `0xFF` at the first of 20 attempts. -/
theorem sendMessage_unknownCommand_witness :
    sendMessage faithful (freshClient [] 3) (hidFrame [1]) 20 =
      ⟨some Error.UnknownCommand, (nthAttempt faithful 0 (freshClient [] 3) (hidFrame [1])).message,
        (nthAttempt faithful 0 (freshClient [] 3) (hidFrame [1])).client⟩ ∧
    ((0 : Nat) = 0 → (sendMessage faithful (freshClient [] 3) (hidFrame [1]) 20).client.log =
      (freshClient [] 3).log ++ [Event.write (hidFrame [1]), Event.read]) :=
  sendMessage_unknownCommand faithful (freshClient [] 3) (hidFrame [1]) 20 0 (by decide)
    (by decide) (fun j hj => absurd hj (Nat.not_lt_zero j)) (by decide) (by decide)

/-- C6: `sendMessage` returns `ErrorBadMessageSize` for every message whose
length is not exactly 32, for every attempt budget, and then makes no device
call: buffer and client state (device, cache, trace) are unchanged. -/
theorem sendMessage_badMessageSize {σ : Type} (d : Device σ) (c : Client σ)
    (message : List Nat) (N : Int) (hlen : message.length ≠ 32) :
    sendMessage d c message N = ⟨some Error.BadMessageSize, message, c⟩ := by
  simp [sendMessage, HidMessageSize, hlen]

/-- Witness of C6: a 3-byte message with budget 20. -/
theorem sendMessage_badMessageSize_witness :
    sendMessage faithful (freshClient [] 3) [1, 2, 3] 20 =
      ⟨some Error.BadMessageSize, [1, 2, 3], freshClient [] 3⟩ :=
  sendMessage_badMessageSize faithful (freshClient [] 3) [1, 2, 3] 20 (by decide)

/-! ## Splitting the macro buffer: lemmas -/

theorem indexZero_of_not_mem : ∀ (s : List Nat), 0 ∉ s → indexZero s = none := by
  intro s
  induction s with
  | nil => intro _; rfl
  | cons b rest ih =>
    intro h
    have hb : b ≠ 0 := fun hb => h (by simp [hb])
    have hr : 0 ∉ rest := fun hr => h (List.mem_cons_of_mem _ hr)
    simp [indexZero, hb, ih hr]

theorem indexZero_append_zero : ∀ (seg rest : List Nat), 0 ∉ seg →
    indexZero (seg ++ 0 :: rest) = some seg.length := by
  intro seg
  induction seg with
  | nil => intro rest _; simp [indexZero]
  | cons b seg ih =>
    intro rest h
    have hb : b ≠ 0 := fun hb => h (by simp [hb])
    have hr : 0 ∉ seg := fun hr => h (List.mem_cons_of_mem _ hr)
    simp [indexZero, hb, ih rest hr]

theorem genSplit_of_not_mem (n : Nat) (s : List Nat) (h : 0 ∉ s) : genSplit n s = [s] := by
  cases n with
  | zero => rfl
  | succ n => simp [genSplit, indexZero_of_not_mem s h]

theorem genSplit_append_zero (n : Nat) (seg rest : List Nat) (h : 0 ∉ seg) :
    genSplit (n + 1) (seg ++ 0 :: rest) = (seg ++ [0]) :: genSplit n rest := by
  simp [genSplit, indexZero_append_zero seg rest h, List.take_append_eq_append_take]

theorem count_zero_append_zero (seg rest : List Nat) (h : 0 ∉ seg) :
    (seg ++ 0 :: rest).count 0 = rest.count 0 + 1 := by
  rw [List.count_append, List.count_eq_zero.mpr h]
  simp

theorem SplitAfterN_of_not_mem (s : List Nat) (h : 0 ∉ s) : SplitAfterN s = [s] :=
  genSplit_of_not_mem _ s h

theorem SplitAfterN_append_zero (seg rest : List Nat) (h : 0 ∉ seg) :
    SplitAfterN (seg ++ 0 :: rest) = (seg ++ [0]) :: SplitAfterN rest := by
  unfold SplitAfterN
  rw [count_zero_append_zero seg rest h, genSplit_append_zero _ seg rest h]

theorem exists_first_zero : ∀ (s : List Nat), 0 < s.count 0 →
    ∃ seg rest, s = seg ++ 0 :: rest ∧ 0 ∉ seg := by
  intro s
  induction s with
  | nil => intro h; simp at h
  | cons b s ih =>
    intro h
    by_cases hb : b = 0
    · exact ⟨[], s, by simp [hb], by simp⟩
    · have hc : 0 < s.count 0 := by
        rw [List.count_cons] at h
        simpa [hb] using h
      obtain ⟨seg, rest, hs, hseg⟩ := ih hc
      refine ⟨b :: seg, rest, by simp [hs], ?_⟩
      intro hmem
      rcases List.mem_cons.mp hmem with h0 | h0
      · exact hb h0.symm
      · exact hseg h0

theorem flatten_SplitAfterN : ∀ (n : Nat) (s : List Nat), s.count 0 = n →
    (SplitAfterN s).flatten = s := by
  intro n
  induction n with
  | zero =>
    intro s hs
    rw [SplitAfterN_of_not_mem s (List.count_eq_zero.mp hs)]
    simp
  | succ n ih =>
    intro s hs
    obtain ⟨seg, rest, rfl, hseg⟩ := exists_first_zero s (by omega)
    rw [count_zero_append_zero seg rest hseg] at hs
    rw [SplitAfterN_append_zero seg rest hseg, List.flatten_cons, ih rest (by omega)]
    simp

theorem length_SplitAfterN : ∀ (n : Nat) (s : List Nat), s.count 0 = n →
    (SplitAfterN s).length = n + 1 := by
  intro n
  induction n with
  | zero =>
    intro s hs
    rw [SplitAfterN_of_not_mem s (List.count_eq_zero.mp hs)]
    rfl
  | succ n ih =>
    intro s hs
    obtain ⟨seg, rest, rfl, hseg⟩ := exists_first_zero s (by omega)
    rw [count_zero_append_zero seg rest hseg] at hs
    rw [SplitAfterN_append_zero seg rest hseg, List.length_cons, ih rest (by omega)]

/-- Splitting after a prefix made of `k` whole terminated segments. -/
theorem SplitAfterN_prefix : ∀ (k : Nat) (pre : List Nat), pre.count 0 = k →
    (pre = [] ∨ ∃ p, pre = p ++ [0]) →
    ∃ P : List (List Nat), P.length = k ∧ P.flatten = pre ∧
      ∀ t, SplitAfterN (pre ++ t) = P ++ SplitAfterN t := by
  intro k
  induction k with
  | zero =>
    intro pre hc hend
    have hpre : pre = [] := by
      rcases hend with h | ⟨p, hp⟩
      · exact h
      · rw [hp] at hc
        simp at hc
    subst hpre
    exact ⟨[], rfl, rfl, fun t => by simp⟩
  | succ k ih =>
    intro pre hc hend
    obtain ⟨seg, rest, rfl, hseg⟩ := exists_first_zero pre (by omega)
    rw [count_zero_append_zero seg rest hseg] at hc
    have hrest : rest = [] ∨ ∃ p, rest = p ++ [0] := by
      rcases hend with h | ⟨p, hp⟩
      · simp at h
      · rcases List.eq_nil_or_concat rest with h | ⟨r, x, hr⟩
        · exact Or.inl h
        · right
          refine ⟨r, ?_⟩
          rw [List.concat_eq_append] at hr
          subst hr
          have h1 : seg ++ 0 :: (r ++ [x]) = (seg ++ 0 :: r) ++ [x] := by simp
          rw [h1] at hp
          obtain ⟨_, hx⟩ := List.append_inj' hp rfl
          simp at hx
          simp [hx]
    obtain ⟨P, hlen, hflat, hsplit⟩ := ih rest (by omega) hrest
    refine ⟨(seg ++ [0]) :: P, by simp [hlen], by simp [hflat], ?_⟩
    intro t
    have : seg ++ 0 :: rest ++ t = seg ++ 0 :: (rest ++ t) := by simp
    rw [this, SplitAfterN_append_zero seg _ hseg, hsplit t]
    simp


theorem exists_nth_segment : ∀ (k : Nat) (s : List Nat), k < s.count 0 →
    ∃ pre seg post, s = pre ++ seg ++ 0 :: post ∧ pre.count 0 = k ∧
      (pre = [] ∨ ∃ p, pre = p ++ [0]) ∧ 0 ∉ seg := by
  intro k
  induction k with
  | zero =>
    intro s hs
    obtain ⟨seg, rest, rfl, hseg⟩ := exists_first_zero s hs
    exact ⟨[], seg, rest, by simp, rfl, Or.inl rfl, hseg⟩
  | succ k ih =>
    intro s hs
    obtain ⟨seg0, rest, rfl, hseg0⟩ := exists_first_zero s (by omega)
    rw [count_zero_append_zero seg0 rest hseg0] at hs
    obtain ⟨pre, seg, post, rfl, hpre, hend, hseg⟩ := ih rest (by omega)
    refine ⟨seg0 ++ 0 :: pre, seg, post, by simp, ?_, ?_, hseg⟩
    · rw [count_zero_append_zero seg0 pre hseg0, hpre]
    · right
      rcases hend with h | ⟨p, hp⟩
      · exact ⟨seg0, by simp [h]⟩
      · exact ⟨seg0 ++ 0 :: p, by simp [hp]⟩

theorem SplitAfterN_segment (k : Nat) (pre seg post : List Nat) (hpre : pre.count 0 = k)
    (hend : pre = [] ∨ ∃ p, pre = p ++ [0]) (hseg : 0 ∉ seg) :
    ∃ P : List (List Nat), P.length = k ∧ P.flatten = pre ∧
      SplitAfterN (pre ++ seg ++ 0 :: post) = P ++ (seg ++ [0]) :: SplitAfterN post := by
  obtain ⟨P, hlen, hflat, hsplit⟩ := SplitAfterN_prefix k pre hpre hend
  refine ⟨P, hlen, hflat, ?_⟩
  rw [List.append_assoc, hsplit, SplitAfterN_append_zero seg post hseg]

theorem getD_append_length (P : List (List Nat)) (x : List Nat) (R : List (List Nat)) :
    (P ++ x :: R).getD P.length [] = x := by
  rw [List.getD_eq_getElem?_getD, List.getElem?_append_right (Nat.le_refl _)]
  simp

theorem getMacro_of_segment {σ : Type} (d : Device σ) (c c1 c2 : Client σ)
    (number count : Nat) (pre seg post : List Nat)
    (hcount : GetDynamicKeymapMacroCount d c = (.ok count, c1))
    (hbuf : getMacroBuffer d c1 = (.ok (pre ++ seg ++ 0 :: post), c2))
    (hle : number ≤ count) (hpre : pre.count 0 = number)
    (hend : pre = [] ∨ ∃ p, pre = p ++ [0]) (hseg : 0 ∉ seg) :
    GetDynamicKeymapMacro d c number = (.ok seg, c2) := by
  obtain ⟨P, hlen, _, hsplit⟩ := SplitAfterN_segment number pre seg post hpre hend hseg
  have hget : (SplitAfterN (pre ++ seg ++ 0 :: post)).getD number [] = seg ++ [0] := by
    rw [hsplit, ← hlen]
    exact getD_append_length P _ _
  have hlt : ¬ number ≥ (SplitAfterN (pre ++ seg ++ 0 :: post)).length := by
    rw [hsplit, List.length_append, hlen]
    simp
  unfold GetDynamicKeymapMacro
  simp only [hcount, hbuf]
  rw [if_neg (by omega), if_neg hlt, hget]
  simp

/-- C8: when `i ≤ count` and the macro buffer holds at least `i + 1` zero bytes,
`GetDynamicKeymapMacro(i)` returns the bytes strictly between the `i`-th and
the `(i+1)`-th zero byte: the buffer is `pre ++ seg ++ 0 :: post` where `pre`
holds exactly `i` zero bytes and is empty or ends in one, `seg` holds no zero
byte, and `seg` is what is returned. -/
theorem GetDynamicKeymapMacro_segment {σ : Type} (d : Device σ) (c c1 c2 : Client σ)
    (number count : Nat) (buffer : List Nat)
    (hcount : GetDynamicKeymapMacroCount d c = (.ok count, c1))
    (hbuf : getMacroBuffer d c1 = (.ok buffer, c2))
    (hle : number ≤ count) (hz : number + 1 ≤ buffer.count 0) :
    ∃ pre seg post, buffer = pre ++ seg ++ 0 :: post ∧ pre.count 0 = number ∧
      (pre = [] ∨ ∃ p, pre = p ++ [0]) ∧ 0 ∉ seg ∧
      GetDynamicKeymapMacro d c number = (.ok seg, c2) := by
  obtain ⟨pre, seg, post, hb, hpre, hend, hseg⟩ := exists_nth_segment number buffer (by omega)
  subst hb
  exact ⟨pre, seg, post, rfl, hpre, hend, hseg,
    getMacro_of_segment d c c1 c2 number count pre seg post hcount hbuf hle hpre hend hseg⟩

/-- Witness of C8: the faithful device holds the macros `[1, 2]` and `[3]`;
macro 1 is `[3]`. -/
theorem GetDynamicKeymapMacro_segment_witness :
    ∃ pre seg post, [1, 2, 0, 3, 0, 0] = pre ++ seg ++ 0 :: post ∧ pre.count 0 = 1 ∧
      (pre = [] ∨ ∃ p, pre = p ++ [0]) ∧ 0 ∉ seg ∧
      GetDynamicKeymapMacro faithful (freshClient [1, 2, 0, 3, 0, 0] 16) 1 =
        (.ok seg, (getMacroBuffer faithful
          (GetDynamicKeymapMacroCount faithful (freshClient [1, 2, 0, 3, 0, 0] 16)).2).2) :=
  GetDynamicKeymapMacro_segment faithful (freshClient [1, 2, 0, 3, 0, 0] 16)
    (GetDynamicKeymapMacroCount faithful (freshClient [1, 2, 0, 3, 0, 0] 16)).2
    (getMacroBuffer faithful
      (GetDynamicKeymapMacroCount faithful (freshClient [1, 2, 0, 3, 0, 0] 16)).2).2
    1 16 [1, 2, 0, 3, 0, 0] rfl rfl (by decide) (by decide)

/-! ## The faithful device: lemmas -/

theorem copyInto_same_length (a b : List Nat) (h : a.length = b.length) : copyInto a b = b := by
  simp [copyInto, h]

theorem sendMessage_faithful (c : Client Firmware) (frame : List Nat)
    (hlen : frame.length = 32) (hr : (c.device.handle frame).reply.length = 32) :
    sendMessage faithful c frame 20 =
      ⟨verdict (c.device.handle frame).reply, (c.device.handle frame).reply,
        exchanged c frame⟩ := by
  have hs : sendMessage faithful c frame 20 = sendLoop faithful 20 c frame := by
    simp [sendMessage, HidMessageSize, hlen]
  have ha : attempt faithful c frame =
      ⟨true, (c.device.handle frame).reply, exchanged c frame⟩ := by
    simp [attempt, faithful, exchanged, copyInto_same_length frame _ (hlen.trans hr.symm)]
  rw [hs, sendLoop_succ, ha]
  simp

theorem handle_count (fw : Firmware) :
    fw.handle (hidFrame [DynamicKeymapMacroGetCountId]) =
      { fw with reply := (hidFrame [DynamicKeymapMacroGetCountId]).set 1 (fw.count % 256) } := by
  rfl

theorem count_faithful (c : Client Firmware) :
    GetDynamicKeymapMacroCount faithful c =
      (.ok (c.device.count % 256), exchanged c (hidFrame [DynamicKeymapMacroGetCountId])) := by
  unfold GetDynamicKeymapMacroCount
  rw [sendMessage_faithful c _ (by decide) (by rw [handle_count]; simp; decide)]
  simp only [handle_count]
  rfl


theorem handle_size (fw : Firmware) :
    fw.handle (hidFrame [DynamicKeymapMacroGetBufferSizeId]) =
      { fw with reply := ((hidFrame [DynamicKeymapMacroGetBufferSizeId]).set 1
          (fw.macros.length / 256 % 256)).set 2 (fw.macros.length % 256) } := by
  rfl

theorem uint16_of_bytes (S : Nat) (hS : S < 65536) :
    (S / 256 % 256 * 256 % 65536) ||| (S % 256) = S := by
  have h1 : S / 256 % 256 = S / 256 := Nat.mod_eq_of_lt (by omega)
  have h2 : S / 256 * 256 % 65536 = 2 ^ 8 * (S / 256) := by
    rw [Nat.mod_eq_of_lt (by omega)]
    norm_num
    ring
  rw [h1, h2, ← Nat.mul_add_lt_is_or (by norm_num; omega)]
  norm_num
  omega

theorem size_faithful (c : Client Firmware) (hS : c.device.macros.length < 65536) :
    GetDynamicKeymapMacroBufferSize faithful c =
      (.ok c.device.macros.length,
        exchanged c (hidFrame [DynamicKeymapMacroGetBufferSizeId])) := by
  unfold GetDynamicKeymapMacroBufferSize
  rw [sendMessage_faithful c _ (by decide) (by rw [handle_size]; simp; decide)]
  simp only [handle_size]
  have : verdict (((hidFrame [DynamicKeymapMacroGetBufferSizeId]).set 1
          (c.device.macros.length / 256 % 256)).set 2 (c.device.macros.length % 256)) = none := rfl
  simp only [this]
  have h2 : (((hidFrame [DynamicKeymapMacroGetBufferSizeId]).set 1
          (c.device.macros.length / 256 % 256)).set 2 (c.device.macros.length % 256)).getD 1 0
          = c.device.macros.length / 256 % 256 := rfl
  have h3 : (((hidFrame [DynamicKeymapMacroGetBufferSizeId]).set 1
          (c.device.macros.length / 256 % 256)).set 2 (c.device.macros.length % 256)).getD 2 0
          = c.device.macros.length % 256 := rfl
  rw [h2, h3, uint16_of_bytes _ hS]

theorem offset_bytes (off : Nat) (h : off < 65536) :
    (off >>> 8 &&& 0xFF) * 256 + (off &&& 0xFF) = off := by
  have e : (0xFF : Nat) = 2 ^ 8 - 1 := by norm_num
  rw [e, Nat.and_pow_two_sub_one_eq_mod, Nat.and_pow_two_sub_one_eq_mod,
    Nat.shiftRight_eq_div_pow]
  norm_num
  omega

theorem handle_getBuffer (fw : Firmware) (hi lo : Nat) :
    fw.handle (hidFrame [DynamicKeymapMacroGetBufferId, hi, lo,
        MaxDynamicKeymapBufferSize % 256]) =
      { fw with reply := [DynamicKeymapMacroGetBufferId, hi, lo, 28] ++
          loadAt fw.macros (hi * 256 + lo) 28 } := by
  rfl

theorem getBuffer_faithful (c : Client Firmware) (off : Nat) (h : off < 65536) :
    GetDynamicKeymapMacroBuffer faithful c off MaxDynamicKeymapBufferSize =
      (.ok (loadAt c.device.macros off 28),
        exchanged c (hidFrame [DynamicKeymapMacroGetBufferId, off >>> 8 &&& 0xFF,
          off &&& 0xFF, MaxDynamicKeymapBufferSize % 256])) := by
  unfold GetDynamicKeymapMacroBuffer
  rw [sendMessage_faithful c _ (by simp [hidFrame, HidMessageSize])
    (by rw [handle_getBuffer]; simp [loadAt])]
  simp only [handle_getBuffer]
  rw [offset_bytes off h]
  rfl

theorem SameStore.refl (c : Client Firmware) : SameStore c c := ⟨rfl, rfl, rfl⟩

theorem SameStore.trans {a b c : Client Firmware} (h1 : SameStore a b) (h2 : SameStore b c) :
    SameStore a c :=
  ⟨h2.1.trans h1.1, h2.2.1.trans h1.2.1, h2.2.2.trans h1.2.2⟩

theorem sameStore_exchanged_count (c : Client Firmware) :
    SameStore c (exchanged c (hidFrame [DynamicKeymapMacroGetCountId])) := ⟨rfl, rfl, rfl⟩

theorem sameStore_exchanged_size (c : Client Firmware) :
    SameStore c (exchanged c (hidFrame [DynamicKeymapMacroGetBufferSizeId])) := ⟨rfl, rfl, rfl⟩

theorem sameStore_exchanged_getBuffer (c : Client Firmware) (hi lo : Nat) :
    SameStore c (exchanged c (hidFrame [DynamicKeymapMacroGetBufferId, hi, lo,
      MaxDynamicKeymapBufferSize % 256])) := ⟨rfl, rfl, rfl⟩

theorem loadAt_append (m : List Nat) (off a b : Nat) :
    loadAt m off a ++ loadAt m (off + a) b = loadAt m off (a + b) := by
  unfold loadAt
  rw [List.range_add, List.map_append, List.map_map]
  congr 1
  apply List.map_congr_left
  intro j _
  simp [Nat.add_assoc]

theorem length_loadAt (m : List Nat) (off n : Nat) : (loadAt m off n).length = n := by
  simp [loadAt]

theorem take_loadAt (m : List Nat) (n : Nat) (h : m.length ≤ n) :
    (loadAt m 0 n).take m.length = m := by
  apply List.ext_getElem?
  intro j
  rw [List.getElem?_take]
  by_cases hj : j < m.length
  · rw [if_pos hj]
    unfold loadAt
    rw [List.getElem?_map, List.getElem?_range (by omega)]
    simp [List.getD_eq_getElem?_getD, List.getElem?_eq_getElem hj]
  · rw [if_neg hj, List.getElem?_eq_none (by omega)]

theorem readChunks_faithful : ∀ (n i : Nat) (c : Client Firmware) (buffer : List Nat),
    (i + n) * 28 < 65536 + 28 →
    ∃ c', readChunks faithful n i c buffer =
        (.ok (buffer ++ loadAt c.device.macros (i * 28) (n * 28)), c') ∧ SameStore c c' := by
  intro n
  induction n with
  | zero =>
    intro i c buffer _
    exact ⟨c, by simp [readChunks, loadAt], SameStore.refl c⟩
  | succ n ih =>
    intro i c buffer hb
    have hoff : i * MaxDynamicKeymapBufferSize % 65536 = i * 28 := by
      simp only [MaxDynamicKeymapBufferSize]
      exact Nat.mod_eq_of_lt (by omega)
    simp only [readChunks]
    rw [hoff, getBuffer_faithful c (i * 28) (by omega)]
    simp only []
    obtain ⟨c', hc', hs'⟩ := ih (i + 1) (exchanged c (hidFrame [DynamicKeymapMacroGetBufferId,
      (i * 28) >>> 8 &&& 0xFF, (i * 28) &&& 0xFF, MaxDynamicKeymapBufferSize % 256]))
      (buffer ++ loadAt c.device.macros (i * 28) 28) (by omega)
    refine ⟨c', ?_, (sameStore_exchanged_getBuffer c _ _).trans hs'⟩
    rw [hc']
    have hm := (sameStore_exchanged_getBuffer c ((i * 28) >>> 8 &&& 0xFF) ((i * 28) &&& 0xFF)).1
    rw [hm, List.append_assoc]
    have e1 : (i + 1) * 28 = i * 28 + 28 := by ring
    have e2 : (n + 1) * 28 = 28 + n * 28 := by ring
    rw [e1, loadAt_append, e2]

theorem chunkCount_bounds (S : Nat) : S ≤ chunkCount S * 28 ∧ chunkCount S * 28 < S + 28 := by
  unfold chunkCount MaxDynamicKeymapBufferSize
  omega

theorem getMacroBuffer_cached (c : Client Firmware) (b : List Nat) (h : c.cache = some b) :
    getMacroBuffer faithful c = (.ok b, c) := by
  unfold getMacroBuffer
  rw [h]

theorem getMacroBuffer_faithful (c : Client Firmware) (hS : c.device.macros.length < 65536)
    (hcache : c.cache = none) :
    ∃ c', getMacroBuffer faithful c = (.ok c.device.macros, c') ∧
      c'.device.macros = c.device.macros ∧ c'.device.count = c.device.count ∧
      c'.cache = some c.device.macros := by
  obtain ⟨hlo, hhi⟩ := chunkCount_bounds c.device.macros.length
  obtain ⟨c', hc', hs'⟩ := readChunks_faithful (chunkCount c.device.macros.length) 0
    (exchanged c (hidFrame [DynamicKeymapMacroGetBufferSizeId])) [] (by omega)
  have hm := (sameStore_exchanged_size c).1
  rw [hm] at hc'
  have hsame := (sameStore_exchanged_size c).trans hs'
  refine ⟨{ c' with cache := some c.device.macros }, ?_, hsame.1, hsame.2.1, rfl⟩
  unfold getMacroBuffer
  rw [hcache]
  simp only []
  rw [size_faithful c hS]
  simp only []
  rw [hc']
  simp only [List.nil_append, Nat.zero_mul, length_loadAt]
  rw [if_pos hlo, take_loadAt _ _ hlo]

theorem getElem?_fillPayload (value : List Nat) : ∀ (n i : Nat) (buf : List Nat) (j : Nat),
    (fillPayload value n i buf)[j]? =
      if i + 4 ≤ j ∧ j < i + 4 + n ∧ j < buf.length then some (value.getD (j - 4) 0)
      else buf[j]? := by
  intro n
  induction n with
  | zero =>
    intro i buf j
    simp only [fillPayload]
    rw [if_neg (by omega)]
  | succ n ih =>
    intro i buf j
    simp only [fillPayload]
    rw [ih, List.length_set, List.getElem?_set]
    by_cases h1 : i + 4 = j
    · subst h1
      by_cases h2 : i + 4 < buf.length
      · rw [if_neg (by omega), if_pos rfl, if_pos h2, if_pos (by omega)]
        simp
      · rw [if_neg (by omega), if_pos rfl, if_neg h2, if_neg (by omega),
          List.getElem?_eq_none (by omega)]
    · rw [if_neg h1]
      by_cases h3 : i + 1 + 4 ≤ j ∧ j < i + 1 + 4 + n ∧ j < buf.length
      · rw [if_pos h3, if_pos (by omega)]
      · rw [if_neg h3, if_neg (by omega)]

theorem fillPayload_frame (value : List Nat) (hlen : value.length = 28) (hi lo : Nat) :
    fillPayload value 28 0 (hidFrame [DynamicKeymapMacroSetBufferId, hi, lo, 28 % 256]) =
      [DynamicKeymapMacroSetBufferId, hi, lo, 28] ++ value := by
  apply List.ext_getElem?
  intro j
  rw [getElem?_fillPayload]
  have hf : (hidFrame [DynamicKeymapMacroSetBufferId, hi, lo, 28 % 256]).length = 32 := by
    simp [hidFrame, HidMessageSize]
  rw [hf]
  by_cases h : 0 + 4 ≤ j ∧ j < 0 + 4 + 28 ∧ j < 32
  · rw [if_pos h, List.getElem?_append_right (by simp; omega)]
    have hj : j - 4 < value.length := by omega
    simp [List.getD_eq_getElem?_getD, List.getElem?_eq_getElem hj]
  · rw [if_neg h]
    by_cases h4 : j < 4
    · rw [List.getElem?_append_left (by simpa using h4)]
      unfold hidFrame
      rw [List.getElem?_append_left (by simpa using h4)]
    · rw [List.getElem?_eq_none (by omega), List.getElem?_eq_none (by simp; omega)]

theorem handle_setBuffer (fw : Firmware) (hi lo : Nat) (value : List Nat) :
    fw.handle ([DynamicKeymapMacroSetBufferId, hi, lo, 28] ++ value) =
      { fw with macros := storeAt fw.macros (hi * 256 + lo) (value.take 28),
                reply := [DynamicKeymapMacroSetBufferId, hi, lo, 28] ++ value } := by
  rfl

theorem setBuffer_faithful (c : Client Firmware) (off : Nat) (value : List Nat)
    (hoff : off < 65536) (hlen : value.length = 28) :
    ∃ c', SetDynamicKeymapMacroBuffer faithful c off MaxDynamicKeymapBufferSize value =
        (.ok (), c') ∧ c'.device.macros = storeAt c.device.macros off value ∧
      c'.device.count = c.device.count ∧ c'.cache = c.cache := by
  refine ⟨exchanged c ([DynamicKeymapMacroSetBufferId, off >>> 8 &&& 0xFF, off &&& 0xFF, 28]
    ++ value), ?_, ?_, rfl, rfl⟩
  · unfold SetDynamicKeymapMacroBuffer
    simp only [MaxDynamicKeymapBufferSize, hlen]
    rw [if_neg (by omega)]
    simp only [show ¬ (28 % 256 < 28) by decide, if_false]
    rw [fillPayload_frame value hlen]
    rw [sendMessage_faithful c _ (by simp [hlen])
      (by rw [handle_setBuffer]; simp [hlen])]
    simp only [handle_setBuffer]
    rfl
  · show storeAt c.device.macros ((off >>> 8 &&& 0xFF) * 256 + (off &&& 0xFF)) (value.take 28)
      = storeAt c.device.macros off value
    rw [offset_bytes off hoff, ← hlen, List.take_length]

theorem length_storeAt : ∀ (vs m : List Nat) (off : Nat), (storeAt m off vs).length = m.length := by
  intro vs
  induction vs with
  | nil => intro m off; rfl
  | cons v vs ih => intro m off; simp [storeAt, ih]

theorem getElem?_storeAt : ∀ (vs m : List Nat) (off j : Nat),
    (storeAt m off vs)[j]? =
      if off ≤ j ∧ j < off + vs.length ∧ j < m.length then vs[j - off]? else m[j]? := by
  intro vs
  induction vs with
  | nil =>
    intro m off j
    simp only [storeAt, List.length_nil]
    rw [if_neg (by omega)]
  | cons v vs ih =>
    intro m off j
    simp only [storeAt, List.length_cons]
    rw [ih, List.length_set, List.getElem?_set]
    by_cases h1 : off = j
    · subst h1
      by_cases h2 : off < m.length
      · rw [if_neg (by omega), if_pos rfl, if_pos h2, if_pos (by omega)]
        simp
      · rw [if_neg (by omega), if_pos rfl, if_neg h2, if_neg (by omega),
          List.getElem?_eq_none (by omega)]
    · rw [if_neg h1]
      by_cases h3 : off + 1 ≤ j ∧ j < off + 1 + vs.length ∧ j < m.length
      · rw [if_pos h3, if_pos (by omega)]
        have : j - off = (j - (off + 1)) + 1 := by omega
        rw [this, List.getElem?_cons_succ]
      · rw [if_neg h3, if_neg (by omega)]

theorem slice_chunk (buffer : Slice) (i : Nat) (h : (i + 1) * 28 ≤ buffer.arr.length) :
    buffer.slice (i * 28) (i * 28 + 28) = some ((buffer.arr.take (i * 28 + 28)).drop (i * 28)) ∧
    ((buffer.arr.take (i * 28 + 28)).drop (i * 28)).length = 28 := by
  constructor
  · unfold Slice.slice Slice.cap
    rw [if_pos ⟨by omega, by omega⟩]
  · rw [List.length_drop, List.length_take]
    omega

theorem writeChunks_faithful (buffer : Slice) : ∀ (n i : Nat) (c : Client Firmware),
    (i + n) * 28 < 65536 + 28 → (i + n) * 28 ≤ buffer.arr.length →
    ∃ c', writeChunks faithful buffer n i c = (.ok (), c') ∧
      c'.device.count = c.device.count ∧ c'.cache = c.cache ∧
      c'.device.macros.length = c.device.macros.length ∧
      ∀ j, c'.device.macros[j]? =
        if i * 28 ≤ j ∧ j < (i + n) * 28 ∧ j < c.device.macros.length then buffer.arr[j]?
        else c.device.macros[j]? := by
  intro n
  induction n with
  | zero =>
    intro i c _ _
    refine ⟨c, rfl, rfl, rfl, rfl, ?_⟩
    intro j
    rw [if_neg (by omega)]
  | succ n ih =>
    intro i c hb hcap
    obtain ⟨hsl, hlen⟩ := slice_chunk buffer i (by omega)
    obtain ⟨c1, hc1, hm1, hcount1, hcache1⟩ :=
      setBuffer_faithful c (i * 28) _ (by omega) hlen
    obtain ⟨c', hc', hcount', hcache', hlen', hget'⟩ := ih (i + 1) c1 (by omega) (by omega)
    refine ⟨c', ?_, hcount'.trans hcount1, hcache'.trans hcache1, ?_, ?_⟩
    · simp only [writeChunks, MaxDynamicKeymapBufferSize]
      rw [hsl]
      simp only []
      rw [Nat.mod_eq_of_lt (by omega)]
      simp only [MaxDynamicKeymapBufferSize] at hc1
      rw [hc1]
      exact hc'
    · rw [hlen', hm1, length_storeAt]
    · intro j
      rw [hget', hm1, length_storeAt, getElem?_storeAt, hlen]
      by_cases h1 : (i + 1) * 28 ≤ j ∧ j < (i + 1 + n) * 28 ∧ j < c.device.macros.length
      · rw [if_pos h1, if_pos (by omega)]
      · rw [if_neg h1]
        by_cases h2 : i * 28 ≤ j ∧ j < i * 28 + 28 ∧ j < c.device.macros.length
        · rw [if_pos h2, if_pos (by omega), List.getElem?_drop, List.getElem?_take,
            if_pos (by omega)]
          congr 1
          omega
        · rw [if_neg h2, if_neg (by omega)]

theorem setMacroBuffer_faithful (grow : Nat → Nat → Nat) (c : Client Firmware) (b : List Nat)
    (hS : c.device.macros.length < 65536) :
    ∃ c', setMacroBuffer grow faithful c (Slice.ofList b) = (.ok (), c') ∧
      c'.device.macros = (b ++ List.replicate c.device.macros.length 0).take
        c.device.macros.length ∧
      c'.device.count = c.device.count ∧ c'.cache = none := by
  obtain ⟨hlo, hhi⟩ := chunkCount_bounds c.device.macros.length
  -- the slice the write loop runs on
  have hbuf : ∃ buffer : Slice,
      (if (Slice.ofList b).cap < chunkCount c.device.macros.length * MaxDynamicKeymapBufferSize
        then Slice.append grow (Slice.ofList b) (List.replicate
          (chunkCount c.device.macros.length * MaxDynamicKeymapBufferSize - (Slice.ofList b).cap) 0)
        else Slice.ofList b) = buffer ∧
      chunkCount c.device.macros.length * 28 ≤ buffer.arr.length ∧
      ∀ j, j < c.device.macros.length →
        buffer.arr[j]? = (b ++ List.replicate c.device.macros.length 0)[j]? := by
    simp only [Slice.ofList, Slice.cap, MaxDynamicKeymapBufferSize]
    by_cases hlt : b.length < chunkCount c.device.macros.length * 28
    · rw [if_pos hlt]
      refine ⟨_, rfl, ?_, ?_⟩
      · simp only [Slice.append, Slice.cap, List.length_replicate]
        rw [if_neg (by omega)]
        simp only [List.length_append, List.length_take, List.length_replicate]
        omega
      · intro j hj
        simp only [Slice.append, Slice.cap, List.length_replicate]
        rw [if_neg (by omega), List.take_length, List.append_assoc]
        by_cases hjb : j < b.length
        · rw [List.getElem?_append_left hjb, List.getElem?_append_left hjb]
        · have hge : b.length ≤ j := Nat.le_of_not_lt hjb
          have hl : (b ++ (List.replicate (chunkCount c.device.macros.length * 28 - b.length) 0 ++
              List.replicate (grow b.length (b.length +
                (chunkCount c.device.macros.length * 28 - b.length)) -
                (b.length + (chunkCount c.device.macros.length * 28 - b.length))) 0))[j]?
              = some 0 := by
            rw [List.getElem?_append_right hge,
              List.getElem?_append_left (by rw [List.length_replicate]; omega),
              List.getElem?_replicate, if_pos (by omega)]
          have hr : (b ++ List.replicate c.device.macros.length 0)[j]? = some 0 := by
            rw [List.getElem?_append_right hge, List.getElem?_replicate, if_pos (by omega)]
          rw [hl, hr]
    · rw [if_neg hlt]
      refine ⟨_, rfl, by simpa using (Nat.le_of_not_lt hlt), ?_⟩
      intro j hj
      rw [List.getElem?_append_left (by omega)]
  obtain ⟨buffer, hbeq, hcap, hget⟩ := hbuf
  obtain ⟨c', hc', hcount', hcache', hlen', hget'⟩ := writeChunks_faithful buffer
    (chunkCount c.device.macros.length) 0
    { exchanged c (hidFrame [DynamicKeymapMacroGetBufferSizeId]) with cache := none }
    (by omega) (by omega)
  refine ⟨c', ?_, ?_, hcount', hcache'⟩
  · unfold setMacroBuffer
    rw [size_faithful c hS]
    simp only []
    rw [hbeq]
    exact hc'
  · apply List.ext_getElem?
    intro j
    rw [hget', List.getElem?_take]
    have hm : ({ exchanged c (hidFrame [DynamicKeymapMacroGetBufferSizeId]) with
        cache := none } : Client Firmware).device.macros = c.device.macros := rfl
    rw [hm]
    by_cases hj : j < c.device.macros.length
    · rw [if_pos (by omega), if_pos hj, hget j hj]
    · rw [if_neg (by omega), if_neg hj, List.getElem?_eq_none (by omega)]

theorem Join_of_two (grow : Nat → Nat → Nat) (l : List (List Nat)) (h : 2 ≤ l.length) :
    Join grow l = Slice.ofList l.flatten := by
  match l, h with
  | _ :: _ :: _, _ => rfl

theorem set_append_length (P : List (List Nat)) (x y : List Nat) (R : List (List Nat)) :
    (P ++ x :: R).set P.length y = P ++ y :: R := by
  induction P with
  | nil => rfl
  | cons p P ih => simp [ih]

theorem SplitAfterN_ne_nil (s : List Nat) : 1 ≤ (SplitAfterN s).length := by
  rw [length_SplitAfterN _ s rfl]
  omega

theorem setMacro_faithful (grow : Nat → Nat → Nat) (c : Client Firmware) (number : Nat)
    (B pre seg post : List Nat)
    (hS : c.device.macros.length < 65536) (hcnt : c.device.count < 256)
    (hcache : c.cache = none ∨ c.cache = some c.device.macros)
    (hle : number ≤ c.device.count)
    (hM : c.device.macros = pre ++ seg ++ 0 :: post)
    (hpre : pre.count 0 = number) (hend : pre = [] ∨ ∃ p, pre = p ++ [0]) (hseg : 0 ∉ seg) :
    ∃ c', SetDynamicKeymapMacro grow faithful c number B = (.ok (), c') ∧
      c'.device.macros = ((pre ++ B ++ 0 :: post) ++
        List.replicate c.device.macros.length 0).take c.device.macros.length ∧
      c'.device.count = c.device.count ∧ c'.cache = none := by
  -- the count query
  have h1 := count_faithful c
  rw [Nat.mod_eq_of_lt hcnt] at h1
  obtain ⟨hm1, hc1, hk1⟩ := sameStore_exchanged_count c
  -- the buffer, cached or read
  have h2 : ∃ c2, getMacroBuffer faithful (exchanged c (hidFrame [DynamicKeymapMacroGetCountId]))
      = (.ok c.device.macros, c2) ∧ c2.device.macros = c.device.macros ∧
        c2.device.count = c.device.count := by
    rcases hcache with hnone | hsome
    · obtain ⟨c2, hc2, hm2, hcount2, _⟩ := getMacroBuffer_faithful
        (exchanged c (hidFrame [DynamicKeymapMacroGetCountId])) (by rw [hm1]; exact hS)
        (by rw [hk1]; exact hnone)
      rw [hm1] at hc2 hm2
      exact ⟨c2, hc2, hm2, hcount2.trans hc1⟩
    · exact ⟨_, getMacroBuffer_cached _ _ (by rw [hk1]; exact hsome), hm1, hc1⟩
  obtain ⟨c2, hc2, hm2, hcount2⟩ := h2
  -- split, replace, join
  obtain ⟨P, hlen, hflat, hsplit⟩ := SplitAfterN_segment number pre seg post hpre hend hseg
  have hlt : ¬ number ≥ (SplitAfterN c.device.macros).length := by
    rw [hM, hsplit, List.length_append, hlen]
    simp
  have hset : (SplitAfterN c.device.macros).set number (B ++ [0]) =
      P ++ (B ++ [0]) :: SplitAfterN post := by
    rw [hM, hsplit, ← hlen]
    exact set_append_length P _ _ _
  have hjoin : Join grow (P ++ (B ++ [0]) :: SplitAfterN post) =
      Slice.ofList (pre ++ B ++ 0 :: post) := by
    rw [Join_of_two grow _ (by
      have := SplitAfterN_ne_nil post
      simp only [List.length_append, List.length_cons]
      omega)]
    rw [List.flatten_append, List.flatten_cons, hflat, flatten_SplitAfterN _ post rfl]
    simp
  -- the write
  obtain ⟨c3, hc3, hm3, hcount3, hcache3⟩ := setMacroBuffer_faithful grow c2
    (pre ++ B ++ 0 :: post) (by rw [hm2]; exact hS)
  refine ⟨c3, ?_, by rw [hm3, hm2], hcount3.trans hcount2, hcache3⟩
  unfold SetDynamicKeymapMacro
  simp only [h1, hc2]
  rw [if_neg (by omega), if_neg hlt, hset, hjoin]
  exact hc3


theorem getMacro_faithful (c : Client Firmware) (number : Nat) (pre seg post : List Nat)
    (hS : c.device.macros.length < 65536) (hcnt : c.device.count < 256)
    (hcache : c.cache = none ∨ c.cache = some c.device.macros)
    (hle : number ≤ c.device.count)
    (hM : c.device.macros = pre ++ seg ++ 0 :: post)
    (hpre : pre.count 0 = number) (hend : pre = [] ∨ ∃ p, pre = p ++ [0]) (hseg : 0 ∉ seg) :
    (GetDynamicKeymapMacro faithful c number).1 = .ok seg := by
  have h1 := count_faithful c
  rw [Nat.mod_eq_of_lt hcnt] at h1
  obtain ⟨hm1, hc1, hk1⟩ := sameStore_exchanged_count c
  have h2 : ∃ c2, getMacroBuffer faithful (exchanged c (hidFrame [DynamicKeymapMacroGetCountId]))
      = (.ok (pre ++ seg ++ 0 :: post), c2) := by
    rcases hcache with hnone | hsome
    · obtain ⟨c2, hc2, _, _, _⟩ := getMacroBuffer_faithful
        (exchanged c (hidFrame [DynamicKeymapMacroGetCountId])) (by rw [hm1]; exact hS)
        (by rw [hk1]; exact hnone)
      rw [hm1, hM] at hc2
      exact ⟨c2, hc2⟩
    · refine ⟨_, getMacroBuffer_cached _ _ (by rw [hk1, hsome, hM])⟩
  obtain ⟨c2, hc2⟩ := h2
  rw [getMacro_of_segment faithful c _ c2 number c.device.count pre seg post h1 hc2 hle hpre
    hend hseg]

/-- C1, amended: against a faithful device with a 16-bit buffer size `S`, a
one-byte macro count and a cache that is empty or equal to the stored buffer,
let `i ≤ count` index a zero-terminated segment (the stored buffer is
`pre ++ seg ++ 0 :: post` with `pre` the `i` terminated segments before it) and
let `B` hold no zero byte and end, with its terminator, inside the `S` bytes.
Then `SetDynamicKeymapMacro(i, B)` succeeds and `GetDynamicKeymapMacro(i)`
returns exactly `B`, whatever the run-time's slice growth policy. -/
theorem macro_set_get_roundtrip (grow : Nat → Nat → Nat) (c : Client Firmware) (number : Nat)
    (B pre seg post : List Nat)
    (hS : c.device.macros.length < 65536) (hcnt : c.device.count < 256)
    (hcache : c.cache = none ∨ c.cache = some c.device.macros)
    (hle : number ≤ c.device.count)
    (hM : c.device.macros = pre ++ seg ++ 0 :: post)
    (hpre : pre.count 0 = number) (hend : pre = [] ∨ ∃ p, pre = p ++ [0]) (hseg : 0 ∉ seg)
    (hB : 0 ∉ B) (hfit : pre.length + B.length + 1 ≤ c.device.macros.length) :
    (SetDynamicKeymapMacro grow faithful c number B).1 = .ok () ∧
    (GetDynamicKeymapMacro faithful (SetDynamicKeymapMacro grow faithful c number B).2
      number).1 = .ok B := by
  obtain ⟨c3, hc3, hm3, hcount3, hcache3⟩ :=
    setMacro_faithful grow c number B pre seg post hS hcnt hcache hle hM hpre hend hseg
  rw [hc3]
  refine ⟨rfl, ?_⟩
  have hsplit : c3.device.macros = pre ++ B ++ 0 :: ((post ++
      List.replicate c.device.macros.length 0).take
        (c.device.macros.length - (pre.length + B.length + 1))) := by
    rw [hm3]
    have e : pre ++ B ++ 0 :: post ++ List.replicate c.device.macros.length 0 =
        (pre ++ B ++ [0]) ++ (post ++ List.replicate c.device.macros.length 0) := by simp
    rw [e, List.take_append_eq_append_take, List.take_of_length_le (by simp; omega)]
    simp [Nat.add_assoc]
  have hlen3 : c3.device.macros.length = c.device.macros.length := by
    rw [hm3, List.length_take]
    simp
    omega
  exact getMacro_faithful c3 number pre B _ (by rw [hlen3]; exact hS) (by rw [hcount3]; exact hcnt)
    (Or.inl hcache3) (by rw [hcount3]; exact hle) hsplit hpre hend hB

/-- Witness of C1, amended: macro 1 of the six-byte buffer `[1, 2, 0, 3, 0, 0]`
is replaced by `[7, 8]`, which still ends inside the buffer. -/
theorem macro_set_get_roundtrip_witness :
    (SetDynamicKeymapMacro exactGrow faithful (freshClient [1, 2, 0, 3, 0, 0] 16) 1 [7, 8]).1
      = .ok () ∧
    (GetDynamicKeymapMacro faithful
      (SetDynamicKeymapMacro exactGrow faithful (freshClient [1, 2, 0, 3, 0, 0] 16) 1 [7, 8]).2
      1).1 = .ok [7, 8] :=
  macro_set_get_roundtrip exactGrow (freshClient [1, 2, 0, 3, 0, 0] 16) 1 [7, 8] [1, 2, 0] [3] [0]
    (by decide) (by decide) (Or.inl rfl) (by decide) rfl (by decide) (Or.inr ⟨[1, 2], rfl⟩)
    (by decide) (by decide) (by decide)

/-- C1 as stated fails: a macro holding a zero byte does not come back. On a
faithful device with 28 zero bytes and 16 macros, setting macro 0 to
`[1, 0, 2]` succeeds and reading macro 0 then returns `[1]`. -/
theorem macro_roundtrip_fails_on_zero_byte :
    (SetDynamicKeymapMacro exactGrow faithful (freshClient (List.replicate 28 0) 16) 0
      [1, 0, 2]).1 = .ok () ∧
    (GetDynamicKeymapMacro faithful
      (SetDynamicKeymapMacro exactGrow faithful (freshClient (List.replicate 28 0) 16) 0
        [1, 0, 2]).2 0).1 = .ok [1] ∧
    (GetDynamicKeymapMacro faithful
      (SetDynamicKeymapMacro exactGrow faithful (freshClient (List.replicate 28 0) 16) 0
        [1, 0, 2]).2 0).1 ≠ .ok [1, 0, 2] := by
  have h : (GetDynamicKeymapMacro faithful
      (SetDynamicKeymapMacro exactGrow faithful (freshClient (List.replicate 28 0) 16) 0
        [1, 0, 2]).2 0).1 = .ok [1] := rfl
  refine ⟨rfl, h, ?_⟩
  rw [h]
  intro hne
  cases hne

/-! ## Where an invalid-macro-number error can come from -/

theorem sendLoop_err_ne {σ : Type} (d : Device σ) (k : Nat) :
    ∀ (n : Nat) (c : Client σ) (message : List Nat),
      (sendLoop d n c message).err ≠ some (Error.InvalidMacroNumber k) := by
  intro n
  induction n with
  | zero => intro c message h; cases h
  | succ n ih =>
    intro c message
    rw [sendLoop_succ]
    split
    · show verdict _ ≠ _
      unfold verdict
      split <;> simp
    · exact ih _ _

theorem sendMessage_err_ne {σ : Type} (d : Device σ) (c : Client σ) (message : List Nat)
    (N : Int) (k : Nat) :
    (sendMessage d c message N).err ≠ some (Error.InvalidMacroNumber k) := by
  unfold sendMessage
  split
  · simp
  · exact sendLoop_err_ne d k _ _ _

theorem size_err_ne {σ : Type} (d : Device σ) (c : Client σ) (k : Nat) :
    (GetDynamicKeymapMacroBufferSize d c).1 ≠ .error (Error.InvalidMacroNumber k) := by
  unfold GetDynamicKeymapMacroBufferSize
  simp only []
  split
  · rename_i e he
    intro h
    simp only [Except.error.injEq] at h
    rw [h] at he
    exact sendMessage_err_ne _ _ _ _ _ he
  · intro h; cases h

theorem count_err_ne {σ : Type} (d : Device σ) (c : Client σ) (k : Nat) :
    (GetDynamicKeymapMacroCount d c).1 ≠ .error (Error.InvalidMacroNumber k) := by
  unfold GetDynamicKeymapMacroCount
  simp only []
  split
  · rename_i e he
    intro h
    simp only [Except.error.injEq] at h
    rw [h] at he
    exact sendMessage_err_ne _ _ _ _ _ he
  · intro h; cases h

theorem getBuffer_err_ne {σ : Type} (d : Device σ) (c : Client σ) (off size k : Nat) :
    (GetDynamicKeymapMacroBuffer d c off size).1 ≠ .error (Error.InvalidMacroNumber k) := by
  unfold GetDynamicKeymapMacroBuffer
  simp only []
  split
  · rename_i e he
    intro h
    simp only [Except.error.injEq] at h
    rw [h] at he
    exact sendMessage_err_ne _ _ _ _ _ he
  · intro h; cases h

theorem setBuffer_err_ne {σ : Type} (d : Device σ) (c : Client σ) (off size k : Nat)
    (value : List Nat) :
    (SetDynamicKeymapMacroBuffer d c off size value).1 ≠
      .error (Error.InvalidMacroNumber k) := by
  unfold SetDynamicKeymapMacroBuffer
  split
  · intro h; cases h
  · simp only []
    split
    · rename_i e he
      intro h
      simp only [Except.error.injEq] at h
      rw [h] at he
      exact sendMessage_err_ne _ _ _ _ _ he
    · intro h; cases h

theorem readChunks_err_ne {σ : Type} (d : Device σ) (k : Nat) :
    ∀ (n i : Nat) (c : Client σ) (buffer : List Nat),
      (readChunks d n i c buffer).1 ≠ .error (Error.InvalidMacroNumber k) := by
  intro n
  induction n with
  | zero => intro i c buffer h; cases h
  | succ n ih =>
    intro i c buffer
    simp only [readChunks]
    have h := getBuffer_err_ne d c (i * MaxDynamicKeymapBufferSize % 65536)
      MaxDynamicKeymapBufferSize k
    revert h
    cases GetDynamicKeymapMacroBuffer d c (i * MaxDynamicKeymapBufferSize % 65536)
      MaxDynamicKeymapBufferSize with
    | mk r c1 =>
      cases r with
      | error e => intro h; exact h
      | ok chunk => intro _; exact ih _ _ _

theorem getMacroBuffer_err_ne {σ : Type} (d : Device σ) (c : Client σ) (k : Nat) :
    (getMacroBuffer d c).1 ≠ .error (Error.InvalidMacroNumber k) := by
  unfold getMacroBuffer
  cases c.cache with
  | some b => intro h; cases h
  | none =>
    simp only []
    have h := size_err_ne d c k
    revert h
    cases GetDynamicKeymapMacroBufferSize d c with
    | mk r c1 =>
      cases r with
      | error e => intro h; simpa using h
      | ok size =>
        intro _
        simp only []
        have h2 := readChunks_err_ne d k (chunkCount size) 0 c1 []
        revert h2
        cases readChunks d (chunkCount size) 0 c1 [] with
        | mk r2 c2 =>
          cases r2 with
          | error e => intro h; exact h
          | ok buffer =>
            intro _
            simp only []
            split
            · intro h; cases h
            · intro h; cases h

theorem writeChunks_err_ne {σ : Type} (d : Device σ) (buffer : Slice) (k : Nat) :
    ∀ (n i : Nat) (c : Client σ),
      (writeChunks d buffer n i c).1 ≠ .error (Error.InvalidMacroNumber k) := by
  intro n
  induction n with
  | zero => intro i c h; cases h
  | succ n ih =>
    intro i c
    simp only [writeChunks]
    cases buffer.slice (i * MaxDynamicKeymapBufferSize)
      (i * MaxDynamicKeymapBufferSize + MaxDynamicKeymapBufferSize) with
    | none => intro h; cases h
    | some value =>
      simp only []
      have h := setBuffer_err_ne d c (i * MaxDynamicKeymapBufferSize % 65536)
        MaxDynamicKeymapBufferSize k value
      revert h
      cases SetDynamicKeymapMacroBuffer d c (i * MaxDynamicKeymapBufferSize % 65536)
        MaxDynamicKeymapBufferSize value with
      | mk r c1 =>
        cases r with
        | error e => intro h; exact h
        | ok u => intro _; exact ih _ _

theorem setMacroBuffer_err_ne {σ : Type} (grow : Nat → Nat → Nat) (d : Device σ)
    (c : Client σ) (buffer : Slice) (k : Nat) :
    (setMacroBuffer grow d c buffer).1 ≠ .error (Error.InvalidMacroNumber k) := by
  unfold setMacroBuffer
  have h := size_err_ne d c k
  revert h
  cases GetDynamicKeymapMacroBufferSize d c with
  | mk r c1 =>
    cases r with
    | error e => intro h; simpa using h
    | ok size => intro _; exact writeChunks_err_ne d _ k _ _ _

/-! ## The macro store: properties -/

/-- C10, amended: the macro numbers that pass the count check are `0..count`,
`count` included. For a device that reports `count` macros,
`GetDynamicKeymapMacro(n)` and `SetDynamicKeymapMacro(n, _)` fail with the
invalid-macro-number error if and only if `n > count`. -/
theorem macro_number_rejected_iff {σ : Type} (grow : Nat → Nat → Nat) (d : Device σ)
    (c c1 : Client σ) (number count : Nat) (B : List Nat)
    (hcount : GetDynamicKeymapMacroCount d c = (.ok count, c1)) :
    ((GetDynamicKeymapMacro d c number).1 = .error (Error.InvalidMacroNumber count) ↔
      count < number) ∧
    ((SetDynamicKeymapMacro grow d c number B).1 = .error (Error.InvalidMacroNumber count) ↔
      count < number) := by
  constructor
  · constructor
    · intro h
      by_contra hle
      revert h
      unfold GetDynamicKeymapMacro
      simp only [hcount]
      rw [if_neg (by omega)]
      have hb := getMacroBuffer_err_ne d c1 count
      revert hb
      cases getMacroBuffer d c1 with
      | mk r c2 =>
        cases r with
        | error e => intro hb; simpa using hb
        | ok buffer =>
          intro _
          simp only []
          split
          · intro h; cases h
          · split
            · intro h; cases h
            · intro h; cases h
    · intro hlt
      unfold GetDynamicKeymapMacro
      simp only [hcount]
      rw [if_pos (by omega)]
  · constructor
    · intro h
      by_contra hle
      revert h
      unfold SetDynamicKeymapMacro
      simp only [hcount]
      rw [if_neg (by omega)]
      have hb := getMacroBuffer_err_ne d c1 count
      revert hb
      cases getMacroBuffer d c1 with
      | mk r c2 =>
        cases r with
        | error e => intro hb; simpa using hb
        | ok buffer =>
          intro _
          simp only []
          split
          · intro h; cases h
          · exact setMacroBuffer_err_ne grow d c2 _ count
    · intro hlt
      unfold SetDynamicKeymapMacro
      simp only [hcount]
      rw [if_pos (by omega)]

/-- Witness of C10, amended: on a faithful device reporting 16 macros,
number 16 is not rejected and number 17 is. -/
theorem macro_number_rejected_iff_witness :
    (GetDynamicKeymapMacro faithful (freshClient (List.replicate 28 0) 16) 17).1 =
      .error (Error.InvalidMacroNumber 16) ∧
    (GetDynamicKeymapMacro faithful (freshClient (List.replicate 28 0) 16) 16).1 ≠
      .error (Error.InvalidMacroNumber 16) :=
  ⟨(macro_number_rejected_iff exactGrow faithful (freshClient (List.replicate 28 0) 16)
      (GetDynamicKeymapMacroCount faithful (freshClient (List.replicate 28 0) 16)).2 17 16 []
      rfl).1.2 (by decide),
   fun h => absurd ((macro_number_rejected_iff exactGrow faithful
      (freshClient (List.replicate 28 0) 16)
      (GetDynamicKeymapMacroCount faithful (freshClient (List.replicate 28 0) 16)).2 16 16 []
      rfl).1.1 h) (by decide)⟩

/-- C10 as stated fails: on a faithful device that reports 16 macros and holds
28 zero bytes, `GetDynamicKeymapMacro(16)` returns the empty macro and
`SetDynamicKeymapMacro(16, [7])` succeeds; neither is rejected. -/
theorem macro_number_count_accepted :
    (GetDynamicKeymapMacro faithful (freshClient (List.replicate 28 0) 16) 16).1 = .ok [] ∧
    (SetDynamicKeymapMacro exactGrow faithful (freshClient (List.replicate 28 0) 16) 16 [7]).1
      = .ok () :=
  ⟨rfl, rfl⟩

/-- C9, the code at the failing inputs. The buffer `[1, 2, 3]` stores no
terminated macro, yet `GetDynamicKeymapMacro(0)` returns `[1, 2]`. The buffer
`[1, 0, 2, 3]` stores one terminated macro and the unterminated tail `[2, 3]`:
`GetDynamicKeymapMacro(1)` returns `[2]` and, whatever the run-time's slice
growth policy, `SetDynamicKeymapMacro(1, [7])` succeeds and replaces the tail,
leaving `[1, 0, 7, 0]` on the device. On the buffer `[5, 0]`, whose segment 1
is the empty tail, `GetDynamicKeymapMacro(1)` panics. `ErrorMacroNotInBytes`
comes only one index later. -/
theorem getMacro_unterminated_tail :
    (GetDynamicKeymapMacro faithful (freshClient [1, 2, 3] 1) 0).1 = .ok [1, 2] ∧
    (GetDynamicKeymapMacro faithful (freshClient [1, 0, 2, 3] 16) 1).1 = .ok [2] ∧
    (∀ grow : Nat → Nat → Nat,
      (SetDynamicKeymapMacro grow faithful (freshClient [1, 0, 2, 3] 16) 1 [7]).1 = .ok () ∧
      (SetDynamicKeymapMacro grow faithful (freshClient [1, 0, 2, 3] 16) 1 [7]).2.device.macros
        = [1, 0, 7, 0]) ∧
    (GetDynamicKeymapMacro faithful (freshClient [5, 0] 1) 1).1 = .error Error.RuntimePanic ∧
    (GetDynamicKeymapMacro faithful (freshClient [1, 2, 3] 1) 1).1 =
      .error Error.MacroNotInBytes ∧
    (GetDynamicKeymapMacro faithful (freshClient [1, 0, 2, 3] 16) 2).1 =
      .error Error.MacroNotInBytes := by
  refine ⟨rfl, rfl, ?_, rfl, rfl, rfl⟩
  intro grow
  have h : SetDynamicKeymapMacro grow faithful (freshClient [1, 0, 2, 3] 16) 1 [7] =
      setMacroBuffer grow faithful
        (getMacroBuffer faithful
          (GetDynamicKeymapMacroCount faithful (freshClient [1, 0, 2, 3] 16)).2).2
        (Slice.ofList [1, 0, 7, 0]) := rfl
  obtain ⟨c3, hc3, hm3, _, _⟩ := setMacroBuffer_faithful grow
    (getMacroBuffer faithful
      (GetDynamicKeymapMacroCount faithful (freshClient [1, 0, 2, 3] 16)).2).2 [1, 0, 7, 0]
    (by decide)
  rw [h, hc3]
  exact ⟨rfl, hm3.trans (by decide)⟩

/-- C2, the code at the failing input. The device holds 33 bytes; the buffer
has length 33 and capacity 48. The guard sees `cap = 48 < 56` and appends
`56 - 48 = 8` zero bytes in place (length 41, capacity still 48, no growth),
the first chunk `buffer[0:28]` is written, and `buffer[28:56]` panics; the
device is left with the first 28 bytes replaced. Such a buffer reaches
`setMacroBuffer` from `SetDynamicKeymapMacro(0, B)` with 32 bytes `B` when the
stored buffer holds no zero byte and a 33-byte allocation has capacity 48. -/
theorem setMacroBuffer_panics_on_spare_capacity :
    (setMacroBuffer exactGrow faithful (freshClient (List.replicate 33 9) 16)
      ⟨List.replicate 32 1 ++ [0] ++ List.replicate 15 0, 33⟩).1 = .error Error.RuntimePanic ∧
    (setMacroBuffer exactGrow faithful (freshClient (List.replicate 33 9) 16)
      ⟨List.replicate 32 1 ++ [0] ++ List.replicate 15 0, 33⟩).2.device.macros =
        List.replicate 28 1 ++ List.replicate 5 9 ∧
    (SetDynamicKeymapMacro sizeClassGrow faithful (freshClient (List.replicate 33 9) 16) 0
      (List.replicate 32 1)).1 = .error Error.RuntimePanic :=
  ⟨rfl, rfl, rfl⟩

/-- What does hold for C2: when the buffer handed to `setMacroBuffer` fills its
backing array (`cap = len`) and has the device's length `S`, writing it and
reading the macro buffer back returns exactly its bytes. -/
theorem macroBuffer_roundtrip_exact_capacity (grow : Nat → Nat → Nat) (c : Client Firmware)
    (b : List Nat) (hS : c.device.macros.length < 65536)
    (hlen : b.length = c.device.macros.length) :
    (setMacroBuffer grow faithful c (Slice.ofList b)).1 = .ok () ∧
    (getMacroBuffer faithful (setMacroBuffer grow faithful c (Slice.ofList b)).2).1 = .ok b := by
  obtain ⟨c', hc', hm', _, hcache'⟩ := setMacroBuffer_faithful grow c b hS
  have hb : c'.device.macros = b := by
    rw [hm', ← hlen, List.take_append_of_le_length (Nat.le_refl _), List.take_length]
  obtain ⟨c2, hc2, _⟩ := getMacroBuffer_faithful c' (by rw [hb, hlen]; exact hS) hcache'
  rw [hc', hc2, hb]
  exact ⟨rfl, rfl⟩

/-- C7, the code at the failing input. With one byte of data
`SetRawKeyboardValue` hands `sendMessage` the 3-byte slice `[0x03, id, data...]`
and returns `ErrorBadMessageSize` without any device call; so does every
`data` of fewer than 30 bytes, the empty one included. -/
theorem SetRawKeyboardValue_short_data {σ : Type} (d : Device σ) (c : Client σ) (id : Nat) :
    SetRawKeyboardValue d c id [5] = (.error Error.BadMessageSize, c) ∧
    SetRawKeyboardValue d c id [] = (.error Error.BadMessageSize, c) ∧
    SetRawKeyboardValue d c id (List.replicate 29 0) = (.error Error.BadMessageSize, c) ∧
    (sendMessage d c ([SetKeyboardValueId, id % 256] ++ [5]) 20).client.log = c.log :=
  ⟨rfl, rfl, rfl, rfl⟩

/-! ## The cache and the count check: lemmas and properties -/

theorem sendLoop_cache {σ : Type} (d : Device σ) :
    ∀ (n : Nat) (c : Client σ) (message : List Nat),
      (sendLoop d n c message).client.cache = c.cache := by
  intro n
  induction n with
  | zero => intro c message; rfl
  | succ n ih =>
    intro c message
    have hc : (attempt d c message).client.cache = c.cache := by
      unfold attempt
      simp only []
      split <;> rfl
    rw [sendLoop_succ]
    split
    · exact hc
    · rw [ih, hc]

theorem sendMessage_cache {σ : Type} (d : Device σ) (c : Client σ) (message : List Nat)
    (N : Int) : (sendMessage d c message N).client.cache = c.cache := by
  unfold sendMessage
  split
  · rfl
  · exact sendLoop_cache d _ c message

theorem count_client {σ : Type} (d : Device σ) (c : Client σ) :
    (GetDynamicKeymapMacroCount d c).2 =
      (sendMessage d c (hidFrame [DynamicKeymapMacroGetCountId]) 20).client := by
  unfold GetDynamicKeymapMacroCount
  simp only []
  split <;> rfl

theorem setBuffer_cache {σ : Type} (d : Device σ) (c : Client σ) (off size : Nat)
    (value : List Nat) :
    (SetDynamicKeymapMacroBuffer d c off size value).2.cache = c.cache := by
  unfold SetDynamicKeymapMacroBuffer
  split
  · rfl
  · simp only []
    split
    · exact sendMessage_cache d c _ 20
    · exact sendMessage_cache d c _ 20

theorem reset_cache {σ : Type} (d : Device σ) (c : Client σ) :
    (ResetDynamicKeymapMacro d c).2.cache = c.cache := by
  unfold ResetDynamicKeymapMacro
  simp only []
  split
  · exact sendMessage_cache d c _ 20
  · exact sendMessage_cache d c _ 20

/-- C11: for every index greater than the device-reported macro count,
`GetDynamicKeymapMacro` and `SetDynamicKeymapMacro` fail with the
invalid-macro-number error in the client state the count query left: that
state is the one after the single `sendMessage` of the count frame, so no
further exchange takes place, and its cache is the cache before the call. -/
theorem macro_number_above_count {σ : Type} (grow : Nat → Nat → Nat) (d : Device σ)
    (c c1 : Client σ) (number count : Nat) (B : List Nat)
    (hcount : GetDynamicKeymapMacroCount d c = (.ok count, c1))
    (hgt : count < number) :
    GetDynamicKeymapMacro d c number = (.error (Error.InvalidMacroNumber count), c1) ∧
    SetDynamicKeymapMacro grow d c number B = (.error (Error.InvalidMacroNumber count), c1) ∧
    c1 = (sendMessage d c (hidFrame [DynamicKeymapMacroGetCountId]) 20).client ∧
    c1.cache = c.cache := by
  have h1 : c1 = (sendMessage d c (hidFrame [DynamicKeymapMacroGetCountId]) 20).client := by
    have := count_client d c
    rw [hcount] at this
    exact this
  refine ⟨?_, ?_, h1, ?_⟩
  · unfold GetDynamicKeymapMacro
    simp only [hcount]
    rw [if_pos (by omega)]
  · unfold SetDynamicKeymapMacro
    simp only [hcount]
    rw [if_pos (by omega)]
  · rw [h1]
    exact sendMessage_cache d c _ 20

/-- Witness of C11: a faithful device reports 16 macros and the cache holds
`[4, 0]`; number 17 is rejected after one write and one read of the count
frame, with the cache untouched. -/
theorem macro_number_above_count_witness :
    GetDynamicKeymapMacro faithful ⟨⟨[1, 0], 16, []⟩, some [4, 0], []⟩ 17 =
      (.error (Error.InvalidMacroNumber 16),
        ⟨⟨[1, 0], 16, (hidFrame [DynamicKeymapMacroGetCountId]).set 1 16⟩, some [4, 0],
          [Event.write (hidFrame [DynamicKeymapMacroGetCountId]), Event.read]⟩) :=
  (macro_number_above_count exactGrow faithful ⟨⟨[1, 0], 16, []⟩, some [4, 0], []⟩
    ⟨⟨[1, 0], 16, (hidFrame [DynamicKeymapMacroGetCountId]).set 1 16⟩, some [4, 0],
      [Event.write (hidFrame [DynamicKeymapMacroGetCountId]), Event.read]⟩ 17 16 [] rfl
    (by decide)).1

/-- C12, the code at the failing input. The raw `SetDynamicKeymapMacroBuffer`
and `ResetDynamicKeymapMacro` never touch the cache, whatever the device. On a
faithful device holding the macro `[1]`, a read of macro 0 fills the cache, a
raw write of the byte 9 at offset 0 changes the device and leaves the cache
filled with the old buffer, and the next read of macro 0 returns the stale
`[1]` while the device holds `[9]`. -/
theorem raw_writes_keep_cache :
    (∀ (σ : Type) (d : Device σ) (c : Client σ) (off size : Nat) (value : List Nat),
      (SetDynamicKeymapMacroBuffer d c off size value).2.cache = c.cache) ∧
    (∀ (σ : Type) (d : Device σ) (c : Client σ),
      (ResetDynamicKeymapMacro d c).2.cache = c.cache) ∧
    (GetDynamicKeymapMacro faithful (freshClient [1, 0, 0] 16) 0).1 = .ok [1] ∧
    (SetDynamicKeymapMacroBuffer faithful
      (GetDynamicKeymapMacro faithful (freshClient [1, 0, 0] 16) 0).2 0 1 [9]).1 = .ok () ∧
    (SetDynamicKeymapMacroBuffer faithful
      (GetDynamicKeymapMacro faithful (freshClient [1, 0, 0] 16) 0).2 0 1 [9]).2.device.macros
        = [9, 0, 0] ∧
    (SetDynamicKeymapMacroBuffer faithful
      (GetDynamicKeymapMacro faithful (freshClient [1, 0, 0] 16) 0).2 0 1 [9]).2.cache
        = some [1, 0, 0] ∧
    (GetDynamicKeymapMacro faithful (SetDynamicKeymapMacroBuffer faithful
      (GetDynamicKeymapMacro faithful (freshClient [1, 0, 0] 16) 0).2 0 1 [9]).2 0).1
        = .ok [1] :=
  ⟨fun _ d c off size value => setBuffer_cache d c off size value,
   fun _ d c => reset_cache d c, rfl, rfl, rfl, rfl, rfl⟩

/-! ## Value codecs: lemmas and properties -/

theorem mathRound_div (a n : ℕ) (hn : 0 < n) :
    mathRound ((a : ℚ) / (n : ℚ)) = (((2 * a + n) / (2 * n) : ℕ) : ℤ) := by
  unfold mathRound
  have hq : (0 : ℚ) < n := by exact_mod_cast hn
  rw [if_pos (by positivity)]
  have e : (a : ℚ) / (n : ℚ) + 1 / 2 = (((2 * a + n : ℕ) : ℤ) : ℚ) / ((2 * n : ℕ) : ℚ) := by
    push_cast
    field_simp
    ring
  rw [e, Rat.floor_intCast_div_natCast]
  norm_cast

theorem round_div (a n : ℕ) (hn : 0 < n) :
    round ((a : ℚ) / (n : ℚ)) = (((2 * a + n) / (2 * n) : ℕ) : ℤ) := by
  have hq : (0 : ℚ) < n := by exact_mod_cast hn
  have e : (a : ℚ) / (n : ℚ) + 1 / 2 = (((2 * a + n : ℕ) : ℤ) : ℚ) / ((2 * n : ℕ) : ℚ) := by
    push_cast
    field_simp
    ring
  rw [round_eq, e, Rat.floor_intCast_div_natCast]
  norm_cast

theorem toUint8_natCast (n : ℕ) : toUint8 (n : ℤ) = n % 256 := by
  unfold toUint8
  omega

theorem toUint16_natCast (n : ℕ) : toUint16 (n : ℤ) = n % 65536 := by
  unfold toUint16
  omega

/-- Decoding a byte to a percentage, in integer arithmetic. -/
theorem percent_decode (value : ℕ) :
    toUint8 (mathRound (((value : ℚ) * 100) / 255)) = (2 * (value * 100) + 255) / 510 % 256 := by
  have e : ((value : ℚ) * 100) / 255 = ((value * 100 : ℕ) : ℚ) / ((255 : ℕ) : ℚ) := by
    push_cast
    rfl
  rw [e, mathRound_div _ _ (by norm_num), toUint8_natCast]

/-- Encoding a percentage to a byte, in integer arithmetic. -/
theorem percent_encode (v : ℕ) :
    toUint8 (mathRound (((v : ℚ) * 255) / 100)) = (2 * (v * 255) + 100) / 200 % 256 := by
  have e : ((v : ℚ) * 255) / 100 = ((v * 255 : ℕ) : ℚ) / ((100 : ℕ) : ℚ) := by
    push_cast
    rfl
  rw [e, mathRound_div _ _ (by norm_num), toUint8_natCast]

theorem hue_decode (value : ℕ) :
    rgblight.HueFromByte value = (2 * (value * 360) + 255) / 510 % 65536 := by
  unfold rgblight.HueFromByte
  have e : ((value : ℚ) * 360) / 255 = ((value * 360 : ℕ) : ℚ) / ((255 : ℕ) : ℚ) := by
    push_cast
    rfl
  rw [e, mathRound_div _ _ (by norm_num), toUint16_natCast]

theorem hue_encode (h : ℕ) :
    rgblight.Hue.ToByte h = (2 * (h * 255) + 360) / 720 % 256 := by
  unfold rgblight.Hue.ToByte
  have e : ((h : ℚ) * 255) / 360 = ((h * 255 : ℕ) : ℚ) / ((360 : ℕ) : ℚ) := by
    push_cast
    rfl
  rw [e, mathRound_div _ _ (by norm_num), toUint8_natCast]

theorem round_percent_decode (b : ℕ) :
    round ((100 * (b : ℚ)) / 255) = (((2 * (b * 100) + 255) / 510 : ℕ) : ℤ) := by
  have e : (100 * (b : ℚ)) / 255 = ((b * 100 : ℕ) : ℚ) / ((255 : ℕ) : ℚ) := by
    push_cast
    ring
  rw [e, round_div _ _ (by norm_num)]

theorem round_percent_encode (v : ℕ) :
    round ((255 * (v : ℚ)) / 100) = (((2 * (v * 255) + 100) / 200 : ℕ) : ℤ) := by
  have e : (255 * (v : ℚ)) / 100 = ((v * 255 : ℕ) : ℚ) / ((100 : ℕ) : ℚ) := by
    push_cast
    ring
  rw [e, round_div _ _ (by norm_num)]

theorem round_hue_decode (b : ℕ) :
    round ((360 * (b : ℚ)) / 255) = (((2 * (b * 360) + 255) / 510 : ℕ) : ℤ) := by
  have e : (360 * (b : ℚ)) / 255 = ((b * 360 : ℕ) : ℚ) / ((255 : ℕ) : ℚ) := by
    push_cast
    ring
  rw [e, round_div _ _ (by norm_num)]

theorem round_hue_encode (h : ℕ) :
    round ((255 * (h : ℚ)) / 360) = (((2 * (h * 255) + 360) / 720 : ℕ) : ℤ) := by
  have e : (255 * (h : ℚ)) / 360 = ((h * 255 : ℕ) : ℚ) / ((360 : ℕ) : ℚ) := by
    push_cast
    ring
  rw [e, round_div _ _ (by norm_num)]


/-- C13: every decoder returns `round(M*b/255)` for every byte `b` and every
encoder returns `round(255*v/M)` for every `v` in `[0, M]` (`round` sends a
half up, which is away from zero here), with `M = 100` for the four percentage
types and `M = 360` for `Hue`; decoded values lie in `[0, M]`, encoded values
in `[0, 255]`; byte 128 decodes to 50 and to hue 181, and 50 encodes to 128. -/
theorem codec_rounding (b v h : ℕ) (hb : b < 256) (hv : v ≤ 100) (hh : h ≤ 360) :
    ((backlight.BrightnessFromByte b : ℤ) = round ((100 * (b : ℚ)) / 255) ∧
      backlight.BrightnessFromByte b ≤ 100) ∧
    ((rgblight.SaturationFromByte b : ℤ) = round ((100 * (b : ℚ)) / 255) ∧
      rgblight.SaturationFromByte b ≤ 100) ∧
    ((rgblight.BrightnessFromByte b : ℤ) = round ((100 * (b : ℚ)) / 255) ∧
      rgblight.BrightnessFromByte b ≤ 100) ∧
    ((rgblight.SpeedFromByte b : ℤ) = round ((100 * (b : ℚ)) / 255) ∧
      rgblight.SpeedFromByte b ≤ 100) ∧
    ((rgblight.HueFromByte b : ℤ) = round ((360 * (b : ℚ)) / 255) ∧
      rgblight.HueFromByte b ≤ 360) ∧
    ((backlight.Brightness.ToByte v : ℤ) = round ((255 * (v : ℚ)) / 100) ∧
      backlight.Brightness.ToByte v ≤ 255) ∧
    ((rgblight.Saturation.ToByte v : ℤ) = round ((255 * (v : ℚ)) / 100) ∧
      rgblight.Saturation.ToByte v ≤ 255) ∧
    ((rgblight.Brightness.ToByte v : ℤ) = round ((255 * (v : ℚ)) / 100) ∧
      rgblight.Brightness.ToByte v ≤ 255) ∧
    ((rgblight.Speed.ToByte v : ℤ) = round ((255 * (v : ℚ)) / 100) ∧
      rgblight.Speed.ToByte v ≤ 255) ∧
    ((rgblight.Hue.ToByte h : ℤ) = round ((255 * (h : ℚ)) / 360) ∧
      rgblight.Hue.ToByte h ≤ 255) ∧
    backlight.BrightnessFromByte 128 = 50 ∧ rgblight.HueFromByte 128 = 181 ∧
    backlight.Brightness.ToByte 50 = 128 := by
  have hd : (2 * (b * 100) + 255) / 510 % 256 = (2 * (b * 100) + 255) / 510 ∧
      (2 * (b * 100) + 255) / 510 ≤ 100 := by omega
  have he : (2 * (v * 255) + 100) / 200 % 256 = (2 * (v * 255) + 100) / 200 ∧
      (2 * (v * 255) + 100) / 200 ≤ 255 := by omega
  have hhd : (2 * (b * 360) + 255) / 510 % 65536 = (2 * (b * 360) + 255) / 510 ∧
      (2 * (b * 360) + 255) / 510 ≤ 360 := by omega
  have hhe : (2 * (h * 255) + 360) / 720 % 256 = (2 * (h * 255) + 360) / 720 ∧
      (2 * (h * 255) + 360) / 720 ≤ 255 := by omega
  have dec : (toUint8 (mathRound (((b : ℚ) * 100) / 255)) : ℤ) = round ((100 * (b : ℚ)) / 255) ∧
      toUint8 (mathRound (((b : ℚ) * 100) / 255)) ≤ 100 := by
    rw [percent_decode, round_percent_decode, hd.1]
    exact ⟨rfl, hd.2⟩
  have enc : (toUint8 (mathRound (((v : ℚ) * 255) / 100)) : ℤ) = round ((255 * (v : ℚ)) / 100) ∧
      toUint8 (mathRound (((v : ℚ) * 255) / 100)) ≤ 255 := by
    rw [percent_encode, round_percent_encode, he.1]
    exact ⟨rfl, he.2⟩
  refine ⟨dec, dec, dec, dec, ?_, enc, enc, enc, enc, ?_, ?_, ?_, ?_⟩
  · rw [hue_decode, round_hue_decode, hhd.1]
    exact ⟨rfl, hhd.2⟩
  · rw [hue_encode, round_hue_encode, hhe.1]
    exact ⟨rfl, hhe.2⟩
  · show toUint8 (mathRound ((((128 : ℕ) : ℚ) * 100) / 255)) = 50
    rw [percent_decode]
  · rw [hue_decode]
  · show toUint8 (mathRound ((((50 : ℕ) : ℚ) * 255) / 100)) = 128
    rw [percent_encode]

/-- Witness of C13 at byte 128, percentage 50 and hue 181. -/
theorem codec_rounding_witness :
    ((rgblight.HueFromByte 128 : ℤ) = round ((360 * ((128 : ℕ) : ℚ)) / 255) ∧
      rgblight.HueFromByte 128 ≤ 360) ∧
    ((rgblight.Hue.ToByte 181 : ℤ) = round ((255 * ((181 : ℕ) : ℚ)) / 360) ∧
      rgblight.Hue.ToByte 181 ≤ 255) :=
  ⟨(codec_rounding 128 50 181 (by decide) (by decide) (by decide)).2.2.2.2.1,
   (codec_rounding 128 50 181 (by decide) (by decide) (by decide)).2.2.2.2.2.2.2.2.2.1⟩

/-- C14: encoding then decoding a percentage is the identity: for every `p` in
`[0, 100]` and each of the four percentage types `FromByte(p.ToByte()) = p`;
the sampled pairs `(0, 0)`, `(50, 128)`, `(100, 255)` map to each other in both
directions. -/
theorem percentage_roundtrip (p : ℕ) (hp : p ≤ 100) :
    backlight.BrightnessFromByte (backlight.Brightness.ToByte p) = p ∧
    rgblight.SaturationFromByte (rgblight.Saturation.ToByte p) = p ∧
    rgblight.BrightnessFromByte (rgblight.Brightness.ToByte p) = p ∧
    rgblight.SpeedFromByte (rgblight.Speed.ToByte p) = p ∧
    (backlight.Brightness.ToByte 0 = 0 ∧ backlight.Brightness.ToByte 50 = 128 ∧
      backlight.Brightness.ToByte 100 = 255 ∧ rgblight.Saturation.ToByte 0 = 0 ∧
      rgblight.Saturation.ToByte 50 = 128 ∧ rgblight.Saturation.ToByte 100 = 255 ∧
      rgblight.Brightness.ToByte 0 = 0 ∧ rgblight.Brightness.ToByte 50 = 128 ∧
      rgblight.Brightness.ToByte 100 = 255 ∧ rgblight.Speed.ToByte 0 = 0 ∧
      rgblight.Speed.ToByte 50 = 128 ∧ rgblight.Speed.ToByte 100 = 255) ∧
    (backlight.BrightnessFromByte 0 = 0 ∧ backlight.BrightnessFromByte 128 = 50 ∧
      backlight.BrightnessFromByte 255 = 100 ∧ rgblight.SaturationFromByte 0 = 0 ∧
      rgblight.SaturationFromByte 128 = 50 ∧ rgblight.SaturationFromByte 255 = 100 ∧
      rgblight.BrightnessFromByte 0 = 0 ∧ rgblight.BrightnessFromByte 128 = 50 ∧
      rgblight.BrightnessFromByte 255 = 100 ∧ rgblight.SpeedFromByte 0 = 0 ∧
      rgblight.SpeedFromByte 128 = 50 ∧ rgblight.SpeedFromByte 255 = 100) := by
  have key : toUint8 (mathRound (((toUint8 (mathRound (((p : ℚ) * 255) / 100)) : ℚ) * 100)
      / 255)) = p := by
    rw [percent_encode, percent_decode]
    have all : ∀ q : ℕ, q ≤ 100 →
        (2 * ((2 * (q * 255) + 100) / 200 % 256 * 100) + 255) / 510 % 256 = q := by decide
    exact all p hp
  have e0 : toUint8 (mathRound ((((0 : ℕ) : ℚ) * 255) / 100)) = 0 := by rw [percent_encode]
  have e50 : toUint8 (mathRound ((((50 : ℕ) : ℚ) * 255) / 100)) = 128 := by rw [percent_encode]
  have e100 : toUint8 (mathRound ((((100 : ℕ) : ℚ) * 255) / 100)) = 255 := by
    rw [percent_encode]
  have d0 : toUint8 (mathRound ((((0 : ℕ) : ℚ) * 100) / 255)) = 0 := by rw [percent_decode]
  have d128 : toUint8 (mathRound ((((128 : ℕ) : ℚ) * 100) / 255)) = 50 := by
    rw [percent_decode]
  have d255 : toUint8 (mathRound ((((255 : ℕ) : ℚ) * 100) / 255)) = 100 := by
    rw [percent_decode]
  exact ⟨key, key, key, key,
    ⟨e0, e50, e100, e0, e50, e100, e0, e50, e100, e0, e50, e100⟩,
    ⟨d0, d128, d255, d0, d128, d255, d0, d128, d255, d0, d128, d255⟩⟩

/-- Witness of C14 at `p = 50`, the tie `127.5`. -/
theorem percentage_roundtrip_witness :
    backlight.BrightnessFromByte (backlight.Brightness.ToByte 50) = 50 ∧
    rgblight.SpeedFromByte (rgblight.Speed.ToByte 50) = 50 :=
  ⟨(percentage_roundtrip 50 (by decide)).1, (percentage_roundtrip 50 (by decide)).2.2.2.1⟩


theorem byte_and_shift (k : ℕ) :
    (k >>> 8) &&& 0xFF = k / 256 % 256 ∧ k &&& 0xFF = k % 256 := by
  have e : (0xFF : ℕ) = 2 ^ 8 - 1 := by norm_num
  rw [e, Nat.and_pow_two_sub_one_eq_mod, Nat.and_pow_two_sub_one_eq_mod,
    Nat.shiftRight_eq_div_pow]
  norm_num

theorem keycodeFromBytes_eq (msb lsb : ℕ) (hm : msb < 256) (hl : lsb < 256) :
    keycode.KeycodeFromBytes msb lsb = msb * 256 + lsb := by
  unfold keycode.KeycodeFromBytes
  rw [Nat.mod_eq_of_lt hm, Nat.mod_eq_of_lt hl, Nat.shiftLeft_eq,
    Nat.mod_eq_of_lt (by norm_num; omega)]
  have h2 : msb * 2 ^ 8 = 2 ^ 8 * msb := by ring
  rw [h2, ← Nat.mul_add_lt_is_or (by norm_num; omega)]
  norm_num
  ring

/-- C15: `KeycodeFromBytes` and `Keycode.ToBytes` are mutually inverse: for all
bytes `msb`, `lsb`, `KeycodeFromBytes(msb, lsb) = msb*256 + lsb` and its
`ToBytes()` is `[msb, lsb]`; for every 16-bit keycode `k`, `ToBytes()` has
length 2 and `KeycodeFromBytes(k.ToBytes()[0], k.ToBytes()[1]) = k`. -/
theorem keycode_bytes_inverse (msb lsb k : ℕ) (hm : msb < 256) (hl : lsb < 256)
    (hk : k < 65536) :
    keycode.KeycodeFromBytes msb lsb = msb * 256 + lsb ∧
    keycode.Keycode.ToBytes (keycode.KeycodeFromBytes msb lsb) = [msb, lsb] ∧
    (keycode.Keycode.ToBytes k).length = 2 ∧
    keycode.KeycodeFromBytes ((keycode.Keycode.ToBytes k).getD 0 0)
      ((keycode.Keycode.ToBytes k).getD 1 0) = k := by
  have hb := byte_and_shift k
  have hb2 := byte_and_shift (msb * 256 + lsb)
  refine ⟨keycodeFromBytes_eq msb lsb hm hl, ?_, rfl, ?_⟩
  · rw [keycodeFromBytes_eq msb lsb hm hl]
    unfold keycode.Keycode.ToBytes
    rw [hb2.1, hb2.2]
    have h1 : (msb * 256 + lsb) / 256 % 256 % 256 = msb := by omega
    have h2 : (msb * 256 + lsb) % 256 % 256 = lsb := by omega
    rw [h1, h2]
  · unfold keycode.Keycode.ToBytes
    rw [hb.1, hb.2]
    show keycode.KeycodeFromBytes (k / 256 % 256 % 256) (k % 256 % 256) = k
    rw [keycodeFromBytes_eq _ _ (by omega) (by omega)]
    omega

/-- Witness of C15 at the bytes `0x5F`, `0x12` and the keycode `0x5F12`. -/
theorem keycode_bytes_inverse_witness :
    keycode.KeycodeFromBytes 0x5F 0x12 = 0x5F * 256 + 0x12 ∧
    keycode.Keycode.ToBytes (keycode.KeycodeFromBytes 0x5F 0x12) = [0x5F, 0x12] ∧
    (keycode.Keycode.ToBytes 0x5F12).length = 2 ∧
    keycode.KeycodeFromBytes ((keycode.Keycode.ToBytes 0x5F12).getD 0 0)
      ((keycode.Keycode.ToBytes 0x5F12).getD 1 0) = 0x5F12 :=
  keycode_bytes_inverse 0x5F 0x12 0x5F12 (by decide) (by decide) (by decide)

/-! ## Keycodes: lemmas and properties -/

theorem lookup_none_iff_not_mem {α β : Type} [DecidableEq α] (l : List (α × β)) (k : α) :
    l.lookup k = none ↔ k ∉ l.map Prod.fst := by
  rw [List.lookup_eq_none_iff]
  constructor
  · intro h hmem
    obtain ⟨p, hp, rfl⟩ := List.mem_map.mp hmem
    have := h p hp
    simp at this
  · intro h p hp
    have hne : k ≠ p.1 := fun heq => h (List.mem_map.mpr ⟨p, hp, heq.symm⟩)
    simpa using hne

theorem lookup_some_mem {α β : Type} [DecidableEq α] (l : List (α × β)) (k : α) (b : β)
    (h : l.lookup k = some b) : (k, b) ∈ l := by
  obtain ⟨l₁, l₂, rfl, _⟩ := List.lookup_eq_some_iff.mp h
  simp

/-- C16: a string whose normal form (every `{`, `}` and `KC_` removed, then
upper-cased) is not a case label of the switch makes `KeycodeFromString`
return the zero keycode `KC_NO = 0` with `ErrorUnknownKeycode`; a string whose
normal form is a case label gets a nil error. This holds for every
upper-casing function; `"KC_NOT_A_KEY"` is rejected. -/
theorem KeycodeFromString_unknown (ToUpper : String → String) (value : String) :
    (ToUpper (keycode.stringsRemove (keycode.stringsRemove (keycode.stringsRemove value "\x7b")
        "\x7d") "KC_") ∉ keycode.fromCases.map Prod.fst →
      keycode.KeycodeFromString ToUpper value =
        (0, some keycode.KeycodeError.ErrorUnknownKeycode)) ∧
    (ToUpper (keycode.stringsRemove (keycode.stringsRemove (keycode.stringsRemove value "\x7b")
        "\x7d") "KC_") ∈ keycode.fromCases.map Prod.fst →
      (keycode.KeycodeFromString ToUpper value).2 = none) ∧
    keycode.KC_NO = 0 ∧
    keycode.KeycodeFromString keycode.asciiUpper "KC_NOT_A_KEY" =
      (0, some keycode.KeycodeError.ErrorUnknownKeycode) := by
  refine ⟨?_, ?_, rfl, by decide⟩
  · intro h
    have hl := (lookup_none_iff_not_mem keycode.fromCases _).mpr h
    unfold keycode.KeycodeFromString
    simp only [hl]
    rfl
  · intro h
    unfold keycode.KeycodeFromString
    simp only []
    cases hl : keycode.fromCases.lookup (ToUpper (keycode.stringsRemove
        (keycode.stringsRemove (keycode.stringsRemove value "\x7b") "\x7d") "KC_")) with
    | none => exact absurd h ((lookup_none_iff_not_mem keycode.fromCases _).mp hl)
    | some k => rfl

/-- Witness of C16: `"{KC_ENT}"` normalises to the case label `"ENT"` and
parses without error; `"KC_NOT_A_KEY"` is not a label. -/
theorem KeycodeFromString_unknown_witness :
    (keycode.KeycodeFromString keycode.asciiUpper "\x7bKC_ENT\x7d").2 = none ∧
    keycode.KeycodeFromString keycode.asciiUpper "KC_NOT_A_KEY" =
      (0, some keycode.KeycodeError.ErrorUnknownKeycode) :=
  ⟨(KeycodeFromString_unknown keycode.asciiUpper "\x7bKC_ENT\x7d").2.1 (by decide),
   (KeycodeFromString_unknown keycode.asciiUpper "KC_NOT_A_KEY").1 (by decide)⟩

set_option maxRecDepth 100000 in
theorem nameCases_declared : ∀ e ∈ keycode.nameCases, e.1 ∈ keycode.declared.map Prod.snd := by
  decide

/-- C17: `Keycode.Name` is a total function; for every value that is not the
value of a declared keycode constant it returns `"UNKNOWN"`, and for `0x0001`
it returns `"KC_TRANSPARENT"`. -/
theorem Name_of_undeclared (k : Nat) (h : k ∉ keycode.declared.map Prod.snd) :
    keycode.Keycode.Name k = "UNKNOWN" ∧ keycode.Keycode.Name 0x0001 = "KC_TRANSPARENT" := by
  refine ⟨?_, by decide⟩
  unfold keycode.Keycode.Name
  cases hl : keycode.nameCases.lookup k with
  | none => rfl
  | some s => exact absurd (nameCases_declared _ (lookup_some_mem _ _ _ hl)) h

set_option maxRecDepth 100000 in
/-- Witness of C17: `0xBF` is the value of no declared constant. -/
theorem Name_of_undeclared_witness :
    keycode.Keycode.Name 0xBF = "UNKNOWN" ∧ keycode.Keycode.Name 0x0001 = "KC_TRANSPARENT" :=
  Name_of_undeclared 0xBF (by decide)

/-- C18, the code at the failing inputs. `KC_LCTRL`, `KC_ZKHK` and `KC_CLCK`
are declared (with the values of `KC_LEFT_CTRL`, `KC_GRAVE`, `KC_CAPS_LOCK`),
but the switch has no case `"LCTRL"`, `"ZKHK"` or `"CLCK"`: with or without the
prefix they are answered by `KC_NO` and `ErrorUnknownKeycode`, while their
neighbours in the same declaration groups (`KC_LSHIFT`, `KC_RCTRL`, `KC_RO`,
`KC_SLCK`) parse to their values. -/
theorem KeycodeFromString_missing_aliases :
    (("KC_LCTRL", 0xE0) ∈ keycode.declared ∧ ("KC_ZKHK", 0x35) ∈ keycode.declared ∧
      ("KC_CLCK", 0x39) ∈ keycode.declared) ∧
    keycode.KeycodeFromString keycode.asciiUpper "KC_LCTRL" =
      (0, some keycode.KeycodeError.ErrorUnknownKeycode) ∧
    keycode.KeycodeFromString keycode.asciiUpper "LCTRL" =
      (0, some keycode.KeycodeError.ErrorUnknownKeycode) ∧
    keycode.KeycodeFromString keycode.asciiUpper "KC_ZKHK" =
      (0, some keycode.KeycodeError.ErrorUnknownKeycode) ∧
    keycode.KeycodeFromString keycode.asciiUpper "ZKHK" =
      (0, some keycode.KeycodeError.ErrorUnknownKeycode) ∧
    keycode.KeycodeFromString keycode.asciiUpper "KC_CLCK" =
      (0, some keycode.KeycodeError.ErrorUnknownKeycode) ∧
    keycode.KeycodeFromString keycode.asciiUpper "CLCK" =
      (0, some keycode.KeycodeError.ErrorUnknownKeycode) ∧
    keycode.KeycodeFromString keycode.asciiUpper "KC_LSHIFT" = (0xE1, none) ∧
    keycode.KeycodeFromString keycode.asciiUpper "KC_RCTRL" = (0xE4, none) ∧
    keycode.KeycodeFromString keycode.asciiUpper "KC_RO" = (0x87, none) ∧
    keycode.KeycodeFromString keycode.asciiUpper "KC_SLCK" = (0x47, none) := by
  refine ⟨⟨?_, ?_, ?_⟩, ?_, ?_, ?_, ?_, ?_, ?_, ?_, ?_, ?_, ?_⟩ <;> decide

/-! ## Colours: properties -/

/-- C20: on the 19 named colours the two conversions are mutually inverse: for
each named colour `c` with `t = c.toRGB()`, `t.toHSV() = c` and
`t.toHSV().toRGB() = t`; Coral `hsv(16,69,100)` is `rgb(255,126,79)` and White
`hsv(0,0,100)` is `rgb(255,255,255)`. For White (a grey, `diff = 0`) the hue
passes through `uint16` of a NaN, which is taken as 0 (`nanBits`). -/
theorem named_colour_conversions :
    (∀ c ∈ rgblight.AllColors,
      (rgblight.Color.toRGB c).toHSV = c ∧
      ((rgblight.Color.toRGB c).toHSV).toRGB = rgblight.Color.toRGB c) ∧
    rgblight.AllColors.length = 19 ∧
    rgblight.Color.toRGB rgblight.ColorCoral = ⟨255, 126, 79⟩ ∧
    rgblight.rgbColor.toHSV ⟨255, 126, 79⟩ = ⟨16, 69, 100⟩ ∧
    rgblight.Color.toRGB rgblight.ColorWhite = ⟨255, 255, 255⟩ ∧
    rgblight.rgbColor.toHSV ⟨255, 255, 255⟩ = ⟨0, 0, 100⟩ := by
  decide!

/-- Witness of C20 at Coral and White. -/
theorem named_colour_conversions_witness :
    (rgblight.Color.toRGB rgblight.ColorCoral).toHSV = rgblight.ColorCoral ∧
    (rgblight.Color.toRGB rgblight.ColorWhite).toHSV = rgblight.ColorWhite :=
  ⟨(named_colour_conversions.1 rgblight.ColorCoral (by decide)).1,
   (named_colour_conversions.1 rgblight.ColorWhite (by decide)).1⟩

/-- C19: for each of the 19 named colours `c`, `ColorFromString` applied to
`c`'s name, to `c.ToStringHEX()`, to `c.ToStringRGB()` and to
`c.ToStringHSV()` returns `(c, nil)`. -/
theorem named_colour_strings :
    ∀ c ∈ rgblight.AllColors,
      rgblight.ColorFromString asciiLower (rgblight.Color.Name c) = (c, none) ∧
      rgblight.ColorFromString asciiLower (rgblight.Color.ToStringHEX c) = (c, none) ∧
      rgblight.ColorFromString asciiLower (rgblight.Color.ToStringRGB c) = (c, none) ∧
      rgblight.ColorFromString asciiLower (rgblight.Color.ToStringHSV c) = (c, none) := by
  decide!

/-- Witness of C19 at Coral: its four spellings. -/
theorem named_colour_strings_witness :
    rgblight.Color.Name rgblight.ColorCoral = "Coral" ∧
    rgblight.Color.ToStringHEX rgblight.ColorCoral = "#ff7e4f" ∧
    rgblight.Color.ToStringRGB rgblight.ColorCoral = "rgb(255,126,79)" ∧
    rgblight.Color.ToStringHSV rgblight.ColorCoral = "hsv(16,69,100)" ∧
    rgblight.ColorFromString asciiLower "Coral" = (rgblight.ColorCoral, none) ∧
    rgblight.ColorFromString asciiLower "#ff7e4f" = (rgblight.ColorCoral, none) ∧
    rgblight.ColorFromString asciiLower "rgb(255,126,79)" = (rgblight.ColorCoral, none) ∧
    rgblight.ColorFromString asciiLower "hsv(16,69,100)" = (rgblight.ColorCoral, none) := by
  have h := named_colour_strings rgblight.ColorCoral (by decide)
  have e1 : rgblight.Color.Name rgblight.ColorCoral = "Coral" := by decide!
  have e2 : rgblight.Color.ToStringHEX rgblight.ColorCoral = "#ff7e4f" := by decide!
  have e3 : rgblight.Color.ToStringRGB rgblight.ColorCoral = "rgb(255,126,79)" := by decide!
  have e4 : rgblight.Color.ToStringHSV rgblight.ColorCoral = "hsv(16,69,100)" := by decide!
  rw [e1, e2, e3, e4] at h
  exact ⟨e1, e2, e3, e4, h⟩

/-! ## Colour strings: lemmas and properties -/

theorem toDigitsCore_spec : ∀ (fuel n : Nat) (ds : List Char), n < fuel →
    ∃ L : List Nat, L ≠ [] ∧ (∀ x ∈ L, x < 10) ∧
      Nat.toDigitsCore 10 fuel n ds = L.map Nat.digitChar ++ ds ∧
      L.foldl (fun acc x => acc * 10 + x) 0 = n := by
  intro fuel
  induction fuel with
  | zero => intro n ds h; omega
  | succ fuel ih =>
    intro n ds hn
    unfold Nat.toDigitsCore
    by_cases h0 : n / 10 = 0
    · refine ⟨[n % 10], by simp, ?_, ?_, ?_⟩
      · intro x hx
        simp only [List.mem_singleton] at hx
        omega
      · simp [h0]
      · simp only [List.foldl]
        omega
    · obtain ⟨L, hne, hlt, heq, hval⟩ := ih (n / 10) (Nat.digitChar (n % 10) :: ds) (by omega)
      refine ⟨L ++ [n % 10], by simp, ?_, ?_, ?_⟩
      · intro x hx
        rcases List.mem_append.mp hx with hx | hx
        · exact hlt x hx
        · simp only [List.mem_singleton] at hx
          omega
      · simp only [h0, if_false]
        rw [heq]
        simp
      · rw [List.foldl_append, hval]
        simp only [List.foldl]
        omega

theorem toDigits_spec (n : Nat) :
    ∃ L : List Nat, L ≠ [] ∧ (∀ x ∈ L, x < 10) ∧
      Nat.toDigits 10 n = L.map Nat.digitChar ∧
      L.foldl (fun acc x => acc * 10 + x) 0 = n := by
  obtain ⟨L, h1, h2, h3, h4⟩ := toDigitsCore_spec (n + 1) n [] (by omega)
  exact ⟨L, h1, h2, by simpa [Nat.toDigits] using h3, h4⟩

theorem digitChar_facts : ∀ x, x < 10 →
    digitValue 10 (Nat.digitChar x) = some x ∧
    (Nat.digitChar x).toLower = Nat.digitChar x ∧
    fmtIsSpace (Nat.digitChar x) = false ∧
    Nat.digitChar x ≠ Char.ofNat 10 ∧
    Nat.digitChar x ≠ ' ' ∧ Nat.digitChar x ≠ 'c' ∧ Nat.digitChar x ≠ 'h' ∧
    Nat.digitChar x ≠ 'r' ∧ Nat.digitChar x ≠ ')' ∧ Nat.digitChar x ≠ ',' := by
  decide

theorem takeDigits_dec : ∀ (L : List Nat) (rest : List Char), (∀ x ∈ L, x < 10) →
    (∀ c r, rest = c :: r → digitValue 10 c = none) →
    takeDigits 10 none (L.map Nat.digitChar ++ rest) = (L, rest) := by
  intro L
  induction L with
  | nil =>
    intro rest _ hr
    cases rest with
    | nil => rfl
    | cons c r =>
      have := hr c r rfl
      simp [takeDigits, this]
  | cons x L ih =>
    intro rest hL hr
    have hx := (digitChar_facts x (hL x (by simp))).1
    have := ih rest (fun y hy => hL y (by simp [hy])) hr
    simp [takeDigits, hx, this]

theorem skipSpace_dec (x : Nat) (hx : x < 10) (rest : List Char) :
    skipSpace (Nat.digitChar x :: rest) = .ok (Nat.digitChar x :: rest) := by
  obtain ⟨_, _, h3, h4, _⟩ := digitChar_facts x hx
  simp [skipSpace, h3, h4]

/-- Scanning the decimal spelling of `n` with `%d` into an unsigned operand of
`bits ≤ 64` bits: the value `n` when it fits, an error otherwise. -/
theorem scan_dec (n bits : Nat) (hb : bits ≤ 64) (rest : List Char)
    (hr : ∀ c r, rest = c :: r → digitValue 10 c = none) :
    (n < 2 ^ bits →
      ∀ items vals, doScanf (ScanItem.verb 10 none bits :: items) (Nat.toDigits 10 n ++ rest) vals =
        doScanf items rest (vals ++ [n])) ∧
    (¬ n < 2 ^ bits →
      ∀ items vals, (doScanf (ScanItem.verb 10 none bits :: items)
        (Nat.toDigits 10 n ++ rest) vals).err ≠ none) := by
  obtain ⟨L, hne, hlt, heq, hval⟩ := toDigits_spec n
  obtain ⟨x, L', rfl⟩ : ∃ x L', L = x :: L' := by
    cases L with
    | nil => exact absurd rfl hne
    | cons x L' => exact ⟨x, L', rfl⟩
  have hx : x < 10 := hlt x (by simp)
  have hskip := skipSpace_dec x hx (L'.map Nat.digitChar ++ rest)
  have htake := takeDigits_dec (x :: L') rest hlt hr
  have hpow : 2 ^ bits ≤ 2 ^ 64 := Nat.pow_le_pow_right (by decide) hb
  rw [heq]
  simp only [List.map_cons, List.cons_append] at hskip htake ⊢
  constructor
  · intro hn items vals
    simp only [doScanf, hskip, scanUint, htake]
    simp only [hval]
    have h1 : ¬ 18446744073709551616 ≤ n := by
      have e64 : (2 : Nat) ^ 64 = 18446744073709551616 := by norm_num
      omega
    have h2 : ¬ 2 ^ bits ≤ n := by omega
    simp [h1, h2]
  · intro hn items vals
    simp only [doScanf, hskip, scanUint, htake]
    simp only [hval]
    by_cases h1 : 18446744073709551616 ≤ n
    · simp [h1]
    · have h2 : 2 ^ bits ≤ n := by omega
      simp [h1, h2]

theorem doScanf_lit (c : Char) (items : List ScanItem) (rest : List Char) (vals : List Nat) :
    doScanf (ScanItem.lit c :: items) (c :: rest) vals = doScanf items rest vals := by
  rw [doScanf]
  simp

/-- The decimal spellings of three numbers, separated by commas. -/
theorem scan_triple (b1 b2 b3 : Nat) (hb1 : b1 ≤ 64) (hb2 : b2 ≤ 64) (hb3 : b3 ≤ 64)
    (x y z : Nat) :
    (x < 2 ^ b1 ∧ y < 2 ^ b2 ∧ z < 2 ^ b3 →
      doScanf (rgblight.formatDecimal3 b1 b2 b3)
        (Nat.toDigits 10 x ++ ',' :: (Nat.toDigits 10 y ++ ',' :: Nat.toDigits 10 z)) [] =
        ⟨3, none, [x, y, z]⟩) ∧
    (¬ (x < 2 ^ b1 ∧ y < 2 ^ b2 ∧ z < 2 ^ b3) →
      (doScanf (rgblight.formatDecimal3 b1 b2 b3)
        (Nat.toDigits 10 x ++ ',' :: (Nat.toDigits 10 y ++ ',' :: Nat.toDigits 10 z)) []).err ≠
        none) := by
  have hcomma : ∀ (tail : List Char) (c : Char) (r : List Char),
      ',' :: tail = c :: r → digitValue 10 c = none := by
    intro tail c r h
    cases h
    decide
  have hnil : ∀ (c : Char) (r : List Char), ([] : List Char) = c :: r →
      digitValue 10 c = none := by
    intro c r h
    cases h
  have hz : Nat.toDigits 10 z = Nat.toDigits 10 z ++ [] := by simp
  have sx := scan_dec x b1 hb1 (',' :: (Nat.toDigits 10 y ++ ',' :: Nat.toDigits 10 z))
    (hcomma _)
  have sy := scan_dec y b2 hb2 (',' :: Nat.toDigits 10 z) (hcomma _)
  have sz := scan_dec z b3 hb3 [] hnil
  unfold rgblight.formatDecimal3
  constructor
  · rintro ⟨h1, h2, h3⟩
    rw [sx.1 h1]
    rw [doScanf_lit]
    rw [sy.1 h2]
    rw [doScanf_lit]
    rw [hz, sz.1 h3]
    simp [doScanf]
  · intro hn
    by_cases h1 : x < 2 ^ b1
    · rw [sx.1 h1]
      rw [doScanf_lit]
      by_cases h2 : y < 2 ^ b2
      · rw [sy.1 h2]
        rw [doScanf_lit]
        have h3 : ¬ z < 2 ^ b3 := fun h3 => hn ⟨h1, h2, h3⟩
        rw [hz]
        exact sz.2 h3 _ _
      · exact sy.2 h2 _ _
    · exact sx.2 h1 _ _

theorem removeAux_not_mem (o : Char) (old : List Char) :
    ∀ L : List Char, o ∉ L → keycode.removeAux (o :: old) 0 L = L := by
  intro L
  induction L with
  | nil => intro _; rfl
  | cons c rest ih =>
    intro h
    have hc : o ≠ c := fun e => h (by simp [e])
    have hr : o ∉ rest := fun e => h (by simp [e])
    simp [keycode.removeAux, List.isPrefixOf, hc, ih hr]

theorem removeAux_last (o : Char) :
    ∀ A : List Char, o ∉ A → keycode.removeAux [o] 0 (A ++ [o]) = A := by
  intro A
  induction A with
  | nil => intro _; simp [keycode.removeAux, List.isPrefixOf]
  | cons c rest ih =>
    intro h
    have hc : o ≠ c := fun e => h (by simp [e])
    have hr : o ∉ rest := fun e => h (by simp [e])
    simp [keycode.removeAux, List.isPrefixOf, hc, ih hr]

theorem toDigits_chars (n : Nat) : ∀ c ∈ Nat.toDigits 10 n,
    c.toLower = c ∧ c ≠ ' ' ∧ c ≠ 'c' ∧ c ≠ 'h' ∧ c ≠ 'r' ∧ c ≠ ')' := by
  obtain ⟨L, _, hlt, heq, _⟩ := toDigits_spec n
  intro c hc
  rw [heq] at hc
  obtain ⟨x, hx, rfl⟩ := List.mem_map.mp hc
  obtain ⟨_, h2, _, _, h5, h6, h7, h8, h9, _⟩ := digitChar_facts x (hlt x hx)
  exact ⟨h2, h5, h6, h7, h8, h9⟩

theorem triple_chars (x y z : Nat) :
    ∀ c ∈ Nat.toDigits 10 x ++ ',' :: (Nat.toDigits 10 y ++ ',' :: Nat.toDigits 10 z),
      c.toLower = c ∧ c ≠ ' ' ∧ c ≠ 'c' ∧ c ≠ 'h' ∧ c ≠ 'r' ∧ c ≠ ')' := by
  intro c hc
  have hcomma : (',' : Char).toLower = ',' ∧ (',' : Char) ≠ ' ' ∧ (',' : Char) ≠ 'c' ∧
      (',' : Char) ≠ 'h' ∧ (',' : Char) ≠ 'r' ∧ (',' : Char) ≠ ')' := by decide
  simp only [List.mem_append, List.mem_cons] at hc
  rcases hc with h | rfl | h | rfl | h
  · exact toDigits_chars x c h
  · exact hcomma
  · exact toDigits_chars y c h
  · exact hcomma
  · exact toDigits_chars z c h

theorem asciiLower_fixed (L : List Char) (h : ∀ c ∈ L, c.toLower = c) :
    asciiLower (String.mk L) = String.mk L := by
  unfold asciiLower
  congr 1
  show L.map Char.toLower = L
  conv_rhs => rw [← List.map_id L]
  exact List.map_congr_left (fun c hc => by simpa using h c hc)

theorem stringsRemove_not_mem (L : List Char) (o : Char) (old : List Char) (h : o ∉ L) :
    keycode.stringsRemove (String.mk L) (String.mk (o :: old)) = String.mk L := by
  unfold keycode.stringsRemove
  congr 1
  exact removeAux_not_mem o old L h

theorem hsv_toString_data (x y z : Nat) :
    rgblight.hsvColor.toString ⟨x, y, z⟩ =
      String.mk ('h' :: 's' :: 'v' :: '(' ::
        ((Nat.toDigits 10 x ++ ',' :: (Nat.toDigits 10 y ++ ',' :: Nat.toDigits 10 z)) ++ [')'])) := by
  apply String.ext
  simp [rgblight.hsvColor.toString, sprintDecimal, String.data_append]

theorem rgb_toString_data (x y z : Nat) :
    rgblight.rgbColor.toString ⟨x, y, z⟩ =
      String.mk ('r' :: 'g' :: 'b' :: '(' ::
        ((Nat.toDigits 10 x ++ ',' :: (Nat.toDigits 10 y ++ ',' :: Nat.toDigits 10 z)) ++ [')'])) := by
  apply String.ext
  simp [rgblight.rgbColor.toString, sprintDecimal, String.data_append]

theorem normalise_fixed (L : List Char)
    (h : ∀ c ∈ L, c.toLower = c ∧ c ≠ ' ' ∧ c ≠ 'c') :
    keycode.stringsRemove (keycode.stringsRemove (asciiLower (String.mk L)) " ") "color" =
      String.mk L := by
  rw [asciiLower_fixed L (fun c hc => (h c hc).1)]
  have e1 : (" " : String) = String.mk [' '] := rfl
  have e2 : ("color" : String) = String.mk ['c', 'o', 'l', 'o', 'r'] := rfl
  rw [e1, stringsRemove_not_mem L ' ' [] (fun hm => (h ' ' hm).2.1 rfl), e2,
    stringsRemove_not_mem L 'c' _ (fun hm => (h 'c' hm).2.2 rfl)]

theorem strip_brackets (p q r : Char) (T : List Char) (hp : p ∉ T) (hb : ')' ∉ T)
    (hpb : p ≠ ')') :
    keycode.stringsRemove (keycode.stringsRemove
      (String.mk (p :: q :: r :: '(' :: (T ++ [')']))) (String.mk [p, q, r, '('])) ")" =
      String.mk T := by
  have h1 : keycode.stringsRemove (String.mk (p :: q :: r :: '(' :: (T ++ [')'])))
      (String.mk [p, q, r, '(']) = String.mk (T ++ [')']) := by
    unfold keycode.stringsRemove
    congr 1
    show keycode.removeAux [p, q, r, '('] 0 (p :: q :: r :: '(' :: (T ++ [')'])) = T ++ [')']
    have hn : p ∉ T ++ [')'] := by
      simp only [List.mem_append, List.mem_singleton, not_or]
      exact ⟨hp, hpb⟩
    simp [keycode.removeAux, List.isPrefixOf, removeAux_not_mem p [q, r, '('] _ hn]
  rw [h1]
  unfold keycode.stringsRemove
  congr 1
  exact removeAux_last ')' T hb

theorem ColorFromString_hsv_form (T : List Char)
    (hT : ∀ c ∈ T, c.toLower = c ∧ c ≠ ' ' ∧ c ≠ 'c' ∧ c ≠ 'h' ∧ c ≠ 'r' ∧ c ≠ ')') :
    rgblight.ColorFromString asciiLower
        (String.mk ('h' :: 's' :: 'v' :: '(' :: (T ++ [')']))) =
      (fun r : ScanResult =>
        if r.err ≠ none ∨ r.n ≠ 3 then
          (rgblight.ColorOff, r.err.map rgblight.ColorError.scan)
        else if r.vals.getD 0 0 > 360 ∨ r.vals.getD 1 0 > 100 ∨ r.vals.getD 2 0 > 100 then
          (rgblight.ColorOff, some rgblight.ColorError.ErrorUnknownColorFormat)
        else
          (rgblight.hsvColor.toColor ⟨r.vals.getD 0 0, r.vals.getD 1 0, r.vals.getD 2 0⟩, none))
        (doScanf (rgblight.formatDecimal3 16 8 8) T []) := by
  have hfull : ∀ c ∈ 'h' :: 's' :: 'v' :: '(' :: (T ++ [')']),
      c.toLower = c ∧ c ≠ ' ' ∧ c ≠ 'c' := by
    intro c hc
    simp only [List.mem_cons, List.mem_append, List.mem_singleton, List.mem_nil_iff,
      or_false] at hc
    rcases hc with rfl | rfl | rfl | rfl | h | rfl
    · decide
    · decide
    · decide
    · decide
    · exact ⟨(hT c h).1, (hT c h).2.1, (hT c h).2.2.1⟩
    · decide
  unfold rgblight.ColorFromString
  simp only []
  rw [normalise_fixed _ hfull]
  have hp : stringsHasPrefix (String.mk ('h' :: 's' :: 'v' :: '(' :: (T ++ [')']))) "hsv" = true := by
    simp [stringsHasPrefix, List.isPrefixOf]
  rw [if_pos hp]
  have e : ("hsv(" : String) = String.mk ['h', 's', 'v', '('] := rfl
  have hs := strip_brackets 'h' 's' 'v' T (fun hm => (hT 'h' hm).2.2.2.1 rfl)
    (fun hm => (hT ')' hm).2.2.2.2.2 rfl) (by decide)
  unfold rgblight.parseHSV
  simp only []
  rw [e, hs]
  rfl

theorem ColorFromString_rgb_form (T : List Char)
    (hT : ∀ c ∈ T, c.toLower = c ∧ c ≠ ' ' ∧ c ≠ 'c' ∧ c ≠ 'h' ∧ c ≠ 'r' ∧ c ≠ ')') :
    rgblight.ColorFromString asciiLower
        (String.mk ('r' :: 'g' :: 'b' :: '(' :: (T ++ [')']))) =
      (fun r : ScanResult =>
        if r.err ≠ none ∨ r.n ≠ 3 then
          (rgblight.ColorOff, r.err.map rgblight.ColorError.scan)
        else
          (rgblight.rgbColor.toColor ⟨r.vals.getD 0 0, r.vals.getD 1 0, r.vals.getD 2 0⟩, none))
        (doScanf (rgblight.formatDecimal3 8 8 8) T []) := by
  have hfull : ∀ c ∈ 'r' :: 'g' :: 'b' :: '(' :: (T ++ [')']),
      c.toLower = c ∧ c ≠ ' ' ∧ c ≠ 'c' := by
    intro c hc
    simp only [List.mem_cons, List.mem_append, List.mem_singleton, List.mem_nil_iff,
      or_false] at hc
    rcases hc with rfl | rfl | rfl | rfl | h | rfl
    · decide
    · decide
    · decide
    · decide
    · exact ⟨(hT c h).1, (hT c h).2.1, (hT c h).2.2.1⟩
    · decide
  unfold rgblight.ColorFromString
  simp only []
  rw [normalise_fixed _ hfull]
  have hp1 : stringsHasPrefix (String.mk ('r' :: 'g' :: 'b' :: '(' :: (T ++ [')']))) "hsv" = false := by
    simp [stringsHasPrefix, List.isPrefixOf]
  have hp2 : stringsHasPrefix (String.mk ('r' :: 'g' :: 'b' :: '(' :: (T ++ [')']))) "rgb" = true := by
    simp [stringsHasPrefix, List.isPrefixOf]
  rw [if_neg (by simp [hp1]), if_pos hp2]
  have e : ("rgb(" : String) = String.mk ['r', 'g', 'b', '('] := rfl
  have hs := strip_brackets 'r' 'g' 'b' T (fun hm => (hT 'r' hm).2.2.2.2.1 rfl)
    (fun hm => (hT ')' hm).2.2.2.2.2 rfl) (by decide)
  unfold rgblight.parseRGB
  simp only []
  rw [e, hs]
  rfl

theorem ColorFromString_hsv_ok (x y z : Nat) (hx : x ≤ 360) (hy : y ≤ 100) (hz : z ≤ 100) :
    rgblight.ColorFromString asciiLower (rgblight.hsvColor.toString ⟨x, y, z⟩) =
      (⟨x, y, z⟩, none) := by
  rw [hsv_toString_data, ColorFromString_hsv_form _ (triple_chars x y z),
    (scan_triple 16 8 8 (by decide) (by decide) (by decide) x y z).1
      ⟨by norm_num; omega, by norm_num; omega, by norm_num; omega⟩]
  have h1 : ¬ (x > 360 ∨ y > 100 ∨ z > 100) := by omega
  simp [h1, rgblight.hsvColor.toColor]

theorem ColorFromString_hsv_bad (x y z : Nat) (h : ¬ (x ≤ 360 ∧ y ≤ 100 ∧ z ≤ 100)) :
    ∃ e, rgblight.ColorFromString asciiLower (rgblight.hsvColor.toString ⟨x, y, z⟩) =
      (rgblight.ColorOff, some e) := by
  rw [hsv_toString_data, ColorFromString_hsv_form _ (triple_chars x y z)]
  by_cases hfit : x < 2 ^ 16 ∧ y < 2 ^ 8 ∧ z < 2 ^ 8
  · rw [(scan_triple 16 8 8 (by decide) (by decide) (by decide) x y z).1 hfit]
    have h1 : x > 360 ∨ y > 100 ∨ z > 100 := by omega
    exact ⟨rgblight.ColorError.ErrorUnknownColorFormat, by simp [h1]⟩
  · have herr := (scan_triple 16 8 8 (by decide) (by decide) (by decide) x y z).2 hfit
    obtain ⟨e, he⟩ := Option.ne_none_iff_exists'.mp herr
    exact ⟨rgblight.ColorError.scan e, by simp [he]⟩

theorem ColorFromString_rgb_ok (x y z : Nat) (hx : x ≤ 255) (hy : y ≤ 255) (hz : z ≤ 255) :
    rgblight.ColorFromString asciiLower (rgblight.rgbColor.toString ⟨x, y, z⟩) =
      (rgblight.rgbColor.toColor ⟨x, y, z⟩, none) := by
  rw [rgb_toString_data, ColorFromString_rgb_form _ (triple_chars x y z),
    (scan_triple 8 8 8 (by decide) (by decide) (by decide) x y z).1
      ⟨by norm_num; omega, by norm_num; omega, by norm_num; omega⟩]
  simp

theorem ColorFromString_rgb_bad (x y z : Nat) (h : ¬ (x ≤ 255 ∧ y ≤ 255 ∧ z ≤ 255)) :
    ∃ e, rgblight.ColorFromString asciiLower (rgblight.rgbColor.toString ⟨x, y, z⟩) =
      (rgblight.ColorOff, some e) := by
  rw [rgb_toString_data, ColorFromString_rgb_form _ (triple_chars x y z)]
  have hfit : ¬ (x < 2 ^ 8 ∧ y < 2 ^ 8 ∧ z < 2 ^ 8) := by
    norm_num
    omega
  have herr := (scan_triple 8 8 8 (by decide) (by decide) (by decide) x y z).2 hfit
  obtain ⟨e, he⟩ := Option.ne_none_iff_exists'.mp herr
  exact ⟨rgblight.ColorError.scan e, by simp [he]⟩

/-- C21: for all numbers `x`, `y`, `z` spelled in decimal,
`ColorFromString("hsv(x,y,z)")` has a nil error if and only if `x ≤ 360`,
`y ≤ 100` and `z ≤ 100`, and then returns exactly `Color{x, y, z}`;
`ColorFromString("rgb(x,y,z)")` has a nil error if and only if each of `x`, `y`,
`z` is at most 255, and then returns the colour of `rgbColor{x, y, z}`; in both
forms every failure returns `ColorOff` with a non-nil error. -/
theorem ColorFromString_components (x y z : Nat) :
    ((rgblight.ColorFromString asciiLower (rgblight.hsvColor.toString ⟨x, y, z⟩)).2 = none ↔
      x ≤ 360 ∧ y ≤ 100 ∧ z ≤ 100) ∧
    (x ≤ 360 ∧ y ≤ 100 ∧ z ≤ 100 →
      rgblight.ColorFromString asciiLower (rgblight.hsvColor.toString ⟨x, y, z⟩) =
        (⟨x, y, z⟩, none)) ∧
    (¬ (x ≤ 360 ∧ y ≤ 100 ∧ z ≤ 100) →
      ∃ e, rgblight.ColorFromString asciiLower (rgblight.hsvColor.toString ⟨x, y, z⟩) =
        (rgblight.ColorOff, some e)) ∧
    ((rgblight.ColorFromString asciiLower (rgblight.rgbColor.toString ⟨x, y, z⟩)).2 = none ↔
      x ≤ 255 ∧ y ≤ 255 ∧ z ≤ 255) ∧
    (x ≤ 255 ∧ y ≤ 255 ∧ z ≤ 255 →
      rgblight.ColorFromString asciiLower (rgblight.rgbColor.toString ⟨x, y, z⟩) =
        (rgblight.rgbColor.toColor ⟨x, y, z⟩, none)) ∧
    (¬ (x ≤ 255 ∧ y ≤ 255 ∧ z ≤ 255) →
      ∃ e, rgblight.ColorFromString asciiLower (rgblight.rgbColor.toString ⟨x, y, z⟩) =
        (rgblight.ColorOff, some e)) := by
  refine ⟨⟨?_, ?_⟩, ?_, ColorFromString_hsv_bad x y z, ⟨?_, ?_⟩, ?_,
    ColorFromString_rgb_bad x y z⟩
  · intro h
    by_contra hn
    obtain ⟨e, he⟩ := ColorFromString_hsv_bad x y z hn
    rw [he] at h
    cases h
  · rintro ⟨hx, hy, hz⟩
    rw [ColorFromString_hsv_ok x y z hx hy hz]
  · rintro ⟨hx, hy, hz⟩
    exact ColorFromString_hsv_ok x y z hx hy hz
  · intro h
    by_contra hn
    obtain ⟨e, he⟩ := ColorFromString_rgb_bad x y z hn
    rw [he] at h
    cases h
  · rintro ⟨hx, hy, hz⟩
    rw [ColorFromString_rgb_ok x y z hx hy hz]
  · rintro ⟨hx, hy, hz⟩
    exact ColorFromString_rgb_ok x y z hx hy hz

/-- Witness of C21: `hsv(360,100,100)` and `rgb(1,35,69)` are accepted,
`hsv(361,2,3)` and `rgb(256,2,3)` are rejected with `ColorOff`. -/
theorem ColorFromString_components_witness :
    rgblight.hsvColor.toString ⟨360, 100, 100⟩ = "hsv(360,100,100)" ∧
    rgblight.ColorFromString asciiLower (rgblight.hsvColor.toString ⟨360, 100, 100⟩) =
      (⟨360, 100, 100⟩, none) ∧
    rgblight.ColorFromString asciiLower (rgblight.rgbColor.toString ⟨1, 35, 69⟩) =
      (rgblight.rgbColor.toColor ⟨1, 35, 69⟩, none) ∧
    (∃ e, rgblight.ColorFromString asciiLower (rgblight.hsvColor.toString ⟨361, 2, 3⟩) =
      (rgblight.ColorOff, some e)) ∧
    (∃ e, rgblight.ColorFromString asciiLower (rgblight.rgbColor.toString ⟨256, 2, 3⟩) =
      (rgblight.ColorOff, some e)) :=
  ⟨by decide,
   (ColorFromString_components 360 100 100).2.1 (by decide),
   (ColorFromString_components 1 35 69).2.2.2.2.1 (by decide),
   (ColorFromString_components 361 2 3).2.2.1 (by decide),
   (ColorFromString_components 256 2 3).2.2.2.2.2 (by decide)⟩

/-- C22: `ColorFromString` accepts the three malformed inputs of the claim with
a nil error: `#12345g` is read as `rgb(18,52,5)` (the third `%2x` stops at `g`),
`hsv(1,2,3` is read as `hsv(1,2,3)` (the closing bracket is only ever removed,
never required) and `rgb(1,2,3)x` as `rgb(1,2,3)` (input left over after the
third number is not looked at). -/
theorem ColorFromString_accepts_malformed :
    rgblight.ColorFromString asciiLower "#12345g" =
      (rgblight.rgbColor.toColor ⟨0x12, 0x34, 0x5⟩, none) ∧
    rgblight.ColorFromString asciiLower "hsv(1,2,3" = (⟨1, 2, 3⟩, none) ∧
    rgblight.ColorFromString asciiLower "rgb(1,2,3)x" =
      (rgblight.rgbColor.toColor ⟨1, 2, 3⟩, none) ∧
    rgblight.colorFromCases.lookup "rgb(1,2,3)x" = none ∧
    rgblight.colorFromCases.lookup "hsv(1,2,3" = none ∧
    rgblight.colorFromCases.lookup "#12345g" = none := by
  decide!

/-! ## Effects: properties -/

/-- C23: in both effect enumerations, for every effect `e` from 0 up to and
including `EffectUnknown`, `EffectFromString(e.Name()) = e`; and a string whose
normal form (lower-cased, every space and every `effect` removed) is no case
label of the switch yields `EffectUnknown`, whatever the lower-casing function. -/
theorem effect_name_roundtrip :
    (∀ e, e ≤ backlight.EffectUnknown →
      backlight.EffectFromString asciiLower (backlight.Effect.Name e) = e) ∧
    (∀ e, e ≤ rgblight.EffectUnknown →
      rgblight.EffectFromString asciiLower (rgblight.Effect.Name e) = e) ∧
    (∀ (ToLower : String → String) (value : String),
      keycode.stringsRemove (keycode.stringsRemove (ToLower value) " ") "effect" ∉
          backlight.effectFromCases.map Prod.fst →
        backlight.EffectFromString ToLower value = backlight.EffectUnknown) ∧
    (∀ (ToLower : String → String) (value : String),
      keycode.stringsRemove (keycode.stringsRemove (ToLower value) " ") "effect" ∉
          rgblight.effectFromCases.map Prod.fst →
        rgblight.EffectFromString ToLower value = rgblight.EffectUnknown) := by
  refine ⟨by decide, by decide, ?_, ?_⟩
  · intro ToLower value h
    have hl := (lookup_none_iff_not_mem backlight.effectFromCases _).mpr h
    unfold backlight.EffectFromString
    simp only [hl]
  · intro ToLower value h
    have hl := (lookup_none_iff_not_mem rgblight.effectFromCases _).mpr h
    unfold rgblight.EffectFromString
    simp only [hl]

/-- Witness of C23: `Rainbow Swirl 3` and `Breathing On` parse back to their
effects, `the macarena` is no alias in either enumeration. -/
theorem effect_name_roundtrip_witness :
    rgblight.EffectFromString asciiLower (rgblight.Effect.Name rgblight.EffectRainbowSwirl3) =
      rgblight.EffectRainbowSwirl3 ∧
    backlight.EffectFromString asciiLower (backlight.Effect.Name backlight.EffectBreathingOn) =
      backlight.EffectBreathingOn ∧
    backlight.EffectFromString asciiLower "the macarena" = backlight.EffectUnknown ∧
    rgblight.EffectFromString asciiLower "the macarena" = rgblight.EffectUnknown :=
  ⟨effect_name_roundtrip.2.1 rgblight.EffectRainbowSwirl3 (by decide),
   effect_name_roundtrip.1 backlight.EffectBreathingOn (by decide),
   effect_name_roundtrip.2.2.1 asciiLower "the macarena" (by decide),
   effect_name_roundtrip.2.2.2 asciiLower "the macarena" (by decide)⟩

/-! ## Keyboard values, lighting and keymap buffers: lemmas and properties -/

theorem attempt_log {σ : Type} (d : Device σ) (c : Client σ) (message : List Nat) :
    ∃ rest, (attempt d c message).client.log = c.log ++ Event.write message :: rest := by
  unfold attempt
  simp only []
  split
  · exact ⟨[], rfl⟩
  · exact ⟨[Event.read], by simp⟩

theorem sendLoop_log {σ : Type} (d : Device σ) :
    ∀ (n : Nat) (c : Client σ) (message : List Nat),
      ∃ rest, (sendLoop d n c message).client.log = c.log ++ rest := by
  intro n
  induction n with
  | zero => intro c message; exact ⟨[], by simp [sendLoop]⟩
  | succ n ih =>
    intro c message
    obtain ⟨r1, h1⟩ := attempt_log d c message
    rw [sendLoop_succ]
    split
    · exact ⟨_, h1⟩
    · obtain ⟨r2, h2⟩ := ih (attempt d c message).client (attempt d c message).message
      exact ⟨Event.write message :: r1 ++ r2, by rw [h2, h1]; simp⟩

/-- The first device call of `sendMessage` with a 32-byte message and a
positive budget is the write of that message. -/
theorem sendMessage_first_write {σ : Type} (d : Device σ) (c : Client σ)
    (message : List Nat) (hlen : message.length = 32) :
    ∃ rest, (sendMessage d c message 20).client.log = c.log ++ Event.write message :: rest := by
  unfold sendMessage
  rw [if_neg (by simp [hlen, HidMessageSize])]
  show ∃ rest, (sendLoop d (19 + 1) c message).client.log = c.log ++ Event.write message :: rest
  obtain ⟨r1, h1⟩ := attempt_log d c message
  rw [sendLoop_succ]
  split
  · exact ⟨_, h1⟩
  · obtain ⟨r2, h2⟩ := sendLoop_log d 19 (attempt d c message).client (attempt d c message).message
    exact ⟨r1 ++ r2, by rw [h2, h1]; simp⟩

theorem sendLoop_err_cases {σ : Type} (d : Device σ) :
    ∀ (n : Nat) (c : Client σ) (message : List Nat),
      (sendLoop d n c message).err = none ∨
      (sendLoop d n c message).err = some Error.ReadWrite ∨
      (sendLoop d n c message).err = some Error.UnknownCommand := by
  intro n
  induction n with
  | zero => intro c message; exact Or.inr (Or.inl rfl)
  | succ n ih =>
    intro c message
    rw [sendLoop_succ]
    split
    · simp only [verdict]
      split
      · exact Or.inr (Or.inr rfl)
      · exact Or.inl rfl
    · exact ih _ _

theorem sendMessage_err_cases {σ : Type} (d : Device σ) (c : Client σ) (message : List Nat)
    (N : Int) :
    (sendMessage d c message N).err = none ∨
    (sendMessage d c message N).err = some Error.BadMessageSize ∨
    (sendMessage d c message N).err = some Error.ReadWrite ∨
    (sendMessage d c message N).err = some Error.UnknownCommand := by
  unfold sendMessage
  split
  · exact Or.inr (Or.inl rfl)
  · rcases sendLoop_err_cases d N.toNat c message with h | h | h
    · exact Or.inl h
    · exact Or.inr (Or.inr (Or.inl h))
    · exact Or.inr (Or.inr (Or.inr h))

/-- On a reliable device `sendMessage` is one write and one read. -/
theorem sendMessage_reliable {σ : Type} (d : Device σ) (hd : Reliable d) (c : Client σ)
    (message : List Nat) (hlen : message.length = 32) :
    sendMessage d c message 20 =
      ⟨verdict (copyInto message (d.Read (d.Write c.device message).state).data),
        copyInto message (d.Read (d.Write c.device message).state).data,
        ⟨(d.Read (d.Write c.device message).state).state, c.cache,
          c.log ++ [Event.write message] ++ [Event.read]⟩⟩ := by
  unfold sendMessage
  rw [if_neg (by simp [hlen, HidMessageSize])]
  show sendLoop d (19 + 1) c message = _
  have hw := hd.1 c.device message
  have hr := hd.2 (d.Write c.device message).state
  have ha : attempt d c message = ⟨true,
      copyInto message (d.Read (d.Write c.device message).state).data,
      ⟨(d.Read (d.Write c.device message).state).state, c.cache,
        c.log ++ [Event.write message] ++ [Event.read]⟩⟩ := by
    unfold attempt
    simp only []
    rw [if_neg (by simp [hw.1, hw.2])]
    simp [hr.1, hr.2]
  rw [sendLoop_succ, ha]
  simp

theorem length_hidFrame (init : List Nat) (h : init.length ≤ 32) :
    (hidFrame init).length = 32 := by
  simp only [hidFrame, HidMessageSize, List.length_append, List.length_replicate]
  omega

theorem reliable_echo : Reliable echo :=
  ⟨fun _ _ => ⟨rfl, rfl⟩, fun _ => ⟨rfl, rfl⟩⟩

theorem reliable_answering (reply : List Nat) : Reliable (answering reply) :=
  ⟨fun _ _ => ⟨rfl, rfl⟩, fun _ => ⟨rfl, rfl⟩⟩

/-- C24: on a device whose reply to the lighting command carries the mode it
has engaged (here mode 1, where mode 5 was asked for), `SetRgblightEffect(5)`
writes `[0x07, 0x81, 5, 0, ...]` first and then, from the same buffer that the
first read has overwritten, `[0x07, 0x81, 1, 0, ...]`: the second frame is the
device's reply, not the first frame. -/
theorem SetRgblightEffect_resends_reply :
    SetRgblightEffect (answering (hidFrame [0x07, 0x81, 1])) ⟨(), none, []⟩ 5 =
      (.ok (), ⟨(), none,
        [Event.write (hidFrame [0x07, 0x81, 5]), Event.read,
         Event.write (hidFrame [0x07, 0x81, 1]), Event.read]⟩) ∧
    hidFrame [0x07, 0x81, 1] ≠ hidFrame [0x07, 0x81, 5] :=
  ⟨rfl, by decide⟩

/-- Counterexample to C25 as stated: with `setBrightness = false` a successful
`SetRgblightColor(ColorRed, false)` on the echoing device makes one exchange
only, the hue and saturation frame. -/
theorem SetRgblightColor_single_exchange :
    SetRgblightColor echo ⟨[], none, []⟩ rgblight.ColorRed false =
      (.ok (), ⟨hidFrame [0x07, 0x83, 0, 255], none,
        [Event.write (hidFrame [0x07, 0x83, 0, 255]), Event.read]⟩) := by
  have h1 : rgblight.Hue.ToByte rgblight.ColorRed.Hue = 0 := by decide!
  have h2 : rgblight.Saturation.ToByte rgblight.ColorRed.Saturation = 255 := by decide!
  unfold SetRgblightColor
  rw [h1, h2]
  rfl

theorem SetRgblightBrightness_reliable {σ : Type} (d : Device σ) (hd : Reliable d)
    (c : Client σ) (brightness : Nat) :
    (SetRgblightBrightness d c brightness).2.log =
      c.log ++ [Event.write (hidFrame [0x07, 0x80, rgblight.Brightness.ToByte brightness]),
        Event.read] := by
  unfold SetRgblightBrightness
  simp only []
  rw [sendMessage_reliable d hd c _ (length_hidFrame _ (by simp))]
  simp only []
  split <;> simp [LightingSetValueId, RgblightBrightnessId]

/-- C25 (amended): a successful `SetRgblightColor(c, true)` is exactly two
sequential exchanges, the first of the frame
`[0x07, 0x83, c.Hue.ToByte(), c.Saturation.ToByte(), 0, ...]`, the second, from
the state the first one left, of the frame
`[0x07, 0x80, c.Brightness.ToByte(), 0, ...]`; a successful
`SetRgblightColor(c, false)` is the first exchange only. When the first exchange
fails its error is returned and the client state is the one it left: nothing
more is sent. On a device that needs no retries the device calls made are
write, read for the first frame and, with `setBrightness`, write, read for the
second. -/
theorem SetRgblightColor_exchanges {σ : Type} (d : Device σ) (c : Client σ)
    (color : rgblight.Color) (setBrightness : Bool) :
    (∀ c1, SetRgblightColor d c color setBrightness = (.ok (), c1) →
      (sendMessage d c (hueSaturationFrame color) 20).err = none ∧
      (setBrightness = true →
        (sendMessage d (sendMessage d c (hueSaturationFrame color) 20).client
          (brightnessFrame color) 20).err = none ∧
        c1 = (sendMessage d (sendMessage d c (hueSaturationFrame color) 20).client
          (brightnessFrame color) 20).client) ∧
      (setBrightness = false → c1 = (sendMessage d c (hueSaturationFrame color) 20).client)) ∧
    (∀ e, (sendMessage d c (hueSaturationFrame color) 20).err = some e →
      SetRgblightColor d c color setBrightness =
        (.error e, (sendMessage d c (hueSaturationFrame color) 20).client)) ∧
    (Reliable d → (SetRgblightColor d c color setBrightness).1 = .ok () →
      (SetRgblightColor d c color setBrightness).2.log =
        c.log ++ [Event.write (hueSaturationFrame color), Event.read] ++
          (if setBrightness = true then [Event.write (brightnessFrame color), Event.read]
           else [])) := by
  have hF1 : hidFrame [LightingSetValueId, RgblightColorId, rgblight.Hue.ToByte color.Hue,
      rgblight.Saturation.ToByte color.Saturation] = hueSaturationFrame color := rfl
  have hF2 : hidFrame [LightingSetValueId, RgblightBrightnessId,
      rgblight.Brightness.ToByte color.Brightness] = brightnessFrame color := rfl
  have hlen : (hueSaturationFrame color).length = 32 := rfl
  refine ⟨?_, ?_, ?_⟩
  · intro c1
    unfold SetRgblightColor
    simp only []
    rw [hF1]
    cases he : (sendMessage d c (hueSaturationFrame color) 20).err with
    | some e => intro hok; cases hok
    | none =>
      simp only []
      cases setBrightness with
      | false =>
        intro hok
        simp only [Bool.false_eq_true, if_false, Prod.mk.injEq] at hok
        exact ⟨trivial, fun hx => absurd hx (by decide), fun _ => hok.2.symm⟩
      | true =>
        simp only [if_true]
        unfold SetRgblightBrightness
        simp only []
        rw [hF2]
        cases he2 : (sendMessage d (sendMessage d c (hueSaturationFrame color) 20).client
            (brightnessFrame color) 20).err with
        | some e => intro hok; cases hok
        | none =>
          intro hok
          simp only [Prod.mk.injEq] at hok
          exact ⟨trivial, fun _ => ⟨rfl, hok.2.symm⟩, fun hx => absurd hx (by decide)⟩
  · intro e he
    unfold SetRgblightColor
    simp only []
    rw [hF1, he]
  · intro hd
    have hs := sendMessage_reliable d hd c (hueSaturationFrame color) hlen
    unfold SetRgblightColor
    simp only []
    rw [hF1]
    cases he : (sendMessage d c (hueSaturationFrame color) 20).err with
    | some e => intro hok; cases hok
    | none =>
      simp only []
      intro _
      cases setBrightness with
      | false =>
        simp only [Bool.false_eq_true, if_false, List.append_nil]
        rw [hs]
        simp
      | true =>
        simp only [if_true]
        rw [SetRgblightBrightness_reliable d hd, hs]
        simp only [List.append_assoc, List.cons_append, List.nil_append]
        rfl

/-- Witness of C25 (amended) on the echoing device, for Red with brightness. -/
theorem SetRgblightColor_exchanges_witness :
    (SetRgblightColor echo ⟨[], none, []⟩ rgblight.ColorRed true).2.log =
      [] ++ [Event.write (hueSaturationFrame rgblight.ColorRed), Event.read] ++
        (if true = true then [Event.write (brightnessFrame rgblight.ColorRed), Event.read]
         else []) :=
  (SetRgblightColor_exchanges echo ⟨[], none, []⟩ rgblight.ColorRed true).2.2 reliable_echo rfl

/-- C26: the frame `SetLayoutOptions` writes starts with `GetKeyboardValueId`
(0x02), the get-keyboard-value command, not with `SetKeyboardValueId` (0x03):
for every device, client state and `options` the first device call is the
write of `[0x02, 0x02, o3, o2, o1, o0, 0, ...]` (`o3..o0` the big-endian bytes of
`options`); for `options = 0x01020304` that frame is
`[0x02, 0x02, 1, 2, 3, 4, 0, ...]`. -/
theorem SetLayoutOptions_sends_get_command {σ : Type} (d : Device σ) (c : Client σ)
    (options : Nat) :
    (∃ rest, (SetLayoutOptions d c options).2.log =
      c.log ++ Event.write (hidFrame [GetKeyboardValueId, LayoutOptionsId,
        options / 2 ^ 24 % 256, options / 2 ^ 16 % 256, options / 2 ^ 8 % 256,
        options % 256]) :: rest) ∧
    (∃ rest, (SetLayoutOptions d c 0x01020304).2.log =
      c.log ++ Event.write ([0x02, 0x02, 1, 2, 3, 4] ++ List.replicate 26 0) :: rest) ∧
    GetKeyboardValueId = 0x02 ∧ SetKeyboardValueId = 0x03 := by
  have key : ∀ o : Nat, ∃ rest, (SetLayoutOptions d c o).2.log =
      c.log ++ Event.write (hidFrame [GetKeyboardValueId, LayoutOptionsId,
        o / 2 ^ 24 % 256, o / 2 ^ 16 % 256, o / 2 ^ 8 % 256, o % 256]) :: rest := by
    intro o
    have e : hidFrame [GetKeyboardValueId, LayoutOptionsId,
        ((o >>> 24) &&& 0xFF) % 256, ((o >>> 16) &&& 0xFF) % 256,
        ((o >>> 8) &&& 0xFF) % 256, (o &&& 0xFF) % 256] =
        hidFrame [GetKeyboardValueId, LayoutOptionsId,
          o / 2 ^ 24 % 256, o / 2 ^ 16 % 256, o / 2 ^ 8 % 256, o % 256] := by
      have m : ∀ x : Nat, x &&& 0xFF = x % 256 := fun x => Nat.and_pow_two_sub_one_eq_mod x 8
      simp only [m, Nat.shiftRight_eq_div_pow, Nat.mod_mod]
    obtain ⟨rest, hrest⟩ := sendMessage_first_write d c _ (length_hidFrame
      [GetKeyboardValueId, LayoutOptionsId, o / 2 ^ 24 % 256, o / 2 ^ 16 % 256,
        o / 2 ^ 8 % 256, o % 256] (by simp))
    refine ⟨rest, ?_⟩
    unfold SetLayoutOptions
    simp only []
    rw [e]
    split <;> exact hrest
  exact ⟨key options, key 0x01020304, rfl, rfl⟩

/-- C27: the two getters have no size check. For every device, client state,
offset and size (0 and 29 included) `GetDynamicKeymapMacroBuffer` and
`GetDynamicKeymapBuffer` write their frame to the device and do not return
`ErrorBadBufferSize`; on the faithful device holding `[1, 2, 3]` the macro
getter called with size 29 and with size 0 returns 28 bytes and a nil error,
where the setter `SetDynamicKeymapMacroBuffer` returns `ErrorBadBufferSize`
without touching the device. -/
theorem buffer_getters_skip_size_check {σ : Type} (d : Device σ) (c : Client σ)
    (offset size : Nat) :
    ((GetDynamicKeymapMacroBuffer d c offset size).1 ≠ .error Error.BadBufferSize ∧
      ∃ rest, (GetDynamicKeymapMacroBuffer d c offset size).2.log =
        c.log ++ Event.write (hidFrame [DynamicKeymapMacroGetBufferId,
          (offset >>> 8) &&& 0xFF, offset &&& 0xFF, size % 256]) :: rest) ∧
    ((GetDynamicKeymapBuffer d c offset size).1 ≠ .error Error.BadBufferSize ∧
      ∃ rest, (GetDynamicKeymapBuffer d c offset size).2.log =
        c.log ++ Event.write (hidFrame [DynamicKeymapGetBufferId,
          (offset >>> 8) &&& 0xFF, offset &&& 0xFF, size % 256]) :: rest) ∧
    GetDynamicKeymapMacroBuffer faithful (freshClient [1, 2, 3] 1) 0 29 =
      (.ok ([1, 2, 3] ++ List.replicate 25 0),
        exchanged (freshClient [1, 2, 3] 1) (hidFrame [0x0E, 0, 0, 29])) ∧
    GetDynamicKeymapMacroBuffer faithful (freshClient [1, 2, 3] 1) 0 0 =
      (.ok (List.replicate 28 0),
        exchanged (freshClient [1, 2, 3] 1) (hidFrame [0x0E, 0, 0, 0])) ∧
    SetDynamicKeymapMacroBuffer faithful (freshClient [1, 2, 3] 1) 0 29 [9] =
      (.error Error.BadBufferSize, freshClient [1, 2, 3] 1) ∧
    SetDynamicKeymapMacroBuffer faithful (freshClient [1, 2, 3] 1) 0 0 [9] =
      (.error Error.BadBufferSize, freshClient [1, 2, 3] 1) := by
  refine ⟨⟨?_, ?_⟩, ⟨?_, ?_⟩, rfl, rfl, rfl, rfl⟩
  · unfold GetDynamicKeymapMacroBuffer
    simp only []
    split
    · rename_i e he
      intro h
      simp only [Except.error.injEq] at h
      rw [h] at he
      rcases sendMessage_err_cases d c _ 20 with h1 | h1 | h1 | h1 <;>
        rw [he] at h1 <;> cases h1
    · intro h
      cases h
  · obtain ⟨rest, hrest⟩ := sendMessage_first_write d c
      (hidFrame [DynamicKeymapMacroGetBufferId, (offset >>> 8) &&& 0xFF, offset &&& 0xFF,
        size % 256]) (length_hidFrame _ (by simp))
    refine ⟨rest, ?_⟩
    unfold GetDynamicKeymapMacroBuffer
    simp only []
    split <;> exact hrest
  · unfold GetDynamicKeymapBuffer
    simp only []
    split
    · rename_i e he
      intro h
      simp only [Except.error.injEq] at h
      rw [h] at he
      rcases sendMessage_err_cases d c _ 20 with h1 | h1 | h1 | h1 <;>
        rw [he] at h1 <;> cases h1
    · intro h
      cases h
  · obtain ⟨rest, hrest⟩ := sendMessage_first_write d c
      (hidFrame [DynamicKeymapGetBufferId, (offset >>> 8) &&& 0xFF, offset &&& 0xFF,
        size % 256]) (length_hidFrame _ (by simp))
    refine ⟨rest, ?_⟩
    unfold GetDynamicKeymapBuffer
    simp only []
    split <;> exact hrest

/-! ## Connecting: lemmas and properties -/

theorem openLoop_fail {ω σ : Type} (h : Host ω σ) (d : Device σ) (cache : Option (List Nat))
    (di : DeviceInfo) (n : Nat) (w : ω) (err : Option Error) (opens : List DeviceInfo)
    (e : Error) (hf : (h.Open w di).1 = .error e) :
    openLoop h d cache di (n + 1) w err opens =
      openLoop h d cache di n (h.Open w di).2 (some e) (opens ++ [di]) := by
  rw [openLoop]
  cases ho : h.Open w di with
  | mk r w1 =>
    rw [ho] at hf
    simp only at hf
    subst hf
    rfl

theorem openLoop_open {ω σ : Type} (h : Host ω σ) (d : Device σ) (cache : Option (List Nat))
    (di : DeviceInfo) (n : Nat) (w : ω) (err : Option Error) (opens : List DeviceInfo)
    (device : σ) (hs : (h.Open w di).1 = .ok device) :
    openLoop h d cache di (n + 1) w err opens =
      match GetProtocolVersion d ⟨device, cache, []⟩ with
      | (.error e, _) => ⟨none, some e, (h.Open w di).2, opens ++ [di]⟩
      | (.ok version, c) =>
        if version ≠ ViaProtocolVersion then
          ⟨none, some Error.VersionMismatch, (h.Open w di).2, opens ++ [di]⟩
        else
          ⟨some ⟨di, c⟩, none, (h.Open w di).2, opens ++ [di]⟩ := by
  rw [openLoop]
  cases ho : h.Open w di with
  | mk r w1 =>
    rw [ho] at hs
    simp only at hs
    subst hs
    rfl

/-- After `k` failed `Open` calls the loop goes on with the budget that is left. -/
theorem openLoop_skip {ω σ : Type} (h : Host ω σ) (d : Device σ) (cache : Option (List Nat))
    (di : DeviceInfo) :
    ∀ (k n : Nat) (w : ω) (err : Option Error) (opens : List DeviceInfo),
      (∀ j, j < k → ∃ e, (nthOpen h di j w).1 = .error e) →
      ∃ err1, openLoop h d cache di (k + n) w err opens =
        openLoop h d cache di n (opensWorld h di k w) err1 (opens ++ List.replicate k di) := by
  intro k
  induction k with
  | zero =>
    intro n w err opens _
    exact ⟨err, by simp [opensWorld]⟩
  | succ k ih =>
    intro n w err opens hf
    obtain ⟨e0, he0⟩ := hf 0 (by omega)
    simp only [nthOpen, opensWorld] at he0
    have e1 : k + 1 + n = (k + n) + 1 := by omega
    obtain ⟨err1, h1⟩ := ih n (h.Open w di).2 (some e0) (opens ++ [di])
      (fun j hj => by simpa [nthOpen, opensWorld] using hf (j + 1) (by omega))
    refine ⟨err1, ?_⟩
    rw [e1, openLoop_fail h d cache di _ w err opens e0 he0, h1]
    have e2 : opens ++ [di] ++ List.replicate k di = opens ++ List.replicate (k + 1) di := by
      rw [List.append_assoc]
      congr 1
    rw [e2]
    rfl

/-- The loop at the first `Open` call that succeeds, call number `k`. -/
theorem openLoop_at {ω σ : Type} (h : Host ω σ) (d : Device σ) (cache : Option (List Nat))
    (di : DeviceInfo) (k n : Nat) (w : ω) (err : Option Error) (opens : List DeviceInfo)
    (device : σ) (hf : ∀ j, j < k → ∃ e, (nthOpen h di j w).1 = .error e)
    (hs : (nthOpen h di k w).1 = .ok device) :
    openLoop h d cache di (k + (n + 1)) w err opens =
      match GetProtocolVersion d ⟨device, cache, []⟩ with
      | (.error e, _) => ⟨none, some e, (nthOpen h di k w).2, opens ++ List.replicate (k + 1) di⟩
      | (.ok version, c) =>
        if version ≠ ViaProtocolVersion then
          ⟨none, some Error.VersionMismatch, (nthOpen h di k w).2,
            opens ++ List.replicate (k + 1) di⟩
        else
          ⟨some ⟨di, c⟩, none, (nthOpen h di k w).2, opens ++ List.replicate (k + 1) di⟩ := by
  obtain ⟨err1, h1⟩ := openLoop_skip h d cache di k (n + 1) w err opens hf
  have e2 : opens ++ List.replicate k di ++ [di] = opens ++ List.replicate (k + 1) di := by
    rw [List.append_assoc, List.replicate_succ']
  rw [h1, openLoop_open h d cache di n _ err1 _ device hs, e2]
  rfl

/-- The loop when every one of its `n + 1` `Open` calls fails. -/
theorem openLoop_never {ω σ : Type} (h : Host ω σ) (d : Device σ) (cache : Option (List Nat))
    (di : DeviceInfo) (n : Nat) (w : ω) (err : Option Error) (opens : List DeviceInfo)
    (e : Error) (hf : ∀ j, j < n → ∃ e, (nthOpen h di j w).1 = .error e)
    (hl : (nthOpen h di n w).1 = .error e) :
    openLoop h d cache di (n + 1) w err opens =
      ⟨none, some e, (nthOpen h di n w).2, opens ++ List.replicate (n + 1) di⟩ := by
  obtain ⟨err1, h1⟩ := openLoop_skip h d cache di n 1 w err opens hf
  have e2 : opens ++ List.replicate n di ++ [di] = opens ++ List.replicate (n + 1) di := by
    rw [List.append_assoc, List.replicate_succ']
  rw [h1, openLoop_fail h d cache di 0 _ err1 _ e hl, e2]
  rfl

/-- A client comes out of the loop only through the version check. -/
theorem openLoop_client {ω σ : Type} (h : Host ω σ) (d : Device σ) (cache : Option (List Nat))
    (di : DeviceInfo) :
    ∀ (n : Nat) (w : ω) (err : Option Error) (opens : List DeviceInfo) (conn : Connection σ),
      (openLoop h d cache di n w err opens).client = some conn →
      (openLoop h d cache di n w err opens).err = none ∧ conn.info = di ∧
      ∃ w0 device, (h.Open w0 di).1 = .ok device ∧
        GetProtocolVersion d ⟨device, cache, []⟩ = (.ok ViaProtocolVersion, conn.client) := by
  intro n
  induction n with
  | zero =>
    intro w err opens conn hc
    simp [openLoop] at hc
  | succ n ih =>
    intro w err opens conn hc
    cases ho : (h.Open w di).1 with
    | error e =>
      rw [openLoop_fail h d cache di n w err opens e ho] at hc ⊢
      exact ih _ _ _ conn hc
    | ok device =>
      rw [openLoop_open h d cache di n w err opens device ho] at hc ⊢
      cases hv : GetProtocolVersion d ⟨device, cache, []⟩ with
      | mk r c =>
        cases r with
        | error e =>
          rw [hv] at hc
          simp at hc
        | ok version =>
          rw [hv] at hc
          simp only at hc ⊢
          by_cases hne : version ≠ ViaProtocolVersion
          · rw [if_pos hne] at hc
            simp at hc
          · rw [if_neg hne] at hc ⊢
            simp only [Option.some.injEq] at hc
            subst hc
            have hver : version = ViaProtocolVersion := by
              by_contra hx
              exact hne hx
            subst hver
            exact ⟨rfl, rfl, w, device, ho, hv⟩

theorem NewClient_loop {ω σ : Type} (h : Host ω σ) (sort : List Keyboard → List Keyboard)
    (d : Device σ) (cache : Option (List Nat)) (w : ω) (vid pid : Nat) (serial : String)
    (keyboards : List Keyboard) (di : DeviceInfo) (others : List DeviceInfo)
    (hk : ListKeyboards h sort w = .ok keyboards)
    (hs : keyboards.filter (fun k => serial = "" ∨ k.Serial = serial) = di :: others) :
    NewClient h sort d cache w vid pid serial = openLoop h d cache di 20 w none [] := by
  unfold NewClient
  rw [hk]
  simp only []
  rw [hs]
  simp

/-- C28: `NewClient` returns a client only when an `Open` call on the chosen
device succeeded and `GetProtocolVersion` on the opened handle returned exactly
0x0009 (the error is then nil); and when the first `Open` call that succeeds
(call number `k` of at most 20, the earlier ones failing) is followed by a
version other than 0x0009, `NewClient` returns no client and
`ErrorVersionMismatch` after exactly `k + 1` `Open` calls. -/
theorem NewClient_version_gate {ω σ : Type} (h : Host ω σ)
    (sort : List Keyboard → List Keyboard) (d : Device σ) (cache : Option (List Nat))
    (w : ω) (vid pid : Nat) (serial : String) :
    (∀ conn, (NewClient h sort d cache w vid pid serial).client = some conn →
      (NewClient h sort d cache w vid pid serial).err = none ∧
      ∃ w0 device, (h.Open w0 conn.info).1 = .ok device ∧
        GetProtocolVersion d ⟨device, cache, []⟩ = (.ok 0x0009, conn.client)) ∧
    (∀ (keyboards : List Keyboard) (di : DeviceInfo) (others : List DeviceInfo) (k : Nat)
        (device : σ) (version : Nat) (c1 : Client σ),
      ListKeyboards h sort w = .ok keyboards →
      keyboards.filter (fun kb => serial = "" ∨ kb.Serial = serial) = di :: others →
      k < 20 →
      (∀ j, j < k → ∃ e, (nthOpen h di j w).1 = .error e) →
      (nthOpen h di k w).1 = .ok device →
      GetProtocolVersion d ⟨device, cache, []⟩ = (.ok version, c1) →
      version ≠ 0x0009 →
      (NewClient h sort d cache w vid pid serial).client = none ∧
      (NewClient h sort d cache w vid pid serial).err = some Error.VersionMismatch ∧
      (NewClient h sort d cache w vid pid serial).opens = List.replicate (k + 1) di) := by
  constructor
  · intro conn hc
    cases hk : ListKeyboards h sort w with
    | error e =>
      unfold NewClient at hc
      rw [hk] at hc
      simp at hc
    | ok keyboards =>
      cases hs : keyboards.filter (fun kb => serial = "" ∨ kb.Serial = serial) with
      | nil =>
        unfold NewClient at hc
        rw [hk] at hc
        simp only [] at hc
        rw [hs] at hc
        simp at hc
      | cons di others =>
        rw [NewClient_loop h sort d cache w vid pid serial keyboards di others hk hs] at hc ⊢
        obtain ⟨h1, h2, w0, device, h3, h4⟩ := openLoop_client h d cache di 20 w none [] conn hc
        rw [h2]
        exact ⟨h1, w0, device, h3, h4⟩
  · intro keyboards di others k device version c1 hk hs hk20 hf hopen hv hne
    rw [NewClient_loop h sort d cache w vid pid serial keyboards di others hk hs]
    have e20 : 20 = k + ((19 - k) + 1) := by omega
    rw [e20, openLoop_at h d cache di k (19 - k) w none [] device hf hopen, hv]
    have hne' : version ≠ ViaProtocolVersion := hne
    simp [hne']

/-- Witness of C28: one keyboard that opens at the third call and reports
version 0x000A. -/
theorem NewClient_version_gate_witness :
    (NewClient (testHost [⟨0x1234, 0x5678, "S1", 0xFF60, 0x61, "Board"⟩] ["S1"] 2)
      sortByProduct (answering (hidFrame [0x01, 0x00, 0x0A])) none 0 0x1234 0x5678 "").client =
        none ∧
    (NewClient (testHost [⟨0x1234, 0x5678, "S1", 0xFF60, 0x61, "Board"⟩] ["S1"] 2)
      sortByProduct (answering (hidFrame [0x01, 0x00, 0x0A])) none 0 0x1234 0x5678 "").err =
        some Error.VersionMismatch ∧
    (NewClient (testHost [⟨0x1234, 0x5678, "S1", 0xFF60, 0x61, "Board"⟩] ["S1"] 2)
      sortByProduct (answering (hidFrame [0x01, 0x00, 0x0A])) none 0 0x1234 0x5678 "").opens =
        List.replicate (2 + 1) ⟨0x1234, 0x5678, "S1", 0xFF60, 0x61, "Board"⟩ :=
  (NewClient_version_gate (testHost [⟨0x1234, 0x5678, "S1", 0xFF60, 0x61, "Board"⟩] ["S1"] 2)
      sortByProduct (answering (hidFrame [0x01, 0x00, 0x0A])) none 0 0x1234 0x5678 "").2
    [⟨0x1234, 0x5678, "S1", 0xFF60, 0x61, "Board"⟩] ⟨0x1234, 0x5678, "S1", 0xFF60, 0x61, "Board"⟩
    [] 2 () 0x000A
    ⟨(), none, [Event.write (hidFrame [0x01]), Event.read]⟩
    rfl rfl (by decide)
    (fun j hj => by
      have hj' : j = 0 ∨ j = 1 := by omega
      rcases hj' with rfl | rfl
      · exact ⟨Error.Hid 0, rfl⟩
      · exact ⟨Error.Hid 1, rfl⟩)
    rfl rfl (by decide)

/-- C29: `NewClient` never looks at `vid` and `pid`: its result is the same for
every pair of ids, and with the single attached keyboard 0x1234:0x5678 the call
`NewClient(0xAAAA, 0xBBBB, "")` returns a client for that keyboard and a nil
error, not `ErrorNoMatchingDevice`. -/
theorem NewClient_ignores_ids {ω σ : Type} (h : Host ω σ)
    (sort : List Keyboard → List Keyboard) (d : Device σ) (cache : Option (List Nat))
    (w : ω) (vid pid vid1 pid1 : Nat) (serial : String) :
    NewClient h sort d cache w vid pid serial = NewClient h sort d cache w vid1 pid1 serial ∧
    (NewClient (testHost [⟨0x1234, 0x5678, "S1", 0xFF60, 0x61, "Board"⟩] ["S1"] 0)
      sortByProduct (answering (hidFrame [0x01, 0x00, 0x09])) none 0 0xAAAA 0xBBBB "").client.map
        (fun conn => conn.info) = some ⟨0x1234, 0x5678, "S1", 0xFF60, 0x61, "Board"⟩ ∧
    (NewClient (testHost [⟨0x1234, 0x5678, "S1", 0xFF60, 0x61, "Board"⟩] ["S1"] 0)
      sortByProduct (answering (hidFrame [0x01, 0x00, 0x09])) none 0 0xAAAA 0xBBBB "").err =
        none :=
  ⟨rfl, rfl, rfl⟩

/-- Counterexample to C30 as stated: two keyboards pass the (empty) serial
filter, `Alpha` cannot be opened, `Beta` can and speaks version 0x0009.
`NewClient` calls `Open` 20 times on `Alpha`, never on `Beta`, and returns no
client and the last open error. -/
theorem NewClient_second_candidate_untried :
    (NewClient (testHost [⟨1, 2, "A", 0xFF60, 0x61, "Alpha"⟩, ⟨1, 2, "B", 0xFF60, 0x61, "Beta"⟩]
      ["B"] 0) sortByProduct (answering (hidFrame [0x01, 0x00, 0x09])) none 0 1 2 "").client.isNone =
        true ∧
    (NewClient (testHost [⟨1, 2, "A", 0xFF60, 0x61, "Alpha"⟩, ⟨1, 2, "B", 0xFF60, 0x61, "Beta"⟩]
      ["B"] 0) sortByProduct (answering (hidFrame [0x01, 0x00, 0x09])) none 0 1 2 "").err =
        some (Error.Hid 19) ∧
    (NewClient (testHost [⟨1, 2, "A", 0xFF60, 0x61, "Alpha"⟩, ⟨1, 2, "B", 0xFF60, 0x61, "Beta"⟩]
      ["B"] 0) sortByProduct (answering (hidFrame [0x01, 0x00, 0x09])) none 0 1 2 "").opens =
        List.replicate 20 ⟨1, 2, "A", 0xFF60, 0x61, "Alpha"⟩ ∧
    ((testHost [⟨1, 2, "A", 0xFF60, 0x61, "Alpha"⟩, ⟨1, 2, "B", 0xFF60, 0x61, "Beta"⟩]
      ["B"] 0).Open 0 ⟨1, 2, "B", 0xFF60, 0x61, "Beta"⟩).1 = .ok () ∧
    (GetProtocolVersion (answering (hidFrame [0x01, 0x00, 0x09])) ⟨(), none, []⟩).1 = .ok 0x0009 :=
  ⟨rfl, rfl, rfl, rfl, rfl⟩

/-- C30 (amended): `NewClient` tries only the first keyboard `di` that passes
the serial filter, whatever the `others` are. If the `Open` call number `k < 20`
on `di` is the first that succeeds and the handle reports version 0x0009,
`NewClient` returns a client for `di` after `k + 1` calls; if all 20 `Open`
calls on `di` fail, it returns no client and the error of the last call. -/
theorem NewClient_first_candidate {ω σ : Type} (h : Host ω σ)
    (sort : List Keyboard → List Keyboard) (d : Device σ) (cache : Option (List Nat))
    (w : ω) (vid pid : Nat) (serial : String) (keyboards : List Keyboard) (di : DeviceInfo)
    (others : List DeviceInfo)
    (hk : ListKeyboards h sort w = .ok keyboards)
    (hs : keyboards.filter (fun kb => serial = "" ∨ kb.Serial = serial) = di :: others) :
    (∀ (k : Nat) (device : σ) (c1 : Client σ), k < 20 →
      (∀ j, j < k → ∃ e, (nthOpen h di j w).1 = .error e) →
      (nthOpen h di k w).1 = .ok device →
      GetProtocolVersion d ⟨device, cache, []⟩ = (.ok 0x0009, c1) →
      (NewClient h sort d cache w vid pid serial).client.map (fun conn => conn.info) =
        some di ∧
      (NewClient h sort d cache w vid pid serial).client.map (fun conn => conn.client) =
        some c1 ∧
      (NewClient h sort d cache w vid pid serial).err = none ∧
      (NewClient h sort d cache w vid pid serial).opens = List.replicate (k + 1) di) ∧
    (∀ e, (∀ j, j < 19 → ∃ e1, (nthOpen h di j w).1 = .error e1) →
      (nthOpen h di 19 w).1 = .error e →
      (NewClient h sort d cache w vid pid serial).client.isNone = true ∧
      (NewClient h sort d cache w vid pid serial).err = some e ∧
      (NewClient h sort d cache w vid pid serial).opens = List.replicate 20 di) := by
  rw [NewClient_loop h sort d cache w vid pid serial keyboards di others hk hs]
  constructor
  · intro k device c1 hk20 hf hopen hv
    have e20 : 20 = k + ((19 - k) + 1) := by omega
    rw [e20, openLoop_at h d cache di k (19 - k) w none [] device hf hopen, hv]
    simp [ViaProtocolVersion]
  · intro e hf hl
    rw [openLoop_never h d cache di 19 w none [] e hf hl]
    simp

/-- Witness of C30 (amended): `Alpha`, first in product order, opens at the
third call and reports version 0x0009; `Beta` is present as well. -/
theorem NewClient_first_candidate_witness :
    (NewClient (testHost [⟨1, 2, "A", 0xFF60, 0x61, "Alpha"⟩, ⟨1, 2, "B", 0xFF60, 0x61, "Beta"⟩]
      ["A", "B"] 2) sortByProduct (answering (hidFrame [0x01, 0x00, 0x09])) none 0 1 2 "").client.map
        (fun conn => conn.info) = some ⟨1, 2, "A", 0xFF60, 0x61, "Alpha"⟩ ∧
    (NewClient (testHost [⟨1, 2, "A", 0xFF60, 0x61, "Alpha"⟩, ⟨1, 2, "B", 0xFF60, 0x61, "Beta"⟩]
      ["A", "B"] 2) sortByProduct (answering (hidFrame [0x01, 0x00, 0x09])) none 0 1 2 "").opens =
        List.replicate (2 + 1) ⟨1, 2, "A", 0xFF60, 0x61, "Alpha"⟩ :=
  have key := (NewClient_first_candidate
    (testHost [⟨1, 2, "A", 0xFF60, 0x61, "Alpha"⟩, ⟨1, 2, "B", 0xFF60, 0x61, "Beta"⟩] ["A", "B"] 2)
    sortByProduct (answering (hidFrame [0x01, 0x00, 0x09])) none 0 1 2 ""
    [⟨1, 2, "A", 0xFF60, 0x61, "Alpha"⟩, ⟨1, 2, "B", 0xFF60, 0x61, "Beta"⟩]
    ⟨1, 2, "A", 0xFF60, 0x61, "Alpha"⟩ [⟨1, 2, "B", 0xFF60, 0x61, "Beta"⟩] rfl rfl).1
    2 () ⟨(), none, [Event.write (hidFrame [0x01]), Event.read]⟩ (by decide)
    (fun j hj => by
      have hj' : j = 0 ∨ j = 1 := by omega
      rcases hj' with rfl | rfl
      · exact ⟨Error.Hid 0, rfl⟩
      · exact ⟨Error.Hid 1, rfl⟩)
    rfl rfl
  ⟨key.1, key.2.2.2⟩

/-! ## The macro store: cache, rejoining and chunked reading -/

theorem length_copyInto (dst src : List Nat) : (copyInto dst src).length = dst.length := by
  simp only [copyInto, List.length_append, List.length_take, List.length_drop]
  omega

theorem exchangeReplies_length {σ : Type} (d : Device σ) :
    ∀ (frames : List (List Nat)) (s : σ), (∀ f ∈ frames, f.length = 32) →
      (exchangeReplies d frames s).1.length = frames.length ∧
      ∀ r ∈ (exchangeReplies d frames s).1, r.length = 32 := by
  intro frames
  induction frames with
  | nil => intro s _; exact ⟨rfl, fun r hr => by simp [exchangeReplies] at hr⟩
  | cons f frames ih =>
    intro s hf
    obtain ⟨h1, h2⟩ := ih (d.Read (d.Write s f).state).state
      (fun g hg => hf g (List.mem_cons_of_mem _ hg))
    constructor
    · simp only [exchangeReplies, List.length_cons, h1]
    · intro r hr
      simp only [exchangeReplies, List.mem_cons] at hr
      rcases hr with rfl | hr
      · rw [length_copyInto]
        exact hf f (List.mem_cons_self _ _)
      · exact h2 r hr

theorem bufferGetFrame_eq (off : Nat) (h : off < 65536) :
    hidFrame [DynamicKeymapMacroGetBufferId, (off >>> 8) &&& 0xFF, off &&& 0xFF,
      MaxDynamicKeymapBufferSize % 256] = bufferGetFrame off := by
  have m : ∀ x : Nat, x &&& 0xFF = x % 256 := fun x => Nat.and_pow_two_sub_one_eq_mod x 8
  have e : off / 256 % 256 = off / 256 := Nat.mod_eq_of_lt (by omega)
  simp only [m, Nat.shiftRight_eq_div_pow]
  show hidFrame [0x0E, off / 2 ^ 8 % 256, off % 256, 28] = bufferGetFrame off
  have e8 : (2 : Nat) ^ 8 = 256 := by norm_num
  rw [e8, e]
  rfl

/-- One buffer-get exchange on a device that needs no retries. -/
theorem getBuffer_reliable {σ : Type} (d : Device σ) (hd : Reliable d) (c : Client σ)
    (off : Nat) (h : off < 65536)
    (hok : (copyInto (bufferGetFrame off)
      (d.Read (d.Write c.device (bufferGetFrame off)).state).data).getD 0 0 ≠ 0xFF) :
    GetDynamicKeymapMacroBuffer d c off MaxDynamicKeymapBufferSize =
      (.ok ((copyInto (bufferGetFrame off)
          (d.Read (d.Write c.device (bufferGetFrame off)).state).data).drop 4),
        ⟨(d.Read (d.Write c.device (bufferGetFrame off)).state).state, c.cache,
          c.log ++ [Event.write (bufferGetFrame off), Event.read]⟩) := by
  unfold GetDynamicKeymapMacroBuffer
  rw [bufferGetFrame_eq off h, sendMessage_reliable d hd c (bufferGetFrame off) rfl]
  simp only [verdict, if_neg hok, List.append_assoc, List.singleton_append]

theorem readChunks_reliable {σ : Type} (d : Device σ) (hd : Reliable d) :
    ∀ (n i : Nat) (c : Client σ) (buffer : List Nat),
      (i + n) * 28 < 65536 + 28 →
      (∀ r ∈ (exchangeReplies d ((List.range n).map (fun j => bufferGetFrame (28 * (i + j))))
        c.device).1, r.getD 0 0 ≠ 0xFF) →
      readChunks d n i c buffer =
        (.ok (buffer ++ ((exchangeReplies d
            ((List.range n).map (fun j => bufferGetFrame (28 * (i + j)))) c.device).1.map
              (List.drop 4)).flatten),
          ⟨(exchangeReplies d ((List.range n).map (fun j => bufferGetFrame (28 * (i + j))))
              c.device).2, c.cache,
            c.log ++ (((List.range n).map (fun j => bufferGetFrame (28 * (i + j)))).map
              (fun f => [Event.write f, Event.read])).flatten⟩) := by
  intro n
  induction n with
  | zero =>
    intro i c buffer _ _
    simp [readChunks, exchangeReplies]
  | succ n ih =>
    intro i c buffer hb hok
    have hfr : (List.range (n + 1)).map (fun j => bufferGetFrame (28 * (i + j))) =
        bufferGetFrame (28 * i) ::
          (List.range n).map (fun j => bufferGetFrame (28 * (i + 1 + j))) := by
      rw [List.range_succ_eq_map, List.map_cons, List.map_map]
      congr 1
      apply List.map_congr_left
      intro j _
      show bufferGetFrame (28 * (i + (j + 1))) = bufferGetFrame (28 * (i + 1 + j))
      congr 1
      omega
    rw [hfr] at hok ⊢
    simp only [exchangeReplies, List.mem_cons, forall_eq_or_imp] at hok
    have hoff : i * MaxDynamicKeymapBufferSize % 65536 = 28 * i := by
      simp only [MaxDynamicKeymapBufferSize]
      rw [Nat.mod_eq_of_lt (by omega)]
      omega
    simp only [readChunks]
    rw [hoff, getBuffer_reliable d hd c (28 * i) (by omega) hok.1]
    simp only []
    rw [ih (i + 1) _ _ (by omega) hok.2]
    simp [exchangeReplies]

theorem sendLoop_length {σ : Type} (d : Device σ) :
    ∀ (n : Nat) (c : Client σ) (message : List Nat),
      (sendLoop d n c message).message.length = message.length := by
  intro n
  induction n with
  | zero => intro c message; rfl
  | succ n ih =>
    intro c message
    have ha : (attempt d c message).message.length = message.length := by
      unfold attempt
      simp only []
      split
      · rfl
      · exact length_copyInto _ _
    rw [sendLoop_succ]
    split
    · exact ha
    · rw [ih, ha]

theorem getBuffer_chunk_length {σ : Type} (d : Device σ) (c : Client σ) (off size : Nat)
    (chunk : List Nat) (h : (GetDynamicKeymapMacroBuffer d c off size).1 = .ok chunk) :
    chunk.length = 28 := by
  unfold GetDynamicKeymapMacroBuffer at h
  simp only [] at h
  split at h
  · cases h
  · simp only [Except.ok.injEq] at h
    rw [← h, List.length_drop]
    unfold sendMessage
    rw [if_neg (by simp [hidFrame, HidMessageSize])]
    rw [sendLoop_length]
    simp [hidFrame, HidMessageSize]

theorem readChunks_ok_length {σ : Type} (d : Device σ) :
    ∀ (n i : Nat) (c : Client σ) (buffer result : List Nat),
      (readChunks d n i c buffer).1 = .ok result → result.length = buffer.length + 28 * n := by
  intro n
  induction n with
  | zero =>
    intro i c buffer result h
    simp only [readChunks, Except.ok.injEq] at h
    rw [← h]
    omega
  | succ n ih =>
    intro i c buffer result h
    simp only [readChunks] at h
    cases hg : GetDynamicKeymapMacroBuffer d c (i * MaxDynamicKeymapBufferSize % 65536)
        MaxDynamicKeymapBufferSize with
    | mk r c1 =>
      rw [hg] at h
      cases r with
      | error e => cases h
      | ok chunk =>
        simp only [] at h
        have hl := getBuffer_chunk_length d c _ _ chunk (by rw [hg])
        rw [ih (i + 1) c1 (buffer ++ chunk) result h, List.length_append, hl]
        omega

/-- The trim `buffer[:size]` of `getMacroBuffer` is in range on every device:
no panic, and a result has exactly `size` bytes and is the new cache. -/
theorem getMacroBuffer_trim {σ : Type} (d : Device σ) (c c1 : Client σ) (S : Nat)
    (hcache : c.cache = none)
    (hsize : GetDynamicKeymapMacroBufferSize d c = (.ok S, c1)) :
    (getMacroBuffer d c).1 ≠ .error Error.RuntimePanic ∧
    ∀ b, (getMacroBuffer d c).1 = .ok b →
      b.length = S ∧ (getMacroBuffer d c).2.cache = some b := by
  unfold getMacroBuffer
  rw [hcache]
  simp only []
  rw [hsize]
  simp only []
  cases hr : readChunks d (chunkCount S) 0 c1 [] with
  | mk r c2 =>
    cases r with
    | error e =>
      simp only []
      refine ⟨?_, fun b hb => by cases hb⟩
      intro h
      simp only [Except.error.injEq] at h
      subst h
      -- a panic cannot come out of the read loop
      have : ∀ (n i : Nat) (c : Client σ) (buffer : List Nat),
          (readChunks d n i c buffer).1 ≠ .error Error.RuntimePanic := by
        intro n
        induction n with
        | zero => intro i c buffer h; cases h
        | succ n ih =>
          intro i c buffer
          simp only [readChunks]
          cases hg : GetDynamicKeymapMacroBuffer d c (i * MaxDynamicKeymapBufferSize % 65536)
              MaxDynamicKeymapBufferSize with
          | mk r c1 =>
            cases r with
            | error e =>
              simp only []
              intro h
              simp only [Except.error.injEq] at h
              subst h
              have hne : (GetDynamicKeymapMacroBuffer d c
                  (i * MaxDynamicKeymapBufferSize % 65536) MaxDynamicKeymapBufferSize).1 ≠
                  .error Error.RuntimePanic := by
                unfold GetDynamicKeymapMacroBuffer
                simp only []
                split
                · rename_i e he
                  intro h
                  simp only [Except.error.injEq] at h
                  rw [h] at he
                  rcases sendMessage_err_cases d c _ 20 with h1 | h1 | h1 | h1 <;>
                    rw [he] at h1 <;> cases h1
                · intro h
                  cases h
              rw [hg] at hne
              exact hne rfl
            | ok chunk => exact ih _ _ _
      exact this _ _ _ _ (by rw [hr])
    | ok buffer =>
      simp only []
      have hl := readChunks_ok_length d (chunkCount S) 0 c1 [] buffer (by rw [hr])
      have hb := (chunkCount_bounds S).1
      simp only [List.length_nil, Nat.zero_add] at hl
      rw [if_pos (by omega)]
      refine ⟨(by intro h; cases h), ?_⟩
      intro b hb'
      simp only [Except.ok.injEq] at hb'
      subst hb'
      refine ⟨?_, rfl⟩
      rw [List.length_take]
      omega

theorem reliable_faithful : Reliable faithful :=
  ⟨fun _ _ => ⟨rfl, rfl⟩, fun _ => ⟨rfl, rfl⟩⟩

theorem length_flatten_payloads : ∀ (R : List (List Nat)), (∀ r ∈ R, r.length = 32) →
    ((R.map (List.drop 4)).flatten).length = 28 * R.length := by
  intro R
  induction R with
  | nil => intro _; rfl
  | cons r R ih =>
    intro h
    have h1 := h r (List.mem_cons_self _ _)
    have h2 := ih (fun x hx => h x (List.mem_cons_of_mem _ hx))
    simp only [List.map_cons, List.flatten_cons, List.length_append, List.length_drop,
      List.length_cons, h1, h2]
    omega

theorem chunkFrames_length (S : Nat) :
    (chunkFrames S).length = (S + 27) / 28 ∧ ∀ f ∈ chunkFrames S, f.length = 32 := by
  constructor
  · simp [chunkFrames]
  · intro f hf
    simp only [chunkFrames, List.mem_map] at hf
    obtain ⟨i, _, rfl⟩ := hf
    rfl

/-- C31: with a populated cache `getMacroBuffer` returns the cache and leaves
the client state, trace included, as it was. With an empty cache and a reported
size `S`, on every device the trim is in range (no panic) and a result has
exactly `S` bytes and is the new cache. On a device that needs no retries and
reports the 16-bit size `S`, the number of buffer-get exchanges is
`n = ceil(S / 28)` (`S ≤ 28 n < S + 28`), the exchange number `i` writes the
frame `[0x0E, (28 i) / 256, (28 i) % 256, 28, 0, ...]` (every offset is below
65536); when none of the replies is marked unhandled, the result is the first
`S` bytes of the concatenated reply payloads `reply[4:]`. -/
theorem getMacroBuffer_chunks {σ : Type} (d : Device σ) (c : Client σ) :
    (∀ b, c.cache = some b → getMacroBuffer d c = (.ok b, c)) ∧
    (∀ (S : Nat) (c1 : Client σ), c.cache = none →
      GetDynamicKeymapMacroBufferSize d c = (.ok S, c1) →
      (getMacroBuffer d c).1 ≠ .error Error.RuntimePanic ∧
      ∀ b, (getMacroBuffer d c).1 = .ok b →
        b.length = S ∧ (getMacroBuffer d c).2.cache = some b) ∧
    (∀ (S : Nat) (c1 : Client σ), Reliable d → c.cache = none →
      GetDynamicKeymapMacroBufferSize d c = (.ok S, c1) → S < 65536 →
      (∀ r ∈ (exchangeReplies d (chunkFrames S) c1.device).1, r.getD 0 0 ≠ 0xFF) →
      getMacroBuffer d c =
        (.ok ((((exchangeReplies d (chunkFrames S) c1.device).1.map (List.drop 4)).flatten).take S),
          ⟨(exchangeReplies d (chunkFrames S) c1.device).2,
            some ((((exchangeReplies d (chunkFrames S) c1.device).1.map
              (List.drop 4)).flatten).take S),
            c1.log ++ ((chunkFrames S).map (fun f => [Event.write f, Event.read])).flatten⟩) ∧
      ((((exchangeReplies d (chunkFrames S) c1.device).1.map (List.drop 4)).flatten).take
        S).length = S ∧
      (chunkFrames S).length = (S + 27) / 28 ∧
      S ≤ 28 * ((S + 27) / 28) ∧ 28 * ((S + 27) / 28) < S + 28 ∧
      (∀ i, i < (S + 27) / 28 → 28 * i < 65536 ∧
        (chunkFrames S)[i]? = some ([0x0E, 28 * i / 256, 28 * i % 256, 28] ++
          List.replicate 28 0))) := by
  refine ⟨?_, ?_, ?_⟩
  · intro b hb
    unfold getMacroBuffer
    rw [hb]
  · intro S c1 hcache hsize
    exact getMacroBuffer_trim d c c1 S hcache hsize
  · intro S c1 hd hcache hsize hS hok
    have hlen := exchangeReplies_length d (chunkFrames S) c1.device (chunkFrames_length S).2
    have hpay := length_flatten_payloads _ hlen.2
    rw [hlen.1, (chunkFrames_length S).1] at hpay
    have hcc : chunkCount S = (S + 27) / 28 := rfl
    have hfr : (List.range ((S + 27) / 28)).map (fun j => bufferGetFrame (28 * (0 + j))) =
        chunkFrames S := by
      simp [chunkFrames]
    refine ⟨?_, ?_, (chunkFrames_length S).1, by omega, by omega, ?_⟩
    · have hrc := readChunks_reliable d hd ((S + 27) / 28) 0 c1 [] (by omega)
        (by rw [hfr]; exact hok)
      rw [hfr] at hrc
      unfold getMacroBuffer
      rw [hcache]
      simp only []
      rw [hsize]
      simp only []
      rw [hcc, hrc]
      simp only [List.nil_append]
      rw [if_pos (by rw [hpay]; omega)]
    · rw [List.length_take, hpay]
      omega
    · intro i hi
      refine ⟨by omega, ?_⟩
      simp only [chunkFrames, List.getElem?_map, List.getElem?_range hi, Option.map_some']
      rfl

/-- Witness of C31: the faithful device with a 30-byte buffer, two chunks. -/
theorem getMacroBuffer_chunks_witness :
    (getMacroBuffer faithful (freshClient ([1, 2, 0] ++ List.replicate 27 9) 16)).1 =
      .ok ((((exchangeReplies faithful (chunkFrames 30)
        (GetDynamicKeymapMacroBufferSize faithful
          (freshClient ([1, 2, 0] ++ List.replicate 27 9) 16)).2.device).1.map
            (List.drop 4)).flatten).take 30) ∧
    (chunkFrames 30).length = 2 ∧
    (getMacroBuffer faithful (freshClient ([1, 2, 0] ++ List.replicate 27 9) 16)).1 =
      .ok ([1, 2, 0] ++ List.replicate 27 9) :=
  have key := (getMacroBuffer_chunks faithful
    (freshClient ([1, 2, 0] ++ List.replicate 27 9) 16)).2.2 30
    (GetDynamicKeymapMacroBufferSize faithful
      (freshClient ([1, 2, 0] ++ List.replicate 27 9) 16)).2
    reliable_faithful rfl (by rfl) (by decide) (by decide)
  ⟨by rw [key.1], by decide, rfl⟩

theorem writeChunks_cache {σ : Type} (d : Device σ) (buffer : Slice) :
    ∀ (n i : Nat) (c : Client σ), (writeChunks d buffer n i c).2.cache = c.cache := by
  intro n
  induction n with
  | zero => intro i c; rfl
  | succ n ih =>
    intro i c
    simp only [writeChunks]
    cases buffer.slice (i * MaxDynamicKeymapBufferSize)
        (i * MaxDynamicKeymapBufferSize + MaxDynamicKeymapBufferSize) with
    | none => rfl
    | some value =>
      simp only []
      have hc := setBuffer_cache d c (i * MaxDynamicKeymapBufferSize % 65536)
        MaxDynamicKeymapBufferSize value
      cases hs : SetDynamicKeymapMacroBuffer d c (i * MaxDynamicKeymapBufferSize % 65536)
          MaxDynamicKeymapBufferSize value with
      | mk r c1 =>
        rw [hs] at hc
        cases r with
        | error e => exact hc
        | ok u =>
          simp only []
          rw [ih (i + 1) c1]
          exact hc

theorem sendMessage_log {σ : Type} (d : Device σ) (c : Client σ) (message : List Nat)
    (N : Int) : ∃ rest, (sendMessage d c message N).client.log = c.log ++ rest := by
  unfold sendMessage
  split
  · exact ⟨[], by simp⟩
  · exact sendLoop_log d _ c message

theorem getBuffer_log {σ : Type} (d : Device σ) (c : Client σ) (off size : Nat) :
    ∃ rest, (GetDynamicKeymapMacroBuffer d c off size).2.log = c.log ++ rest := by
  obtain ⟨rest, h⟩ := sendMessage_log d c
    (hidFrame [DynamicKeymapMacroGetBufferId, (off >>> 8) &&& 0xFF, off &&& 0xFF, size % 256]) 20
  refine ⟨rest, ?_⟩
  unfold GetDynamicKeymapMacroBuffer
  simp only []
  split <;> exact h

theorem readChunks_log {σ : Type} (d : Device σ) :
    ∀ (n i : Nat) (c : Client σ) (buffer : List Nat),
      ∃ rest, (readChunks d n i c buffer).2.log = c.log ++ rest := by
  intro n
  induction n with
  | zero => intro i c buffer; exact ⟨[], by simp [readChunks]⟩
  | succ n ih =>
    intro i c buffer
    simp only [readChunks]
    obtain ⟨r1, h1⟩ := getBuffer_log d c (i * MaxDynamicKeymapBufferSize % 65536)
      MaxDynamicKeymapBufferSize
    cases hg : GetDynamicKeymapMacroBuffer d c (i * MaxDynamicKeymapBufferSize % 65536)
        MaxDynamicKeymapBufferSize with
    | mk r c1 =>
      rw [hg] at h1
      cases r with
      | error e => exact ⟨r1, h1⟩
      | ok chunk =>
        simp only []
        obtain ⟨r2, h2⟩ := ih (i + 1) c1 (buffer ++ chunk)
        exact ⟨r1 ++ r2, by rw [h2, h1]; simp⟩

/-- With an empty cache `getMacroBuffer` starts with the size query. -/
theorem getMacroBuffer_rereads {σ : Type} (d : Device σ) (c : Client σ)
    (hcache : c.cache = none) :
    ∃ rest, (getMacroBuffer d c).2.log =
      c.log ++ Event.write (hidFrame [DynamicKeymapMacroGetBufferSizeId]) :: rest := by
  obtain ⟨r0, h0⟩ := sendMessage_first_write d c (hidFrame [DynamicKeymapMacroGetBufferSizeId])
    (by decide)
  have hsz : (GetDynamicKeymapMacroBufferSize d c).2.log =
      c.log ++ Event.write (hidFrame [DynamicKeymapMacroGetBufferSizeId]) :: r0 := by
    unfold GetDynamicKeymapMacroBufferSize
    simp only []
    split <;> exact h0
  unfold getMacroBuffer
  rw [hcache]
  simp only []
  cases hq : GetDynamicKeymapMacroBufferSize d c with
  | mk r c1 =>
    rw [hq] at hsz
    cases r with
    | error e => exact ⟨r0, hsz⟩
    | ok size =>
      simp only []
      obtain ⟨r2, h2⟩ := readChunks_log d (chunkCount size) 0 c1 []
      cases hr : readChunks d (chunkCount size) 0 c1 [] with
      | mk rr c2 =>
        rw [hr] at h2
        simp only at h2 hsz
        cases rr with
        | error e => exact ⟨r0 ++ r2, by simp only []; rw [h2, hsz]; simp⟩
        | ok buffer =>
          simp only []
          split
          · exact ⟨r0 ++ r2, by simp only []; rw [h2, hsz]; simp⟩
          · exact ⟨r0 ++ r2, by simp only []; rw [h2, hsz]; simp⟩

/-- C32: once the size query of `setMacroBuffer` has succeeded the cache is
empty in the state `setMacroBuffer` leaves, whatever happens to the chunk
writes: the cache is cleared before the write loop and no chunk write touches
it. So after an error from a chunk write, after any number of chunks, the next
`getMacroBuffer` does not answer from the cache: its first device call is the
write of the size query. -/
theorem setMacroBuffer_clears_cache {σ : Type} (grow : Nat → Nat → Nat) (d : Device σ)
    (c : Client σ) (buffer : Slice) (size : Nat) (c1 : Client σ)
    (hsize : GetDynamicKeymapMacroBufferSize d c = (.ok size, c1)) :
    (setMacroBuffer grow d c buffer).2.cache = none ∧
    ∃ rest, (getMacroBuffer d (setMacroBuffer grow d c buffer).2).2.log =
      (setMacroBuffer grow d c buffer).2.log ++
        Event.write (hidFrame [DynamicKeymapMacroGetBufferSizeId]) :: rest := by
  have h1 : (setMacroBuffer grow d c buffer).2.cache = none := by
    unfold setMacroBuffer
    rw [hsize]
    simp only []
    rw [writeChunks_cache]
  exact ⟨h1, getMacroBuffer_rereads d _ h1⟩

/-- Witness of C32: the device reports 56 bytes and accepts two frames, the
size query and the first chunk; the second chunk write fails. The cache, which
held `[1, 2, 3]`, is empty afterwards. -/
theorem setMacroBuffer_clears_cache_witness :
    (setMacroBuffer exactGrow (dropsAfter 2 (hidFrame [0x0D, 0, 56])) ⟨0, some [1, 2, 3], []⟩
      (Slice.ofList (List.replicate 56 7))).1 = .error Error.ReadWrite ∧
    (setMacroBuffer exactGrow (dropsAfter 2 (hidFrame [0x0D, 0, 56])) ⟨0, some [1, 2, 3], []⟩
      (Slice.ofList (List.replicate 56 7))).2.cache = none :=
  ⟨rfl, (setMacroBuffer_clears_cache exactGrow (dropsAfter 2 (hidFrame [0x0D, 0, 56]))
    ⟨0, some [1, 2, 3], []⟩ (Slice.ofList (List.replicate 56 7)) 56
    ⟨1, some [1, 2, 3], [Event.write (hidFrame [0x0D]), Event.read]⟩ rfl).1⟩

theorem Join_elems (grow : Nat → Nat → Nat) (l : List (List Nat)) :
    (Join grow l).elems = l.flatten ∧ (Join grow l).len = l.flatten.length := by
  match l with
  | [] => exact ⟨rfl, rfl⟩
  | [x] =>
    simp only [Join, Slice.append, Slice.cap, Slice.elems, List.flatten_cons, List.flatten_nil,
      List.append_nil, List.length_nil, Nat.zero_add, List.take_zero, List.nil_append]
    split <;> simp
  | x :: y :: rest =>
    simp [Join, Slice.ofList, Slice.elems]

theorem flatten_set (segs : List (List Nat)) (i : Nat) (x : List Nat) (h : i < segs.length) :
    (segs.set i x).flatten = (segs.take i).flatten ++ x ++ (segs.drop (i + 1)).flatten := by
  rw [List.set_eq_take_append_cons_drop, if_pos h]
  simp

/-- C33: for an index that passes validation (the count query succeeds,
`number ≤ count`, the buffer is obtained and `number` indexes one of its
segments) `SetDynamicKeymapMacro(number, B)` is `setMacroBuffer` applied to a
slice whose bytes are exactly
`segs[0] ++ ... ++ segs[number-1] ++ B ++ [0] ++ segs[number+1] ++ ...`, with
`segs` the buffer split after each zero byte; the segments put together as they
are give the buffer back. -/
theorem SetDynamicKeymapMacro_rejoin {σ : Type} (grow : Nat → Nat → Nat) (d : Device σ)
    (c c1 c2 : Client σ) (number count : Nat) (B buffer : List Nat)
    (hcount : GetDynamicKeymapMacroCount d c = (.ok count, c1))
    (hle : number ≤ count)
    (hbuf : getMacroBuffer d c1 = (.ok buffer, c2))
    (hlt : number < (SplitAfterN buffer).length) :
    ∃ handed : Slice,
      SetDynamicKeymapMacro grow d c number B = setMacroBuffer grow d c2 handed ∧
      handed.elems = ((SplitAfterN buffer).take number).flatten ++ (B ++ [0]) ++
        ((SplitAfterN buffer).drop (number + 1)).flatten ∧
      handed.len = handed.elems.length ∧
      (SplitAfterN buffer).flatten = buffer := by
  refine ⟨Join grow ((SplitAfterN buffer).set number (B ++ [0])), ?_, ?_, ?_, ?_⟩
  · unfold SetDynamicKeymapMacro
    simp only [hcount, hbuf]
    rw [if_neg (by omega), if_neg (by omega)]
  · rw [(Join_elems grow _).1, flatten_set _ _ _ hlt]
  · rw [(Join_elems grow _).1, (Join_elems grow _).2]
  · exact flatten_SplitAfterN _ buffer rfl

/-- Witness of C33: macro 1 of `[1, 2, 0, 3, 0, 0]` on the faithful device. -/
theorem SetDynamicKeymapMacro_rejoin_witness :
    ∃ handed : Slice,
      SetDynamicKeymapMacro exactGrow faithful (freshClient [1, 2, 0, 3, 0, 0] 16) 1 [7, 8] =
        setMacroBuffer exactGrow faithful
          (getMacroBuffer faithful
            (GetDynamicKeymapMacroCount faithful (freshClient [1, 2, 0, 3, 0, 0] 16)).2).2 handed ∧
      handed.elems = ((SplitAfterN [1, 2, 0, 3, 0, 0]).take 1).flatten ++ ([7, 8] ++ [0]) ++
        ((SplitAfterN [1, 2, 0, 3, 0, 0]).drop (1 + 1)).flatten ∧
      handed.len = handed.elems.length ∧
      (SplitAfterN [1, 2, 0, 3, 0, 0]).flatten = [1, 2, 0, 3, 0, 0] :=
  SetDynamicKeymapMacro_rejoin exactGrow faithful (freshClient [1, 2, 0, 3, 0, 0] 16)
    (GetDynamicKeymapMacroCount faithful (freshClient [1, 2, 0, 3, 0, 0] 16)).2
    (getMacroBuffer faithful
      (GetDynamicKeymapMacroCount faithful (freshClient [1, 2, 0, 3, 0, 0] 16)).2).2
    1 16 [7, 8] [1, 2, 0, 3, 0, 0] rfl (by decide) rfl (by decide)

/-! ## Setting one macro leaves the others: lemmas and property -/

theorem getD_split_pad (post pad : List Nat) (k : Nat) (hk : k < post.count 0) :
    (SplitAfterN (post ++ pad)).getD k [] = (SplitAfterN post).getD k [] := by
  obtain ⟨a, s, b, hpost, ha, hend, hs⟩ := exists_nth_segment k post hk
  obtain ⟨P, hlen, _, hsplit⟩ := SplitAfterN_prefix k a ha hend
  subst hpost
  have e1 : a ++ s ++ 0 :: b ++ pad = a ++ (s ++ 0 :: (b ++ pad)) := by simp
  have e2 : a ++ s ++ 0 :: b = a ++ (s ++ 0 :: b) := by simp
  rw [e1, e2, hsplit, hsplit, SplitAfterN_append_zero s (b ++ pad) hs,
    SplitAfterN_append_zero s b hs, ← hlen, getD_append_length, getD_append_length]

/-- On the faithful device the macro numbered `j`, when `j` indexes a
zero-terminated segment, is that segment without its terminator. -/
theorem getMacro_index (c : Client Firmware) (j : Nat)
    (hS : c.device.macros.length < 65536) (hcnt : c.device.count < 256)
    (hcache : c.cache = none ∨ c.cache = some c.device.macros)
    (hle : j ≤ c.device.count) (hj : j < c.device.macros.count 0) :
    (GetDynamicKeymapMacro faithful c j).1 =
      .ok (((SplitAfterN c.device.macros).getD j []).dropLast) := by
  obtain ⟨pre, seg, post, hM, hpre, hend, hseg⟩ := exists_nth_segment j c.device.macros hj
  obtain ⟨P, hlen, _, hsplit⟩ := SplitAfterN_segment j pre seg post hpre hend hseg
  rw [getMacro_faithful c j pre seg post hS hcnt hcache hle hM hpre hend hseg, hM, hsplit,
    ← hlen, getD_append_length]
  simp

/-- C36: against the faithful device (16-bit buffer size `S`, one-byte count,
cache empty or equal to the stored buffer), let `i ≤ count` index a
zero-terminated segment, let `B` hold no zero byte and let the rejoined buffer
fit in the `S` bytes. Then `SetDynamicKeymapMacro(i, B)` succeeds and, for
every `j ≠ i` with `j ≤ count` that indexes a zero-terminated segment,
`GetDynamicKeymapMacro(j)` returns after the call the bytes it returned before
it, the segment `j` without its terminator, whatever the run-time's slice
growth policy. -/
theorem SetDynamicKeymapMacro_keeps_others (grow : Nat → Nat → Nat) (c : Client Firmware)
    (i j : Nat) (B : List Nat)
    (hS : c.device.macros.length < 65536) (hcnt : c.device.count < 256)
    (hcache : c.cache = none ∨ c.cache = some c.device.macros)
    (hic : i ≤ c.device.count) (hi : i < c.device.macros.count 0)
    (hB : 0 ∉ B)
    (hfit : (((SplitAfterN c.device.macros).set i (B ++ [0])).flatten).length ≤
      c.device.macros.length)
    (hjc : j ≤ c.device.count) (hj : j < c.device.macros.count 0) (hne : j ≠ i) :
    (SetDynamicKeymapMacro grow faithful c i B).1 = .ok () ∧
    (GetDynamicKeymapMacro faithful c j).1 =
      .ok (((SplitAfterN c.device.macros).getD j []).dropLast) ∧
    (GetDynamicKeymapMacro faithful (SetDynamicKeymapMacro grow faithful c i B).2 j).1 =
      (GetDynamicKeymapMacro faithful c j).1 := by
  obtain ⟨pre, seg, post, hM, hpre, hend, hseg⟩ := exists_nth_segment i c.device.macros hi
  obtain ⟨P, hPlen, hPflat, hPsplit⟩ := SplitAfterN_prefix i pre hpre hend
  -- the segments before the call
  have hsegs : SplitAfterN c.device.macros = P ++ (seg ++ [0]) :: SplitAfterN post := by
    rw [hM, List.append_assoc, hPsplit, SplitAfterN_append_zero seg post hseg]
  have hcountM : c.device.macros.count 0 = i + 1 + post.count 0 := by
    rw [hM]
    simp only [List.count_append, List.count_cons_self, hpre, List.count_eq_zero_of_not_mem hseg]
    omega
  have hlenM : c.device.macros.length = pre.length + seg.length + 1 + post.length := by
    rw [hM]
    simp only [List.length_append, List.length_cons]
    omega
  -- the rejoined buffer fits
  have hfit' : pre.length + B.length + 1 + post.length ≤ c.device.macros.length := by
    have e : ((SplitAfterN c.device.macros).set i (B ++ [0])).flatten =
        pre ++ (B ++ [0]) ++ post := by
      rw [hsegs, ← hPlen, set_append_length, List.flatten_append, List.flatten_cons, hPflat,
        flatten_SplitAfterN _ post rfl]
      simp
    rw [e] at hfit
    simp only [List.length_append, List.length_cons, List.length_nil] at hfit
    omega
  -- the call
  obtain ⟨c3, hc3, hm3, hcount3, hcache3⟩ :=
    setMacro_faithful grow c i B pre seg post hS hcnt hcache hic hM hpre hend hseg
  have hM3 : c3.device.macros = pre ++ B ++ 0 :: (post ++
      (List.replicate c.device.macros.length 0).take
        (c.device.macros.length - (pre ++ B ++ 0 :: post).length)) := by
    rw [hm3, List.take_append_eq_append_take, List.take_of_length_le (by
      simp only [List.length_append, List.length_cons]
      omega)]
    simp
  have hlen3 : c3.device.macros.length = c.device.macros.length := by
    rw [hm3, List.length_take]
    simp
    omega
  have hsegs3 : SplitAfterN c3.device.macros = P ++ (B ++ [0]) :: SplitAfterN (post ++
      (List.replicate c.device.macros.length 0).take
        (c.device.macros.length - (pre ++ B ++ 0 :: post).length)) := by
    rw [hM3, List.append_assoc, hPsplit, SplitAfterN_append_zero B _ hB]
  have hcount3M : j < c3.device.macros.count 0 := by
    rw [hM3]
    simp only [List.count_append, List.count_cons_self, hpre]
    omega
  -- the two reads
  have hbefore := getMacro_index c j hS hcnt hcache hjc hj
  have hafter := getMacro_index c3 j (by rw [hlen3]; exact hS) (by rw [hcount3]; exact hcnt)
    (Or.inl hcache3) (by rw [hcount3]; exact hjc) hcount3M
  have hsame : (SplitAfterN c3.device.macros).getD j [] =
      (SplitAfterN c.device.macros).getD j [] := by
    rw [hsegs3, hsegs]
    rcases Nat.lt_or_gt_of_ne hne with hlt | hgt
    · rw [List.getD_append _ _ _ _ (by omega), List.getD_append _ _ _ _ (by omega)]
    · obtain ⟨k, rfl⟩ : ∃ k, j = P.length + (k + 1) := ⟨j - i - 1, by omega⟩
      rw [List.getD_append_right _ _ _ _ (by omega),
        List.getD_append_right _ _ _ _ (by omega)]
      have e : P.length + (k + 1) - P.length = k + 1 := by omega
      rw [e]
      show (SplitAfterN _).getD k [] = (SplitAfterN post).getD k []
      exact getD_split_pad post _ k (by omega)
  rw [hc3]
  refine ⟨rfl, hbefore, ?_⟩
  rw [hafter, hbefore, hsame]

/-- Witness of C36: in `[1, 2, 0, 3, 4, 0, 5, 0, 0]` macro 1 is replaced by
`[7]`; macros 0 and 2 are read back as before. -/
theorem SetDynamicKeymapMacro_keeps_others_witness :
    (GetDynamicKeymapMacro faithful
      (SetDynamicKeymapMacro exactGrow faithful
        (freshClient [1, 2, 0, 3, 4, 0, 5, 0, 0] 16) 1 [7]).2 2).1 =
      (GetDynamicKeymapMacro faithful (freshClient [1, 2, 0, 3, 4, 0, 5, 0, 0] 16) 2).1 ∧
    (GetDynamicKeymapMacro faithful (freshClient [1, 2, 0, 3, 4, 0, 5, 0, 0] 16) 2).1 = .ok [5] ∧
    (GetDynamicKeymapMacro faithful
      (SetDynamicKeymapMacro exactGrow faithful
        (freshClient [1, 2, 0, 3, 4, 0, 5, 0, 0] 16) 1 [7]).2 1).1 = .ok [7] :=
  ⟨(SetDynamicKeymapMacro_keeps_others exactGrow (freshClient [1, 2, 0, 3, 4, 0, 5, 0, 0] 16)
      1 2 [7] (by decide) (by decide) (Or.inl rfl) (by decide) (by decide) (by decide)
      (by decide) (by decide) (by decide) (by decide)).2.2,
   rfl, rfl⟩

/-! ## The chunk primitives and the transport buffer: properties -/

set_option maxRecDepth 100000 in
/-- C34: with `size = 28` and a `value` of 256 bytes `uint8(len(value))` is 0,
the guard `uint8(len(value)) < size` holds and `size` becomes 0: on every device
the frame written by `SetDynamicKeymapMacroBuffer(0, 28, value)` is
`[0x0F, 0, 0, 0, 0, ...]`, with size byte 0 and no payload, and that of
`SetDynamicKeymapBuffer(0, 28, value)` is `[0x13, 0, 0, 0, 0, ...]`; with 257
bytes the size byte is 1. -/
theorem buffer_setters_truncate_length {σ : Type} (d : Device σ) (c : Client σ) :
    (∃ rest, (SetDynamicKeymapMacroBuffer d c 0 28 (List.replicate 256 7)).2.log =
      c.log ++ Event.write ([0x0F, 0, 0, 0] ++ List.replicate 28 0) :: rest) ∧
    (∃ rest, (SetDynamicKeymapBuffer d c 0 28 (List.replicate 256 7)).2.log =
      c.log ++ Event.write ([0x13, 0, 0, 0] ++ List.replicate 28 0) :: rest) ∧
    (∃ rest, (SetDynamicKeymapMacroBuffer d c 0 28 (List.replicate 257 7)).2.log =
      c.log ++ Event.write ([0x0F, 0, 0, 1, 7] ++ List.replicate 27 0) :: rest) ∧
    min 28 (List.replicate 256 7).length = 28 := by
  refine ⟨?_, ?_, ?_, by decide⟩
  · obtain ⟨rest, hrest⟩ := sendMessage_first_write d c
      ([0x0F, 0, 0, 0] ++ List.replicate 28 0) (by decide)
    refine ⟨rest, ?_⟩
    have e : SetDynamicKeymapMacroBuffer d c 0 28 (List.replicate 256 7) =
        (match (sendMessage d c ([0x0F, 0, 0, 0] ++ List.replicate 28 0) 20).err with
          | some e => (.error e, (sendMessage d c ([0x0F, 0, 0, 0] ++ List.replicate 28 0) 20).client)
          | none => (.ok (), (sendMessage d c ([0x0F, 0, 0, 0] ++ List.replicate 28 0) 20).client)) :=
      rfl
    rw [e]
    split <;> exact hrest
  · obtain ⟨rest, hrest⟩ := sendMessage_first_write d c
      ([0x13, 0, 0, 0] ++ List.replicate 28 0) (by decide)
    refine ⟨rest, ?_⟩
    have e : SetDynamicKeymapBuffer d c 0 28 (List.replicate 256 7) =
        (match (sendMessage d c ([0x13, 0, 0, 0] ++ List.replicate 28 0) 20).err with
          | some e => (.error e, (sendMessage d c ([0x13, 0, 0, 0] ++ List.replicate 28 0) 20).client)
          | none => (.ok (), (sendMessage d c ([0x13, 0, 0, 0] ++ List.replicate 28 0) 20).client)) :=
      rfl
    rw [e]
    split <;> exact hrest
  · obtain ⟨rest, hrest⟩ := sendMessage_first_write d c
      ([0x0F, 0, 0, 1, 7] ++ List.replicate 27 0) (by decide)
    refine ⟨rest, ?_⟩
    have e : SetDynamicKeymapMacroBuffer d c 0 28 (List.replicate 257 7) =
        (match (sendMessage d c ([0x0F, 0, 0, 1, 7] ++ List.replicate 27 0) 20).err with
          | some e => (.error e, (sendMessage d c ([0x0F, 0, 0, 1, 7] ++ List.replicate 27 0) 20).client)
          | none => (.ok (), (sendMessage d c ([0x0F, 0, 0, 1, 7] ++ List.replicate 27 0) 20).client)) :=
      rfl
    rw [e]
    split <;> exact hrest

/-- C35: `GetDynamicKeymapMacro` slices out of range (a run-time panic) when
the selected segment is empty: on the buffer `[5, 0]` with index 1, which
selects the empty tail after the last zero byte, and on the empty buffer
(size 0) with index 0. Index 0 of `[5, 0]` is returned as `[5]`. -/
theorem GetDynamicKeymapMacro_empty_segment :
    SplitAfterN [5, 0] = [[5, 0], []] ∧
    (GetDynamicKeymapMacro faithful (freshClient [5, 0] 16) 1).1 = .error Error.RuntimePanic ∧
    SplitAfterN [] = [[]] ∧
    (GetDynamicKeymapMacro faithful (freshClient [] 16) 0).1 = .error Error.RuntimePanic ∧
    (GetDynamicKeymapMacro faithful (freshClient [5, 0] 16) 0).1 = .ok [5] :=
  ⟨rfl, rfl, rfl, rfl, rfl⟩

/-- C39: a short read changes what the next attempt writes. The first read of
`shortFirstRead` brings two bytes, `[0xAA, 0xBB]`, into the message buffer and
the attempt is repeated: the second write of the same `sendMessage` call
transmits `[0xAA, 0xBB, 3, 0, ...]`, not the caller's `[0x07, 0x81, 3, 0, ...]`. -/
theorem sendMessage_retry_sends_read_bytes :
    (sendMessage shortFirstRead ⟨([], 0), none, []⟩ (hidFrame [0x07, 0x81, 3]) 20).client.log =
      [Event.write (hidFrame [0x07, 0x81, 3]), Event.read,
       Event.write (hidFrame [0xAA, 0xBB, 3]), Event.read] ∧
    (sendMessage shortFirstRead ⟨([], 0), none, []⟩ (hidFrame [0x07, 0x81, 3]) 20).err = none ∧
    hidFrame [0xAA, 0xBB, 3] ≠ hidFrame [0x07, 0x81, 3] :=
  ⟨rfl, rfl, by decide⟩

/-! ## Colours on the wire: properties -/

/-- Counterexample to C37 as stated: Goldenrod has hue 43, which is sent as
byte 30 and read back as hue 42. -/
theorem goldenrod_hue_not_restored :
    rgblight.ColorGoldenrod ∈ rgblight.AllColors ∧
    rgblight.Hue.ToByte rgblight.ColorGoldenrod.Hue = 30 ∧
    rgblight.HueFromByte 30 = 42 ∧
    rgblight.HueFromByte (rgblight.Hue.ToByte rgblight.ColorGoldenrod.Hue) ≠
      rgblight.ColorGoldenrod.Hue := by
  decide!

theorem named_colour_bytes : ∀ c ∈ rgblight.AllColors, c ≠ rgblight.ColorGoldenrod →
    rgblight.HueFromByte (rgblight.Hue.ToByte c.Hue) = c.Hue ∧
    rgblight.SaturationFromByte (rgblight.Saturation.ToByte c.Saturation) = c.Saturation ∧
    rgblight.BrightnessFromByte (rgblight.Brightness.ToByte c.Brightness) = c.Brightness := by
  decide!

theorem goldenrod_bytes :
    rgblight.HueFromByte (rgblight.Hue.ToByte rgblight.ColorGoldenrod.Hue) = 42 ∧
    rgblight.SaturationFromByte (rgblight.Saturation.ToByte rgblight.ColorGoldenrod.Saturation) =
      85 ∧
    rgblight.BrightnessFromByte (rgblight.Brightness.ToByte rgblight.ColorGoldenrod.Brightness) =
      85 ∧
    rgblight.Color.Name ⟨42, 85, 85⟩ = "Unknown" := by
  decide!

/-- Writing a colour to the storing device and reading it back gives each
component encoded and decoded once. -/
theorem lamp_roundtrip (l : Lamp) (c : rgblight.Color) :
    (GetRgblightColor lamp (SetRgblightColor lamp ⟨l, none, []⟩ c true).2).1 =
      .ok ⟨rgblight.HueFromByte (rgblight.Hue.ToByte c.Hue),
        rgblight.SaturationFromByte (rgblight.Saturation.ToByte c.Saturation),
        rgblight.BrightnessFromByte (rgblight.Brightness.ToByte c.Brightness)⟩ ∧
    (SetRgblightColor lamp ⟨l, none, []⟩ c true).1 = .ok () :=
  ⟨rfl, rfl⟩

/-- C37 (amended): each named colour other than Goldenrod survives the wire
encoding: its hue, saturation and brightness are restored from their bytes, so
written with `SetRgblightColor(c, true)` to a device that stores the bytes and
read back with `GetRgblightColor` it is the same colour. Goldenrod,
`hsv(43,85,85)`, is read back as `hsv(42,85,85)`, whose name is `Unknown`. -/
theorem named_colour_wire (c : rgblight.Color) (hc : c ∈ rgblight.AllColors)
    (hne : c ≠ rgblight.ColorGoldenrod) (l : Lamp) :
    rgblight.HueFromByte (rgblight.Hue.ToByte c.Hue) = c.Hue ∧
    rgblight.SaturationFromByte (rgblight.Saturation.ToByte c.Saturation) = c.Saturation ∧
    rgblight.BrightnessFromByte (rgblight.Brightness.ToByte c.Brightness) = c.Brightness ∧
    (SetRgblightColor lamp ⟨l, none, []⟩ c true).1 = .ok () ∧
    (GetRgblightColor lamp (SetRgblightColor lamp ⟨l, none, []⟩ c true).2).1 = .ok c ∧
    (GetRgblightColor lamp
      (SetRgblightColor lamp ⟨l, none, []⟩ rgblight.ColorGoldenrod true).2).1 =
        .ok ⟨42, 85, 85⟩ ∧
    rgblight.Color.Name ⟨42, 85, 85⟩ = "Unknown" := by
  obtain ⟨h1, h2, h3⟩ := named_colour_bytes c hc hne
  obtain ⟨g1, g2, g3, g4⟩ := goldenrod_bytes
  refine ⟨h1, h2, h3, (lamp_roundtrip l c).2, ?_, ?_, g4⟩
  · rw [(lamp_roundtrip l c).1, h1, h2, h3]
  · rw [(lamp_roundtrip l rgblight.ColorGoldenrod).1, g1, g2, g3]

/-- Witness of C37 (amended) at Coral, on a device that held other bytes. -/
theorem named_colour_wire_witness :
    (GetRgblightColor lamp
      (SetRgblightColor lamp ⟨⟨9, 9, 9, []⟩, none, []⟩ rgblight.ColorCoral true).2).1 =
        .ok rgblight.ColorCoral :=
  (named_colour_wire rgblight.ColorCoral (by decide) (by decide) ⟨9, 9, 9, []⟩).2.2.2.2.1

/-! ## Keycode names: properties -/

theorem strCode_cons (c : Char) (cs : List Char) :
    strCode (String.mk (c :: cs)) = strCode (String.mk cs) * 2097152 + (c.toNat + 1) := rfl

theorem char_toNat_lt (c : Char) : c.toNat + 1 < 2097152 := by
  have h := c.valid
  have e : c.toNat = c.val.toNat := rfl
  rw [e]
  simp only [UInt32.isValidChar, Nat.isValidChar] at h
  omega

theorem strCode_injective : ∀ (s t : List Char),
    strCode (String.mk s) = strCode (String.mk t) → s = t := by
  intro s
  induction s with
  | nil =>
    intro t h
    cases t with
    | nil => rfl
    | cons d ds =>
      rw [strCode_cons] at h
      have : strCode (String.mk []) = 0 := rfl
      omega
  | cons c cs ih =>
    intro t h
    cases t with
    | nil =>
      rw [strCode_cons] at h
      have : strCode (String.mk []) = 0 := rfl
      omega
    | cons d ds =>
      rw [strCode_cons, strCode_cons] at h
      have hc := char_toNat_lt c
      have hd := char_toNat_lt d
      have h1 : c.toNat = d.toNat := by omega
      have h2 : strCode (String.mk cs) = strCode (String.mk ds) := by omega
      have h3 : c = d := by
        rw [← Char.ofNat_toNat c, ← Char.ofNat_toNat d, h1]
      rw [h3, ih ds h2]

theorem lookup_strCode : ∀ (l : List (String × Nat)) (s : String),
    (l.map (fun p => (strCode p.1, p.2))).lookup (strCode s) = l.lookup s := by
  intro l
  induction l with
  | nil => intro s; rfl
  | cons p l ih =>
    intro s
    obtain ⟨k, v⟩ := p
    simp only [List.map_cons, List.lookup_cons]
    by_cases h : s = k
    · subst h
      simp
    · have hne : strCode s ≠ strCode k := by
        intro hh
        apply h
        cases s with
        | mk sd =>
          cases k with
          | mk pd => rw [strCode_injective sd pd hh]
      have b1 : (strCode s == strCode k) = false := by simpa using hne
      have b2 : (s == k) = false := by simpa using h
      rw [b1, b2]
      exact ih s

set_option maxRecDepth 1000000 in
theorem fromCodes_eq :
    keycode.fromCases.map (fun p => (strCode p.1, p.2)) = keycode.fromCodes := by
  decide!

set_option maxRecDepth 1000000 in
theorem nameCases_codes : ∀ e ∈ keycode.nameCases,
    keycode.fromCodes.lookup (strCode (keycode.asciiUpper (keycode.stringsRemove
      (keycode.stringsRemove (keycode.stringsRemove e.2 "\x7b") "\x7d") "KC_"))) = some e.1 := by
  decide!

theorem nameCases_parse_back : ∀ e ∈ keycode.nameCases,
    keycode.KeycodeFromString keycode.asciiUpper e.2 = (e.1, none) := by
  intro e he
  have h := nameCases_codes e he
  rw [← fromCodes_eq, lookup_strCode] at h
  unfold keycode.KeycodeFromString
  simp only [h]

/-- C38: for every keycode `k` (16-bit or not) whose `Name()` is not
`UNKNOWN`, `KeycodeFromString(k.Name())` returns `(k, nil)`. -/
theorem KeycodeFromString_Name (k : Nat) (h : keycode.Keycode.Name k ≠ "UNKNOWN") :
    keycode.KeycodeFromString keycode.asciiUpper (keycode.Keycode.Name k) = (k, none) := by
  unfold keycode.Keycode.Name at h ⊢
  cases hl : keycode.nameCases.lookup k with
  | none =>
    rw [hl] at h
    exact absurd rfl h
  | some s =>
    simp only []
    exact nameCases_parse_back (k, s) (lookup_some_mem _ _ _ hl)

set_option maxRecDepth 100000 in
/-- Witness of C38 at `KC_ENTER` (0x28), named `KC_ENTER`. -/
theorem KeycodeFromString_Name_witness :
    keycode.Keycode.Name 0x28 = "KC_ENTER" ∧
    keycode.KeycodeFromString keycode.asciiUpper (keycode.Keycode.Name 0x28) = (0x28, none) :=
  ⟨by decide, KeycodeFromString_Name 0x28 (by decide)⟩

/-- C40: the prefix is removed before the upper-casing, so a lower-case prefix
stays: `kc_a` becomes `KC_A`, which is no case label, and is rejected with
`ErrorUnknownKeycode`, while `KC_A`, `KC_a` and `a` parse to `KC_A`. -/
theorem KeycodeFromString_lowercase_prefix :
    keycode.KeycodeFromString keycode.asciiUpper "kc_a" =
      (keycode.KC_NO, some keycode.KeycodeError.ErrorUnknownKeycode) ∧
    keycode.KeycodeFromString keycode.asciiUpper "KC_A" = (keycode.KC_A, none) ∧
    keycode.KeycodeFromString keycode.asciiUpper "KC_a" = (keycode.KC_A, none) ∧
    keycode.KeycodeFromString keycode.asciiUpper "a" = (keycode.KC_A, none) ∧
    asciiLower "KC_A" = "kc_a" ∧ keycode.KC_A ≠ keycode.KC_NO := by
  decide

end Qmk
